import Mathlib

/-! Wireless Paxos: per-slot state update

A shallow embedding of `core/net/mac/chaos/lib/paxos/paxos.{h,c}`: the packet and
node-state records, the per-slot function `process`, the round driver
`paxos_round_begin`, and the properties of the specification checked on them.

C integers are natural numbers; a truth value held in an integer is true when it
is not `0`. Wrap-around is written out where the C code can reach it (the 8-bit
`round` bit-field of a ballot, the 8-bit `loser_timeout`).
-/

namespace WirelessPaxos

/-! ## Types of `paxos.h` -/

/-- Phase `PAXOS_INIT` of the enum in `paxos.h`. -/
abbrev PAXOS_INIT : Nat := 0
/-- Phase `PAXOS_PREPARE`. -/
abbrev PAXOS_PREPARE : Nat := 1
/-- Phase `PAXOS_ACCEPT`. -/
abbrev PAXOS_ACCEPT : Nat := 2

/-- The union `ballot_number_t`: the 16-bit number `n`, whose low byte is the
bit-field `id` and whose high byte is the bit-field `round`. -/
abbrev ballot_number_t := Nat

/-- Bit-field `id` of a ballot (low byte of `n`). -/
def ballot_id (b : Nat) : Nat := b % 256

/-- Bit-field `round` of a ballot (high byte of `n`). -/
def ballot_round (b : Nat) : Nat := (b / 256) % 256

/-- Assignment `b.id = i`: the low byte is replaced, the high byte kept. -/
def ballot_set_id (b : Nat) (i : Nat) : Nat :=
  256 * ballot_round b + i % 256

/-- Assignment `b.round = r`: the high byte is replaced, the low byte kept. -/
def ballot_set_round (b : Nat) (r : Nat) : Nat :=
  256 * (r % 256) + ballot_id b

/-- The packet `paxos_t`; `flags` is the flexible array that follows the header. -/
structure paxos_t where
  ballot : Nat
  phase : Nat
  value : Nat
  proposal : Nat
  flags : List Nat
deriving DecidableEq, Repr

/-- Proposer part `proposer_state_t` of the node state. -/
structure proposer_state_t where
  proposed_ballot : Nat
  proposed_value : Nat
  is_proposer : Nat
  phase : Nat
  got_majority : Nat
  got_majority_at_slot : Nat
  loser_timeout : Nat
deriving DecidableEq, Repr

/-- Acceptor part `acceptor_state_t` of the node state. -/
structure acceptor_state_t where
  min_proposal : Nat
  accepted_proposal : Nat
  accepted_value : Nat
deriving DecidableEq, Repr

/-- Learner part `learner_state_t` of the node state. -/
structure learner_state_t where
  learned_value : Nat
deriving DecidableEq, Repr

/-- The node state `paxos_state_t`. -/
structure paxos_state_t where
  proposer : proposer_state_t
  acceptor : acceptor_state_t
  learner : learner_state_t
  rx_min_proposal : Nat
  rx_accepted_proposal : Nat
  rx_accepted_value : Nat
deriving DecidableEq, Repr

/-- Radio states handed to and returned by `process`. The enum lives in `chaos.h`,
outside the sources at hand; these are the four values `paxos.c` uses. -/
inductive chaos_state_t where
  | CHAOS_INIT
  | CHAOS_RX
  | CHAOS_TX
  | CHAOS_OFF
deriving DecidableEq, Repr

open chaos_state_t

/-- What `paxos.c` reads from its environment: the node manager's
`chaos_node_count` and `chaos_node_index`, the predicate `IS_INITIATOR()`, and
the configuration constants whose definitions are outside the sources at hand. -/
structure Env where
  chaos_node_count : Nat
  chaos_node_index : Nat
  IS_INITIATOR : Bool
  PAXOS_ROUND_MAX_SLOTS : Nat
  N_TX_COMPLETE : Nat
  CHAOS_RESTART_MIN : Nat
  CHAOS_RESTART_MAX : Nat
deriving DecidableEq, Repr

/-! ## Macros and helpers of `paxos.c` -/

/-- Macro `FLAGS_LEN_X(X)`: `((X) >> 3) + (((X) & 7) ? 1 : 0)`. -/
def FLAGS_LEN_X (X : Nat) : Nat := (X >>> 3) + (if X &&& 7 ≠ 0 then 1 else 0)

/-- Macro `FLAGS_LEN`. -/
def FLAGS_LEN (env : Env) : Nat := FLAGS_LEN_X env.chaos_node_count

/-- Macro `LAST_FLAGS`: `(1 << (((chaos_node_count - 1) & 7) + 1)) - 1`, computed
in `int`; `& 7` of an `int` is its residue modulo 8. -/
def LAST_FLAGS (env : Env) : Int :=
  ((1 <<< ((((env.chaos_node_count : Int) - 1) % 8).toNat + 1) : Nat) : Int) - 1

/-- Macro `FLAG_SUM`: `((FLAGS_LEN - 1) << 8) - (FLAGS_LEN - 1) + LAST_FLAGS`,
computed in `int`. -/
def FLAG_SUM (env : Env) : Int :=
  ((FLAGS_LEN env : Int) - 1) * 256 - ((FLAGS_LEN env : Int) - 1) + LAST_FLAGS env

/-- Function `bit_count`: `u - (u>>1) - ... - (u>>7)` computed in `int` and
truncated to `uint8_t`. -/
def bit_count (u : Nat) : Nat :=
  (((u : Int) - (u >>> 1 : Nat) - (u >>> 2 : Nat) - (u >>> 3 : Nat) - (u >>> 4 : Nat)
    - (u >>> 5 : Nat) - (u >>> 6 : Nat) - (u >>> 7 : Nat)) % 256).toNat

/-- Macro `MAX`. -/
def MAX (a b : Nat) : Nat := if a > b then a else b

/-- Read of `a[i]` in a byte array. -/
def rd (a : List Nat) (i : Nat) : Nat := a.getD i 0

/-- The call `memcpy(dst, src, len)` on flag arrays, byte by byte. -/
def memcpy_flags (len : Nat) (dst src : List Nat) : List Nat :=
  (List.range len).foldl (fun d i => d.set i (rd src i)) dst

/-- Variables of the flag loops of `process`. -/
structure FlagAcc where
  delta : Nat
  flags : List Nat
  flag_sum : Nat
  n_replies : Nat
deriving DecidableEq, Repr

/-- Body of the merging loop: `delta |= (p[i] != t[i]); t[i] |= p[i];
flag_sum += t[i]; n_replies += bit_count(t[i])`. -/
def merge_step (p : List Nat) (a : FlagAcc) (i : Nat) : FlagAcc :=
  let v := rd a.flags i ||| rd p i
  { delta := a.delta ||| (if rd p i ≠ rd a.flags i then 1 else 0),
    flags := a.flags.set i v,
    flag_sum := a.flag_sum + v,
    n_replies := a.n_replies + bit_count v }

/-- The loop `for (i = 0; i < FLAGS_LEN; i++)` that merges the flags `p` into the
TX flags `t`, started with `delta`. -/
def merge_loop (len : Nat) (p t : List Nat) (delta : Nat) : FlagAcc :=
  (List.range len).foldl (merge_step p) ⟨delta, t, 0, 0⟩

/-- Body of the copying loop of a new phase: `t[i] = p[i]; flag_sum += t[i];
n_replies += bit_count(t[i])`. -/
def copy_step (p : List Nat) (a : FlagAcc) (i : Nat) : FlagAcc :=
  let v := rd p i
  { delta := a.delta,
    flags := a.flags.set i v,
    flag_sum := a.flag_sum + v,
    n_replies := a.n_replies + bit_count v }

/-- The loop `for (i = 0; i < FLAGS_LEN; i++)` taken on a new phase. -/
def copy_loop (len : Nat) (p t : List Nat) (delta : Nat) : FlagAcc :=
  (List.range len).foldl (copy_step p) ⟨delta, t, 0, 0⟩

/-- The proposer's count `n_replies += bit_count(tx_paxos->flags[i])` over the
first `len` bytes. -/
def count_flags (len : Nat) (t : List Nat) : Nat :=
  (List.range len).foldl (fun n i => n + bit_count (rd t i)) 0

/-- The statement `flags[chaos_node_index / 8] |= 1 << (chaos_node_index % 8)`. -/
def set_own_flag (env : Env) (t : List Nat) : List Nat :=
  t.set (env.chaos_node_index / 8)
    (rd t (env.chaos_node_index / 8) ||| (1 <<< (env.chaos_node_index % 8)))

/-! ## File-scope variables of `paxos.c` -/

/-- The static variables of `paxos.c`. `paxos_local` is the template packet with
its flag bytes; `paxos_flags` tells whether that pointer has been set to the
flags of the TX buffer (`false` is the initial null pointer). -/
structure Globals where
  tx : Nat
  complete : Nat
  completion_slot : Nat
  off_slot : Nat
  tx_count_complete : Nat
  invalid_rx_count : Nat
  got_valid_rx : Nat
  n_replies : Nat
  value_chosen_this_round : Nat
  restart_threshold : Nat
  paxos_local : paxos_t
  paxos_state : paxos_state_t
  paxos_flags : Bool
deriving DecidableEq, Repr

/-- What a call of `process` works on: the statics, the TX buffer `*tx_payload`
and the local `rx_delta`. -/
structure Frame where
  g : Globals
  tx_paxos : paxos_t
  rx_delta : Nat
deriving DecidableEq, Repr

/-- The pointer `payload`: the RX packet, or the TX buffer itself when the node
transmitted in this slot, so that later reads see what was written to the TX
buffer in between. -/
def payload (current_state : chaos_state_t) (rx_paxos : paxos_t) (f : Frame) : paxos_t :=
  if current_state = CHAOS_TX then f.tx_paxos else rx_paxos

/-! ## The per-slot function `process`

The body of `process` is cut into the blocks its comments name; each block is a
function on the frame, and `process` is their composition in program order. -/

/-- The statement `tx = 1`. -/
def set_tx (f : Frame) : Frame := { f with g.tx := 1 }

/-- The statement `tx = rx_delta = 1`. -/
def force_tx (f : Frame) : Frame := { f with g.tx := 1, rx_delta := 1 }

/-- The statement `rx_delta |= tx`. -/
def or_tx (f : Frame) : Frame := { f with rx_delta := f.rx_delta ||| f.g.tx }

/-- The statement `memcpy(tx_paxos->flags, paxos_local.paxos.flags, FLAGS_LEN)`. -/
def template_flags (env : Env) (f : Frame) : Frame :=
  { f with tx_paxos.flags := memcpy_flags (FLAGS_LEN env) f.tx_paxos.flags f.g.paxos_local.flags }

/-- The four statements shared by the three `INITIATE PAXOS ALGORITHM` blocks: the
proposer enters `PAXOS_PREPARE`, the TX header gets its ballot and that phase,
and the acceptor's `min_proposal` is set to the proposed ballot. -/
def proposer_initiate (f : Frame) : Frame :=
  { f with
    g.paxos_state.proposer.phase := PAXOS_PREPARE,
    tx_paxos.ballot := f.g.paxos_state.proposer.proposed_ballot,
    tx_paxos.phase := PAXOS_PREPARE,
    g.paxos_state.acceptor.min_proposal := f.g.paxos_state.proposer.proposed_ballot }

/-- Heartbeat on a proposer (INITIATE PAXOS ALGORITHM 1/3): a proposer still in
`PAXOS_INIT` starts its prepare phase from the template flags; then
`tx = rx_delta = 1`. -/
def heartbeat_proposer (env : Env) (f : Frame) : Frame :=
  force_tx
    (if f.g.paxos_state.proposer.phase = PAXOS_INIT then proposer_initiate (template_flags env f)
     else f)

/-- Heartbeat on a node that is not a proposer: `memcpy(tx_paxos, payload,
sizeof(paxos_t))` copies the header, the loop merges the flags of the RX packet
and sets `tx` when they differ, and the round is complete when the flag sum
reaches `FLAG_SUM`. -/
def heartbeat_forward (env : Env) (current_state : chaos_state_t) (rx_paxos : paxos_t)
    (f : Frame) : Frame :=
  let pl := payload current_state rx_paxos f
  let m := merge_loop (FLAGS_LEN env) rx_paxos.flags f.tx_paxos.flags f.g.tx
  { f with
    tx_paxos := { ballot := pl.ballot, phase := pl.phase, value := pl.value,
                  proposal := pl.proposal, flags := m.flags },
    g.tx := m.delta,
    g.complete := if (m.flag_sum : Int) ≥ FLAG_SUM env then 1 else f.g.complete }

/-- The branch taken for a `PAXOS_INIT` heartbeat while `min_proposal` is still 0,
closed by `rx_delta |= tx`. -/
def heartbeat (env : Env) (current_state : chaos_state_t) (rx_paxos : paxos_t)
    (f : Frame) : Frame :=
  or_tx
    (if f.g.paxos_state.proposer.is_proposer ≠ 0 then heartbeat_proposer env f
     else heartbeat_forward env current_state rx_paxos f)

/-- Acceptor, PREPARE: a higher ballot becomes `min_proposal`. -/
def prepare_promise (pl : paxos_t) (f : Frame) : Frame :=
  if pl.ballot > f.g.paxos_state.acceptor.min_proposal then
    { f with g.paxos_state.acceptor.min_proposal := pl.ballot }
  else f

/-- Acceptor, PREPARE: the highest accepted proposal heard so far is written to
the TX packet, or taken over from the payload. -/
def prepare_report (pl : paxos_t) (f : Frame) : Frame :=
  if pl.proposal < f.g.paxos_state.rx_accepted_proposal then
    { f with
      tx_paxos.proposal := f.g.paxos_state.rx_accepted_proposal,
      tx_paxos.value := f.g.paxos_state.rx_accepted_value,
      g.tx := 1, rx_delta := 1 }
  else
    { f with
      g.paxos_state.rx_accepted_proposal := pl.proposal,
      g.paxos_state.rx_accepted_value := pl.value }

/-- Acceptor logic, PREPARE phase; `pl` is the payload as read on entry. -/
def acceptor_prepare (pl : paxos_t) (f : Frame) : Frame :=
  prepare_report pl (prepare_promise pl f)

/-- Acceptor, ACCEPT: a ballot that is not below `min_proposal` is accepted. -/
def accept_write (pl : paxos_t) (f : Frame) : Frame :=
  if pl.ballot ≥ f.g.paxos_state.acceptor.min_proposal then
    { f with
      g.paxos_state.acceptor.accepted_proposal := pl.ballot,
      g.paxos_state.acceptor.min_proposal := pl.ballot,
      g.paxos_state.acceptor.accepted_value := pl.value }
  else f

/-- The value `rx_min_proposal` takes in the ACCEPT phase: `MAX` with the local
`min_proposal`, then `MAX` with the payload's proposal. -/
def accept_min (pl : paxos_t) (f : Frame) : Nat :=
  MAX pl.proposal (MAX f.g.paxos_state.acceptor.min_proposal f.g.paxos_state.rx_min_proposal)

/-- Acceptor, ACCEPT: the highest `min_proposal` heard is kept in
`rx_min_proposal` and written to the TX packet when that one differs. -/
def accept_min_report (pl : paxos_t) (f : Frame) : Frame :=
  if f.tx_paxos.proposal ≠ accept_min pl f then
    { f with
      g.paxos_state.rx_min_proposal := accept_min pl f,
      tx_paxos.proposal := accept_min pl f,
      g.tx := 1, rx_delta := 1 }
  else
    { f with g.paxos_state.rx_min_proposal := accept_min pl f }

/-- Acceptor, ACCEPT: a higher locally accepted proposal and its value are carried
into `rx_accepted_proposal` and `rx_accepted_value`. -/
def accept_carry (f : Frame) : Frame :=
  if f.g.paxos_state.acceptor.accepted_proposal > f.g.paxos_state.rx_accepted_proposal then
    { f with
      g.paxos_state.rx_accepted_proposal := f.g.paxos_state.acceptor.accepted_proposal,
      g.paxos_state.rx_accepted_value := f.g.paxos_state.acceptor.accepted_value }
  else f

/-- Acceptor logic, ACCEPT phase; `pl` is the payload as read on entry. -/
def acceptor_accept (pl : paxos_t) (f : Frame) : Frame :=
  accept_carry (accept_min_report pl (accept_write pl f))

/-- The phase switch of the acceptor logic; any other phase value does nothing. -/
def acceptor_phase (pl : paxos_t) (f : Frame) : Frame :=
  if pl.phase = PAXOS_PREPARE then acceptor_prepare pl f
  else if pl.phase = PAXOS_ACCEPT then acceptor_accept pl f
  else f

/-- The block on a new phase: `memcpy(tx_paxos, payload, sizeof(paxos_t) + FLAGS_LEN)`
and the three `memset`s of the aggregation variables. -/
def new_phase_copy (env : Env) (pl : paxos_t) (f : Frame) : Frame :=
  { f with
    tx_paxos := { ballot := pl.ballot, phase := pl.phase, value := pl.value,
                  proposal := pl.proposal,
                  flags := memcpy_flags (FLAGS_LEN env) f.tx_paxos.flags pl.flags },
    g.paxos_state.rx_accepted_proposal := 0,
    g.paxos_state.rx_accepted_value := 0,
    g.paxos_state.rx_min_proposal := 0 }

/-- The flag loop of the transmission logic: the merging loop when the phase is
not new, the copying loop (after `tx = rx_delta = 1`) when it is. -/
def flag_loop (env : Env) (new_phase : Nat) (pflags : List Nat) (f : Frame) : FlagAcc :=
  if new_phase = 0 then merge_loop (FLAGS_LEN env) pflags f.tx_paxos.flags f.rx_delta
  else copy_loop (FLAGS_LEN env) pflags f.tx_paxos.flags 1

/-- What the flag loop, the own flag and `tx |= rx_delta` leave in the frame. -/
def flags_stage (env : Env) (new_phase : Nat) (m : FlagAcc) (f : Frame) : Frame :=
  { f with
    tx_paxos.flags := set_own_flag env m.flags,
    rx_delta := m.delta,
    g.n_replies := m.n_replies,
    g.tx := (if new_phase = 0 then f.g.tx else 1) ||| m.delta }

/-- Transmission dampening: an acceptor that sees a majority of flags in a prepare
phase transmits only when the draw `rnd` is 0 modulo `chaos_node_count / 2`. C
leaves that modulus undefined for fewer than two nodes; here `rnd % 0 = rnd`. -/
def dampening (env : Env) (pl : paxos_t) (rnd : Nat) (f : Frame) : Frame :=
  if f.g.paxos_state.proposer.is_proposer = 0 ∧ pl.phase = PAXOS_PREPARE
      ∧ f.g.n_replies > env.chaos_node_count / 2 ∧ f.g.tx = 1 then
    { f with g.tx := if rnd % (env.chaos_node_count / 2) = 0 then 1 else 0 }
  else f

/-- The quorum read: an ACCEPT payload whose ballot equals its proposal, under a
majority of flags, is learned. -/
def quorum_read (env : Env) (pl : paxos_t) (f : Frame) : Frame :=
  if pl.phase = PAXOS_ACCEPT ∧ pl.ballot = pl.proposal
      ∧ f.g.n_replies > env.chaos_node_count / 2 then
    { f with
      g.paxos_state.learner.learned_value := pl.value,
      g.value_chosen_this_round := 1 }
  else f

/-- The statements under `if (!complete)`: the first completion is recorded. -/
def record_completion (slot_count : Nat) (f : Frame) : Frame :=
  if f.g.complete = 0 then { f with g.completion_slot := slot_count, g.complete := 1 }
  else f

/-- Completion: all flags are set in an ACCEPT phase. -/
def completion (env : Env) (slot_count : Nat) (pl : paxos_t) (flag_sum : Nat) (f : Frame) : Frame :=
  if pl.phase = PAXOS_ACCEPT ∧ (flag_sum : Int) ≥ FLAG_SUM env then
    set_tx (record_completion slot_count f)
  else f

/-- The transmission logic that follows the acceptor phases: flag loop, own flag,
dampening, quorum read, completion. The payload is read again after the flags
were written. -/
def transmission_logic (env : Env) (slot_count : Nat) (current_state : chaos_state_t)
    (rx_paxos : paxos_t) (rnd : Nat) (new_phase : Nat) (f : Frame) : Frame :=
  let m := flag_loop env new_phase (payload current_state rx_paxos f).flags f
  let f1 := flags_stage env new_phase m f
  let pl := payload current_state rx_paxos f1
  completion env slot_count pl m.flag_sum (quorum_read env pl (dampening env pl rnd f1))

/-- The local `new_phase` of the acceptor logic. -/
def new_phase_of (pl tx_paxos : paxos_t) : Nat :=
  if ¬ (pl.ballot = tx_paxos.ballot ∧ pl.phase = tx_paxos.phase) then 1 else 0

/-- The acceptor logic after the ordering check passed: the new-phase copy, the
acceptor phases (payload read again) and the transmission logic. -/
def acceptor_merge (env : Env) (slot_count : Nat) (current_state : chaos_state_t)
    (rx_paxos : paxos_t) (rnd : Nat) (new_phase : Nat) (pl : paxos_t) (f : Frame) : Frame :=
  let f1 : Frame := if new_phase ≠ 0 then new_phase_copy env pl f else f
  transmission_logic env slot_count current_state rx_paxos rnd new_phase
    (acceptor_phase (payload current_state rx_paxos f1) f1)

/-- The statement `tx = 0`. -/
def clear_tx (f : Frame) : Frame := { f with g.tx := 0 }

/-- The ordering check of the acceptor logic: a payload with a higher ballot, or
the same ballot and a phase that is not older, is merged; for an older packet
only `tx` is set. -/
def acceptor_check (env : Env) (slot_count : Nat) (current_state : chaos_state_t)
    (rx_paxos : paxos_t) (rnd : Nat) (f : Frame) : Frame :=
  if (payload current_state rx_paxos f).ballot > f.tx_paxos.ballot
      ∨ ((payload current_state rx_paxos f).ballot = f.tx_paxos.ballot
          ∧ (payload current_state rx_paxos f).phase ≥ f.tx_paxos.phase) then
    acceptor_merge env slot_count current_state rx_paxos rnd
      (new_phase_of (payload current_state rx_paxos f) f.tx_paxos)
      (payload current_state rx_paxos f) f
  else set_tx f

/-- The acceptor logic of a valid slot that is not handled as a heartbeat: `tx = 0`,
then the ordering check and what follows from it. -/
def acceptor_logic (env : Env) (slot_count : Nat) (current_state : chaos_state_t)
    (rx_paxos : paxos_t) (rnd : Nat) (f : Frame) : Frame :=
  acceptor_check env slot_count current_state rx_paxos rnd (clear_tx f)

/-- Local variables `lost_proposal` and `update_phase` of the proposer logic,
next to the frame. -/
structure PropFrame where
  f : Frame
  lost_proposal : Nat
  update_phase : Nat
deriving DecidableEq, Repr

/-- The statement `if (rx_accepted_proposal.n > 0) proposed_value =
rx_accepted_value`, which stands in the prepare evaluation and in the loss
block. -/
def adopt_reported (f : Frame) : Frame :=
  if f.g.paxos_state.rx_accepted_proposal > 0 then
    { f with g.paxos_state.proposer.proposed_value := f.g.paxos_state.rx_accepted_value }
  else f

/-- Proposer, own ballot and phase: evaluation of the reports. In PREPARE the
reported value is adopted and a higher reported proposal loses; in ACCEPT a
higher reported `min_proposal` loses. -/
def proposer_reports (f : Frame) : PropFrame :=
  if f.g.paxos_state.proposer.phase = PAXOS_PREPARE then
    ⟨adopt_reported f,
     if f.g.paxos_state.rx_accepted_proposal > f.g.paxos_state.proposer.proposed_ballot
     then 1 else 0,
     0⟩
  else if f.g.paxos_state.proposer.phase = PAXOS_ACCEPT then
    ⟨f,
     if f.g.paxos_state.rx_min_proposal > f.g.paxos_state.proposer.proposed_ballot
     then 1 else 0,
     0⟩
  else ⟨f, 0, 0⟩

/-- Proposer: `n_replies` is counted again over the TX flags. -/
def proposer_count (env : Env) (a : PropFrame) : PropFrame :=
  { a with f.g.n_replies := count_flags (FLAGS_LEN env) a.f.tx_paxos.flags }

/-- Proposer: with a majority and no loss, PREPARE switches to ACCEPT and asks
for a phase update, and ACCEPT records the majority and its slot. -/
def proposer_majority (env : Env) (slot_count : Nat) (a : PropFrame) : PropFrame :=
  if a.lost_proposal = 0 ∧ a.f.g.n_replies > env.chaos_node_count / 2 then
    if a.f.g.paxos_state.proposer.phase = PAXOS_PREPARE then
      { a with f.g.paxos_state.proposer.phase := PAXOS_ACCEPT, update_phase := 1 }
    else if a.f.g.paxos_state.proposer.phase = PAXOS_ACCEPT then
      if a.f.g.paxos_state.proposer.got_majority = 0 then
        { a with
          f.g.paxos_state.proposer.got_majority := 1,
          f.g.paxos_state.proposer.got_majority_at_slot := slot_count }
      else a
    else a
  else a

/-- Proposer: in ACCEPT without a majority, a higher reported `min_proposal`
loses. -/
def proposer_late_loss (a : PropFrame) : PropFrame :=
  if a.f.g.paxos_state.proposer.phase = PAXOS_ACCEPT
      ∧ a.f.g.paxos_state.rx_min_proposal > a.f.g.paxos_state.proposer.proposed_ballot
      ∧ a.f.g.paxos_state.proposer.got_majority = 0 then
    { a with lost_proposal := 1 }
  else a

/-- Proposer logic for a payload that carries the proposer's own ballot and
phase. -/
def proposer_own_phase (env : Env) (slot_count : Nat) (f : Frame) : PropFrame :=
  proposer_late_loss (proposer_majority env slot_count (proposer_count env (proposer_reports f)))

/-- Proposer, smaller ballot received: `tx = 1`, and a proposer still in
`PAXOS_INIT` starts its prepare phase (INITIATE PAXOS ALGORITHM 2/3). -/
def proposer_smaller (f : Frame) : Frame :=
  if f.g.paxos_state.proposer.phase = PAXOS_INIT then proposer_initiate (set_tx f)
  else set_tx f

/-- Proposer logic while no loser timeout runs: own ballot, higher ballot, or
smaller ballot. `pl` is the payload as read on entry. -/
def proposer_compete (env : Env) (slot_count : Nat) (pl : paxos_t) (f : Frame) : PropFrame :=
  if pl.ballot = f.g.paxos_state.proposer.proposed_ballot then
    if pl.phase = f.g.paxos_state.proposer.phase then proposer_own_phase env slot_count f
    else ⟨set_tx f, 0, 0⟩
  else if pl.ballot > f.g.paxos_state.proposer.proposed_ballot
      ∧ f.g.paxos_state.proposer.got_majority = 0 then
    ⟨f, 1, 0⟩
  else ⟨proposer_smaller f, 0, 0⟩

/-- Proposer with a running loser timeout: it is decremented, and reaching 0 asks
for a phase update. -/
def proposer_timeout (f : Frame) : PropFrame :=
  ⟨{ f with g.paxos_state.proposer.loser_timeout := f.g.paxos_state.proposer.loser_timeout - 1 },
   0,
   if f.g.paxos_state.proposer.loser_timeout - 1 = 0 then 1 else 0⟩

/-- The body of `if (lost_proposal)`: next ballot round (an 8-bit bit-field),
adoption of a reported value, back to prepare, loser timeout (8 bits). -/
def proposer_lost (env : Env) (f : Frame) : Frame :=
  let f1 := adopt_reported f
  { f1 with
    g.paxos_state.proposer.proposed_ballot :=
      ballot_set_round f.g.paxos_state.proposer.proposed_ballot
        (ballot_round f.g.paxos_state.proposer.proposed_ballot + 1),
    g.paxos_state.proposer.phase := PAXOS_PREPARE,
    g.paxos_state.proposer.got_majority := 0,
    g.paxos_state.proposer.loser_timeout :=
      (((env.PAXOS_ROUND_MAX_SLOTS : Int) - 1) % 256).toNat }

/-- The body of `if (update_phase)`: the TX header is rewritten, the flags are
reset to the template, and `rx_delta = tx = 1`. -/
def proposer_update_phase (env : Env) (f : Frame) : Frame :=
  force_tx
    (template_flags env
      { f with
        tx_paxos.ballot := f.g.paxos_state.proposer.proposed_ballot,
        tx_paxos.phase := f.g.paxos_state.proposer.phase,
        tx_paxos.proposal := 0,
        tx_paxos.value := f.g.paxos_state.proposer.proposed_value })

/-- The two blocks that close the proposer logic: `if (lost_proposal)` and
`if (update_phase)`. -/
def proposer_finish (env : Env) (a : PropFrame) : Frame :=
  let f1 : Frame := if a.lost_proposal ≠ 0 then proposer_lost env a.f else a.f
  if a.update_phase ≠ 0 then proposer_update_phase env f1 else f1

/-- The proposer logic, run when the node is a proposer without a majority yet.
`pl` is the payload as read on entry. -/
def proposer_logic (env : Env) (slot_count : Nat) (pl : paxos_t) (f : Frame) : Frame :=
  if f.g.paxos_state.proposer.is_proposer ≠ 0 ∧ f.g.paxos_state.proposer.got_majority = 0 then
    proposer_finish env
      (if f.g.paxos_state.proposer.loser_timeout > 0 then proposer_timeout f
       else proposer_compete env slot_count pl f)
  else f

/-- The statements `got_valid_rx = 1; n_replies = 0` that open a valid slot. -/
def open_valid (f : Frame) : Frame := { f with g.got_valid_rx := 1, g.n_replies := 0 }

/-- A valid slot that is not handled as a heartbeat: acceptor logic, then
proposer logic on the payload as it is read then. -/
def paxos_slot (env : Env) (slot_count : Nat) (current_state : chaos_state_t)
    (rx_paxos : paxos_t) (rnd : Nat) (f : Frame) : Frame :=
  let f2 := acceptor_logic env slot_count current_state rx_paxos rnd f
  proposer_logic env slot_count (payload current_state rx_paxos f2) f2

/-- The valid-slot block of `process`: its condition, the two resets, and the
heartbeat branch or the acceptor and proposer logic. -/
def valid_slot (env : Env) (slot_count : Nat) (current_state : chaos_state_t)
    (chaos_txrx_success : Nat) (rx_paxos : paxos_t) (rnd : Nat) (f : Frame) : Frame :=
  if chaos_txrx_success ≠ 0
      ∧ (current_state = CHAOS_RX
          ∨ (current_state = CHAOS_TX ∧ f.g.paxos_state.proposer.is_proposer ≠ 0)) then
    if (payload current_state rx_paxos (open_valid f)).phase = PAXOS_INIT
        ∧ (open_valid f).g.paxos_state.acceptor.min_proposal = 0 then
      heartbeat env current_state rx_paxos (open_valid f)
    else paxos_slot env slot_count current_state rx_paxos rnd (open_valid f)
  else f

/-- Synchrotron, initiator at round start: `got_valid_rx = 1`, and a proposer
still in `PAXOS_INIT` starts its prepare phase (INITIATE PAXOS ALGORITHM 3/3). -/
def sync_initiate (f : Frame) : Frame :=
  if f.g.paxos_state.proposer.is_proposer ≠ 0 ∧ f.g.paxos_state.proposer.phase = PAXOS_INIT then
    proposer_initiate { f with g.got_valid_rx := 1 }
  else { f with g.got_valid_rx := 1 }

/-- Synchrotron, successful RX: `invalid_rx_count = 0`, and with `tx` set the
post-completion counter is reset on novel information and incremented
otherwise. -/
def sync_rx_ok (f : Frame) : chaos_state_t × Frame :=
  if f.g.tx ≠ 0 then
    if f.g.complete ≠ 0 then
      if f.rx_delta ≠ 0 then
        (CHAOS_TX, { f with g.invalid_rx_count := 0, g.tx_count_complete := 0 })
      else
        (CHAOS_TX, { f with g.invalid_rx_count := 0,
                            g.tx_count_complete := f.g.tx_count_complete + 1 })
    else (CHAOS_TX, { f with g.invalid_rx_count := 0 })
  else (CHAOS_RX, { f with g.invalid_rx_count := 0 })

/-- Synchrotron, failed RX after a valid one: the failure is counted, and past
the restart threshold the node transmits and draws a new threshold (kept in an
`unsigned short`). -/
def sync_rx_fail (env : Env) (rnd : Nat) (f : Frame) : chaos_state_t × Frame :=
  if f.g.invalid_rx_count + 1 > f.g.restart_threshold then
    (CHAOS_TX,
     { f with
       g.invalid_rx_count := 0,
       g.tx_count_complete :=
         if f.g.complete ≠ 0 then f.g.tx_count_complete + 1 else f.g.tx_count_complete,
       g.restart_threshold :=
         (rnd % (env.CHAOS_RESTART_MAX - env.CHAOS_RESTART_MIN) + env.CHAOS_RESTART_MIN)
           % 65536 })
  else (CHAOS_RX, { f with g.invalid_rx_count := f.g.invalid_rx_count + 1 })

/-- The Synchrotron state logic: the next radio state and the counters behind it.
`initiate_round` is `IS_INITIATOR()` (multiple initiators are not enabled), and
no failures are injected (`FAILURES_RATE` is off). -/
def synchrotron_logic (env : Env) (current_state : chaos_state_t)
    (chaos_txrx_success : Nat) (rnd : Nat) (f : Frame) : chaos_state_t × Frame :=
  if env.IS_INITIATOR = true ∧ current_state = CHAOS_INIT then (CHAOS_TX, sync_initiate f)
  else if f.g.tx_count_complete > env.N_TX_COMPLETE then (CHAOS_OFF, f)
  else if current_state = CHAOS_RX ∧ chaos_txrx_success ≠ 0 then sync_rx_ok f
  else if current_state = CHAOS_RX ∧ chaos_txrx_success = 0 ∧ f.g.got_valid_rx ≠ 0 then
    sync_rx_fail env rnd f
  else if current_state = CHAOS_TX ∧ chaos_txrx_success = 0 then
    (CHAOS_TX, { f with g.got_valid_rx := 1 })
  else (CHAOS_RX, f)

/-- The statements of the block `report final results`: `paxos_flags` is pointed
at the TX flags and the template header is filled from the acceptor state and
the TX phase. -/
def report_template (f : Frame) : Frame :=
  { f with
    g.paxos_flags := true,
    g.paxos_local.value := f.g.paxos_state.acceptor.accepted_value,
    g.paxos_local.proposal := f.g.paxos_state.acceptor.accepted_proposal,
    g.paxos_local.ballot := f.g.paxos_state.acceptor.min_proposal,
    g.paxos_local.phase := f.tx_paxos.phase }

/-- The block `report final results`, taken once the round is complete or in its
last slot; a node that is not a proposer also takes the TX phase as its proposer
phase. -/
def report_final (env : Env) (slot_count : Nat) (f : Frame) : Frame :=
  if f.g.complete ≠ 0 ∨ (slot_count : Int) ≥ (env.PAXOS_ROUND_MAX_SLOTS : Int) - 1 then
    if f.g.paxos_state.proposer.is_proposer = 0 then
      { report_template f with g.paxos_state.proposer.phase := f.tx_paxos.phase }
    else report_template f
  else f

/-- The statement `if (end) off_slot = slot_count`, where `end` holds in the last
two slots or when the radio goes off. -/
def mark_off (env : Env) (slot_count : Nat) (next_state : chaos_state_t) (f : Frame) : Frame :=
  if (slot_count : Int) ≥ (env.PAXOS_ROUND_MAX_SLOTS : Int) - 2 ∨ next_state = CHAOS_OFF then
    { f with g.off_slot := slot_count }
  else f

/-- What a call of `process` leaves behind: the returned radio state, the TX
buffer, the statics, and the flags `*app_flags` points to. -/
structure ProcessResult where
  next_state : chaos_state_t
  tx_paxos : paxos_t
  g : Globals
  app_flags : List Nat
deriving DecidableEq, Repr

/-- The frame a call of `process` starts from: `rx_delta = 0` and `tx = 0`. -/
def entry_frame (tx_paxos : paxos_t) (g : Globals) : Frame :=
  { g := { g with tx := 0 }, tx_paxos := tx_paxos, rx_delta := 0 }

/-- The frame at the end of a call of `process`, given the outcome of the
Synchrotron state logic: final report and off slot. -/
def exit_frame (env : Env) (slot_count : Nat) (r : chaos_state_t × Frame) : Frame :=
  mark_off env slot_count r.1 (report_final env slot_count r.2)

/-- The frame a call of `process` ends with. -/
def process_frame (env : Env) (slot_count : Nat) (current_state : chaos_state_t)
    (chaos_txrx_success : Nat) (rx_paxos : paxos_t) (rnd : Nat)
    (tx_paxos : paxos_t) (g : Globals) : Frame :=
  exit_frame env slot_count
    (synchrotron_logic env current_state chaos_txrx_success rnd
      (valid_slot env slot_count current_state chaos_txrx_success rx_paxos rnd
        (entry_frame tx_paxos g)))

/-- The per-slot function `process` of `paxos.c`. The arguments `round_count` and
`payload_length` are not read by the code; `rnd` is what
`chaos_random_generator_fast()` returns if the call draws a number. -/
def process (env : Env) (slot_count : Nat) (current_state : chaos_state_t)
    (chaos_txrx_success : Nat) (rx_paxos : paxos_t) (rnd : Nat)
    (tx_paxos : paxos_t) (g : Globals) : ProcessResult :=
  { next_state :=
      (synchrotron_logic env current_state chaos_txrx_success rnd
        (valid_slot env slot_count current_state chaos_txrx_success rx_paxos rnd
          (entry_frame tx_paxos g))).1,
    tx_paxos :=
      (process_frame env slot_count current_state chaos_txrx_success rx_paxos rnd tx_paxos g).tx_paxos,
    g := (process_frame env slot_count current_state chaos_txrx_success rx_paxos rnd tx_paxos g).g,
    app_flags :=
      (payload current_state rx_paxos
        (process_frame env slot_count current_state chaos_txrx_success rx_paxos rnd tx_paxos g)).flags }

/-! ## The round driver -/

/-- The function `paxos_reset_state`: both `memset`s; the template keeps the
length of its flag array. -/
def paxos_reset_state (g : Globals) : Globals :=
  { g with
    paxos_state := ⟨⟨0, 0, 0, 0, 0, 0, 0⟩, ⟨0, 0, 0⟩, ⟨0⟩, 0, 0, 0⟩,
    paxos_local := ⟨0, 0, 0, 0, List.replicate g.paxos_local.flags.length 0⟩ }

/-- The function `paxos_get_learned_value`. -/
def paxos_get_learned_value (g : Globals) : Nat := g.paxos_state.learner.learned_value

/-- What the scheduler and the radio decide for one slot: the success flag, the
received packet, and the draw of the random generator if `process` asks for one. -/
structure SlotInput where
  chaos_txrx_success : Nat
  rx_paxos : paxos_t
  rnd : Nat
deriving DecidableEq, Repr

/-- Modelled from the spec: `chaos_round`, the slotted flooding scheduler, whose
code is outside the sources at hand. It calls the per-slot function once per
slot, first with the state `CHAOS_INIT` and then with the state the previous call
returned, numbers the slots from `slot_count` on, and stops when the function
returned `CHAOS_OFF` or `max_slots` is reached; the list `slots` is what the
radio delivers, and the round also ends when it is used up. -/
def chaos_round (env : Env) (max_slots : Nat) :
    List SlotInput → Nat → chaos_state_t → paxos_t → Globals → paxos_t × Globals
  | [], _, _, tx_paxos, g => (tx_paxos, g)
  | s :: rest, slot_count, current_state, tx_paxos, g =>
    if slot_count ≥ max_slots ∨ current_state = CHAOS_OFF then (tx_paxos, g)
    else
      let r := process env slot_count current_state s.chaos_txrx_success s.rx_paxos s.rnd
        tx_paxos g
      chaos_round env max_slots rest (slot_count + 1) r.next_state r.tx_paxos r.g

/-- What `paxos_round_begin` leaves behind: the returned byte, the byte in
`*paxos_value`, the flags `*final_flags` points to, and the statics. -/
structure RoundResult where
  ret : Nat
  paxos_value : Nat
  final_flags : List Nat
  g : Globals
deriving DecidableEq, Repr

/-- First part of `paxos_round_begin`, up to the call of `chaos_round`: the
slot-local variables, the first restart threshold (draw `rnd0`), the proposer's
initialisation and the own flag of the template. -/
def paxos_round_entry (env : Env) (is_proposer : Nat) (paxos_value : Nat) (rnd0 : Nat)
    (g : Globals) : Globals :=
  let g1 : Globals :=
    { g with
      off_slot := env.PAXOS_ROUND_MAX_SLOTS,
      tx := 0, got_valid_rx := 0, n_replies := 0, complete := 0, completion_slot := 0,
      tx_count_complete := 0, invalid_rx_count := 0, value_chosen_this_round := 0,
      restart_threshold :=
        (rnd0 % (env.CHAOS_RESTART_MAX - env.CHAOS_RESTART_MIN) + env.CHAOS_RESTART_MIN)
          % 65536 }
  let g2 : Globals :=
    if is_proposer ≠ 0 then
      { g1 with
        paxos_state.proposer.phase := PAXOS_INIT,
        paxos_state.proposer.proposed_ballot :=
          ballot_set_round (ballot_set_id g1.paxos_state.proposer.proposed_ballot
            env.chaos_node_index) 1,
        paxos_state.proposer.proposed_value := paxos_value,
        paxos_state.proposer.is_proposer := 1,
        paxos_local.value := paxos_value }
    else g1
  { g2 with paxos_local.flags := set_own_flag env g2.paxos_local.flags }

/-- The initial TX payload handed to `chaos_round`: the template header with its
first `FLAGS_LEN` flag bytes (`sizeof(paxos_t) + paxos_get_flags_length()` bytes). -/
def initial_tx (env : Env) (g : Globals) : paxos_t :=
  { g.paxos_local with flags := g.paxos_local.flags.take (FLAGS_LEN env) }

/-- The statement `memcpy(paxos_local.paxos.flags, paxos_flags, paxos_get_flags_length())`
after the round. `paxos_flags` points into the TX buffer once `process` has set
it; with the pointer still null the copy is undefined in C and the template is
left as it is here. -/
def paxos_round_report (env : Env) (tx_paxos : paxos_t) (g : Globals) : Globals :=
  if g.paxos_flags = true then
    { g with paxos_local.flags := memcpy_flags (FLAGS_LEN env) g.paxos_local.flags tx_paxos.flags }
  else g

/-- Last part of `paxos_round_begin`, after `chaos_round` returned with the TX
buffer and statics `r`: the flags are reported and `value_chosen_this_round` is
returned. `*paxos_value` is read at entry and never written. -/
def paxos_round_exit (env : Env) (paxos_value : Nat) (r : paxos_t × Globals) : RoundResult :=
  { ret := (paxos_round_report env r.1 r.2).value_chosen_this_round,
    paxos_value := paxos_value,
    final_flags := (paxos_round_report env r.1 r.2).paxos_local.flags,
    g := paxos_round_report env r.1 r.2 }

/-- The function `paxos_round_begin` of `paxos.c`: the entry part, the round
driven by the scheduler, and the report. `slots` is what the scheduler
delivers. -/
def paxos_round_begin (env : Env) (is_proposer : Nat) (paxos_value : Nat) (rnd0 : Nat)
    (slots : List SlotInput) (g : Globals) : RoundResult :=
  paxos_round_exit env paxos_value
    (chaos_round env env.PAXOS_ROUND_MAX_SLOTS slots 0 CHAOS_INIT
      (initial_tx env (paxos_round_entry env is_proposer paxos_value rnd0 g))
      (paxos_round_entry env is_proposer paxos_value rnd0 g))

/-! ## A network of nodes -/

/-- One node of a network: its environment, its statics, its TX buffer and the
radio state its last call of `process` returned. -/
structure Node where
  env : Env
  g : Globals
  tx_paxos : paxos_t
  state : chaos_state_t
deriving DecidableEq, Repr

/-- The statics of a node that was never used: everything zero, the null pointer,
and a template with `len` flag bytes. -/
def fresh_globals (len : Nat) : Globals :=
  { tx := 0, complete := 0, completion_slot := 0, off_slot := 0, tx_count_complete := 0,
    invalid_rx_count := 0, got_valid_rx := 0, n_replies := 0, value_chosen_this_round := 0,
    restart_threshold := 0,
    paxos_local := ⟨0, 0, 0, 0, List.replicate len 0⟩,
    paxos_state := ⟨⟨0, 0, 0, 0, 0, 0, 0⟩, ⟨0, 0, 0⟩, ⟨0⟩, 0, 0, 0⟩,
    paxos_flags := false }

/-- A node at the start of a round: `paxos_reset_state` on unused statics, then
the entry part of `paxos_round_begin`, the initial TX payload, and the radio
state `CHAOS_INIT`. -/
def Node.start (env : Env) (is_proposer : Nat) (paxos_value : Nat) (rnd0 : Nat) : Node :=
  let g := paxos_round_entry env is_proposer paxos_value rnd0
    (paxos_reset_state (fresh_globals (FLAGS_LEN env)))
  { env := env, g := g, tx_paxos := initial_tx env g, state := CHAOS_INIT }

/-- A packet of zeros with no flag bytes, standing for an RX buffer nothing was
received into. -/
def empty_packet : paxos_t := ⟨0, 0, 0, 0, []⟩

/-- One call of `process` on a node. -/
def Node.slot (nd : Node) (slot_count : Nat) (inp : SlotInput) : Node :=
  let r := process nd.env slot_count nd.state inp.chaos_txrx_success inp.rx_paxos inp.rnd
    nd.tx_paxos nd.g
  { nd with g := r.g, tx_paxos := r.tx_paxos, state := r.next_state }

/-- One slot of the network. The event of a node is `none` when its slot failed
and `some j` when it succeeded; a listening node then received the TX packet
node `j` held when the slot began. -/
def net_slot (slot_count : Nat) (nodes : List Node) (events : List (Option Nat)) : List Node :=
  List.zipWith
    (fun nd ev =>
      match ev with
      | none => nd.slot slot_count ⟨0, empty_packet, 0⟩
      | some j =>
        match nodes.get? j with
        | some src => nd.slot slot_count ⟨1, src.tx_paxos, 0⟩
        | none => nd.slot slot_count ⟨0, empty_packet, 0⟩)
    nodes events

/-- A run of the network: one list of events per slot, slots numbered from
`slot_count` on. -/
def net_run : Nat → List Node → List (List (Option Nat)) → List Node
  | _, nodes, [] => nodes
  | slot_count, nodes, ev :: rest => net_run (slot_count + 1) (net_slot slot_count nodes ev) rest

/-- The events of a slot fit the radio: a listening node that received a packet
received it from another node, and that node was transmitting. -/
def events_ok (nodes : List Node) (events : List (Option Nat)) : Bool :=
  decide (events.length = nodes.length) &&
  (List.range nodes.length).all (fun i =>
    match nodes.get? i, events.get? i with
    | some nd, some (some j) =>
      if nd.state = CHAOS_RX then
        decide (j ≠ i) &&
          (match nodes.get? j with
           | some src => decide (src.state = CHAOS_TX)
           | none => false)
      else true
    | _, _ => true)

/-- Every slot of a run fits the radio. -/
def run_ok : Nat → List Node → List (List (Option Nat)) → Bool
  | _, _, [] => true
  | slot_count, nodes, ev :: rest =>
    events_ok nodes ev && run_ok (slot_count + 1) (net_slot slot_count nodes ev) rest

/-- What the acceptor logic makes of the acceptor state for a merged payload: a
PREPARE raises `min_proposal` to a higher ballot, an ACCEPT whose ballot is not
below `min_proposal` is accepted, any other phase changes nothing. -/
def acceptor_step (pl : paxos_t) (a : acceptor_state_t) : acceptor_state_t :=
  if pl.phase = PAXOS_PREPARE then
    if pl.ballot > a.min_proposal then { a with min_proposal := pl.ballot } else a
  else if pl.phase = PAXOS_ACCEPT then
    if pl.ballot ≥ a.min_proposal then
      { accepted_proposal := pl.ballot, min_proposal := pl.ballot, accepted_value := pl.value }
    else a
  else a

/-- The proposer logic reaches its block INITIATE PAXOS ALGORITHM (2/3): the node
is a proposer without majority and without a running loser timeout, still in
`PAXOS_INIT`, and the payload's ballot is smaller than the proposed one. -/
def initiates_on_smaller (pl : paxos_t) (f : Frame) : Prop :=
  (f.g.paxos_state.proposer.is_proposer ≠ 0 ∧ f.g.paxos_state.proposer.got_majority = 0)
    ∧ ¬ f.g.paxos_state.proposer.loser_timeout > 0
    ∧ ¬ pl.ballot = f.g.paxos_state.proposer.proposed_ballot
    ∧ ¬ (pl.ballot > f.g.paxos_state.proposer.proposed_ballot
          ∧ f.g.paxos_state.proposer.got_majority = 0)
    ∧ f.g.paxos_state.proposer.phase = PAXOS_INIT

instance (pl : paxos_t) (f : Frame) : Decidable (initiates_on_smaller pl f) := by
  unfold initiates_on_smaller; infer_instance

/-! ## A concrete network, for the worked cases -/

/-- Environment of node `i` in a network of three nodes: node 0 is the initiator,
rounds have 255 slots, and the scheduler constants are `N_TX_COMPLETE = 9`,
`CHAOS_RESTART_MIN = 4`, `CHAOS_RESTART_MAX = 10`. -/
def env3 (i : Nat) : Env :=
  { chaos_node_count := 3, chaos_node_index := i, IS_INITIATOR := decide (i = 0),
    PAXOS_ROUND_MAX_SLOTS := 255, N_TX_COMPLETE := 9, CHAOS_RESTART_MIN := 4,
    CHAOS_RESTART_MAX := 10 }

/-- The ballot with round counter `r` and node id `i`. -/
def ballot_of (r i : Nat) : Nat := ballot_set_round (ballot_set_id 0 i) r

/-- Node 0 of the three-node network as a proposer with value 7, two slots into
its round: it has started its prepare phase with ballot (1,0) and transmitted
once. -/
def prepared_proposer : Node :=
  ((Node.start (env3 0) 1 7 0).slot 0 ⟨0, empty_packet, 0⟩).slot 1 ⟨1, empty_packet, 0⟩

/-- The PREPARE packet of ballot (1,0) as node 1 sends it back: flags of nodes 0
and 1, no accepted proposal reported. -/
def prepare_reply : paxos_t := ⟨ballot_of 1 0, PAXOS_PREPARE, 7, 0, [3]⟩

/-- The node state `paxos_state` with every field zero. -/
def paxos_state_zero : paxos_state_t := ⟨⟨0, 0, 0, 0, 0, 0, 0⟩, ⟨0, 0, 0⟩, ⟨0⟩, 0, 0, 0⟩

/-- A template whose header is zero and whose flags are `flags`. -/
def template_zero (flags : List Nat) : paxos_t := ⟨0, 0, 0, 0, flags⟩

/-- Three nodes at the start of a round, each fresh after a reset: node 0 is the
initiator and a proposer with value 7, node 1 is an acceptor, node 2 is a
proposer with value 9. -/
def contention_nodes : List Node :=
  [Node.start (env3 0) 1 7 0, Node.start (env3 1) 0 0 0, Node.start (env3 2) 1 9 0]

/-- Seven slots of the three nodes, one event per node and slot. Slot 0 is the
round start. In slot 1 node 0 sends its PREPARE and both others receive it; in
slot 2 node 0 receives the reply of node 1 while node 2 reads back its own
PREPARE; in slot 3 node 1 receives the ACCEPT of node 0; in slot 4 nodes 0 and 2
receive the reply of node 1; in slot 5 node 1 receives the ACCEPT of node 2; in
slot 6 node 2 receives the reply of node 1. -/
def contention_events : List (List (Option Nat)) :=
  [ [none, none, none],
    [some 0, some 0, some 0],
    [some 1, some 1, some 2],
    [some 0, some 0, none],
    [some 1, some 1, some 1],
    [some 0, some 2, some 2],
    [none, some 1, some 1] ]

/-- What a node reports of the quorum read: `value_chosen_this_round` and the
learned value. -/
def Node.learned (nd : Node) : Nat × Nat :=
  (nd.g.value_chosen_this_round, nd.g.paxos_state.learner.learned_value)

/-- The ACCEPT packet of ballot (1,2) with value 9, as proposer 2 sends it after
accepting it itself. -/
def accept_of_node2 : paxos_t := ⟨ballot_of 1 2, PAXOS_ACCEPT, 9, ballot_of 1 2, [4]⟩

/-- The statics of node 1 after a round in which it accepted ballot (1,2) with
value 9 and which ended after two slots, before all flags were set. -/
def acceptor_after_round : Globals :=
  (paxos_round_begin (env3 1) 0 0 0 [⟨0, empty_packet, 0⟩, ⟨1, accept_of_node2, 0⟩]
    (paxos_reset_state (fresh_globals 1))).g

/-- Node 1 with those statics at the start of the next round, now a proposer with
value 5; `initiator` tells whether it is the initiator of that round. -/
def late_proposer (initiator : Bool) : Node :=
  { env := { env3 1 with IS_INITIATOR := initiator },
    g := paxos_round_entry (env3 1) 1 5 0 acceptor_after_round,
    tx_paxos := initial_tx (env3 1) (paxos_round_entry (env3 1) 1 5 0 acceptor_after_round),
    state := CHAOS_INIT }

/-- The heartbeat of a fresh initiator node 0: a `PAXOS_INIT` packet with ballot 0
and the flag of node 0. -/
def heartbeat_packet : paxos_t := ⟨0, PAXOS_INIT, 0, 0, [1]⟩

/-- Environment of node `i` in a network of eight nodes, node 0 the initiator. -/
def env8 (i : Nat) : Env :=
  { chaos_node_count := 8, chaos_node_index := i, IS_INITIATOR := decide (i = 0),
    PAXOS_ROUND_MAX_SLOTS := 255, N_TX_COMPLETE := 9, CHAOS_RESTART_MIN := 4,
    CHAOS_RESTART_MAX := 10 }

/-- Acceptor 3 of the eight-node network at the start of a round, after an earlier
round in which it accepted ballot (1,5) with value 9. -/
def acceptor3 : Node :=
  { env := env8 3,
    g := paxos_round_entry (env8 3) 0 0 0
      (paxos_round_begin (env8 3) 0 0 0
        [⟨0, empty_packet, 0⟩, ⟨1, ⟨ballot_of 1 5, PAXOS_ACCEPT, 9, ballot_of 1 5, [32]⟩, 0⟩]
        (paxos_reset_state (fresh_globals 1))).g,
    tx_paxos := initial_tx (env8 3) (paxos_round_entry (env8 3) 0 0 0
      (paxos_round_begin (env8 3) 0 0 0
        [⟨0, empty_packet, 0⟩, ⟨1, ⟨ballot_of 1 5, PAXOS_ACCEPT, 9, ballot_of 1 5, [32]⟩, 0⟩]
        (paxos_reset_state (fresh_globals 1))).g),
    state := CHAOS_RX }

/-- The PREPARE packet of the new proposer (2,1): no accepted proposal reported
yet, flag of node 1. -/
def prepare_of_2_1 : paxos_t := ⟨ballot_of 2 1, PAXOS_PREPARE, 4, 0, [2]⟩

/-! ## Population count of flag bytes -/

/-- Number of bits set among the eight bits of a byte. -/
def popcount (u : Nat) : Nat := ((List.range 8).filter (fun k => u.testBit k)).length

/-- Population count of the first `len` flag bytes. -/
def flags_popcount (len : Nat) (t : List Nat) : Nat :=
  (List.range len).foldl (fun n i => n + popcount (rd t i)) 0

/-- Every byte of the array is below 256. -/
def bytes_ok (t : List Nat) : Prop := ∀ i, rd t i < 256

/-! ## The frame at the quorum read -/

/-- The frame after the new-phase block of the acceptor logic. -/
def after_new_phase (env : Env) (current_state : chaos_state_t) (rx_paxos : paxos_t)
    (f : Frame) : Frame :=
  if new_phase_of (payload current_state rx_paxos f) f.tx_paxos ≠ 0
  then new_phase_copy env (payload current_state rx_paxos f) f else f

/-- The frame after the acceptor phases of a merged payload. -/
def after_acceptor (env : Env) (current_state : chaos_state_t) (rx_paxos : paxos_t)
    (f : Frame) : Frame :=
  acceptor_phase (payload current_state rx_paxos (after_new_phase env current_state rx_paxos f))
    (after_new_phase env current_state rx_paxos f)

/-- The variables of the flag loop of a merged payload. -/
def merged_flags (env : Env) (current_state : chaos_state_t) (rx_paxos : paxos_t)
    (f : Frame) : FlagAcc :=
  flag_loop env (new_phase_of (payload current_state rx_paxos f) f.tx_paxos)
    (payload current_state rx_paxos (after_acceptor env current_state rx_paxos f)).flags
    (after_acceptor env current_state rx_paxos f)

/-- The frame after the flag merge of a merged payload, own flag set: what the
dampening, the quorum read and the completion test work on. -/
def after_flags (env : Env) (current_state : chaos_state_t) (rx_paxos : paxos_t)
    (f : Frame) : Frame :=
  flags_stage env (new_phase_of (payload current_state rx_paxos f) f.tx_paxos)
    (merged_flags env current_state rx_paxos f) (after_acceptor env current_state rx_paxos f)

/-- The frame of a merging call of `process` at its quorum read. -/
def quorum_frame (env : Env) (current_state : chaos_state_t) (rx_paxos tx_paxos : paxos_t)
    (g : Globals) : Frame :=
  after_flags env current_state rx_paxos (clear_tx (open_valid (entry_frame tx_paxos g)))

/-- The payload as a merging call of `process` reads it at its quorum read: the RX
packet, or, for a proposer that reads back its own TX packet, that packet with
what the acceptor logic has written into it. -/
def quorum_payload (env : Env) (current_state : chaos_state_t) (rx_paxos tx_paxos : paxos_t)
    (g : Globals) : paxos_t :=
  payload current_state rx_paxos (quorum_frame env current_state rx_paxos tx_paxos g)

/-- The condition of the quorum read, on the payload and the frame it reads. -/
def quorum_condition (env : Env) (pl : paxos_t) (f : Frame) : Prop :=
  pl.phase = PAXOS_ACCEPT ∧ pl.ballot = pl.proposal ∧ f.g.n_replies > env.chaos_node_count / 2

instance (env : Env) (pl : paxos_t) (f : Frame) : Decidable (quorum_condition env pl f) := by
  unfold quorum_condition; infer_instance

/-! ## Worked cases of the quorum read -/

/-- The ACCEPT packet of ballot (1,2) with value 9 carrying the flags of nodes 0
and 2: a majority of three once node 1 adds its own flag. -/
def majority_accept : paxos_t := ⟨ballot_of 1 2, PAXOS_ACCEPT, 9, ballot_of 1 2, [5]⟩

/-- The statics of node 0 of the three-node network as a proposer with value 7
that lost a competition against ballot (1,2): its next ballot is (2,0), it is
back in its prepare phase without majority, its loser timeout has run down to 1,
and as acceptor it has promised ballot (1,2). -/
def waiting_proposer : Globals :=
  { fresh_globals 1 with
    paxos_local := ⟨0, 0, 7, 0, [1]⟩,
    paxos_state := ⟨⟨ballot_of 2 0, 7, 1, PAXOS_PREPARE, 0, 0, 1⟩, ⟨ballot_of 1 2, 0, 0⟩, ⟨0⟩,
      0, 0, 0⟩,
    paxos_flags := true }

/-- The TX buffer of that node: the PREPARE of ballot (1,2) it forwarded, with
the flags of nodes 0 and 2. -/
def forwarded_prepare : paxos_t := ⟨ballot_of 1 2, PAXOS_PREPARE, 9, 0, [5]⟩

/-- The ACCEPT packet of ballot (1,2) with value 9 as node 1 sends it back: flags
of nodes 1 and 2. -/
def accept_reply_of_2 : paxos_t := ⟨ballot_of 1 2, PAXOS_ACCEPT, 9, ballot_of 1 2, [6]⟩

/-- The property `P` holds of `x`; used to name the property that is carried
through the branches of a conditional. -/
def holds {β : Sort _} (P : β → Prop) (x : β) : Prop := P x

/-! ## Conditions of a slot, as the specification names them -/

/-- The received payload is considered: the last slot succeeded and the node was
listening, or it is a proposer that transmitted. -/
def slot_valid (current_state : chaos_state_t) (chaos_txrx_success : Nat) (g : Globals) : Prop :=
  chaos_txrx_success ≠ 0
    ∧ (current_state = CHAOS_RX
        ∨ (current_state = CHAOS_TX ∧ g.paxos_state.proposer.is_proposer ≠ 0))

instance (current_state : chaos_state_t) (chaos_txrx_success : Nat) (g : Globals) :
    Decidable (slot_valid current_state chaos_txrx_success g) := by
  unfold slot_valid; infer_instance

/-- The payload is handled as a heartbeat: phase `PAXOS_INIT` while the acceptor's
`min_proposal` is 0. -/
def is_heartbeat (pl : paxos_t) (g : Globals) : Prop :=
  pl.phase = PAXOS_INIT ∧ g.paxos_state.acceptor.min_proposal = 0

instance (pl : paxos_t) (g : Globals) : Decidable (is_heartbeat pl g) := by
  unfold is_heartbeat; infer_instance

/-- The ordering check: the payload has a higher ballot than the TX packet, or
the same ballot and a phase that is not older. -/
def ordering_ok (pl tx_paxos : paxos_t) : Prop :=
  pl.ballot > tx_paxos.ballot ∨ (pl.ballot = tx_paxos.ballot ∧ pl.phase ≥ tx_paxos.phase)

instance (pl tx_paxos : paxos_t) : Decidable (ordering_ok pl tx_paxos) := by
  unfold ordering_ok; infer_instance

/-- New-phase detection: the payload's ballot and phase differ from the TX
packet's. -/
def is_new_phase (pl tx_paxos : paxos_t) : Prop :=
  ¬ (pl.ballot = tx_paxos.ballot ∧ pl.phase = tx_paxos.phase)

instance (pl tx_paxos : paxos_t) : Decidable (is_new_phase pl tx_paxos) := by
  unfold is_new_phase; infer_instance

/-- The payload a call of `process` reads on entry. -/
def entry_payload (current_state : chaos_state_t) (rx_paxos tx_paxos : paxos_t) : paxos_t :=
  if current_state = CHAOS_TX then tx_paxos else rx_paxos

/-- The call merges its payload: the slot is valid, the payload is not handled as
a heartbeat, and it passes the ordering check. -/
def merges (current_state : chaos_state_t) (chaos_txrx_success : Nat) (rx_paxos tx_paxos : paxos_t)
    (g : Globals) : Prop :=
  slot_valid current_state chaos_txrx_success g
    ∧ ¬ is_heartbeat (entry_payload current_state rx_paxos tx_paxos) g
    ∧ ordering_ok (entry_payload current_state rx_paxos tx_paxos) tx_paxos

instance (current_state : chaos_state_t) (chaos_txrx_success : Nat) (rx_paxos tx_paxos : paxos_t)
    (g : Globals) : Decidable (merges current_state chaos_txrx_success rx_paxos tx_paxos g) := by
  unfold merges; infer_instance

/-! ## The completion test -/

/-- Every node of the network has its flag bit set in the array. -/
def all_flags_set (env : Env) (p : List Nat) : Prop :=
  ∀ j, j < env.chaos_node_count → (rd p (j / 8)).testBit (j % 8) = true

/-- No bit above the node count is set in the first `FLAGS_LEN` bytes of the
array. -/
def no_stray_flags (env : Env) (p : List Nat) : Prop :=
  ∀ j, env.chaos_node_count ≤ j → j < 8 * FLAGS_LEN env → (rd p (j / 8)).testBit (j % 8) = false

/-- A flag byte of a network of three nodes in which only bit 3 is set: no node
has that index. -/
def stray_flag : List Nat := [8]

/-- Number of flag bits of byte `i` that belong to a node: 8 for a full byte, and
for the last byte the width of `LAST_FLAGS`. -/
def flag_bits (env : Env) (i : Nat) : Nat :=
  if i + 1 < FLAGS_LEN env then 8 else (env.chaos_node_count - 1) % 8 + 1

/-! ## Calls of `process` in sequence -/

/-- The call merges an ACCEPT-phase payload and the flag sum of its flag loop
reaches `FLAG_SUM`: the condition of the completion block. -/
def completes_in_accept (env : Env) (current_state : chaos_state_t) (chaos_txrx_success : Nat)
    (rx_paxos tx_paxos : paxos_t) (g : Globals) : Prop :=
  merges current_state chaos_txrx_success rx_paxos tx_paxos g
    ∧ (entry_payload current_state rx_paxos tx_paxos).phase = PAXOS_ACCEPT
    ∧ ((merged_flags env current_state rx_paxos
          (clear_tx (open_valid (entry_frame tx_paxos g)))).flag_sum : Int) ≥ FLAG_SUM env

instance (env : Env) (current_state : chaos_state_t) (chaos_txrx_success : Nat)
    (rx_paxos tx_paxos : paxos_t) (g : Globals) :
    Decidable (completes_in_accept env current_state chaos_txrx_success rx_paxos tx_paxos g) := by
  unfold completes_in_accept; infer_instance

/-- The arguments of one call of `process`, apart from the TX buffer and the
statics it works on. -/
structure Call where
  slot_count : Nat
  current_state : chaos_state_t
  chaos_txrx_success : Nat
  rx_paxos : paxos_t
  rnd : Nat
deriving DecidableEq, Repr

/-- One call of `process` on the TX buffer and the statics. -/
def Call.run (env : Env) (c : Call) (s : paxos_t × Globals) : paxos_t × Globals :=
  ((process env c.slot_count c.current_state c.chaos_txrx_success c.rx_paxos c.rnd s.1 s.2).tx_paxos,
   (process env c.slot_count c.current_state c.chaos_txrx_success c.rx_paxos c.rnd s.1 s.2).g)

/-- A sequence of calls of `process`, each on the TX buffer and the statics the
previous one left. -/
def run_calls (env : Env) (calls : List Call) (s : paxos_t × Globals) : paxos_t × Globals :=
  calls.foldl (fun s c => c.run env s) s

/-- The call `c`, made on the TX buffer and statics `s`, completes in ACCEPT. -/
def Call.completes (env : Env) (c : Call) (s : paxos_t × Globals) : Prop :=
  completes_in_accept env c.current_state c.chaos_txrx_success c.rx_paxos s.1 s.2

instance (env : Env) (c : Call) (s : paxos_t × Globals) : Decidable (c.completes env s) := by
  unfold Call.completes; infer_instance

/-- A heartbeat that carries the flags of nodes 0 and 2 of the three-node
network. -/
def heartbeat_of_0_2 : paxos_t := ⟨0, PAXOS_INIT, 0, 0, [5]⟩

/-- An ACCEPT packet of ballot (1,2) with value 9 under the flags of all three
nodes. -/
def accept_all_flags : paxos_t := ⟨ballot_of 1 2, PAXOS_ACCEPT, 9, ballot_of 1 2, [7]⟩

/-- Four calls on node 1, each in the radio state the previous call returned: the
round start, the heartbeat of nodes 0 and 2 received in slot 1, the node's own
transmission in slot 2, and the ACCEPT packet with all flags received in
slot 3. -/
def heartbeat_then_accept : List Call :=
  [⟨0, CHAOS_INIT, 0, empty_packet, 0⟩, ⟨1, CHAOS_RX, 1, heartbeat_of_0_2, 0⟩,
   ⟨2, CHAOS_TX, 1, empty_packet, 0⟩, ⟨3, CHAOS_RX, 1, accept_all_flags, 0⟩]

/-- Two calls on node 1: the round start and the ACCEPT packet with all flags
received in slot 1. -/
def accept_at_once : List Call :=
  [⟨0, CHAOS_INIT, 0, empty_packet, 0⟩, ⟨1, CHAOS_RX, 1, accept_all_flags, 0⟩]

/-! ## Calls in which a proposer starts a phase of its own -/

/-- The call runs INITIATE PAXOS ALGORITHM (1/3): a heartbeat reaches a proposer
that is still in `PAXOS_INIT`. -/
def initiates_on_heartbeat (current_state : chaos_state_t) (chaos_txrx_success : Nat)
    (rx_paxos tx_paxos : paxos_t) (g : Globals) : Prop :=
  slot_valid current_state chaos_txrx_success g
    ∧ is_heartbeat (entry_payload current_state rx_paxos tx_paxos) g
    ∧ g.paxos_state.proposer.is_proposer ≠ 0
    ∧ g.paxos_state.proposer.phase = PAXOS_INIT

instance (current_state : chaos_state_t) (chaos_txrx_success : Nat)
    (rx_paxos tx_paxos : paxos_t) (g : Globals) :
    Decidable (initiates_on_heartbeat current_state chaos_txrx_success rx_paxos tx_paxos g) := by
  unfold initiates_on_heartbeat; infer_instance

/-- What a phase update of the proposer logic requires of a call: the slot is
valid and not a heartbeat, the node is a proposer without majority, and either
its loser timeout stands at 1, or no timeout runs, it is in `PAXOS_PREPARE`, the
payload carries its own ballot in that phase, and the call ends with more than
N/2 flags counted in `n_replies`. -/
def may_update_phase (env : Env) (slot_count : Nat) (current_state : chaos_state_t)
    (chaos_txrx_success : Nat) (rx_paxos : paxos_t) (rnd : Nat) (tx_paxos : paxos_t)
    (g : Globals) : Prop :=
  slot_valid current_state chaos_txrx_success g
    ∧ ¬ is_heartbeat (entry_payload current_state rx_paxos tx_paxos) g
    ∧ g.paxos_state.proposer.is_proposer ≠ 0
    ∧ g.paxos_state.proposer.got_majority = 0
    ∧ (g.paxos_state.proposer.loser_timeout = 1
        ∨ (g.paxos_state.proposer.loser_timeout = 0
            ∧ g.paxos_state.proposer.phase = PAXOS_PREPARE
            ∧ (entry_payload current_state rx_paxos tx_paxos).ballot
                = g.paxos_state.proposer.proposed_ballot
            ∧ (entry_payload current_state rx_paxos tx_paxos).phase = PAXOS_PREPARE
            ∧ (process env slot_count current_state chaos_txrx_success rx_paxos rnd
                tx_paxos g).g.n_replies > env.chaos_node_count / 2))

instance (env : Env) (slot_count : Nat) (current_state : chaos_state_t)
    (chaos_txrx_success : Nat) (rx_paxos : paxos_t) (rnd : Nat) (tx_paxos : paxos_t)
    (g : Globals) :
    Decidable (may_update_phase env slot_count current_state chaos_txrx_success rx_paxos rnd
      tx_paxos g) := by
  unfold may_update_phase; infer_instance

/-- Every bit set in the flag array `a` is set in the flag array `b`. -/
def flags_within (a b : List Nat) : Prop :=
  ∀ i k, (rd a i).testBit k = true → (rd b i).testBit k = true

/-- Environment of node `i` in a network of five nodes, node 0 the initiator. -/
def env5 (i : Nat) : Env :=
  { chaos_node_count := 5, chaos_node_index := i, IS_INITIATOR := decide (i = 0),
    PAXOS_ROUND_MAX_SLOTS := 255, N_TX_COMPLETE := 9, CHAOS_RESTART_MIN := 4,
    CHAOS_RESTART_MAX := 10 }

/-- Node 0 of the five-node network as a proposer with value 7, four slots into
its round: it sent its PREPARE of ballot (1,0), received the reply of node 1 in
slot 2, transmitted again in slot 3, and now listens with the flags of nodes 0
and 1 in its TX buffer. -/
def gathering_proposer : Node :=
  ((((Node.start (env5 0) 1 7 0).slot 0 ⟨0, empty_packet, 0⟩).slot 1 ⟨1, empty_packet, 0⟩).slot 2
    ⟨1, ⟨ballot_of 1 0, PAXOS_PREPARE, 7, 0, [3]⟩, 0⟩).slot 3 ⟨1, empty_packet, 0⟩

/-- The PREPARE of ballot (1,0) as node 2 sends it back: flags of nodes 0 and 2,
no accepted proposal reported. -/
def prepare_reply_of_2 : paxos_t := ⟨ballot_of 1 0, PAXOS_PREPARE, 7, 0, [5]⟩

/-- Node 1 of the three-node network, an acceptor, three slots into a round: it
received the PREPARE of ballot (1,0) in slot 1 and transmitted its reply in
slot 2. -/
def replying_acceptor : Node :=
  (((Node.start (env3 1) 0 0 0).slot 0 ⟨0, empty_packet, 0⟩).slot 1
    ⟨1, ⟨ballot_of 1 0, PAXOS_PREPARE, 7, 0, [1]⟩, 0⟩).slot 2 ⟨1, empty_packet, 0⟩

/-! # Wireless Multi-Paxos: `core/net/mac/chaos/lib/multipaxos/multipaxos.{h,c}`

The same conventions as for `paxos.c`. The arrays of `MULTIPAXOS_PKT_SIZE` and
`MULTIPAXOS_LOG_SIZE` entries are lists; `int` is taken wider than 16 bits, so
that `payload->round + i` does not wrap. The statistics arrays
(`MULTIPAXOS_ADVANCED_STATISTICS`) are written but never read by the library and
are left out. -/

namespace Multi

/-! ## Types of `multipaxos.h` -/

/-- Phase `MULTIPAXOS_INIT` of the enum in `multipaxos.h`. -/
abbrev MULTIPAXOS_INIT : Nat := 0
/-- Phase `MULTIPAXOS_PREPARE`. -/
abbrev MULTIPAXOS_PREPARE : Nat := 1
/-- Phase `MULTIPAXOS_ACCEPT`. -/
abbrev MULTIPAXOS_ACCEPT : Nat := 2

/-- Packet `multipaxos_t`; `ballot` and the entries of `proposals` are the
numbers `n` of the ballot union, `flags` is the flexible array member. -/
structure multipaxos_t where
  ballot : Nat
  phase : Nat
  round : Nat
  max_heard_round : Nat
  values : List Nat
  proposals : List Nat
  flags : List Nat
deriving DecidableEq, Repr

/-- Struct `leader_state_t`. -/
structure leader_state_t where
  proposed_ballot : Nat
  proposed_values : List Nat
  is_leader : Nat
  phase : Nat
  current_round : Nat
  got_majority : Nat
  do_another_phase_1 : Nat
deriving DecidableEq, Repr

/-- Struct `acceptor_state_t` of `multipaxos.h`. -/
structure acceptor_state_t where
  min_proposal : Nat
  accepted_proposals : List Nat
  accepted_values : List Nat
  last_round_participation : Nat
deriving DecidableEq, Repr

/-- Struct `learner_state_t` of `multipaxos.h`. -/
structure learner_state_t where
  learned_values : List Nat
  last_round : Nat
deriving DecidableEq, Repr

/-- Struct `multipaxos_state_t`. -/
structure multipaxos_state_t where
  leader : leader_state_t
  acceptor : acceptor_state_t
  learner : learner_state_t
  rx_min_proposal : Nat
  rx_accepted_proposals : List Nat
  rx_accepted_values : List Nat
  rx_max_heard_round : Nat
deriving DecidableEq, Repr

/-- What `multipaxos.c` takes from its environment: the network size and the
node's index, whether the node is the Synchrotron initiator, the configuration
macros of `multipaxos.h` (defaults 255, 2, 8 and 255) and the constants of the
scheduler, whose header is outside the sources at hand. -/
structure Env where
  chaos_node_count : Nat
  chaos_node_index : Nat
  IS_INITIATOR : Bool
  MULTIPAXOS_ROUND_MAX_SLOTS : Nat
  MULTIPAXOS_PKT_SIZE : Nat
  MULTIPAXOS_LOG_SIZE : Nat
  MULTIPAXOS_NO_OP : Nat
  N_TX_COMPLETE : Nat
  CHAOS_RESTART_MIN : Nat
  CHAOS_RESTART_MAX : Nat
deriving DecidableEq, Repr

/-! ## Macros and helpers of `multipaxos.c`

`FLAGS_LEN_X` and `bit_count` have the text they have in `paxos.c`. -/

/-- Macro `FLAGS_LEN` of `multipaxos.c`. -/
def FLAGS_LEN (env : Env) : Nat := FLAGS_LEN_X env.chaos_node_count

/-- Macro `LAST_FLAGS` of `multipaxos.c`, computed in `int`. -/
def LAST_FLAGS (env : Env) : Int :=
  ((1 <<< ((((env.chaos_node_count : Int) - 1) % 8).toNat + 1) : Nat) : Int) - 1

/-- Macro `FLAG_SUM` of `multipaxos.c`, computed in `int`. -/
def FLAG_SUM (env : Env) : Int :=
  ((FLAGS_LEN env : Int) - 1) * 256 - ((FLAGS_LEN env : Int) - 1) + LAST_FLAGS env

/-- The statement `flags[chaos_node_index / 8] |= 1 << (chaos_node_index % 8)`. -/
def set_own_flag (env : Env) (t : List Nat) : List Nat :=
  t.set (env.chaos_node_index / 8)
    (rd t (env.chaos_node_index / 8) ||| (1 <<< (env.chaos_node_index % 8)))

/-- A `memset` to 0 of the first `len` entries of an array. -/
def zero_first (len : Nat) (t : List Nat) : List Nat :=
  (List.range len).foldl (fun d i => d.set i 0) t

/-- A copy of the first `len` entries of `src` into `dst`. -/
def copy_first (len : Nat) (dst src : List Nat) : List Nat :=
  (List.range len).foldl (fun d i => d.set i (rd src i)) dst

/-! ## File-scope variables of `multipaxos.c` -/

/-- The variables of `multipaxos.c` at file scope. `multipaxos_local` is the
template packet with its flag bytes; the pointer `multipaxos_flags` is never
used. -/
structure Globals where
  not_heard_from_leader_since : Nat
  tx : Nat
  complete : Nat
  completion_slot : Nat
  off_slot : Nat
  tx_count_complete : Nat
  invalid_rx_count : Nat
  got_valid_rx : Nat
  n_replies : Nat
  values_chosen_this_round : Nat
  restart_threshold : Nat
  multipaxos_local : multipaxos_t
  multipaxos_state : multipaxos_state_t
deriving DecidableEq, Repr

/-- What a call of `process` works on: the statics, the TX buffer `*tx_payload`
and the local `rx_delta`. -/
structure Frame where
  g : Globals
  tx_multipaxos : multipaxos_t
  rx_delta : Nat
deriving DecidableEq, Repr

/-- The pointer `payload`: the RX packet, or the TX buffer itself when the node
transmitted in this slot. -/
def payload (current_state : chaos_state_t) (rx_multipaxos : multipaxos_t) (f : Frame) :
    multipaxos_t :=
  if current_state = CHAOS_TX then f.tx_multipaxos else rx_multipaxos

/-- The statement `tx = 1`. -/
def set_tx (f : Frame) : Frame := { f with g.tx := 1 }

/-- The statement `tx = rx_delta = 1`. -/
def force_tx (f : Frame) : Frame := { f with g.tx := 1, rx_delta := 1 }

/-- The statement `memcpy(tx_multipaxos->flags, multipaxos_local.multipaxos.flags,
FLAGS_LEN)`. -/
def template_flags (env : Env) (f : Frame) : Frame :=
  { f with
    tx_multipaxos.flags :=
      copy_first (FLAGS_LEN env) f.tx_multipaxos.flags f.g.multipaxos_local.flags }

/-! ## The per-slot function `process` of `multipaxos.c`

As for `paxos.c`, the body is cut into the blocks its comments name. `K` stands
for `MULTIPAXOS_PKT_SIZE` and `L` for `MULTIPAXOS_LOG_SIZE` in the comments. The
loops over the `K` entries of a packet count in a `uint8_t`, so `K` is at most
255. -/

/-- The frame a call of `process` starts from: `rx_delta = 0`, `tx = 0` and
`n_replies = 0`. -/
def entry_frame (tx_multipaxos : multipaxos_t) (g : Globals) : Frame :=
  { g := { g with tx := 0, n_replies := 0 }, tx_multipaxos := tx_multipaxos, rx_delta := 0 }

/-- The statement `if (!got_valid_rx && !is_leader) memset(tx_multipaxos, 0,
sizeof(multipaxos_t) + FLAGS_LEN)`. -/
def reset_tx (env : Env) (f : Frame) : Frame :=
  if f.g.got_valid_rx = 0 ∧ f.g.multipaxos_state.leader.is_leader = 0 then
    { f with
      tx_multipaxos :=
        { ballot := 0, phase := 0, round := 0, max_heard_round := 0,
          values := zero_first env.MULTIPAXOS_PKT_SIZE f.tx_multipaxos.values,
          proposals := zero_first env.MULTIPAXOS_PKT_SIZE f.tx_multipaxos.proposals,
          flags := zero_first (FLAGS_LEN env) f.tx_multipaxos.flags } }
  else f

/-- The statements that open a valid slot: `got_valid_rx = 1`, then the reset of
the TX buffer, which tests the variable just set. -/
def open_valid (env : Env) (f : Frame) : Frame :=
  reset_tx env { f with g.got_valid_rx := 1 }

/-- A leader still in `MULTIPAXOS_INIT` starts its prepare phase: the TX header
gets the current round, the proposed ballot and the phase, the acceptor's
`min_proposal` is set to the proposed ballot, and `got_majority = 0`. -/
def leader_initiate (f : Frame) : Frame :=
  { f with
    tx_multipaxos.round := f.g.multipaxos_state.leader.current_round,
    g.multipaxos_state.leader.phase := MULTIPAXOS_PREPARE,
    tx_multipaxos.ballot := f.g.multipaxos_state.leader.proposed_ballot,
    tx_multipaxos.phase := MULTIPAXOS_PREPARE,
    g.multipaxos_state.acceptor.min_proposal := f.g.multipaxos_state.leader.proposed_ballot,
    g.multipaxos_state.leader.got_majority := 0 }

/-- A leader that has proposed before writes its current round and phase to the
TX header. -/
def leader_header (f : Frame) : Frame :=
  { f with
    tx_multipaxos.round := f.g.multipaxos_state.leader.current_round,
    tx_multipaxos.phase := f.g.multipaxos_state.leader.phase }

/-- The loop `for (i = 0; i < K; ++i) { values[i] = proposed_values[i];
proposals[i].n = 0; }` on the TX packet. -/
def leader_new_values (env : Env) (f : Frame) : Frame :=
  { f with
    tx_multipaxos.values :=
      copy_first env.MULTIPAXOS_PKT_SIZE f.tx_multipaxos.values
        f.g.multipaxos_state.leader.proposed_values,
    tx_multipaxos.proposals := zero_first env.MULTIPAXOS_PKT_SIZE f.tx_multipaxos.proposals }

/-- The statement `got_majority = 0`. -/
def clear_majority (f : Frame) : Frame :=
  { f with g.multipaxos_state.leader.got_majority := 0 }

/-- Heartbeat, leader that has proposed before: header, new values after a
majority, and `got_majority = 0`. -/
def leader_resume (env : Env) (f : Frame) : Frame :=
  clear_majority
    (if f.g.multipaxos_state.leader.got_majority ≠ 0 then leader_new_values env (leader_header f)
     else leader_header f)

/-- Heartbeat on a leader (INITIATE PAXOS ALGORITHM 1/1): the flags are reset to
the template, the TX packet is set up, and `tx = 1`. -/
def heartbeat_leader (env : Env) (f : Frame) : Frame :=
  set_tx
    (if f.g.multipaxos_state.leader.phase = MULTIPAXOS_INIT then
       leader_initiate (template_flags env f)
     else leader_resume env (template_flags env f))

/-- The statement `memcpy(tx_multipaxos, payload, sizeof(multipaxos_t))`: the
header with its `K` values and proposals, without the flags. -/
def copy_header (env : Env) (pl : multipaxos_t) (f : Frame) : Frame :=
  { f with
    tx_multipaxos :=
      { ballot := pl.ballot, phase := pl.phase, round := pl.round,
        max_heard_round := pl.max_heard_round,
        values := copy_first env.MULTIPAXOS_PKT_SIZE f.tx_multipaxos.values pl.values,
        proposals := copy_first env.MULTIPAXOS_PKT_SIZE f.tx_multipaxos.proposals pl.proposals,
        flags := f.tx_multipaxos.flags } }

/-- The flag loop of the heartbeat and what follows it: `tx |= (payload->flags[i]
!= tx->flags[i]); tx->flags[i] |= payload->flags[i]; flag_sum += tx->flags[i]`,
then `complete = 1` when the sum reaches `FLAG_SUM`. -/
def heartbeat_flags (env : Env) (pflags : List Nat) (f : Frame) : Frame :=
  { f with
    tx_multipaxos.flags :=
      (merge_loop (FLAGS_LEN env) pflags f.tx_multipaxos.flags f.g.tx).flags,
    g.tx := (merge_loop (FLAGS_LEN env) pflags f.tx_multipaxos.flags f.g.tx).delta,
    g.complete :=
      if ((merge_loop (FLAGS_LEN env) pflags f.tx_multipaxos.flags f.g.tx).flag_sum : Int)
          ≥ FLAG_SUM env then 1
      else f.g.complete }

/-- Heartbeat on a node that is not a leader and whose TX ballot is 0: the header
is copied and the flags are merged. -/
def heartbeat_forward (env : Env) (current_state : chaos_state_t) (rx_multipaxos : multipaxos_t)
    (f : Frame) : Frame :=
  heartbeat_flags env
    (payload current_state rx_multipaxos
      (copy_header env (payload current_state rx_multipaxos f) f)).flags
    (copy_header env (payload current_state rx_multipaxos f) f)

/-- The statement `rx_delta = tx`. -/
def delta_of_tx (f : Frame) : Frame := { f with rx_delta := f.g.tx }

/-- The branch taken for a `MULTIPAXOS_INIT` payload, closed by `rx_delta = tx`. -/
def heartbeat (env : Env) (current_state : chaos_state_t) (rx_multipaxos : multipaxos_t)
    (f : Frame) : Frame :=
  delta_of_tx
    (if f.g.multipaxos_state.leader.is_leader ≠ 0 then heartbeat_leader env f
     else if f.tx_multipaxos.ballot = 0 then heartbeat_forward env current_state rx_multipaxos f
     else f)

/-! ### Acceptor logic -/

/-- The ordering check of the acceptor logic: a higher ballot, or the same ballot
and a higher round, or the same ballot and round and a phase that is not
older. -/
def ordering_ok (pl tx_multipaxos : multipaxos_t) : Prop :=
  pl.ballot > tx_multipaxos.ballot
    ∨ (pl.ballot = tx_multipaxos.ballot ∧ pl.round > tx_multipaxos.round)
    ∨ (pl.ballot = tx_multipaxos.ballot ∧ pl.round = tx_multipaxos.round
        ∧ pl.phase ≥ tx_multipaxos.phase)

instance (pl tx_multipaxos : multipaxos_t) : Decidable (ordering_ok pl tx_multipaxos) := by
  unfold ordering_ok; infer_instance

/-- The local `new_phase` of the acceptor logic. -/
def new_phase_of (pl tx_multipaxos : multipaxos_t) : Nat :=
  if ¬ (pl.ballot = tx_multipaxos.ballot ∧ pl.phase = tx_multipaxos.phase
      ∧ pl.round = tx_multipaxos.round) then 1 else 0

/-- A `memset` to 0 of a whole array. -/
def zero_all (t : List Nat) : List Nat := List.replicate t.length 0

/-- The statement `not_heard_from_leader_since = 0`. -/
def heard_leader (f : Frame) : Frame := { f with g.not_heard_from_leader_since := 0 }

/-- The four `memset`s of the aggregation variables. -/
def clear_aggregation (f : Frame) : Frame :=
  { f with
    g.multipaxos_state.rx_accepted_proposals := zero_all f.g.multipaxos_state.rx_accepted_proposals,
    g.multipaxos_state.rx_accepted_values := zero_all f.g.multipaxos_state.rx_accepted_values,
    g.multipaxos_state.rx_max_heard_round := 0,
    g.multipaxos_state.rx_min_proposal := 0 }

/-- The block on a new phase: `memcpy(tx_multipaxos, payload, sizeof(multipaxos_t)
+ FLAGS_LEN)` and the `memset`s of the aggregation variables. -/
def new_phase_copy (env : Env) (pl : multipaxos_t) (f : Frame) : Frame :=
  clear_aggregation
    { f with
      tx_multipaxos :=
        { ballot := pl.ballot, phase := pl.phase, round := pl.round,
          max_heard_round := pl.max_heard_round,
          values := copy_first env.MULTIPAXOS_PKT_SIZE f.tx_multipaxos.values pl.values,
          proposals := copy_first env.MULTIPAXOS_PKT_SIZE f.tx_multipaxos.proposals pl.proposals,
          flags := copy_first (FLAGS_LEN env) f.tx_multipaxos.flags pl.flags } }

/-- Acceptor, PREPARE: a higher ballot becomes `min_proposal`. -/
def prepare_promise (pl : multipaxos_t) (f : Frame) : Frame :=
  if pl.ballot > f.g.multipaxos_state.acceptor.min_proposal then
    { f with g.multipaxos_state.acceptor.min_proposal := pl.ballot }
  else f

/-- The value `rx_max_heard_round` takes in the PREPARE phase: `MAX` with the
payload's `max_heard_round`, then `MAX` with `last_round_participation`. -/
def prepare_max_round (pl : multipaxos_t) (f : Frame) : Nat :=
  MAX f.g.multipaxos_state.acceptor.last_round_participation
    (MAX pl.max_heard_round f.g.multipaxos_state.rx_max_heard_round)

/-- Acceptor, PREPARE: the highest round heard is kept and written to the TX
packet. -/
def prepare_round (pl : multipaxos_t) (f : Frame) : Frame :=
  { f with
    g.multipaxos_state.rx_max_heard_round := prepare_max_round pl f,
    tx_multipaxos.max_heard_round := prepare_max_round pl f }

/-- Acceptor, PREPARE, entry `i` of the packet: a local accepted proposal for the
decree `payload->round + i`, if the node participated in it and it is higher
than the aggregate, is saved to the aggregate with its value. -/
def prepare_local (env : Env) (pl : multipaxos_t) (i : Nat) (f : Frame) : Frame :=
  if pl.round + i ≤ f.g.multipaxos_state.acceptor.last_round_participation
      ∧ rd f.g.multipaxos_state.acceptor.accepted_proposals
          ((pl.round + i) % env.MULTIPAXOS_LOG_SIZE)
        > rd f.g.multipaxos_state.rx_accepted_proposals i then
    { f with
      g.multipaxos_state.rx_accepted_proposals :=
        f.g.multipaxos_state.rx_accepted_proposals.set i
          (rd f.g.multipaxos_state.acceptor.accepted_proposals
            ((pl.round + i) % env.MULTIPAXOS_LOG_SIZE)),
      g.multipaxos_state.rx_accepted_values :=
        f.g.multipaxos_state.rx_accepted_values.set i
          (rd f.g.multipaxos_state.acceptor.accepted_values
            ((pl.round + i) % env.MULTIPAXOS_LOG_SIZE)) }
  else f

/-- Acceptor, PREPARE, entry `i` of the packet: a higher aggregate is written to
the TX packet with `tx = rx_delta = 1`, otherwise the payload's entry is saved
to the aggregate. -/
def prepare_merge (pl : multipaxos_t) (i : Nat) (f : Frame) : Frame :=
  if rd pl.proposals i < rd f.g.multipaxos_state.rx_accepted_proposals i then
    force_tx
      { f with
        tx_multipaxos.proposals :=
          f.tx_multipaxos.proposals.set i (rd f.g.multipaxos_state.rx_accepted_proposals i),
        tx_multipaxos.values :=
          f.tx_multipaxos.values.set i (rd f.g.multipaxos_state.rx_accepted_values i) }
  else
    { f with
      g.multipaxos_state.rx_accepted_proposals :=
        f.g.multipaxos_state.rx_accepted_proposals.set i (rd pl.proposals i),
      g.multipaxos_state.rx_accepted_values :=
        f.g.multipaxos_state.rx_accepted_values.set i (rd pl.values i) }

/-- Body of the loop over the entries of a PREPARE packet; the payload is read
in the frame the iteration starts from. -/
def prepare_step (env : Env) (current_state : chaos_state_t) (rx_multipaxos : multipaxos_t)
    (f : Frame) (i : Nat) : Frame :=
  prepare_merge (payload current_state rx_multipaxos f) i
    (prepare_local env (payload current_state rx_multipaxos f) i f)

/-- Acceptor logic, PREPARE phase. -/
def acceptor_prepare (env : Env) (current_state : chaos_state_t) (rx_multipaxos : multipaxos_t)
    (f : Frame) : Frame :=
  (List.range env.MULTIPAXOS_PKT_SIZE).foldl (prepare_step env current_state rx_multipaxos)
    (prepare_round (payload current_state rx_multipaxos f)
      (prepare_promise (payload current_state rx_multipaxos f) f))

/-- The decrees the catch-up loop `for (i = payload->round; i >
last_round_participation; --i)` visits, in order. Its counter `i` is a
`uint8_t`, so it starts from the low byte of `payload->round`. -/
def catch_up_decrees (pl : multipaxos_t) (f : Frame) : List Nat :=
  (List.range (pl.round % 256 - f.g.multipaxos_state.acceptor.last_round_participation)).map
    (fun j => pl.round % 256 - j)

/-- Acceptor, ACCEPT: the log entries of the decrees since the last round the node
participated in are set to 0. -/
def catch_up (env : Env) (pl : multipaxos_t) (f : Frame) : Frame :=
  { f with
    g.multipaxos_state.acceptor.accepted_proposals :=
      (catch_up_decrees pl f).foldl (fun a d => a.set (d % env.MULTIPAXOS_LOG_SIZE) 0)
        f.g.multipaxos_state.acceptor.accepted_proposals,
    g.multipaxos_state.acceptor.accepted_values :=
      (catch_up_decrees pl f).foldl (fun a d => a.set (d % env.MULTIPAXOS_LOG_SIZE) 0)
        f.g.multipaxos_state.acceptor.accepted_values }

/-- Acceptor, ACCEPT: `min_proposal` is set to the payload's ballot, and the `K`
values of the packet are written to the log with that ballot. -/
def accept_batch (env : Env) (pl : multipaxos_t) (f : Frame) : Frame :=
  { f with
    g.multipaxos_state.acceptor.min_proposal := pl.ballot,
    g.multipaxos_state.acceptor.accepted_proposals :=
      (List.range env.MULTIPAXOS_PKT_SIZE).foldl
        (fun a i => a.set ((pl.round + i) % env.MULTIPAXOS_LOG_SIZE) pl.ballot)
        f.g.multipaxos_state.acceptor.accepted_proposals,
    g.multipaxos_state.acceptor.accepted_values :=
      (List.range env.MULTIPAXOS_PKT_SIZE).foldl
        (fun a i => a.set ((pl.round + i) % env.MULTIPAXOS_LOG_SIZE) (rd pl.values i))
        f.g.multipaxos_state.acceptor.accepted_values }

/-- The value `MAX(last_round_participation, payload->round + K - 1)`, computed in
`int` and stored in 16 bits. -/
def accept_last_round (env : Env) (pl : multipaxos_t) (f : Frame) : Nat :=
  if (f.g.multipaxos_state.acceptor.last_round_participation : Int)
      > (pl.round : Int) + (env.MULTIPAXOS_PKT_SIZE : Int) - 1 then
    f.g.multipaxos_state.acceptor.last_round_participation
  else (((pl.round : Int) + (env.MULTIPAXOS_PKT_SIZE : Int) - 1) % 65536).toNat

/-- Acceptor, ACCEPT: a ballot that is not below `min_proposal` is accepted:
catch-up, the writes of the batch, and the last round participated in. -/
def accept_write (env : Env) (pl : multipaxos_t) (f : Frame) : Frame :=
  if pl.ballot ≥ f.g.multipaxos_state.acceptor.min_proposal then
    { accept_batch env pl (catch_up env pl f) with
      g.multipaxos_state.acceptor.last_round_participation := accept_last_round env pl f }
  else f

/-- The value `rx_min_proposal` takes in the ACCEPT phase: `MAX` with the local
`min_proposal`, then `MAX` with the payload's first proposal. -/
def accept_min (pl : multipaxos_t) (f : Frame) : Nat :=
  MAX (rd pl.proposals 0)
    (MAX f.g.multipaxos_state.acceptor.min_proposal f.g.multipaxos_state.rx_min_proposal)

/-- Acceptor, ACCEPT: the highest `min_proposal` heard is kept in
`rx_min_proposal` and written to the TX packet when the payload's is lower. -/
def accept_min_report (pl : multipaxos_t) (f : Frame) : Frame :=
  if rd pl.proposals 0 < accept_min pl f then
    force_tx
      { f with
        g.multipaxos_state.rx_min_proposal := accept_min pl f,
        tx_multipaxos.proposals := f.tx_multipaxos.proposals.set 0 (accept_min pl f) }
  else { f with g.multipaxos_state.rx_min_proposal := accept_min pl f }

/-- Acceptor logic, ACCEPT phase. -/
def acceptor_accept (env : Env) (current_state : chaos_state_t) (rx_multipaxos : multipaxos_t)
    (f : Frame) : Frame :=
  accept_min_report (payload current_state rx_multipaxos f)
    (accept_write env (payload current_state rx_multipaxos f) f)

/-- The phase switch of the acceptor logic; any other phase value does nothing. -/
def acceptor_phase (env : Env) (current_state : chaos_state_t) (rx_multipaxos : multipaxos_t)
    (f : Frame) : Frame :=
  if (payload current_state rx_multipaxos f).phase = MULTIPAXOS_PREPARE then
    acceptor_prepare env current_state rx_multipaxos f
  else if (payload current_state rx_multipaxos f).phase = MULTIPAXOS_ACCEPT then
    acceptor_accept env current_state rx_multipaxos f
  else f

/-! ### Transmission logic -/

/-- Body of the merging loop: `n_replies += bit_count(t[i]); tx |= (p[i] != t[i]);
t[i] |= p[i]; flag_sum += t[i]`. The field `delta` holds `tx`; the count is
taken before the merge. -/
def merge_step (p : List Nat) (a : FlagAcc) (i : Nat) : FlagAcc :=
  { delta := a.delta ||| (if rd p i ≠ rd a.flags i then 1 else 0),
    flags := a.flags.set i (rd a.flags i ||| rd p i),
    flag_sum := a.flag_sum + (rd a.flags i ||| rd p i),
    n_replies := a.n_replies + bit_count (rd a.flags i) }

/-- Body of the loop of a new phase: `n_replies += bit_count(t[i]); flag_sum +=
t[i]; tx = 1`. -/
def count_step (a : FlagAcc) (i : Nat) : FlagAcc :=
  { delta := 1,
    flags := a.flags,
    flag_sum := a.flag_sum + rd a.flags i,
    n_replies := a.n_replies + bit_count (rd a.flags i) }

/-- The flag loop of the transmission logic, started from `tx` and `n_replies` as
they stand and `flag_sum = 0`. -/
def flag_loop (env : Env) (new_phase : Nat) (pflags : List Nat) (f : Frame) : FlagAcc :=
  if new_phase = 0 then
    (List.range (FLAGS_LEN env)).foldl (merge_step pflags)
      ⟨f.g.tx, f.tx_multipaxos.flags, 0, f.g.n_replies⟩
  else
    (List.range (FLAGS_LEN env)).foldl count_step
      ⟨f.g.tx, f.tx_multipaxos.flags, 0, f.g.n_replies⟩

/-- What the flag loop leaves in the frame; on a new phase the own flag is set
after the loop. Then `rx_delta |= tx`. -/
def flags_stage (env : Env) (new_phase : Nat) (m : FlagAcc) (f : Frame) : Frame :=
  { f with
    tx_multipaxos.flags := if new_phase = 0 then m.flags else set_own_flag env m.flags,
    g.tx := m.delta,
    g.n_replies := m.n_replies,
    rx_delta := f.rx_delta ||| m.delta }

/-- The loop of the quorum read: `learned_values[(payload->round + i) % L] =
payload->values[i]` for the `K` entries. -/
def learn_values (env : Env) (pl : multipaxos_t) (learned_values : List Nat) : List Nat :=
  (List.range env.MULTIPAXOS_PKT_SIZE).foldl
    (fun a i => a.set ((pl.round + i) % env.MULTIPAXOS_LOG_SIZE) (rd pl.values i))
    learned_values

/-- The quorum read: the values of an ACCEPT payload under a majority of flags
are learned, and `last_round` (16 bits) is the last decree of the batch. -/
def quorum_read (env : Env) (pl : multipaxos_t) (f : Frame) : Frame :=
  if pl.phase = MULTIPAXOS_ACCEPT ∧ f.g.n_replies > env.chaos_node_count / 2 then
    { f with
      g.values_chosen_this_round := 1,
      g.multipaxos_state.learner.learned_values :=
        learn_values env pl f.g.multipaxos_state.learner.learned_values,
      g.multipaxos_state.learner.last_round :=
        (((pl.round : Int) + (env.MULTIPAXOS_PKT_SIZE : Int) - 1) % 65536).toNat }
  else f

/-- The statements under `if (!complete)`: the first completion is recorded. -/
def record_completion (slot_count : Nat) (f : Frame) : Frame :=
  if f.g.complete = 0 then { f with g.completion_slot := slot_count, g.complete := 1 }
  else f

/-- Completion: all flags are set in an ACCEPT phase. -/
def completion (env : Env) (slot_count : Nat) (pl : multipaxos_t) (flag_sum : Nat)
    (f : Frame) : Frame :=
  if pl.phase = MULTIPAXOS_ACCEPT ∧ (flag_sum : Int) ≥ FLAG_SUM env then
    record_completion slot_count (set_tx f)
  else f

/-- The transmission logic that follows the acceptor phases: flag loop, quorum
read, completion. The payload is read again after the flags were written. -/
def transmission_logic (env : Env) (slot_count : Nat) (current_state : chaos_state_t)
    (rx_multipaxos : multipaxos_t) (new_phase : Nat) (f : Frame) : Frame :=
  let m := flag_loop env new_phase (payload current_state rx_multipaxos f).flags f
  let f1 := flags_stage env new_phase m f
  let pl := payload current_state rx_multipaxos f1
  completion env slot_count pl m.flag_sum (quorum_read env pl f1)

/-- The frame after `not_heard_from_leader_since = 0` and the new-phase block. -/
def after_new_phase (env : Env) (current_state : chaos_state_t) (rx_multipaxos : multipaxos_t)
    (new_phase : Nat) (f : Frame) : Frame :=
  if new_phase ≠ 0 then
    new_phase_copy env (payload current_state rx_multipaxos (heard_leader f)) (heard_leader f)
  else heard_leader f

/-- The acceptor logic after the ordering check passed. -/
def acceptor_merge (env : Env) (slot_count : Nat) (current_state : chaos_state_t)
    (rx_multipaxos : multipaxos_t) (new_phase : Nat) (f : Frame) : Frame :=
  transmission_logic env slot_count current_state rx_multipaxos new_phase
    (acceptor_phase env current_state rx_multipaxos
      (after_new_phase env current_state rx_multipaxos new_phase f))

/-- The acceptor logic of a valid slot whose payload is not in
`MULTIPAXOS_INIT`: the ordering check and what follows from it; for an older
packet only `tx` is set. -/
def acceptor_logic (env : Env) (slot_count : Nat) (current_state : chaos_state_t)
    (rx_multipaxos : multipaxos_t) (f : Frame) : Frame :=
  if ordering_ok (payload current_state rx_multipaxos f) f.tx_multipaxos then
    acceptor_merge env slot_count current_state rx_multipaxos
      (new_phase_of (payload current_state rx_multipaxos f) f.tx_multipaxos) f
  else set_tx f

/-! ### Leader logic -/

/-- Local variables `lost_proposal` and `update_phase` of the leader logic, next
to the frame. -/
structure LeadFrame where
  f : Frame
  lost_proposal : Nat
  update_phase : Nat
deriving DecidableEq, Repr

/-- Variables of the loop that evaluates a PREPARE phase: the leader's
`proposed_values`, `lost_proposal` and `any_value_accepted`. -/
structure FillAcc where
  proposed_values : List Nat
  lost_proposal : Nat
  any_value_accepted : Nat
deriving DecidableEq, Repr

/-- Body of that loop for entry `i`: a reported proposal above the leader's ballot
loses; a reported value is adopted; an entry without report below a reported one
gets `MULTIPAXOS_NO_OP`. -/
def fill_step (env : Env) (f : Frame) (a : FillAcc) (i : Nat) : FillAcc :=
  { proposed_values :=
      if rd f.g.multipaxos_state.rx_accepted_proposals i ≠ 0 then
        a.proposed_values.set i (rd f.g.multipaxos_state.rx_accepted_values i)
      else if a.any_value_accepted ≠ 0 then a.proposed_values.set i env.MULTIPAXOS_NO_OP
      else a.proposed_values,
    lost_proposal :=
      if rd f.g.multipaxos_state.rx_accepted_proposals i
          > f.g.multipaxos_state.leader.proposed_ballot then 1
      else a.lost_proposal,
    any_value_accepted :=
      if rd f.g.multipaxos_state.rx_accepted_proposals i ≠ 0 then 1 else a.any_value_accepted }

/-- The first index of the loop, `MIN(K - 1, payload->max_heard_round -
payload->round)`, computed in `int`. -/
def fill_bound (env : Env) (pl : multipaxos_t) : Int :=
  if (env.MULTIPAXOS_PKT_SIZE : Int) - 1 < (pl.max_heard_round : Int) - (pl.round : Int) then
    (env.MULTIPAXOS_PKT_SIZE : Int) - 1
  else (pl.max_heard_round : Int) - (pl.round : Int)

/-- The loop `for (i = MIN(...); i >= 0; --i)` of the leader's PREPARE
evaluation. -/
def fill_loop (env : Env) (pl : multipaxos_t) (f : Frame) : FillAcc :=
  (List.range (fill_bound env pl + 1).toNat).reverse.foldl (fill_step env f)
    ⟨f.g.multipaxos_state.leader.proposed_values, 0, 0⟩

/-- The value of `do_another_phase_1`: 1 when an acceptor took part in a round the
packet cannot report. -/
def another_phase (env : Env) (pl : multipaxos_t) : Nat :=
  if (pl.max_heard_round : Int) > (pl.round : Int) + (env.MULTIPAXOS_PKT_SIZE : Int) - 1 then 1
  else 0

/-- Leader, own ballot, phase and round, in PREPARE: the reports are evaluated,
`do_another_phase_1` is set, and with a majority and no loss the leader switches
to ACCEPT with `update_phase = 2`. -/
def leader_prepare (env : Env) (pl : multipaxos_t) (f : Frame) : LeadFrame :=
  if (fill_loop env pl f).lost_proposal = 0 ∧ f.g.n_replies > env.chaos_node_count / 2 then
    ⟨{ f with
       g.multipaxos_state.leader.proposed_values := (fill_loop env pl f).proposed_values,
       g.multipaxos_state.leader.do_another_phase_1 := another_phase env pl,
       g.multipaxos_state.leader.phase := MULTIPAXOS_ACCEPT },
     (fill_loop env pl f).lost_proposal, 2⟩
  else
    ⟨{ f with
       g.multipaxos_state.leader.proposed_values := (fill_loop env pl f).proposed_values,
       g.multipaxos_state.leader.do_another_phase_1 := another_phase env pl },
     (fill_loop env pl f).lost_proposal, 0⟩

/-- Leader in ACCEPT with a majority and no loss: `got_majority = 1`, the current
round (16 bits) advances by `K`, and with `do_another_phase_1` set the leader
goes back to PREPARE with `update_phase = 1`. -/
def leader_advance (env : Env) (f : Frame) : LeadFrame :=
  if f.g.multipaxos_state.leader.do_another_phase_1 ≠ 0 then
    ⟨{ f with
       g.multipaxos_state.leader.got_majority := 1,
       g.multipaxos_state.leader.current_round :=
         (f.g.multipaxos_state.leader.current_round + env.MULTIPAXOS_PKT_SIZE) % 65536,
       g.multipaxos_state.leader.phase := MULTIPAXOS_PREPARE },
     0, 1⟩
  else
    ⟨{ f with
       g.multipaxos_state.leader.got_majority := 1,
       g.multipaxos_state.leader.current_round :=
         (f.g.multipaxos_state.leader.current_round + env.MULTIPAXOS_PKT_SIZE) % 65536 },
     0, 0⟩

/-- Leader, own ballot, phase and round, in ACCEPT: a higher reported
`min_proposal` loses; otherwise a majority completes the batch. -/
def leader_accept (env : Env) (f : Frame) : LeadFrame :=
  if f.g.multipaxos_state.rx_min_proposal > f.g.multipaxos_state.leader.proposed_ballot then
    ⟨f, 1, 0⟩
  else if f.g.n_replies > env.chaos_node_count / 2 then
    if f.g.multipaxos_state.leader.got_majority = 0 then leader_advance env f else ⟨f, 0, 0⟩
  else ⟨f, 0, 0⟩

/-- The statement `if (tx_multipaxos->phase != leader.phase) rx_delta = 1`. -/
def phase_delta (a : LeadFrame) : LeadFrame :=
  if a.f.tx_multipaxos.phase ≠ a.f.g.multipaxos_state.leader.phase then
    { a with f.rx_delta := 1 }
  else a

/-- Leader logic for a payload that carries the leader's own ballot, phase and
round. -/
def leader_own (env : Env) (pl : multipaxos_t) (f : Frame) : LeadFrame :=
  phase_delta
    (if f.g.multipaxos_state.leader.phase = MULTIPAXOS_PREPARE then leader_prepare env pl f
     else if f.g.multipaxos_state.leader.phase = MULTIPAXOS_ACCEPT then leader_accept env f
     else ⟨f, 0, 0⟩)

/-- Leader logic: own ballot, higher ballot, or smaller ballot. -/
def leader_compete (env : Env) (pl : multipaxos_t) (f : Frame) : LeadFrame :=
  if pl.ballot = f.g.multipaxos_state.leader.proposed_ballot then
    if pl.phase = f.g.multipaxos_state.leader.phase
        ∧ pl.round = f.g.multipaxos_state.leader.current_round then
      leader_own env pl f
    else ⟨set_tx f, 0, 0⟩
  else if pl.ballot > f.g.multipaxos_state.leader.proposed_ballot
      ∧ f.g.multipaxos_state.leader.got_majority = 0 then
    ⟨f, 1, 0⟩
  else ⟨set_tx f, 0, 0⟩

/-- The body of `if (lost_proposal)`: the node stops being a leader. -/
def leader_lost (f : Frame) : Frame := { f with g.multipaxos_state.leader.is_leader := 0 }

/-- Phase transition, common part: the TX header gets the proposed ballot and the
leader's phase, and the aggregation variables are reset. -/
def update_common (f : Frame) : Frame :=
  clear_aggregation
    { f with
      tx_multipaxos.ballot := f.g.multipaxos_state.leader.proposed_ballot,
      tx_multipaxos.phase := f.g.multipaxos_state.leader.phase }

/-- Phase transition from ACCEPT back to PREPARE (`update_phase == 1`): the TX
packet asks for the current round, its entries and the proposed values are
zeroed, and `got_majority = 0`. -/
def update_to_prepare (env : Env) (f : Frame) : Frame :=
  { f with
    tx_multipaxos.round := f.g.multipaxos_state.leader.current_round,
    tx_multipaxos.max_heard_round := f.g.multipaxos_state.leader.current_round,
    tx_multipaxos.values := zero_first env.MULTIPAXOS_PKT_SIZE f.tx_multipaxos.values,
    g.multipaxos_state.leader.proposed_values :=
      zero_first env.MULTIPAXOS_PKT_SIZE f.g.multipaxos_state.leader.proposed_values,
    tx_multipaxos.proposals := zero_first env.MULTIPAXOS_PKT_SIZE f.tx_multipaxos.proposals,
    g.multipaxos_state.leader.got_majority := 0 }

/-- Phase transition from PREPARE to ACCEPT (`update_phase == 2`): the first
proposal of the TX packet is zeroed, its values are the proposed values, and
`got_majority = 0`. -/
def update_to_accept (env : Env) (f : Frame) : Frame :=
  { f with
    tx_multipaxos.proposals := f.tx_multipaxos.proposals.set 0 0,
    tx_multipaxos.values :=
      copy_first env.MULTIPAXOS_PKT_SIZE f.tx_multipaxos.values
        f.g.multipaxos_state.leader.proposed_values,
    g.multipaxos_state.leader.got_majority := 0 }

/-- The body of `if (update_phase)`: the common part, the part of the transition
taken, the flags reset to the template, and `tx = 1`. -/
def leader_update (env : Env) (update_phase : Nat) (f : Frame) : Frame :=
  set_tx
    (template_flags env
      (if update_phase = 1 then update_to_prepare env (update_common f)
       else if update_phase = 2 then update_to_accept env (update_common f)
       else update_common f))

/-- The frame after the block `if (lost_proposal)`. -/
def after_loss (a : LeadFrame) : Frame :=
  if a.lost_proposal ≠ 0 then leader_lost a.f else a.f

/-- The two blocks that close the leader logic: `if (lost_proposal)` and
`if (update_phase)`. -/
def leader_finish (env : Env) (a : LeadFrame) : Frame :=
  if a.update_phase ≠ 0 then leader_update env a.update_phase (after_loss a) else after_loss a

/-- The leader logic, run when the node is a leader without a majority yet. `pl`
is the payload as read after the acceptor logic. -/
def leader_logic (env : Env) (pl : multipaxos_t) (f : Frame) : Frame :=
  if f.g.multipaxos_state.leader.is_leader ≠ 0 ∧ f.g.multipaxos_state.leader.got_majority = 0 then
    leader_finish env (leader_compete env pl f)
  else f

/-- A valid slot whose payload is not in `MULTIPAXOS_INIT`: acceptor logic, then
leader logic on the payload as it is read then. -/
def paxos_slot (env : Env) (slot_count : Nat) (current_state : chaos_state_t)
    (rx_multipaxos : multipaxos_t) (f : Frame) : Frame :=
  leader_logic env
    (payload current_state rx_multipaxos
      (acceptor_logic env slot_count current_state rx_multipaxos f))
    (acceptor_logic env slot_count current_state rx_multipaxos f)

/-- The slot is valid: the last slot succeeded and the node was listening, or it
is a leader and was transmitting. -/
def slot_valid (current_state : chaos_state_t) (chaos_txrx_success : Nat) (g : Globals) : Prop :=
  chaos_txrx_success ≠ 0
    ∧ (current_state = CHAOS_RX
        ∨ (current_state = CHAOS_TX ∧ g.multipaxos_state.leader.is_leader ≠ 0))

instance (current_state : chaos_state_t) (chaos_txrx_success : Nat) (g : Globals) :
    Decidable (slot_valid current_state chaos_txrx_success g) := by
  unfold slot_valid; infer_instance

/-- The valid-slot block of `process`: its condition, the opening statements, and
the heartbeat branch or the acceptor and leader logic. -/
def valid_slot (env : Env) (slot_count : Nat) (current_state : chaos_state_t)
    (chaos_txrx_success : Nat) (rx_multipaxos : multipaxos_t) (f : Frame) : Frame :=
  if slot_valid current_state chaos_txrx_success f.g then
    if (payload current_state rx_multipaxos (open_valid env f)).phase = MULTIPAXOS_INIT then
      heartbeat env current_state rx_multipaxos (open_valid env f)
    else paxos_slot env slot_count current_state rx_multipaxos (open_valid env f)
  else f

/-! ### Synchrotron state logic -/

/-- Initiator at round start, leader that has proposed before: header, and new
values with `got_majority = 0` after a majority. -/
def sync_resume (env : Env) (f : Frame) : Frame :=
  if f.g.multipaxos_state.leader.got_majority ≠ 0 then
    clear_majority (leader_new_values env (leader_header f))
  else leader_header f

/-- Synchrotron, initiator at round start: `got_valid_rx = 1`, and a leader resets
its flags to the template, sets up its TX packet and sets `tx`. -/
def sync_initiate (env : Env) (f : Frame) : Frame :=
  if f.g.multipaxos_state.leader.is_leader ≠ 0 then
    set_tx
      (if f.g.multipaxos_state.leader.phase = MULTIPAXOS_INIT then
         leader_initiate (template_flags env { f with g.got_valid_rx := 1 })
       else sync_resume env (template_flags env { f with g.got_valid_rx := 1 }))
  else { f with g.got_valid_rx := 1 }

/-- Synchrotron, successful RX: `invalid_rx_count = 0`, and with `tx` set the
post-completion counter is reset on novel information and incremented
otherwise. -/
def sync_rx_ok (f : Frame) : chaos_state_t × Frame :=
  if f.g.tx ≠ 0 then
    if f.g.complete ≠ 0 then
      if f.rx_delta ≠ 0 then
        (CHAOS_TX, { f with g.invalid_rx_count := 0, g.tx_count_complete := 0 })
      else
        (CHAOS_TX, { f with g.invalid_rx_count := 0,
                            g.tx_count_complete := f.g.tx_count_complete + 1 })
    else (CHAOS_TX, { f with g.invalid_rx_count := 0 })
  else (CHAOS_RX, { f with g.invalid_rx_count := 0 })

/-- Synchrotron, failed RX after a valid one: the failure is counted, and past
the restart threshold the node transmits and draws a new threshold (kept in an
`unsigned short`). -/
def sync_rx_fail (env : Env) (rnd : Nat) (f : Frame) : chaos_state_t × Frame :=
  if f.g.invalid_rx_count + 1 > f.g.restart_threshold then
    (CHAOS_TX,
     { f with
       g.invalid_rx_count := 0,
       g.tx_count_complete :=
         if f.g.complete ≠ 0 then f.g.tx_count_complete + 1 else f.g.tx_count_complete,
       g.restart_threshold :=
         (rnd % (env.CHAOS_RESTART_MAX - env.CHAOS_RESTART_MIN) + env.CHAOS_RESTART_MIN)
           % 65536 })
  else (CHAOS_RX, { f with g.invalid_rx_count := f.g.invalid_rx_count + 1 })

/-- The Synchrotron state logic: the next radio state and the counters behind it.
No failures are injected (`FAILURES_RATE` is off). -/
def synchrotron_logic (env : Env) (current_state : chaos_state_t)
    (chaos_txrx_success : Nat) (rnd : Nat) (f : Frame) : chaos_state_t × Frame :=
  if env.IS_INITIATOR = true ∧ current_state = CHAOS_INIT then (CHAOS_TX, sync_initiate env f)
  else if current_state = CHAOS_RX ∧ chaos_txrx_success ≠ 0 then sync_rx_ok f
  else if current_state = CHAOS_RX ∧ chaos_txrx_success = 0 ∧ f.g.got_valid_rx ≠ 0 then
    sync_rx_fail env rnd f
  else if current_state = CHAOS_TX ∧ chaos_txrx_success = 0 then
    (CHAOS_TX, { f with g.got_valid_rx := 1 })
  else if current_state = CHAOS_TX ∧ f.g.tx_count_complete > env.N_TX_COMPLETE then
    (CHAOS_OFF, f)
  else (CHAOS_RX, f)

/-- The statement `memcpy(&multipaxos_local, tx_multipaxos, sizeof(multipaxos_t))`:
the header of the TX buffer, with its `K` values and proposals, is saved in the
template; the template's flags stay. -/
def save_local (env : Env) (f : Frame) : Frame :=
  { f with
    g.multipaxos_local :=
      { ballot := f.tx_multipaxos.ballot, phase := f.tx_multipaxos.phase,
        round := f.tx_multipaxos.round, max_heard_round := f.tx_multipaxos.max_heard_round,
        values :=
          copy_first env.MULTIPAXOS_PKT_SIZE f.g.multipaxos_local.values f.tx_multipaxos.values,
        proposals :=
          copy_first env.MULTIPAXOS_PKT_SIZE f.g.multipaxos_local.proposals
            f.tx_multipaxos.proposals,
        flags := f.g.multipaxos_local.flags } }

/-- The statement `if (end) off_slot = slot_count`, where `end` holds in the last
two slots or when the radio goes off. -/
def mark_off (env : Env) (slot_count : Nat) (next_state : chaos_state_t) (f : Frame) : Frame :=
  if (slot_count : Int) ≥ (env.MULTIPAXOS_ROUND_MAX_SLOTS : Int) - 2 ∨ next_state = CHAOS_OFF then
    { f with g.off_slot := slot_count }
  else f

/-- What a call of `process` leaves behind: the returned radio state, the TX
buffer, the statics, and the flags `*app_flags` points to. -/
structure ProcessResult where
  next_state : chaos_state_t
  tx_multipaxos : multipaxos_t
  g : Globals
  app_flags : List Nat
deriving DecidableEq, Repr

/-- The frame at the end of a call of `process`, given the outcome of the
Synchrotron state logic. -/
def exit_frame (env : Env) (slot_count : Nat) (r : chaos_state_t × Frame) : Frame :=
  mark_off env slot_count r.1 (save_local env r.2)

/-- The frame a call of `process` ends with. -/
def process_frame (env : Env) (slot_count : Nat) (current_state : chaos_state_t)
    (chaos_txrx_success : Nat) (rx_multipaxos : multipaxos_t) (rnd : Nat)
    (tx_multipaxos : multipaxos_t) (g : Globals) : Frame :=
  exit_frame env slot_count
    (synchrotron_logic env current_state chaos_txrx_success rnd
      (valid_slot env slot_count current_state chaos_txrx_success rx_multipaxos
        (entry_frame tx_multipaxos g)))

/-- The per-slot function `process` of `multipaxos.c`. The arguments `round_count`
and `payload_length` are not read by the code; `rnd` is what
`chaos_random_generator_fast()` returns if the call draws a number. -/
def process (env : Env) (slot_count : Nat) (current_state : chaos_state_t)
    (chaos_txrx_success : Nat) (rx_multipaxos : multipaxos_t) (rnd : Nat)
    (tx_multipaxos : multipaxos_t) (g : Globals) : ProcessResult :=
  { next_state :=
      (synchrotron_logic env current_state chaos_txrx_success rnd
        (valid_slot env slot_count current_state chaos_txrx_success rx_multipaxos
          (entry_frame tx_multipaxos g))).1,
    tx_multipaxos :=
      (process_frame env slot_count current_state chaos_txrx_success rx_multipaxos rnd
        tx_multipaxos g).tx_multipaxos,
    g := (process_frame env slot_count current_state chaos_txrx_success rx_multipaxos rnd
        tx_multipaxos g).g,
    app_flags :=
      (payload current_state rx_multipaxos
        (process_frame env slot_count current_state chaos_txrx_success rx_multipaxos rnd
          tx_multipaxos g)).flags }

/-! ## The round driver of `multipaxos.c` -/

/-- The function `multipaxos_leader_got_majority`. -/
def multipaxos_leader_got_majority (g : Globals) : Nat :=
  if g.multipaxos_state.leader.is_leader ≠ 0 then
    if g.multipaxos_state.leader.got_majority ≠ 0
        ∧ g.multipaxos_state.leader.phase = MULTIPAXOS_ACCEPT then 1
    else 0
  else 0

/-- The function `multipaxos_replay_last_consensus`; `current_round` is kept in 16
bits. -/
def multipaxos_replay_last_consensus (env : Env) (g : Globals) : Globals :=
  if multipaxos_leader_got_majority g ≠ 0 then
    { g with
      multipaxos_state.leader.phase := MULTIPAXOS_PREPARE,
      multipaxos_state.leader.current_round :=
        (((g.multipaxos_state.leader.current_round : Int) - (env.MULTIPAXOS_PKT_SIZE : Int))
          % 65536).toNat,
      multipaxos_state.leader.got_majority := 0 }
  else g

/-- The function `multipaxos_initialize_variables_for_new_round`; `rnd0` is the
number it draws for the restart threshold, and the leader-failure counter is a
`uint8_t`. -/
def multipaxos_initialize_variables_for_new_round (env : Env) (rnd0 : Nat) (g : Globals) :
    Globals :=
  { g with
    off_slot := env.MULTIPAXOS_ROUND_MAX_SLOTS % 65536,
    tx := 0, got_valid_rx := 0, complete := 0, completion_slot := 0,
    tx_count_complete := 0, invalid_rx_count := 0, values_chosen_this_round := 0,
    restart_threshold :=
      (rnd0 % (env.CHAOS_RESTART_MAX - env.CHAOS_RESTART_MIN) + env.CHAOS_RESTART_MIN) % 65536,
    multipaxos_local.flags := set_own_flag env g.multipaxos_local.flags,
    not_heard_from_leader_since := (g.not_heard_from_leader_since + 1) % 256 }

/-- The value `current_round` takes in `multipaxos_set_initial_leader_state`:
`learner.last_round + 1` in 16 bits, and with `last_round_participation > 0` the
`MAX` of that and `last_round_participation - K + 1`, computed in `int` and
stored in 16 bits. -/
def initial_round (env : Env) (g : Globals) : Nat :=
  if g.multipaxos_state.acceptor.last_round_participation > 0 then
    if (((g.multipaxos_state.learner.last_round + 1) % 65536 : Nat) : Int)
        > (g.multipaxos_state.acceptor.last_round_participation : Int)
          - (env.MULTIPAXOS_PKT_SIZE : Int) + 1 then
      (g.multipaxos_state.learner.last_round + 1) % 65536
    else
      (((g.multipaxos_state.acceptor.last_round_participation : Int)
        - (env.MULTIPAXOS_PKT_SIZE : Int) + 1) % 65536).toNat
  else (g.multipaxos_state.learner.last_round + 1) % 65536

/-- The function `multipaxos_set_initial_leader_state`. -/
def multipaxos_set_initial_leader_state (env : Env) (g : Globals) : Globals :=
  { g with
    multipaxos_state.leader.is_leader := 1,
    multipaxos_state.leader.proposed_ballot :=
      ballot_set_round
        (ballot_set_id g.multipaxos_state.leader.proposed_ballot env.chaos_node_index)
        (MAX (ballot_round
          (ballot_set_id g.multipaxos_state.leader.proposed_ballot env.chaos_node_index)) 1),
    multipaxos_state.leader.current_round := initial_round env g,
    not_heard_from_leader_since := 0 }

/-- The function `multipaxos_set_leader_values`. -/
def multipaxos_set_leader_values (env : Env) (multipaxos_values : List Nat) (g : Globals) :
    Globals :=
  if multipaxos_leader_got_majority g ≠ 0 then
    { g with
      multipaxos_state.leader.proposed_values :=
        copy_first env.MULTIPAXOS_PKT_SIZE g.multipaxos_state.leader.proposed_values
          multipaxos_values }
  else g

/-- The log index `(last_round - K + 1 + i) % L` of
`multipaxos_report_values_chosen_this_round`, computed in `int`; a negative sum
would index outside the array in C. -/
def report_index (env : Env) (g : Globals) (i : Nat) : Nat :=
  (((g.multipaxos_state.learner.last_round : Int) - (env.MULTIPAXOS_PKT_SIZE : Int) + 1 + (i : Int))
    % (env.MULTIPAXOS_LOG_SIZE : Int)).toNat

/-- The function `multipaxos_report_values_chosen_this_round` on the array
`learned_values` of the caller. -/
def multipaxos_report_values_chosen_this_round (env : Env) (g : Globals)
    (learned_values : List Nat) : List Nat :=
  if g.values_chosen_this_round ≠ 0 then
    (List.range env.MULTIPAXOS_PKT_SIZE).foldl
      (fun a i => a.set i (rd g.multipaxos_state.learner.learned_values (report_index env g i)))
      learned_values
  else zero_first env.MULTIPAXOS_PKT_SIZE learned_values

/-- What the radio delivers in one slot: the success flag, the RX buffer, and the
random number the call may draw. -/
structure SlotInput where
  chaos_txrx_success : Nat
  rx_multipaxos : multipaxos_t
  rnd : Nat
deriving DecidableEq, Repr

/-- Modelled from the spec: `chaos_round`, the slotted flooding scheduler, whose
code is outside the sources at hand. It calls the per-slot function once per
slot, first with the state `CHAOS_INIT` and then with the state the previous call
returned, numbers the slots from `slot_count` on, and stops when the function
returned `CHAOS_OFF` or `max_slots` is reached; the list `slots` is what the
radio delivers, and the round also ends when it is used up. -/
def chaos_round (env : Env) (max_slots : Nat) :
    List SlotInput → Nat → chaos_state_t → multipaxos_t → Globals → multipaxos_t × Globals
  | [], _, _, tx_multipaxos, g => (tx_multipaxos, g)
  | s :: rest, slot_count, current_state, tx_multipaxos, g =>
    if slot_count ≥ max_slots ∨ current_state = CHAOS_OFF then (tx_multipaxos, g)
    else
      chaos_round env max_slots rest (slot_count + 1)
        (process env slot_count current_state s.chaos_txrx_success s.rx_multipaxos s.rnd
          tx_multipaxos g).next_state
        (process env slot_count current_state s.chaos_txrx_success s.rx_multipaxos s.rnd
          tx_multipaxos g).tx_multipaxos
        (process env slot_count current_state s.chaos_txrx_success s.rx_multipaxos s.rnd
          tx_multipaxos g).g

/-- What `multipaxos_round_begin` leaves behind: its return value, the array
`learned_values` of the caller, and the statics. -/
structure RoundResult where
  ret : Nat
  learned_values : List Nat
  g : Globals
deriving DecidableEq, Repr

/-- The part of `multipaxos_round_begin` before `chaos_round`: the variables of
the round, and for a node the application names leader its values or its initial
leader state. -/
def multipaxos_round_entry (env : Env) (is_leader : Nat) (multipaxos_values : List Nat)
    (rnd0 : Nat) (g : Globals) : Globals :=
  if is_leader ≠ 0 then
    if (multipaxos_initialize_variables_for_new_round env rnd0
        g).multipaxos_state.leader.is_leader ≠ 0 then
      multipaxos_set_leader_values env multipaxos_values
        (multipaxos_initialize_variables_for_new_round env rnd0 g)
    else
      multipaxos_set_initial_leader_state env
        (multipaxos_initialize_variables_for_new_round env rnd0 g)
  else multipaxos_initialize_variables_for_new_round env rnd0 g

/-- The initial TX payload handed to `chaos_round`: the template header with its
first `FLAGS_LEN` flag bytes. -/
def initial_tx (env : Env) (g : Globals) : multipaxos_t :=
  { g.multipaxos_local with flags := g.multipaxos_local.flags.take (FLAGS_LEN env) }

/-- The round itself: `chaos_round` on the statics after the entry part. -/
def multipaxos_round_run (env : Env) (slots : List SlotInput) (g : Globals) :
    multipaxos_t × Globals :=
  chaos_round env env.MULTIPAXOS_ROUND_MAX_SLOTS slots 0 CHAOS_INIT (initial_tx env g) g

/-- The function `multipaxos_round_begin`. The arguments `round_number`, `app_id`
and `final_flags` are not read by the code. -/
def multipaxos_round_begin (env : Env) (is_leader : Nat) (multipaxos_values : List Nat)
    (learned_values : List Nat) (rnd0 : Nat) (slots : List SlotInput) (g : Globals) :
    RoundResult :=
  { ret := (multipaxos_round_run env slots
      (multipaxos_round_entry env is_leader multipaxos_values rnd0 g)).2.values_chosen_this_round,
    learned_values :=
      multipaxos_report_values_chosen_this_round env
        (multipaxos_round_run env slots
          (multipaxos_round_entry env is_leader multipaxos_values rnd0 g)).2 learned_values,
    g := (multipaxos_round_run env slots
      (multipaxos_round_entry env is_leader multipaxos_values rnd0 g)).2 }

/-! ## A concrete network, for the worked cases -/

/-- Environment of node `i` in a network of three nodes with the default
configuration of `multipaxos.h`: `K = 2` values per packet, a log of `L = 8`
entries, `MULTIPAXOS_NO_OP = 255`; node 0 is the initiator. -/
def env3 (i : Nat) : Env :=
  { chaos_node_count := 3, chaos_node_index := i, IS_INITIATOR := decide (i = 0),
    MULTIPAXOS_ROUND_MAX_SLOTS := 255, MULTIPAXOS_PKT_SIZE := 2, MULTIPAXOS_LOG_SIZE := 8,
    MULTIPAXOS_NO_OP := 255, N_TX_COMPLETE := 9, CHAOS_RESTART_MIN := 4,
    CHAOS_RESTART_MAX := 10 }

/-- The statics of a node of that network that was never used: everything zero,
arrays of `K = 2` and `L = 8` entries, one flag byte. -/
def fresh_globals : Globals :=
  { not_heard_from_leader_since := 0, tx := 0, complete := 0, completion_slot := 0,
    off_slot := 0, tx_count_complete := 0, invalid_rx_count := 0, got_valid_rx := 0,
    n_replies := 0, values_chosen_this_round := 0, restart_threshold := 0,
    multipaxos_local := ⟨0, 0, 0, 0, [0, 0], [0, 0], [0]⟩,
    multipaxos_state :=
      ⟨⟨0, [0, 0], 0, 0, 0, 0, 0⟩, ⟨0, List.replicate 8 0, List.replicate 8 0, 0⟩,
       ⟨List.replicate 8 0, 0⟩, 0, [0, 0], [0, 0], 0⟩ }

/-- A node of that network listening in a round: the statics after
`multipaxos_round_begin`'s entry part for a node that is not a leader, and the
initial TX payload. -/
def listening_globals (i : Nat) : Globals :=
  multipaxos_round_entry (env3 i) 0 [0, 0] 0 fresh_globals

/-- The frame of node 1 of the three-node network at the start of a call in a
round in which it has not heard anything yet. -/
def listening_frame : Frame :=
  entry_frame (initial_tx (env3 1) (listening_globals 1)) (listening_globals 1)

/-- An ACCEPT packet of ballot (1,0) for the decrees 1 and 2 with the values 7 and
8, under the flags of nodes 0 and 2, in which an acceptor reports the higher
promise (1,2). -/
def accept_with_higher_promise : multipaxos_t :=
  ⟨ballot_of 1 0, MULTIPAXOS_ACCEPT, 1, 0, [7, 8], [ballot_of 1 2, 0], [5]⟩

/-- A packet of zeros without entries, standing for an RX buffer nothing was
received into. -/
def empty_packet : multipaxos_t := ⟨0, 0, 0, 0, [], [], []⟩

/-- Node `i` of the three-node network, not a leader, after the first call of a
round (slot 0, state `CHAOS_INIT`, nothing received). -/
def after_round_start (i : Nat) : ProcessResult :=
  process (env3 i) 0 CHAOS_INIT 0 empty_packet 0 (initial_tx (env3 i) (listening_globals i))
    (listening_globals i)

/-- The statics of node 1 after the first call of a round, for an acceptor that
took part in the decrees up to 255: its log holds the decrees 248 to 255, each
accepted with ballot (1,0), with the values 48 to 55. -/
def acceptor_at_255 : Globals :=
  { (after_round_start 1).g with
    multipaxos_state.acceptor :=
      ⟨ballot_of 1 0, List.replicate 8 (ballot_of 1 0), [48, 49, 50, 51, 52, 53, 54, 55], 255⟩ }

/-- An ACCEPT packet of ballot (1,0) for the decrees 257 and 258 with the values 57
and 58, under the flag of node 0. -/
def accept_of_257 : multipaxos_t :=
  ⟨ballot_of 1 0, MULTIPAXOS_ACCEPT, 257, 0, [57, 58], [0, 0], [1]⟩

/-! ## Views of a frame, for the frame properties -/

/-- The parts of a frame the acceptor phases do not write: the leader state, the
learner state, `values_chosen_this_round`, `n_replies`, `complete`,
`completion_slot`, and ballot, phase, round and flags of the TX packet. -/
def acceptor_view (y : Frame) :
    leader_state_t × learner_state_t × Nat × Nat × Nat × Nat × Nat × Nat × Nat × List Nat :=
  (y.g.multipaxos_state.leader, y.g.multipaxos_state.learner, y.g.values_chosen_this_round,
    y.g.n_replies, y.g.complete, y.g.completion_slot, y.tx_multipaxos.ballot,
    y.tx_multipaxos.phase, y.tx_multipaxos.round, y.tx_multipaxos.flags)

/-- The payload a call of `process` reads on entry. -/
def entry_payload (current_state : chaos_state_t) (rx_multipaxos tx_multipaxos : multipaxos_t) :
    multipaxos_t :=
  if current_state = CHAOS_TX then tx_multipaxos else rx_multipaxos

/-- The frame the leader logic of a call of `process` starts from, when the slot
is valid and the payload is not in `MULTIPAXOS_INIT`: the frame the acceptor
logic leaves. -/
def leader_frame (env : Env) (slot_count : Nat) (current_state : chaos_state_t)
    (rx_multipaxos tx_multipaxos : multipaxos_t) (g : Globals) : Frame :=
  acceptor_logic env slot_count current_state rx_multipaxos
    (open_valid env (entry_frame tx_multipaxos g))

/-- The parts of a frame the transmission logic does not write: the leader and
acceptor state, the aggregation variables, and the header of the TX packet with
its values and proposals. -/
def merge_view (y : Frame) :
    leader_state_t × acceptor_state_t × Nat × List Nat × List Nat × Nat × Nat × Nat × Nat × Nat
      × List Nat × List Nat :=
  (y.g.multipaxos_state.leader, y.g.multipaxos_state.acceptor, y.g.multipaxos_state.rx_min_proposal,
    y.g.multipaxos_state.rx_accepted_proposals, y.g.multipaxos_state.rx_accepted_values,
    y.g.multipaxos_state.rx_max_heard_round, y.tx_multipaxos.ballot, y.tx_multipaxos.phase,
    y.tx_multipaxos.round, y.tx_multipaxos.max_heard_round, y.tx_multipaxos.values,
    y.tx_multipaxos.proposals)

/-- The statics of node 0 of the three-node network as a leader in ACCEPT for the
decrees 1 and 2 with the values 7 and 8 under ballot (1,0), which it has accepted
itself; `again` is its `do_another_phase_1`. -/
def accepting_leader (again : Nat) : Globals :=
  { fresh_globals with
    got_valid_rx := 1,
    multipaxos_local := ⟨ballot_of 1 0, MULTIPAXOS_ACCEPT, 1, 0, [7, 8], [0, 0], [1]⟩,
    multipaxos_state :=
      ⟨⟨ballot_of 1 0, [7, 8], 1, MULTIPAXOS_ACCEPT, 1, 0, again⟩,
       ⟨ballot_of 1 0, [0, ballot_of 1 0, ballot_of 1 0, 0, 0, 0, 0, 0],
        [0, 7, 8, 0, 0, 0, 0, 0], 2⟩,
       ⟨List.replicate 8 0, 0⟩, ballot_of 1 0, [0, 0], [0, 0], 0⟩ }

/-- The TX buffer of that leader after it merged the reply of node 1: its ACCEPT
packet with the flags of nodes 0 and 1. -/
def accept_in_flight : multipaxos_t :=
  ⟨ballot_of 1 0, MULTIPAXOS_ACCEPT, 1, 0, [7, 8], [ballot_of 1 0, 0], [3]⟩

/-- The statics of node 0 of the three-node network as a leader in PREPARE for the
decrees 4 and 5 under ballot (2,0), with the values 7 and 8 of its own to
propose; it took part in the decrees up to 3. -/
def preparing_leader : Globals :=
  { fresh_globals with
    got_valid_rx := 1,
    multipaxos_local := ⟨ballot_of 2 0, MULTIPAXOS_PREPARE, 4, 3, [0, 0], [0, 0], [1]⟩,
    multipaxos_state :=
      ⟨⟨ballot_of 2 0, [7, 8], 1, MULTIPAXOS_PREPARE, 4, 0, 0⟩,
       ⟨ballot_of 2 0, List.replicate 8 0, List.replicate 8 0, 3⟩,
       ⟨List.replicate 8 0, 3⟩, 0, [0, 0], [0, 0], 3⟩ }

/-- The TX buffer of that leader after it merged the reply of node 1, which
reported nothing: its PREPARE packet with the flags of nodes 0 and 1. -/
def prepare_in_flight : multipaxos_t :=
  ⟨ballot_of 2 0, MULTIPAXOS_PREPARE, 4, 3, [0, 0], [0, 0], [3]⟩

/-- The reply of node 2 to that PREPARE packet: it took part in the decrees up to
5 and accepted the value 9 for decree 5 under ballot (1,1), nothing for
decree 4. -/
def reply_for_5 : multipaxos_t :=
  ⟨ballot_of 2 0, MULTIPAXOS_PREPARE, 4, 5, [0, 9], [0, ballot_of 1 1], [5]⟩

/-- The same leader with the log of an acceptor that took part in the decrees up
to 5 and accepted the value 9 for decree 5 under ballot (1,1), and with
aggregation variables that hold that report while the proposed values are still
7 and 8: a state in which the proposed values are not consistent with the
aggregation variables. The call in which a leader reads back its own PREPARE
packet does not leave it: it writes the report to the proposed values as well. -/
def preparing_leader_with_5 : Globals :=
  { preparing_leader with
    multipaxos_state.acceptor :=
      ⟨ballot_of 2 0, [0, 0, 0, 0, 0, ballot_of 1 1, 0, 0], [0, 0, 0, 0, 0, 9, 0, 0], 5⟩,
    multipaxos_state.rx_accepted_proposals := [0, ballot_of 1 1],
    multipaxos_state.rx_accepted_values := [0, 9],
    multipaxos_state.rx_max_heard_round := 5 }

/-- A TX buffer for that state: the PREPARE packet with the report for decree 5,
`max_heard_round = 5`, and the flags of nodes 0 and 1. -/
def prepare_with_own_report : multipaxos_t :=
  ⟨ballot_of 2 0, MULTIPAXOS_PREPARE, 4, 5, [0, 9], [0, ballot_of 1 1], [3]⟩

/-- The reply of node 2 to a PREPARE packet the leader sent with `max_heard_round`
at the round it asks for, when node 2 took part in the decrees up to 3 only:
nothing reported, `max_heard_round = 4`. -/
def reply_without_report : multipaxos_t :=
  ⟨ballot_of 2 0, MULTIPAXOS_PREPARE, 4, 4, [0, 0], [0, 0], [5]⟩

/-- The frame of a call of `process` after the acceptor phases, when the slot is
valid, the payload is not in `MULTIPAXOS_INIT` and the ordering check passed. -/
def merged_frame (env : Env) (current_state : chaos_state_t)
    (rx_multipaxos tx_multipaxos : multipaxos_t) (g : Globals) : Frame :=
  acceptor_phase env current_state rx_multipaxos
    (after_new_phase env current_state rx_multipaxos
      (new_phase_of (payload current_state rx_multipaxos (open_valid env (entry_frame tx_multipaxos g)))
        (open_valid env (entry_frame tx_multipaxos g)).tx_multipaxos)
      (open_valid env (entry_frame tx_multipaxos g)))

/-- The frame of such a call at its quorum read: after the flag loop. -/
def read_frame (env : Env) (current_state : chaos_state_t)
    (rx_multipaxos tx_multipaxos : multipaxos_t) (g : Globals) : Frame :=
  flags_stage env
    (new_phase_of (payload current_state rx_multipaxos (open_valid env (entry_frame tx_multipaxos g)))
      (open_valid env (entry_frame tx_multipaxos g)).tx_multipaxos)
    (flag_loop env
      (new_phase_of (payload current_state rx_multipaxos (open_valid env (entry_frame tx_multipaxos g)))
        (open_valid env (entry_frame tx_multipaxos g)).tx_multipaxos)
      (payload current_state rx_multipaxos
        (merged_frame env current_state rx_multipaxos tx_multipaxos g)).flags
      (merged_frame env current_state rx_multipaxos tx_multipaxos g))
    (merged_frame env current_state rx_multipaxos tx_multipaxos g)

/-- The payload as the quorum read of a call reads it. -/
def read_payload (env : Env) (current_state : chaos_state_t)
    (rx_multipaxos tx_multipaxos : multipaxos_t) (g : Globals) : multipaxos_t :=
  payload current_state rx_multipaxos (read_frame env current_state rx_multipaxos tx_multipaxos g)

/-- The quorum read of a call of `process` fires: the call reaches it (valid slot,
payload not in `MULTIPAXOS_INIT`, ordering check passed) and its condition
`payload->phase == MULTIPAXOS_ACCEPT && n_replies > chaos_node_count / 2`
holds. -/
def quorum_read_fires (env : Env) (current_state : chaos_state_t) (chaos_txrx_success : Nat)
    (rx_multipaxos tx_multipaxos : multipaxos_t) (g : Globals) : Prop :=
  slot_valid current_state chaos_txrx_success g
    ∧ (entry_payload current_state rx_multipaxos tx_multipaxos).phase ≠ MULTIPAXOS_INIT
    ∧ ordering_ok (entry_payload current_state rx_multipaxos tx_multipaxos) tx_multipaxos
    ∧ (read_payload env current_state rx_multipaxos tx_multipaxos g).phase = MULTIPAXOS_ACCEPT
    ∧ (read_frame env current_state rx_multipaxos tx_multipaxos g).g.n_replies
        > env.chaos_node_count / 2

instance (env : Env) (current_state : chaos_state_t) (chaos_txrx_success : Nat)
    (rx_multipaxos tx_multipaxos : multipaxos_t) (g : Globals) :
    Decidable (quorum_read_fires env current_state chaos_txrx_success rx_multipaxos
      tx_multipaxos g) := by
  unfold quorum_read_fires; infer_instance

/-- The payload of the most recent quorum read that fired in the calls `chaos_round`
makes, if any; the recursion is the one of `chaos_round`. -/
def last_quorum_read (env : Env) (max_slots : Nat) :
    List SlotInput → Nat → chaos_state_t → multipaxos_t → Globals → Option multipaxos_t
  | [], _, _, _, _ => none
  | s :: rest, slot_count, current_state, tx_multipaxos, g =>
    if slot_count ≥ max_slots ∨ current_state = CHAOS_OFF then none
    else
      match last_quorum_read env max_slots rest (slot_count + 1)
        (process env slot_count current_state s.chaos_txrx_success s.rx_multipaxos s.rnd
          tx_multipaxos g).next_state
        (process env slot_count current_state s.chaos_txrx_success s.rx_multipaxos s.rnd
          tx_multipaxos g).tx_multipaxos
        (process env slot_count current_state s.chaos_txrx_success s.rx_multipaxos s.rnd
          tx_multipaxos g).g with
      | some pl => some pl
      | none =>
        if quorum_read_fires env current_state s.chaos_txrx_success s.rx_multipaxos
            tx_multipaxos g then
          some (read_payload env current_state s.rx_multipaxos tx_multipaxos g)
        else none

/-- The most recent quorum read that fired in a round `multipaxos_round_begin`
runs. -/
def round_quorum_read (env : Env) (is_leader : Nat) (multipaxos_values : List Nat) (rnd0 : Nat)
    (slots : List SlotInput) (g : Globals) : Option multipaxos_t :=
  last_quorum_read env env.MULTIPAXOS_ROUND_MAX_SLOTS slots 0 CHAOS_INIT
    (initial_tx env (multipaxos_round_entry env is_leader multipaxos_values rnd0 g))
    (multipaxos_round_entry env is_leader multipaxos_values rnd0 g)

/-- An ACCEPT packet of ballot (1,0) for the decrees 1 and 2 with the values 7 and
8, under the flags of nodes 0 and 2. -/
def accept_from_0_2 : multipaxos_t :=
  ⟨ballot_of 1 0, MULTIPAXOS_ACCEPT, 1, 0, [7, 8], [ballot_of 1 0, 0], [5]⟩

/-- What the radio delivers to node 1 in a round of two slots: nothing at the round
start, then that ACCEPT packet. -/
def slots_with_accept : List SlotInput := [⟨0, empty_packet, 0⟩, ⟨1, accept_from_0_2, 0⟩]

/-- The statics of a node that was never a leader, learned the decrees up to 3
and took part as acceptor in the decrees up to 5. -/
def learned_3_heard_5 : Globals :=
  { fresh_globals with
    multipaxos_state.learner.last_round := 3,
    multipaxos_state.acceptor.last_round_participation := 5 }

/-! ## The application `multipaxos-app.c` -/

/-- Macro `BECOME_LEADER_AFTER` of `multipaxos.h` (default 3): "A node proclaims
itself as leader after this number of Synchrotron round without a leader". No
statement of `multipaxos.c` or `multipaxos-app.c` reads it. -/
def BECOME_LEADER_AFTER : Nat := 3

/-- The hook `multipaxos_app_should_node_become_leader` of `multipaxos-app.c`:
`chaos_random_generator_fast() % (chaos_node_count / 4) == 0`; `rnd` is the
number drawn. C leaves the modulus undefined for fewer than four nodes; here
`rnd % 0 = rnd`. No statement of `multipaxos.c` or `multipaxos-app.c` calls
it. -/
def multipaxos_app_should_node_become_leader (env : Env) (rnd : Nat) : Nat :=
  if rnd % (env.chaos_node_count / 4) = 0 then 1 else 0

/-- The file-scope variables of `multipaxos-app.c`; the pointer `flags` is only
handed to the library, which does not write it. -/
structure AppState where
  multipaxos_values_to_propose : List Nat
  multipaxos_chosen_values : List Nat
  is_proposer : Nat
  success : Nat
  round_count_local : Nat
  complete : Nat
  off_slot : Nat
deriving DecidableEq, Repr

/-- The function `multipaxos_app_set_new_values_to_propose`: value `i` to propose
is the chosen value `i` plus `i + 1`, kept in 8 bits. -/
def multipaxos_app_set_new_values_to_propose (env : Env) (a : AppState) : AppState :=
  { a with
    multipaxos_values_to_propose :=
      (List.range env.MULTIPAXOS_PKT_SIZE).foldl
        (fun v i => v.set i ((rd a.multipaxos_chosen_values i + (i + 1)) % 256))
        a.multipaxos_values_to_propose }

/-- The first part of `round_begin` of `multipaxos-app.c`: the Synchrotron
initiator is made a proposer, and sets new values after a majority. -/
def round_begin_entry (env : Env) (a : AppState) (g : Globals) : AppState :=
  if env.IS_INITIATOR = true then
    if multipaxos_leader_got_majority g ≠ 0 then
      multipaxos_app_set_new_values_to_propose env { a with is_proposer := 1 }
    else { a with is_proposer := 1 }
  else a

/-- The function `round_begin` of `multipaxos-app.c`: the entry part, the call of
`multipaxos_round_begin` with the application's `is_proposer`, and the readings
taken after it. -/
def round_begin (env : Env) (round_count : Nat) (a : AppState) (rnd0 : Nat)
    (slots : List SlotInput) (g : Globals) : AppState × Globals :=
  ({ round_begin_entry env a g with
     success :=
       (multipaxos_round_begin env (round_begin_entry env a g).is_proposer
         (round_begin_entry env a g).multipaxos_values_to_propose
         (round_begin_entry env a g).multipaxos_chosen_values rnd0 slots g).ret,
     multipaxos_chosen_values :=
       (multipaxos_round_begin env (round_begin_entry env a g).is_proposer
         (round_begin_entry env a g).multipaxos_values_to_propose
         (round_begin_entry env a g).multipaxos_chosen_values rnd0 slots g).learned_values,
     off_slot :=
       (multipaxos_round_begin env (round_begin_entry env a g).is_proposer
         (round_begin_entry env a g).multipaxos_values_to_propose
         (round_begin_entry env a g).multipaxos_chosen_values rnd0 slots g).g.off_slot,
     complete :=
       (multipaxos_round_begin env (round_begin_entry env a g).is_proposer
         (round_begin_entry env a g).multipaxos_values_to_propose
         (round_begin_entry env a g).multipaxos_chosen_values rnd0 slots g).g.completion_slot,
     round_count_local := round_count },
   (multipaxos_round_begin env (round_begin_entry env a g).is_proposer
     (round_begin_entry env a g).multipaxos_values_to_propose
     (round_begin_entry env a g).multipaxos_chosen_values rnd0 slots g).g)

/-- Environment of node `i` in a network of eight nodes with the default
configuration of `multipaxos.h`; node 0 is the initiator. -/
def env8 (i : Nat) : Env :=
  { chaos_node_count := 8, chaos_node_index := i, IS_INITIATOR := decide (i = 0),
    MULTIPAXOS_ROUND_MAX_SLOTS := 255, MULTIPAXOS_PKT_SIZE := 2, MULTIPAXOS_LOG_SIZE := 8,
    MULTIPAXOS_NO_OP := 255, N_TX_COMPLETE := 9, CHAOS_RESTART_MIN := 4,
    CHAOS_RESTART_MAX := 10 }

/-- The statics of a node that is not a leader and has gone four rounds without
hearing from one. -/
def orphaned_globals : Globals := { fresh_globals with not_heard_from_leader_since := 4 }

/-- The variables of the application on a node that is not a proposer. -/
def idle_app : AppState := ⟨[0, 0], [0, 0], 0, 0, 0, 0, 0⟩

/-- A round of three slots in which nothing is received. -/
def silent_slots : List SlotInput := [⟨0, empty_packet, 0⟩, ⟨0, empty_packet, 0⟩, ⟨0, empty_packet, 0⟩]

/-- The hook `multipaxos_app_should_node_become_leader` with its division made
explicit: `none` when the modulus `chaos_node_count / 4` is 0, where the `%` of C
is undefined, and the returned byte otherwise. -/
def should_node_become_leader_checked (env : Env) (rnd : Nat) : Option Nat :=
  if env.chaos_node_count / 4 = 0 then none
  else some (multipaxos_app_should_node_become_leader env rnd)

/-- A PREPARE packet of node 1 as leader with ballot (2,1), for the decrees 4 and
5. -/
def prepare_of_2_1 : multipaxos_t :=
  ⟨ballot_of 2 1, MULTIPAXOS_PREPARE, 4, 3, [0, 0], [0, 0], [2]⟩

/-- The statics of node 0 after it lost its leadership: as leader in PREPARE with
ballot (2,0) it received the PREPARE of ballot (2,1). -/
def deposed_leader : Globals :=
  (process (env3 0) 5 CHAOS_RX 1 prepare_of_2_1 0 prepare_in_flight preparing_leader).g

/-- Node 1 of the three-node network, not a leader, after the first call of its
second round (slot 0, state `CHAOS_INIT`, nothing received). In its first round
it received the ACCEPT packet of ballot (1,0) for the decrees 1 and 2; the TX
buffer of the second round starts from the template, which holds the header of
that packet. -/
def second_round_start : ProcessResult :=
  process (env3 1) 0 CHAOS_INIT 0 empty_packet 0
    (initial_tx (env3 1) (multipaxos_round_entry (env3 1) 0 [0, 0] 0
      (multipaxos_round_begin (env3 1) 0 [0, 0] [0, 0] 0 slots_with_accept fresh_globals).g))
    (multipaxos_round_entry (env3 1) 0 [0, 0] 0
      (multipaxos_round_begin (env3 1) 0 [0, 0] [0, 0] 0 slots_with_accept fresh_globals).g)

/-- The heartbeat of the initiator, node 0: a `MULTIPAXOS_INIT` packet of zeros
with the flag of node 0. -/
def heartbeat_of_0 : multipaxos_t := ⟨0, MULTIPAXOS_INIT, 0, 0, [0, 0], [0, 0], [1]⟩

/-- The statics of node 1 after the first call of a round, for a learner that has
learned the decrees up to 10. -/
def learned_up_to_10 : Globals :=
  { (after_round_start 1).g with multipaxos_state.learner.last_round := 10 }

/-- The reply of node 2 to the PREPARE packet for the decrees 4 and 5 under ballot
(2,0): it reports nothing for them and took part in the decrees up to 9. -/
def reply_heard_9 : multipaxos_t :=
  ⟨ballot_of 2 0, MULTIPAXOS_PREPARE, 4, 9, [0, 0], [0, 0], [5]⟩

/-- Leader 0 of the three-node network after it merged that reply in PREPARE for
the window [4,5]. -/
def heard_9 : ProcessResult :=
  process (env3 0) 5 CHAOS_RX 1 reply_heard_9 0 prepare_in_flight preparing_leader

/-- The reply of node 1 to the ACCEPT packet of that leader for the decrees 4 and
5: the values 7 and 8 under ballot (2,0), with the flags of nodes 0 and 1. -/
def accept_reply_4_5 : multipaxos_t :=
  ⟨ballot_of 2 0, MULTIPAXOS_ACCEPT, 4, 9, [7, 8], [ballot_of 2 0, 0], [3]⟩

/-- That leader after it merged the reply of node 1: its ACCEPT packet is in
flight with the flags of nodes 0 and 1. -/
def accept_4_5_merged : ProcessResult :=
  process (env3 0) 6 CHAOS_RX 1 accept_reply_4_5 0 heard_9.tx_multipaxos heard_9.g

/-- Entry `i` of the aggregation variables and of the TX packet:
`rx_accepted_proposals[i]`, `rx_accepted_values[i]`, `tx_multipaxos->proposals[i]`
and `tx_multipaxos->values[i]`. -/
def prepare_column (i : Nat) (f : Frame) : Nat × Nat × Nat × Nat :=
  (rd f.g.multipaxos_state.rx_accepted_proposals i, rd f.g.multipaxos_state.rx_accepted_values i,
    rd f.tx_multipaxos.proposals i, rd f.tx_multipaxos.values i)

/-- What the loop over the entries of a PREPARE packet does not write: the
acceptor state, `rx_max_heard_round`, `max_heard_round` and `round` of the TX
packet, and the lengths of the four arrays it writes to. -/
def prepare_statics (f : Frame) : acceptor_state_t × Nat × Nat × Nat × Nat × Nat × Nat × Nat :=
  (f.g.multipaxos_state.acceptor, f.g.multipaxos_state.rx_max_heard_round,
    f.tx_multipaxos.max_heard_round, f.tx_multipaxos.round,
    f.g.multipaxos_state.rx_accepted_proposals.length,
    f.g.multipaxos_state.rx_accepted_values.length,
    f.tx_multipaxos.proposals.length, f.tx_multipaxos.values.length)

/-- What iteration `i` of that loop reads of the payload: `payload->round`,
`payload->proposals[i]` and `payload->values[i]`. -/
def prepare_read (current_state : chaos_state_t) (rx_multipaxos : multipaxos_t) (i : Nat)
    (f : Frame) : Nat × Nat × Nat :=
  ((payload current_state rx_multipaxos f).round,
    rd (payload current_state rx_multipaxos f).proposals i,
    rd (payload current_state rx_multipaxos f).values i)

/-- Iteration `i` of that loop on entry `i`, for an acceptor with the last round
`lrp` and the logs `ap` and `av`, the payload reads `q`, and the entry `c` before
the iteration. -/
def prepare_entry (env : Env) (lrp : Nat) (ap av : List Nat) (q : Nat × Nat × Nat) (i : Nat)
    (c : Nat × Nat × Nat × Nat) : Nat × Nat × Nat × Nat :=
  if q.1 + i ≤ lrp ∧ rd ap ((q.1 + i) % env.MULTIPAXOS_LOG_SIZE) > c.1 then
    if q.2.1 < rd ap ((q.1 + i) % env.MULTIPAXOS_LOG_SIZE) then
      (rd ap ((q.1 + i) % env.MULTIPAXOS_LOG_SIZE), rd av ((q.1 + i) % env.MULTIPAXOS_LOG_SIZE),
        rd ap ((q.1 + i) % env.MULTIPAXOS_LOG_SIZE), rd av ((q.1 + i) % env.MULTIPAXOS_LOG_SIZE))
    else (q.2.1, q.2.2, c.2.2.1, c.2.2.2)
  else
    if q.2.1 < c.1 then (c.1, c.2.1, c.1, c.2.1)
    else (q.2.1, q.2.2, c.2.2.1, c.2.2.2)

/-- The frame of a call of `process` after the new-phase block of the acceptor
logic, when the slot is valid and the ordering check passed. -/
def new_phase_frame (env : Env) (current_state : chaos_state_t)
    (rx_multipaxos tx_multipaxos : multipaxos_t) (g : Globals) : Frame :=
  after_new_phase env current_state rx_multipaxos
    (new_phase_of (payload current_state rx_multipaxos (open_valid env (entry_frame tx_multipaxos g)))
      (open_valid env (entry_frame tx_multipaxos g)).tx_multipaxos)
    (open_valid env (entry_frame tx_multipaxos g))

/-- The local `new_phase` of a call: the payload read on entry differs from the TX
packet in ballot, phase or round. -/
def entry_new_phase (current_state : chaos_state_t) (rx_multipaxos tx_multipaxos : multipaxos_t) :
    Nat :=
  new_phase_of (entry_payload current_state rx_multipaxos tx_multipaxos) tx_multipaxos

/-- Specification side: the aggregated proposal for entry `i` before the call, 0
on a new phase. -/
def prior_proposal (current_state : chaos_state_t) (rx_multipaxos tx_multipaxos : multipaxos_t)
    (g : Globals) (i : Nat) : Nat :=
  if entry_new_phase current_state rx_multipaxos tx_multipaxos ≠ 0 then 0
  else rd g.multipaxos_state.rx_accepted_proposals i

/-- Specification side: the aggregated value for entry `i` before the call, 0 on a
new phase. -/
def prior_value (current_state : chaos_state_t) (rx_multipaxos tx_multipaxos : multipaxos_t)
    (g : Globals) (i : Nat) : Nat :=
  if entry_new_phase current_state rx_multipaxos tx_multipaxos ≠ 0 then 0
  else rd g.multipaxos_state.rx_accepted_values i

/-- Specification side: the proposal the acceptor accepted for the decree
`payload.round + i`, 0 if it did not take part in it. -/
def local_proposal (env : Env) (current_state : chaos_state_t)
    (rx_multipaxos tx_multipaxos : multipaxos_t) (g : Globals) (i : Nat) : Nat :=
  if (entry_payload current_state rx_multipaxos tx_multipaxos).round + i
      ≤ g.multipaxos_state.acceptor.last_round_participation then
    rd g.multipaxos_state.acceptor.accepted_proposals
      (((entry_payload current_state rx_multipaxos tx_multipaxos).round + i)
        % env.MULTIPAXOS_LOG_SIZE)
  else 0

/-- Specification side: the value in the acceptor's log for the decree
`payload.round + i`. -/
def local_value (env : Env) (current_state : chaos_state_t)
    (rx_multipaxos tx_multipaxos : multipaxos_t) (g : Globals) (i : Nat) : Nat :=
  rd g.multipaxos_state.acceptor.accepted_values
    (((entry_payload current_state rx_multipaxos tx_multipaxos).round + i)
      % env.MULTIPAXOS_LOG_SIZE)

/-- Specification side: the aggregated proposal for entry `i`, the maximum of the
aggregate before, the payload's proposal and the acceptor's. -/
def aggregate_proposal (env : Env) (current_state : chaos_state_t)
    (rx_multipaxos tx_multipaxos : multipaxos_t) (g : Globals) (i : Nat) : Nat :=
  max (prior_proposal current_state rx_multipaxos tx_multipaxos g i)
    (max (rd (entry_payload current_state rx_multipaxos tx_multipaxos).proposals i)
      (local_proposal env current_state rx_multipaxos tx_multipaxos g i))

/-- Specification side: the value paired with that maximum: the payload's when its
proposal is the maximum, else the acceptor's when its proposal is above the
aggregate before, else the aggregated value before. -/
def aggregate_value (env : Env) (current_state : chaos_state_t)
    (rx_multipaxos tx_multipaxos : multipaxos_t) (g : Globals) (i : Nat) : Nat :=
  if rd (entry_payload current_state rx_multipaxos tx_multipaxos).proposals i
      = aggregate_proposal env current_state rx_multipaxos tx_multipaxos g i then
    rd (entry_payload current_state rx_multipaxos tx_multipaxos).values i
  else if prior_proposal current_state rx_multipaxos tx_multipaxos g i
      < local_proposal env current_state rx_multipaxos tx_multipaxos g i then
    local_value env current_state rx_multipaxos tx_multipaxos g i
  else prior_value current_state rx_multipaxos tx_multipaxos g i

/-- Specification side: proposal `i` of the TX packet when the loop over the
entries starts: the payload's on a new phase (the packet was copied), else the
one of the TX packet before the call. -/
def packet_proposal (current_state : chaos_state_t) (rx_multipaxos tx_multipaxos : multipaxos_t)
    (i : Nat) : Nat :=
  if entry_new_phase current_state rx_multipaxos tx_multipaxos ≠ 0 then
    rd (entry_payload current_state rx_multipaxos tx_multipaxos).proposals i
  else rd tx_multipaxos.proposals i

/-- Specification side: value `i` of the TX packet when the loop over the entries
starts. -/
def packet_value (current_state : chaos_state_t) (rx_multipaxos tx_multipaxos : multipaxos_t)
    (i : Nat) : Nat :=
  if entry_new_phase current_state rx_multipaxos tx_multipaxos ≠ 0 then
    rd (entry_payload current_state rx_multipaxos tx_multipaxos).values i
  else rd tx_multipaxos.values i

/-- Specification side: the highest round heard: the maximum of the payload's
`max_heard_round`, the `rx_max_heard_round` before the call (0 on a new phase)
and the acceptor's `last_round_participation`. -/
def heard_round (current_state : chaos_state_t) (rx_multipaxos tx_multipaxos : multipaxos_t)
    (g : Globals) : Nat :=
  max (entry_payload current_state rx_multipaxos tx_multipaxos).max_heard_round
    (max
      (if entry_new_phase current_state rx_multipaxos tx_multipaxos ≠ 0 then 0
       else g.multipaxos_state.rx_max_heard_round)
      g.multipaxos_state.acceptor.last_round_participation)

/-- Specification side: the aggregation variables `rxp`, `rxv`, `rx_max` and the TX
packet `t` hold the aggregation of entry `i` for a call on a PREPARE payload:
the aggregated proposal and value, the TX entry overwritten with them exactly
when the payload's proposal is lower, and the highest round heard in
`rx_max_heard_round` and in the TX packet. -/
def prepare_aggregated (env : Env) (current_state : chaos_state_t)
    (rx_multipaxos tx_multipaxos : multipaxos_t) (g : Globals) (i : Nat)
    (rxp rxv : List Nat) (rx_max : Nat) (t : multipaxos_t) : Prop :=
  rd rxp i = aggregate_proposal env current_state rx_multipaxos tx_multipaxos g i
  ∧ rd rxv i = aggregate_value env current_state rx_multipaxos tx_multipaxos g i
  ∧ rd t.proposals i
    = (if rd (entry_payload current_state rx_multipaxos tx_multipaxos).proposals i
          < aggregate_proposal env current_state rx_multipaxos tx_multipaxos g i then
        aggregate_proposal env current_state rx_multipaxos tx_multipaxos g i
      else packet_proposal current_state rx_multipaxos tx_multipaxos i)
  ∧ rd t.values i
    = (if rd (entry_payload current_state rx_multipaxos tx_multipaxos).proposals i
          < aggregate_proposal env current_state rx_multipaxos tx_multipaxos g i then
        aggregate_value env current_state rx_multipaxos tx_multipaxos g i
      else packet_value current_state rx_multipaxos tx_multipaxos i)
  ∧ rx_max = heard_round current_state rx_multipaxos tx_multipaxos g
  ∧ t.max_heard_round = heard_round current_state rx_multipaxos tx_multipaxos g

instance (env : Env) (current_state : chaos_state_t) (rx_multipaxos tx_multipaxos : multipaxos_t)
    (g : Globals) (i : Nat) (rxp rxv : List Nat) (rx_max : Nat) (t : multipaxos_t) :
    Decidable (prepare_aggregated env current_state rx_multipaxos tx_multipaxos g i rxp rxv
      rx_max t) := by
  unfold prepare_aggregated; infer_instance

/-- The statics of node 2 of the three-node network after the first call of a
round, for an acceptor that took part in the decrees up to 5 and accepted the
value 9 for decree 5 under ballot (1,1). -/
def acceptor_with_5 : Globals :=
  { (after_round_start 2).g with
    multipaxos_state.acceptor :=
      ⟨ballot_of 1 1, [0, 0, 0, 0, 0, ballot_of 1 1, 0, 0], [0, 0, 0, 0, 0, 9, 0, 0], 5⟩ }

/-- The leader's phase, the aggregation variables of the PREPARE phase, and the
entries and `max_heard_round` of the TX packet. -/
def aggregation_view (y : Frame) : Nat × List Nat × List Nat × Nat × List Nat × List Nat × Nat :=
  (y.g.multipaxos_state.leader.phase, y.g.multipaxos_state.rx_accepted_proposals,
    y.g.multipaxos_state.rx_accepted_values, y.g.multipaxos_state.rx_max_heard_round,
    y.tx_multipaxos.proposals, y.tx_multipaxos.values, y.tx_multipaxos.max_heard_round)

/-- The leader's proposed values agree with the aggregation variables on the `K`
entries of the window: an entry with a reported proposal holds the reported
value, and an entry without one below a reported entry holds
`MULTIPAXOS_NO_OP`. This is what the loop of the leader's PREPARE evaluation
leaves on the entries it visits. -/
def fill_consistent (env : Env) (g : Globals) : Prop :=
  ∀ j, j < env.MULTIPAXOS_PKT_SIZE →
    (rd g.multipaxos_state.rx_accepted_proposals j ≠ 0 →
      rd g.multipaxos_state.leader.proposed_values j
        = rd g.multipaxos_state.rx_accepted_values j)
    ∧ (rd g.multipaxos_state.rx_accepted_proposals j = 0 →
        ∀ k, k < env.MULTIPAXOS_PKT_SIZE → j < k →
          rd g.multipaxos_state.rx_accepted_proposals k ≠ 0 →
          rd g.multipaxos_state.leader.proposed_values j = env.MULTIPAXOS_NO_OP)

instance (env : Env) (g : Globals) : Decidable (fill_consistent env g) := by
  unfold fill_consistent; infer_instance

/-- The reports of a PREPARE packet lie within its `max_heard_round`: an entry
`j` with a proposal is for a decree `round + j` that is not above
`max_heard_round`. The acceptor logic reports a local proposal only for a decree
up to `last_round_participation`, which it has written to `max_heard_round`. -/
def reports_within (env : Env) (pl : multipaxos_t) : Prop :=
  ∀ j, j < env.MULTIPAXOS_PKT_SIZE → rd pl.proposals j ≠ 0 → pl.round + j ≤ pl.max_heard_round

instance (env : Env) (pl : multipaxos_t) : Decidable (reports_within env pl) := by
  unfold reports_within; infer_instance

/-- The aggregation variables hold the node's own log before the call: for each
entry of the window, the proposal the acceptor accepted for the decree is not
above the aggregated proposal (0 on a new phase). -/
def own_log_aggregated (env : Env) (current_state : chaos_state_t)
    (rx_multipaxos tx_multipaxos : multipaxos_t) (g : Globals) : Prop :=
  ∀ j, j < env.MULTIPAXOS_PKT_SIZE →
    local_proposal env current_state rx_multipaxos tx_multipaxos g j
      ≤ prior_proposal current_state rx_multipaxos tx_multipaxos g j

instance (env : Env) (current_state : chaos_state_t) (rx_multipaxos tx_multipaxos : multipaxos_t)
    (g : Globals) : Decidable (own_log_aggregated env current_state rx_multipaxos tx_multipaxos g) := by
  unfold own_log_aggregated; infer_instance

/-- The aggregated proposals lie within `rx_max_heard_round`: an entry `j` of the
aggregation variables with a proposal is for a decree `round + j`, the round
being the TX packet's, that is not above `rx_max_heard_round`. -/
def aggregate_within (env : Env) (tx_multipaxos : multipaxos_t) (g : Globals) : Prop :=
  ∀ j, j < env.MULTIPAXOS_PKT_SIZE → rd g.multipaxos_state.rx_accepted_proposals j ≠ 0 →
    tx_multipaxos.round + j ≤ g.multipaxos_state.rx_max_heard_round

instance (env : Env) (tx_multipaxos : multipaxos_t) (g : Globals) :
    Decidable (aggregate_within env tx_multipaxos g) := by
  unfold aggregate_within; infer_instance

end Multi

/-- Node 1 of the three-node network, an acceptor, three slots into a round: it
received the ACCEPT of ballot (1,2) with value 9 in slot 1, transmitted it in
slot 2, and listens again. -/
def informed_acceptor : Node :=
  (((Node.start (env3 1) 0 0 0).slot 0 ⟨0, empty_packet, 0⟩).slot 1
    ⟨1, accept_of_node2, 0⟩).slot 2 ⟨1, empty_packet, 0⟩

/-- Node 1 of the three-node network, an acceptor, three slots into a round: it
received the PREPARE of ballot (2,0) with value 7 in slot 1, transmitted its
reply in slot 2, and listens again. -/
def promising_acceptor : Node :=
  (((Node.start (env3 1) 0 0 0).slot 0 ⟨0, empty_packet, 0⟩).slot 1
    ⟨1, ⟨ballot_of 2 0, PAXOS_PREPARE, 7, 0, [1]⟩, 0⟩).slot 2 ⟨1, empty_packet, 0⟩

/-- The PREPARE of ballot (2,0) as it comes back with the flags of nodes 0 and 2
and a report: accepted proposal (1,2) with value 9. -/
def prepare_with_report : paxos_t := ⟨ballot_of 2 0, PAXOS_PREPARE, 9, ballot_of 1 2, [5]⟩

/-- The statics of node 0 of the three-node network as a proposer with value 7 in
the prepare phase of its second ballot (2,0): no majority yet, no loser timeout
running, nothing aggregated, and as acceptor it has promised its own ballot. -/
def retrying_proposer : Globals :=
  { fresh_globals 1 with
    paxos_local := ⟨0, 0, 7, 0, [1]⟩,
    paxos_state := ⟨⟨ballot_of 2 0, 7, 1, PAXOS_PREPARE, 0, 0, 0⟩, ⟨ballot_of 2 0, 0, 0⟩, ⟨0⟩,
      0, 0, 0⟩,
    paxos_flags := true }

/-- The TX buffer of that node: its PREPARE of ballot (2,0) with its own flag. -/
def own_prepare : paxos_t := ⟨ballot_of 2 0, PAXOS_PREPARE, 7, 0, [1]⟩

/-- Environment of node `i` in a network of five nodes whose rounds last four
slots. -/
def env5_short (i : Nat) : Env := { env5 i with PAXOS_ROUND_MAX_SLOTS := 4 }

/-- The PREPARE of ballot (1,0) as node 1 sends it back: flags of nodes 0 and 1. -/
def prepare_reply_of_1 : paxos_t := ⟨ballot_of 1 0, PAXOS_PREPARE, 7, 0, [3]⟩

/-- A first round of four slots on node 0 of that network, fresh after
`paxos_reset_state` and a proposer with value 7: round start, its own PREPARE of
ballot (1,0) read back, the reply of node 1 received, its own packet read back in
the last slot. Two of five flags are set when the round ends. -/
def first_round : RoundResult :=
  paxos_round_begin (env5_short 0) 1 7 0
    [⟨0, empty_packet, 0⟩, ⟨1, empty_packet, 0⟩, ⟨1, prepare_reply_of_1, 0⟩, ⟨1, empty_packet, 0⟩]
    (paxos_reset_state (fresh_globals 1))

/-- The same node in the next round, entered without `paxos_reset_state` because
the first round did not complete, three slots in: round start, its own PREPARE
read back, and the reply of node 2 (flags of nodes 0 and 2) received. -/
def second_round_proposer : Node :=
  ((({ env := env5_short 0,
       g := paxos_round_entry (env5_short 0) 1 7 0 first_round.g,
       tx_paxos := initial_tx (env5_short 0) (paxos_round_entry (env5_short 0) 1 7 0 first_round.g),
       state := CHAOS_INIT } : Node).slot 0 ⟨0, empty_packet, 0⟩).slot 1 ⟨1, empty_packet, 0⟩).slot 2
    ⟨1, prepare_reply_of_2, 0⟩

/-- The frame of a valid call that is not handled as a heartbeat, after its
acceptor logic: what the proposer logic starts from. -/
def proposer_frame (env : Env) (slot_count : Nat) (current_state : chaos_state_t)
    (rx_paxos : paxos_t) (rnd : Nat) (tx_paxos : paxos_t) (g : Globals) : Frame :=
  acceptor_logic env slot_count current_state rx_paxos rnd (open_valid (entry_frame tx_paxos g))

/-- Node 1 of the three-node network as proposer A with value 7, three slots into
its round: it started its prepare phase with ballot (1,1) on a heartbeat, read
its PREPARE back in slot 2, and listens again. -/
def proposer_A : Node :=
  (((Node.start (env3 1) 1 7 0).slot 0 ⟨0, empty_packet, 0⟩).slot 1
    ⟨1, heartbeat_packet, 0⟩).slot 2 ⟨1, empty_packet, 0⟩

/-- The PREPARE of proposer B = node 2 with ballot (1,2) and value 9. -/
def prepare_of_B : paxos_t := ⟨ballot_of 1 2, PAXOS_PREPARE, 9, 0, [4]⟩

/-- Every bit set in a byte of the flag array `fl` is set in the byte `U i` of the
same index. -/
def bits_within (fl : List Nat) (U : Nat → Nat) : Prop :=
  ∀ i k, (rd fl i).testBit k = true → (U i).testBit k = true

/-- Byte `i` of a flag array in which the node's own flag alone is set. -/
def own_flag (env : Env) (i : Nat) : Nat :=
  if i = env.chaos_node_index / 8 then 1 <<< (env.chaos_node_index % 8) else 0

/-- Byte `i` of the union of the flags of the TX packet `tx_paxos`, the flags of
the payload `pl` and the node's own flag. -/
def union_byte (env : Env) (tx_paxos pl : paxos_t) (i : Nat) : Nat :=
  rd tx_paxos.flags i ||| rd pl.flags i ||| own_flag env i

/-- Number of bits set in that union over the first `FLAGS_LEN` bytes. -/
def union_count (env : Env) (tx_paxos pl : paxos_t) : Nat :=
  (List.range (FLAGS_LEN env)).foldl (fun n i => n + popcount (union_byte env tx_paxos pl i)) 0

/-- Node 0 of the three-node network as a proposer with value 7, four slots into
its round: it entered ACCEPT with ballot (1,0) on the reply of node 1 in slot 2,
read its ACCEPT back in slot 3, and listens again. -/
def accepting_proposer : Node :=
  (prepared_proposer.slot 2 ⟨1, prepare_reply, 0⟩).slot 3 ⟨1, empty_packet, 0⟩

/-- The ACCEPT of ballot (1,0) with value 7 as node 1 sends it back: flags of
nodes 0 and 1, `min_proposal` (1,0) reported. -/
def accept_reply_of_1 : paxos_t := ⟨ballot_of 1 0, PAXOS_ACCEPT, 7, ballot_of 1 0, [3]⟩

/-- The same ACCEPT as an acceptor sends it back that has promised ballot (1,2). -/
def accept_reply_outbid : paxos_t := ⟨ballot_of 1 0, PAXOS_ACCEPT, 7, ballot_of 1 2, [3]⟩

/-! ## What the blocks of `process` leave unchanged -/

/-- A property of both branches holds of a conditional. -/
theorem ite_elim {α : Sort _} {P : α → Prop} {c : Prop} [Decidable c] {a b : α}
    (ha : P a) (hb : P b) : P (if c then a else b) := by
  by_cases h : c
  · rw [if_pos h]; exact ha
  · rw [if_neg h]; exact hb

theorem mark_off_frame (env : Env) (slot_count : Nat) (ns : chaos_state_t) (f : Frame) :
    (mark_off env slot_count ns f).g.paxos_state = f.g.paxos_state
    ∧ (mark_off env slot_count ns f).tx_paxos = f.tx_paxos := by
  unfold mark_off
  show holds (fun x : Frame => x.g.paxos_state = f.g.paxos_state ∧ x.tx_paxos = f.tx_paxos) _
  repeat' apply ite_elim
  all_goals exact ⟨rfl, rfl⟩

theorem report_final_frame (env : Env) (slot_count : Nat) (f : Frame) :
    (report_final env slot_count f).g.paxos_state.acceptor = f.g.paxos_state.acceptor
    ∧ (report_final env slot_count f).g.paxos_state.learner = f.g.paxos_state.learner
    ∧ (report_final env slot_count f).g.value_chosen_this_round = f.g.value_chosen_this_round
    ∧ (report_final env slot_count f).tx_paxos = f.tx_paxos := by
  unfold report_final
  show holds (fun x : Frame => x.g.paxos_state.acceptor = f.g.paxos_state.acceptor
    ∧ x.g.paxos_state.learner = f.g.paxos_state.learner
    ∧ x.g.value_chosen_this_round = f.g.value_chosen_this_round
    ∧ x.tx_paxos = f.tx_paxos) _
  repeat' apply ite_elim
  all_goals exact ⟨rfl, rfl, rfl, rfl⟩

/-- On a proposer the final report leaves the proposer state alone. -/
theorem report_final_proposer (env : Env) (slot_count : Nat) (f : Frame)
    (h : f.g.paxos_state.proposer.is_proposer ≠ 0) :
    (report_final env slot_count f).g.paxos_state = f.g.paxos_state := by
  unfold report_final
  rw [if_neg h]
  show holds (fun x : Frame => x.g.paxos_state = f.g.paxos_state) _
  repeat' apply ite_elim
  all_goals rfl

theorem exit_frame_frame (env : Env) (slot_count : Nat) (r : chaos_state_t × Frame) :
    (exit_frame env slot_count r).g.paxos_state.acceptor = r.2.g.paxos_state.acceptor
    ∧ (exit_frame env slot_count r).g.paxos_state.learner = r.2.g.paxos_state.learner
    ∧ (exit_frame env slot_count r).tx_paxos = r.2.tx_paxos := by
  unfold exit_frame
  rw [(mark_off_frame _ _ _ _).1, (mark_off_frame _ _ _ _).2]
  exact ⟨(report_final_frame _ _ _).1, (report_final_frame _ _ _).2.1,
    (report_final_frame _ _ _).2.2.2⟩

theorem sync_rx_ok_frame (f : Frame) :
    (sync_rx_ok f).2.g.paxos_state = f.g.paxos_state ∧ (sync_rx_ok f).2.tx_paxos = f.tx_paxos := by
  unfold sync_rx_ok
  show holds (fun x : chaos_state_t × Frame =>
    x.2.g.paxos_state = f.g.paxos_state ∧ x.2.tx_paxos = f.tx_paxos) _
  repeat' apply ite_elim
  all_goals exact ⟨rfl, rfl⟩

theorem sync_rx_fail_frame (env : Env) (rnd : Nat) (f : Frame) :
    (sync_rx_fail env rnd f).2.g.paxos_state = f.g.paxos_state
    ∧ (sync_rx_fail env rnd f).2.tx_paxos = f.tx_paxos := by
  unfold sync_rx_fail
  show holds (fun x : chaos_state_t × Frame =>
    x.2.g.paxos_state = f.g.paxos_state ∧ x.2.tx_paxos = f.tx_paxos) _
  repeat' apply ite_elim
  all_goals exact ⟨rfl, rfl⟩

/-- Outside the round start the Synchrotron state logic touches neither the node
state nor the TX buffer. -/
theorem synchrotron_logic_frame (env : Env) (cs : chaos_state_t) (succ rnd : Nat) (f : Frame)
    (h : cs ≠ CHAOS_INIT) :
    (synchrotron_logic env cs succ rnd f).2.g.paxos_state = f.g.paxos_state
    ∧ (synchrotron_logic env cs succ rnd f).2.tx_paxos = f.tx_paxos := by
  unfold synchrotron_logic
  rw [if_neg (fun hc => h hc.2)]
  show holds (fun x : chaos_state_t × Frame =>
    x.2.g.paxos_state = f.g.paxos_state ∧ x.2.tx_paxos = f.tx_paxos) _
  repeat' apply ite_elim
  all_goals exact ⟨rfl, rfl⟩

theorem dampening_frame (env : Env) (pl : paxos_t) (rnd : Nat) (f : Frame) :
    (dampening env pl rnd f).g.paxos_state = f.g.paxos_state
    ∧ (dampening env pl rnd f).tx_paxos = f.tx_paxos
    ∧ (dampening env pl rnd f).g.n_replies = f.g.n_replies
    ∧ (dampening env pl rnd f).g.value_chosen_this_round = f.g.value_chosen_this_round := by
  unfold dampening
  show holds (fun x : Frame => x.g.paxos_state = f.g.paxos_state ∧ x.tx_paxos = f.tx_paxos
    ∧ x.g.n_replies = f.g.n_replies
    ∧ x.g.value_chosen_this_round = f.g.value_chosen_this_round) _
  repeat' apply ite_elim
  all_goals exact ⟨rfl, rfl, rfl, rfl⟩

theorem quorum_read_frame (env : Env) (pl : paxos_t) (f : Frame) :
    (quorum_read env pl f).g.paxos_state.acceptor = f.g.paxos_state.acceptor
    ∧ (quorum_read env pl f).g.paxos_state.proposer = f.g.paxos_state.proposer
    ∧ (quorum_read env pl f).g.paxos_state.rx_min_proposal = f.g.paxos_state.rx_min_proposal
    ∧ (quorum_read env pl f).g.paxos_state.rx_accepted_proposal
        = f.g.paxos_state.rx_accepted_proposal
    ∧ (quorum_read env pl f).g.paxos_state.rx_accepted_value = f.g.paxos_state.rx_accepted_value
    ∧ (quorum_read env pl f).tx_paxos = f.tx_paxos := by
  unfold quorum_read
  show holds (fun x : Frame => x.g.paxos_state.acceptor = f.g.paxos_state.acceptor
    ∧ x.g.paxos_state.proposer = f.g.paxos_state.proposer
    ∧ x.g.paxos_state.rx_min_proposal = f.g.paxos_state.rx_min_proposal
    ∧ x.g.paxos_state.rx_accepted_proposal = f.g.paxos_state.rx_accepted_proposal
    ∧ x.g.paxos_state.rx_accepted_value = f.g.paxos_state.rx_accepted_value
    ∧ x.tx_paxos = f.tx_paxos) _
  repeat' apply ite_elim
  all_goals exact ⟨rfl, rfl, rfl, rfl, rfl, rfl⟩

theorem completion_frame (env : Env) (slot_count : Nat) (pl : paxos_t) (fs : Nat) (f : Frame) :
    (completion env slot_count pl fs f).g.paxos_state = f.g.paxos_state
    ∧ (completion env slot_count pl fs f).tx_paxos = f.tx_paxos
    ∧ (completion env slot_count pl fs f).g.value_chosen_this_round
        = f.g.value_chosen_this_round := by
  unfold completion record_completion set_tx
  show holds (fun x : Frame => x.g.paxos_state = f.g.paxos_state ∧ x.tx_paxos = f.tx_paxos
    ∧ x.g.value_chosen_this_round = f.g.value_chosen_this_round) _
  apply ite_elim
  · show holds (fun x : Frame => x.g.paxos_state = f.g.paxos_state ∧ x.tx_paxos = f.tx_paxos
      ∧ x.g.value_chosen_this_round = f.g.value_chosen_this_round) _
    by_cases h : f.g.complete = 0
    · rw [if_pos h]; exact ⟨rfl, rfl, rfl⟩
    · rw [if_neg h]; exact ⟨rfl, rfl, rfl⟩
  · exact ⟨rfl, rfl, rfl⟩

/-- The transmission logic leaves acceptor, proposer and aggregation variables
alone, and writes only the flags of the TX buffer. -/
theorem transmission_logic_frame (env : Env) (slot_count : Nat) (cs : chaos_state_t)
    (rx : paxos_t) (rnd np : Nat) (f : Frame) :
    (transmission_logic env slot_count cs rx rnd np f).g.paxos_state.acceptor
        = f.g.paxos_state.acceptor
    ∧ (transmission_logic env slot_count cs rx rnd np f).g.paxos_state.proposer
        = f.g.paxos_state.proposer
    ∧ (transmission_logic env slot_count cs rx rnd np f).g.paxos_state.rx_min_proposal
        = f.g.paxos_state.rx_min_proposal
    ∧ (transmission_logic env slot_count cs rx rnd np f).g.paxos_state.rx_accepted_proposal
        = f.g.paxos_state.rx_accepted_proposal
    ∧ (transmission_logic env slot_count cs rx rnd np f).g.paxos_state.rx_accepted_value
        = f.g.paxos_state.rx_accepted_value
    ∧ (transmission_logic env slot_count cs rx rnd np f).tx_paxos.ballot = f.tx_paxos.ballot
    ∧ (transmission_logic env slot_count cs rx rnd np f).tx_paxos.phase = f.tx_paxos.phase
    ∧ (transmission_logic env slot_count cs rx rnd np f).tx_paxos.value = f.tx_paxos.value
    ∧ (transmission_logic env slot_count cs rx rnd np f).tx_paxos.proposal
        = f.tx_paxos.proposal := by
  unfold transmission_logic
  simp only [(completion_frame _ _ _ _ _).1, (completion_frame _ _ _ _ _).2.1,
    (quorum_read_frame _ _ _).1, (quorum_read_frame _ _ _).2.1, (quorum_read_frame _ _ _).2.2.1,
    (quorum_read_frame _ _ _).2.2.2.1, (quorum_read_frame _ _ _).2.2.2.2.1,
    (quorum_read_frame _ _ _).2.2.2.2.2, (dampening_frame _ _ _ _).1, (dampening_frame _ _ _ _).2.1]
  exact ⟨rfl, rfl, rfl, rfl, rfl, rfl, rfl, rfl, rfl⟩

theorem prepare_promise_frame (pl : paxos_t) (f : Frame) :
    (prepare_promise pl f).tx_paxos = f.tx_paxos
    ∧ (prepare_promise pl f).g.paxos_state.proposer = f.g.paxos_state.proposer
    ∧ (prepare_promise pl f).g.paxos_state.learner = f.g.paxos_state.learner
    ∧ (prepare_promise pl f).g.paxos_state.rx_min_proposal = f.g.paxos_state.rx_min_proposal
    ∧ (prepare_promise pl f).g.paxos_state.rx_accepted_proposal
        = f.g.paxos_state.rx_accepted_proposal
    ∧ (prepare_promise pl f).g.paxos_state.rx_accepted_value = f.g.paxos_state.rx_accepted_value
    ∧ (prepare_promise pl f).g.paxos_state.acceptor.accepted_proposal
        = f.g.paxos_state.acceptor.accepted_proposal
    ∧ (prepare_promise pl f).g.paxos_state.acceptor.accepted_value
        = f.g.paxos_state.acceptor.accepted_value := by
  unfold prepare_promise
  show holds (fun x : Frame => x.tx_paxos = f.tx_paxos
    ∧ x.g.paxos_state.proposer = f.g.paxos_state.proposer
    ∧ x.g.paxos_state.learner = f.g.paxos_state.learner
    ∧ x.g.paxos_state.rx_min_proposal = f.g.paxos_state.rx_min_proposal
    ∧ x.g.paxos_state.rx_accepted_proposal = f.g.paxos_state.rx_accepted_proposal
    ∧ x.g.paxos_state.rx_accepted_value = f.g.paxos_state.rx_accepted_value
    ∧ x.g.paxos_state.acceptor.accepted_proposal = f.g.paxos_state.acceptor.accepted_proposal
    ∧ x.g.paxos_state.acceptor.accepted_value = f.g.paxos_state.acceptor.accepted_value) _
  repeat' apply ite_elim
  all_goals exact ⟨rfl, rfl, rfl, rfl, rfl, rfl, rfl, rfl⟩

theorem prepare_report_frame (pl : paxos_t) (f : Frame) :
    (prepare_report pl f).tx_paxos.ballot = f.tx_paxos.ballot
    ∧ (prepare_report pl f).tx_paxos.phase = f.tx_paxos.phase
    ∧ (prepare_report pl f).tx_paxos.flags = f.tx_paxos.flags
    ∧ (prepare_report pl f).g.paxos_state.proposer = f.g.paxos_state.proposer
    ∧ (prepare_report pl f).g.paxos_state.acceptor = f.g.paxos_state.acceptor
    ∧ (prepare_report pl f).g.paxos_state.learner = f.g.paxos_state.learner
    ∧ (prepare_report pl f).g.paxos_state.rx_min_proposal = f.g.paxos_state.rx_min_proposal := by
  unfold prepare_report
  show holds (fun x : Frame => x.tx_paxos.ballot = f.tx_paxos.ballot
    ∧ x.tx_paxos.phase = f.tx_paxos.phase
    ∧ x.tx_paxos.flags = f.tx_paxos.flags
    ∧ x.g.paxos_state.proposer = f.g.paxos_state.proposer
    ∧ x.g.paxos_state.acceptor = f.g.paxos_state.acceptor
    ∧ x.g.paxos_state.learner = f.g.paxos_state.learner
    ∧ x.g.paxos_state.rx_min_proposal = f.g.paxos_state.rx_min_proposal) _
  repeat' apply ite_elim
  all_goals exact ⟨rfl, rfl, rfl, rfl, rfl, rfl, rfl⟩

theorem accept_write_frame (pl : paxos_t) (f : Frame) :
    (accept_write pl f).tx_paxos = f.tx_paxos
    ∧ (accept_write pl f).g.paxos_state.proposer = f.g.paxos_state.proposer
    ∧ (accept_write pl f).g.paxos_state.learner = f.g.paxos_state.learner
    ∧ (accept_write pl f).g.paxos_state.rx_min_proposal = f.g.paxos_state.rx_min_proposal
    ∧ (accept_write pl f).g.paxos_state.rx_accepted_proposal
        = f.g.paxos_state.rx_accepted_proposal
    ∧ (accept_write pl f).g.paxos_state.rx_accepted_value
        = f.g.paxos_state.rx_accepted_value := by
  unfold accept_write
  show holds (fun x : Frame => x.tx_paxos = f.tx_paxos
    ∧ x.g.paxos_state.proposer = f.g.paxos_state.proposer
    ∧ x.g.paxos_state.learner = f.g.paxos_state.learner
    ∧ x.g.paxos_state.rx_min_proposal = f.g.paxos_state.rx_min_proposal
    ∧ x.g.paxos_state.rx_accepted_proposal = f.g.paxos_state.rx_accepted_proposal
    ∧ x.g.paxos_state.rx_accepted_value = f.g.paxos_state.rx_accepted_value) _
  repeat' apply ite_elim
  all_goals exact ⟨rfl, rfl, rfl, rfl, rfl, rfl⟩

theorem accept_min_report_frame (pl : paxos_t) (f : Frame) :
    (accept_min_report pl f).tx_paxos.ballot = f.tx_paxos.ballot
    ∧ (accept_min_report pl f).tx_paxos.phase = f.tx_paxos.phase
    ∧ (accept_min_report pl f).tx_paxos.value = f.tx_paxos.value
    ∧ (accept_min_report pl f).tx_paxos.flags = f.tx_paxos.flags
    ∧ (accept_min_report pl f).g.paxos_state.proposer = f.g.paxos_state.proposer
    ∧ (accept_min_report pl f).g.paxos_state.acceptor = f.g.paxos_state.acceptor
    ∧ (accept_min_report pl f).g.paxos_state.learner = f.g.paxos_state.learner
    ∧ (accept_min_report pl f).g.paxos_state.rx_accepted_proposal
        = f.g.paxos_state.rx_accepted_proposal
    ∧ (accept_min_report pl f).g.paxos_state.rx_accepted_value
        = f.g.paxos_state.rx_accepted_value := by
  unfold accept_min_report
  show holds (fun x : Frame => x.tx_paxos.ballot = f.tx_paxos.ballot
    ∧ x.tx_paxos.phase = f.tx_paxos.phase
    ∧ x.tx_paxos.value = f.tx_paxos.value
    ∧ x.tx_paxos.flags = f.tx_paxos.flags
    ∧ x.g.paxos_state.proposer = f.g.paxos_state.proposer
    ∧ x.g.paxos_state.acceptor = f.g.paxos_state.acceptor
    ∧ x.g.paxos_state.learner = f.g.paxos_state.learner
    ∧ x.g.paxos_state.rx_accepted_proposal = f.g.paxos_state.rx_accepted_proposal
    ∧ x.g.paxos_state.rx_accepted_value = f.g.paxos_state.rx_accepted_value) _
  repeat' apply ite_elim
  all_goals exact ⟨rfl, rfl, rfl, rfl, rfl, rfl, rfl, rfl, rfl⟩

theorem accept_carry_frame (f : Frame) :
    (accept_carry f).tx_paxos = f.tx_paxos
    ∧ (accept_carry f).g.paxos_state.proposer = f.g.paxos_state.proposer
    ∧ (accept_carry f).g.paxos_state.acceptor = f.g.paxos_state.acceptor
    ∧ (accept_carry f).g.paxos_state.learner = f.g.paxos_state.learner
    ∧ (accept_carry f).g.paxos_state.rx_min_proposal = f.g.paxos_state.rx_min_proposal := by
  unfold accept_carry
  show holds (fun x : Frame => x.tx_paxos = f.tx_paxos
    ∧ x.g.paxos_state.proposer = f.g.paxos_state.proposer
    ∧ x.g.paxos_state.acceptor = f.g.paxos_state.acceptor
    ∧ x.g.paxos_state.learner = f.g.paxos_state.learner
    ∧ x.g.paxos_state.rx_min_proposal = f.g.paxos_state.rx_min_proposal) _
  repeat' apply ite_elim
  all_goals exact ⟨rfl, rfl, rfl, rfl, rfl⟩

/-- The acceptor phases leave the proposer state and the learner alone, and
ballot, phase and flags of the TX buffer too. -/
theorem acceptor_phase_frame (pl : paxos_t) (f : Frame) :
    (acceptor_phase pl f).tx_paxos.ballot = f.tx_paxos.ballot
    ∧ (acceptor_phase pl f).tx_paxos.phase = f.tx_paxos.phase
    ∧ (acceptor_phase pl f).tx_paxos.flags = f.tx_paxos.flags
    ∧ (acceptor_phase pl f).g.paxos_state.proposer = f.g.paxos_state.proposer
    ∧ (acceptor_phase pl f).g.paxos_state.learner = f.g.paxos_state.learner := by
  unfold acceptor_phase acceptor_prepare acceptor_accept
  show holds (fun x : Frame => x.tx_paxos.ballot = f.tx_paxos.ballot
    ∧ x.tx_paxos.phase = f.tx_paxos.phase
    ∧ x.tx_paxos.flags = f.tx_paxos.flags
    ∧ x.g.paxos_state.proposer = f.g.paxos_state.proposer
    ∧ x.g.paxos_state.learner = f.g.paxos_state.learner) _
  apply ite_elim
  · have h1 := prepare_report_frame pl (prepare_promise pl f)
    have h2 := prepare_promise_frame pl f
    exact ⟨by rw [h1.1, h2.1], by rw [h1.2.1, h2.1], by rw [h1.2.2.1, h2.1],
      by rw [h1.2.2.2.1, h2.2.1], by rw [h1.2.2.2.2.2.1, h2.2.2.1]⟩
  · apply ite_elim
    · have h1 := accept_carry_frame (accept_min_report pl (accept_write pl f))
      have h2 := accept_min_report_frame pl (accept_write pl f)
      have h3 := accept_write_frame pl f
      exact ⟨by rw [h1.1, h2.1, h3.1], by rw [h1.1, h2.2.1, h3.1],
        by rw [h1.1, h2.2.2.2.1, h3.1], by rw [h1.2.1, h2.2.2.2.2.1, h3.2.1],
        by rw [h1.2.2.2.1, h2.2.2.2.2.2.2.1, h3.2.2.1]⟩
    · exact ⟨rfl, rfl, rfl, rfl, rfl⟩

/-- The acceptor state after the acceptor phases. -/
theorem acceptor_phase_acceptor (pl : paxos_t) (f : Frame) :
    (acceptor_phase pl f).g.paxos_state.acceptor =
      if pl.phase = PAXOS_PREPARE then (prepare_promise pl f).g.paxos_state.acceptor
      else if pl.phase = PAXOS_ACCEPT then (accept_write pl f).g.paxos_state.acceptor
      else f.g.paxos_state.acceptor := by
  unfold acceptor_phase acceptor_prepare acceptor_accept
  by_cases h1 : pl.phase = PAXOS_PREPARE
  · rw [if_pos h1, if_pos h1, (prepare_report_frame _ _).2.2.2.2.1]
  · rw [if_neg h1, if_neg h1]
    by_cases h2 : pl.phase = PAXOS_ACCEPT
    · rw [if_pos h2, if_pos h2, (accept_carry_frame _).2.2.1,
        (accept_min_report_frame _ _).2.2.2.2.2.1]
    · rw [if_neg h2, if_neg h2]

/-- After the new-phase block the payload reads as it did before: a node that
reads its own TX buffer never sees a new phase. -/
theorem payload_after_new_phase (env : Env) (cs : chaos_state_t) (rx : paxos_t) (f : Frame) :
    payload cs rx
        (if new_phase_of (payload cs rx f) f.tx_paxos ≠ 0
         then new_phase_copy env (payload cs rx f) f else f)
      = payload cs rx f := by
  unfold payload
  by_cases h : cs = CHAOS_TX
  · have h0 : new_phase_of f.tx_paxos f.tx_paxos = 0 := by
      unfold new_phase_of
      rw [if_neg (fun hn => hn ⟨rfl, rfl⟩)]
    rw [if_pos h, if_pos h, h0, if_neg (fun hn => hn rfl)]
  · rw [if_neg h, if_neg h]

theorem new_phase_block_frame (env : Env) (np : Nat) (pl : paxos_t) (f : Frame) :
    (if np ≠ 0 then new_phase_copy env pl f else f).g.paxos_state.acceptor
        = f.g.paxos_state.acceptor
    ∧ (if np ≠ 0 then new_phase_copy env pl f else f).g.paxos_state.proposer
        = f.g.paxos_state.proposer
    ∧ (if np ≠ 0 then new_phase_copy env pl f else f).g.paxos_state.learner
        = f.g.paxos_state.learner := by
  show holds (fun x : Frame => x.g.paxos_state.acceptor = f.g.paxos_state.acceptor
    ∧ x.g.paxos_state.proposer = f.g.paxos_state.proposer
    ∧ x.g.paxos_state.learner = f.g.paxos_state.learner) _
  apply ite_elim
  all_goals exact ⟨rfl, rfl, rfl⟩

theorem prepare_promise_acceptor (pl : paxos_t) (f : Frame) :
    (prepare_promise pl f).g.paxos_state.acceptor =
      if pl.ballot > f.g.paxos_state.acceptor.min_proposal then
        { f.g.paxos_state.acceptor with min_proposal := pl.ballot }
      else f.g.paxos_state.acceptor := by
  unfold prepare_promise
  by_cases h : pl.ballot > f.g.paxos_state.acceptor.min_proposal
  · rw [if_pos h, if_pos h]
  · rw [if_neg h, if_neg h]

theorem accept_write_acceptor (pl : paxos_t) (f : Frame) :
    (accept_write pl f).g.paxos_state.acceptor =
      if pl.ballot ≥ f.g.paxos_state.acceptor.min_proposal then
        { accepted_proposal := pl.ballot, min_proposal := pl.ballot, accepted_value := pl.value }
      else f.g.paxos_state.acceptor := by
  unfold accept_write
  by_cases h : pl.ballot ≥ f.g.paxos_state.acceptor.min_proposal
  · rw [if_pos h, if_pos h]
  · rw [if_neg h, if_neg h]

/-- The acceptor state after the acceptor phases is `acceptor_step` of the one
before. -/
theorem acceptor_phase_step (pl : paxos_t) (f : Frame) :
    (acceptor_phase pl f).g.paxos_state.acceptor = acceptor_step pl f.g.paxos_state.acceptor := by
  rw [acceptor_phase_acceptor, prepare_promise_acceptor, accept_write_acceptor]
  rfl

/-- The acceptor logic after the ordering check: acceptor state, proposer state
and the TX header fields it keeps. -/
theorem acceptor_merge_frame (env : Env) (slot_count : Nat) (cs : chaos_state_t)
    (rx : paxos_t) (rnd : Nat) (f : Frame) :
    (acceptor_merge env slot_count cs rx rnd (new_phase_of (payload cs rx f) f.tx_paxos)
        (payload cs rx f) f).g.paxos_state.acceptor
      = acceptor_step (payload cs rx f) f.g.paxos_state.acceptor
    ∧ (acceptor_merge env slot_count cs rx rnd (new_phase_of (payload cs rx f) f.tx_paxos)
        (payload cs rx f) f).g.paxos_state.proposer = f.g.paxos_state.proposer := by
  unfold acceptor_merge
  refine ⟨?_, ?_⟩
  · rw [(transmission_logic_frame _ _ _ _ _ _ _).1, acceptor_phase_step, payload_after_new_phase,
      (new_phase_block_frame _ _ _ _).1]
  · rw [(transmission_logic_frame _ _ _ _ _ _ _).2.1, (acceptor_phase_frame _ _).2.2.2.1,
      (new_phase_block_frame _ _ _ _).2.1]

/-- The acceptor state after the ordering check: `acceptor_step` when the payload
passes it, unchanged otherwise; the proposer state is kept. -/
theorem acceptor_check_frame (env : Env) (slot_count : Nat) (cs : chaos_state_t)
    (rx : paxos_t) (rnd : Nat) (f : Frame) :
    (acceptor_check env slot_count cs rx rnd f).g.paxos_state.acceptor
      = (if ordering_ok (payload cs rx f) f.tx_paxos
         then acceptor_step (payload cs rx f) f.g.paxos_state.acceptor
         else f.g.paxos_state.acceptor)
    ∧ (acceptor_check env slot_count cs rx rnd f).g.paxos_state.proposer
      = f.g.paxos_state.proposer := by
  have hm := acceptor_merge_frame env slot_count cs rx rnd f
  unfold acceptor_check ordering_ok
  by_cases h : (payload cs rx f).ballot > f.tx_paxos.ballot
      ∨ ((payload cs rx f).ballot = f.tx_paxos.ballot ∧ (payload cs rx f).phase ≥ f.tx_paxos.phase)
  · rw [if_pos h, if_pos h]
    exact hm
  · rw [if_neg h, if_neg h]
    exact ⟨rfl, rfl⟩

/-- The acceptor state after the acceptor logic, and the proposer state it
keeps. -/
theorem acceptor_logic_frame (env : Env) (slot_count : Nat) (cs : chaos_state_t)
    (rx : paxos_t) (rnd : Nat) (f : Frame) :
    (acceptor_logic env slot_count cs rx rnd f).g.paxos_state.acceptor
      = (if ordering_ok (payload cs rx f) f.tx_paxos
         then acceptor_step (payload cs rx f) f.g.paxos_state.acceptor
         else f.g.paxos_state.acceptor)
    ∧ (acceptor_logic env slot_count cs rx rnd f).g.paxos_state.proposer
      = f.g.paxos_state.proposer :=
  acceptor_check_frame env slot_count cs rx rnd (clear_tx f)

/-- Ballot and phase of the payload read the same after the acceptor logic as
before it. -/
theorem payload_after_acceptor_logic (env : Env) (slot_count : Nat) (cs : chaos_state_t)
    (rx : paxos_t) (rnd : Nat) (f : Frame) :
    (payload cs rx (acceptor_logic env slot_count cs rx rnd f)).ballot = (payload cs rx f).ballot
    ∧ (payload cs rx (acceptor_logic env slot_count cs rx rnd f)).phase
        = (payload cs rx f).phase := by
  unfold payload
  by_cases h : cs = CHAOS_TX
  · rw [if_pos h, if_pos h]
    unfold acceptor_logic acceptor_check payload
    rw [if_pos h]
    have hord : (clear_tx f).tx_paxos.ballot > (clear_tx f).tx_paxos.ballot
        ∨ ((clear_tx f).tx_paxos.ballot = (clear_tx f).tx_paxos.ballot
            ∧ (clear_tx f).tx_paxos.phase ≥ (clear_tx f).tx_paxos.phase) :=
      Or.inr ⟨rfl, le_refl _⟩
    have h0 : new_phase_of (clear_tx f).tx_paxos (clear_tx f).tx_paxos = 0 := by
      unfold new_phase_of
      rw [if_neg (fun hn => hn ⟨rfl, rfl⟩)]
    rw [if_pos hord, h0]
    unfold acceptor_merge
    rw [if_neg (fun hn => hn rfl)]
    rw [(transmission_logic_frame _ _ _ _ _ _ _).2.2.2.2.2.1,
      (transmission_logic_frame _ _ _ _ _ _ _).2.2.2.2.2.2.1,
      (acceptor_phase_frame _ _).1, (acceptor_phase_frame _ _).2.1]
    exact ⟨rfl, rfl⟩
  · rw [if_neg h, if_neg h]
    exact ⟨rfl, rfl⟩

theorem adopt_reported_frame (f : Frame) :
    (adopt_reported f).tx_paxos = f.tx_paxos
    ∧ (adopt_reported f).g.paxos_state.acceptor = f.g.paxos_state.acceptor
    ∧ (adopt_reported f).g.paxos_state.learner = f.g.paxos_state.learner
    ∧ (adopt_reported f).g.value_chosen_this_round = f.g.value_chosen_this_round
    ∧ (adopt_reported f).g.paxos_state.rx_accepted_proposal = f.g.paxos_state.rx_accepted_proposal
    ∧ (adopt_reported f).g.paxos_state.rx_accepted_value = f.g.paxos_state.rx_accepted_value
    ∧ (adopt_reported f).g.paxos_state.rx_min_proposal = f.g.paxos_state.rx_min_proposal := by
  unfold adopt_reported
  show holds (fun x : Frame => x.tx_paxos = f.tx_paxos
    ∧ x.g.paxos_state.acceptor = f.g.paxos_state.acceptor
    ∧ x.g.paxos_state.learner = f.g.paxos_state.learner
    ∧ x.g.value_chosen_this_round = f.g.value_chosen_this_round
    ∧ x.g.paxos_state.rx_accepted_proposal = f.g.paxos_state.rx_accepted_proposal
    ∧ x.g.paxos_state.rx_accepted_value = f.g.paxos_state.rx_accepted_value
    ∧ x.g.paxos_state.rx_min_proposal = f.g.paxos_state.rx_min_proposal) _
  repeat' apply ite_elim
  all_goals exact ⟨rfl, rfl, rfl, rfl, rfl, rfl, rfl⟩

/-- The proposer's evaluation of a payload with its own ballot and phase leaves
the acceptor state, the learner and the TX buffer alone. -/
theorem proposer_own_phase_frame (env : Env) (slot_count : Nat) (f : Frame) :
    (proposer_own_phase env slot_count f).f.tx_paxos = f.tx_paxos
    ∧ (proposer_own_phase env slot_count f).f.g.paxos_state.acceptor = f.g.paxos_state.acceptor
    ∧ (proposer_own_phase env slot_count f).f.g.paxos_state.learner = f.g.paxos_state.learner
    ∧ (proposer_own_phase env slot_count f).f.g.value_chosen_this_round
        = f.g.value_chosen_this_round := by
  have h1 : ∀ a : PropFrame, (proposer_late_loss a).f = a.f := by
    intro a
    unfold proposer_late_loss
    show holds (fun x : PropFrame => x.f = a.f) _
    repeat' apply ite_elim
    all_goals rfl
  have h2 : ∀ a : PropFrame,
      (proposer_majority env slot_count a).f.tx_paxos = a.f.tx_paxos
      ∧ (proposer_majority env slot_count a).f.g.paxos_state.acceptor = a.f.g.paxos_state.acceptor
      ∧ (proposer_majority env slot_count a).f.g.paxos_state.learner = a.f.g.paxos_state.learner
      ∧ (proposer_majority env slot_count a).f.g.value_chosen_this_round
          = a.f.g.value_chosen_this_round := by
    intro a
    unfold proposer_majority
    show holds (fun x : PropFrame => x.f.tx_paxos = a.f.tx_paxos
      ∧ x.f.g.paxos_state.acceptor = a.f.g.paxos_state.acceptor
      ∧ x.f.g.paxos_state.learner = a.f.g.paxos_state.learner
      ∧ x.f.g.value_chosen_this_round = a.f.g.value_chosen_this_round) _
    repeat' apply ite_elim
    all_goals exact ⟨rfl, rfl, rfl, rfl⟩
  have h3 : (proposer_reports f).f.tx_paxos = f.tx_paxos
      ∧ (proposer_reports f).f.g.paxos_state.acceptor = f.g.paxos_state.acceptor
      ∧ (proposer_reports f).f.g.paxos_state.learner = f.g.paxos_state.learner
      ∧ (proposer_reports f).f.g.value_chosen_this_round = f.g.value_chosen_this_round := by
    unfold proposer_reports
    show holds (fun x : PropFrame => x.f.tx_paxos = f.tx_paxos
      ∧ x.f.g.paxos_state.acceptor = f.g.paxos_state.acceptor
      ∧ x.f.g.paxos_state.learner = f.g.paxos_state.learner
      ∧ x.f.g.value_chosen_this_round = f.g.value_chosen_this_round) _
    apply ite_elim
    · exact ⟨(adopt_reported_frame f).1, (adopt_reported_frame f).2.1,
        (adopt_reported_frame f).2.2.1, (adopt_reported_frame f).2.2.2.1⟩
    · apply ite_elim
      all_goals exact ⟨rfl, rfl, rfl, rfl⟩
  unfold proposer_own_phase
  rw [h1]
  have h4 := h2 (proposer_count env (proposer_reports f))
  exact ⟨h4.1.trans h3.1, h4.2.1.trans h3.2.1, h4.2.2.1.trans h3.2.2.1, h4.2.2.2.trans h3.2.2.2⟩

theorem proposer_lost_frame (env : Env) (f : Frame) :
    (proposer_lost env f).tx_paxos = f.tx_paxos
    ∧ (proposer_lost env f).g.paxos_state.acceptor = f.g.paxos_state.acceptor
    ∧ (proposer_lost env f).g.paxos_state.learner = f.g.paxos_state.learner
    ∧ (proposer_lost env f).g.value_chosen_this_round = f.g.value_chosen_this_round
    ∧ (proposer_lost env f).g.paxos_state.proposer.phase = PAXOS_PREPARE := by
  unfold proposer_lost
  exact ⟨(adopt_reported_frame f).1, (adopt_reported_frame f).2.1, (adopt_reported_frame f).2.2.1,
    (adopt_reported_frame f).2.2.2.1, rfl⟩

theorem proposer_update_phase_frame (env : Env) (f : Frame) :
    (proposer_update_phase env f).g.paxos_state = f.g.paxos_state
    ∧ (proposer_update_phase env f).g.value_chosen_this_round = f.g.value_chosen_this_round :=
  ⟨rfl, rfl⟩

/-- The closing blocks of the proposer logic leave the acceptor state and the
learner alone. -/
theorem proposer_finish_frame (env : Env) (a : PropFrame) :
    (proposer_finish env a).g.paxos_state.acceptor = a.f.g.paxos_state.acceptor
    ∧ (proposer_finish env a).g.paxos_state.learner = a.f.g.paxos_state.learner
    ∧ (proposer_finish env a).g.value_chosen_this_round = a.f.g.value_chosen_this_round := by
  have h1 : (if a.lost_proposal ≠ 0 then proposer_lost env a.f else a.f).g.paxos_state.acceptor
        = a.f.g.paxos_state.acceptor
      ∧ (if a.lost_proposal ≠ 0 then proposer_lost env a.f else a.f).g.paxos_state.learner
        = a.f.g.paxos_state.learner
      ∧ (if a.lost_proposal ≠ 0 then proposer_lost env a.f else a.f).g.value_chosen_this_round
        = a.f.g.value_chosen_this_round := by
    show holds (fun x : Frame => x.g.paxos_state.acceptor = a.f.g.paxos_state.acceptor
      ∧ x.g.paxos_state.learner = a.f.g.paxos_state.learner
      ∧ x.g.value_chosen_this_round = a.f.g.value_chosen_this_round) _
    apply ite_elim
    · exact ⟨(proposer_lost_frame env a.f).2.1, (proposer_lost_frame env a.f).2.2.1,
        (proposer_lost_frame env a.f).2.2.2.1⟩
    · exact ⟨rfl, rfl, rfl⟩
  unfold proposer_finish
  show holds (fun x : Frame => x.g.paxos_state.acceptor = a.f.g.paxos_state.acceptor
    ∧ x.g.paxos_state.learner = a.f.g.paxos_state.learner
    ∧ x.g.value_chosen_this_round = a.f.g.value_chosen_this_round) _
  apply ite_elim
  · exact h1
  · exact h1

/-- The acceptor state after the proposer's competition step: only the block
INITIATE PAXOS ALGORITHM (2/3) writes it. -/
theorem proposer_compete_acceptor (env : Env) (slot_count : Nat) (pl : paxos_t) (f : Frame) :
    (proposer_compete env slot_count pl f).f.g.paxos_state.acceptor =
      if ¬ pl.ballot = f.g.paxos_state.proposer.proposed_ballot
          ∧ ¬ (pl.ballot > f.g.paxos_state.proposer.proposed_ballot
                ∧ f.g.paxos_state.proposer.got_majority = 0)
          ∧ f.g.paxos_state.proposer.phase = PAXOS_INIT then
        { f.g.paxos_state.acceptor with
          min_proposal := f.g.paxos_state.proposer.proposed_ballot }
      else f.g.paxos_state.acceptor := by
  unfold proposer_compete
  by_cases h1 : pl.ballot = f.g.paxos_state.proposer.proposed_ballot
  · have hr : ¬ (¬ pl.ballot = f.g.paxos_state.proposer.proposed_ballot
          ∧ ¬ (pl.ballot > f.g.paxos_state.proposer.proposed_ballot
                ∧ f.g.paxos_state.proposer.got_majority = 0)
          ∧ f.g.paxos_state.proposer.phase = PAXOS_INIT) := fun hc => hc.1 h1
    rw [if_pos h1]
    refine Eq.trans ?_ (if_neg hr).symm
    by_cases h2 : pl.phase = f.g.paxos_state.proposer.phase
    · rw [if_pos h2]; exact (proposer_own_phase_frame env slot_count f).2.1
    · rw [if_neg h2]; rfl
  · rw [if_neg h1]
    by_cases h3 : pl.ballot > f.g.paxos_state.proposer.proposed_ballot
        ∧ f.g.paxos_state.proposer.got_majority = 0
    · have hr : ¬ (¬ pl.ballot = f.g.paxos_state.proposer.proposed_ballot
          ∧ ¬ (pl.ballot > f.g.paxos_state.proposer.proposed_ballot
                ∧ f.g.paxos_state.proposer.got_majority = 0)
          ∧ f.g.paxos_state.proposer.phase = PAXOS_INIT) := fun hc => hc.2.1 h3
      rw [if_pos h3]
      exact (if_neg hr).symm
    · rw [if_neg h3]
      unfold proposer_smaller
      by_cases h4 : f.g.paxos_state.proposer.phase = PAXOS_INIT
      · rw [if_pos h4]
        exact (if_pos ⟨h1, h3, h4⟩).symm
      · have hr : ¬ (¬ pl.ballot = f.g.paxos_state.proposer.proposed_ballot
            ∧ ¬ (pl.ballot > f.g.paxos_state.proposer.proposed_ballot
                  ∧ f.g.paxos_state.proposer.got_majority = 0)
            ∧ f.g.paxos_state.proposer.phase = PAXOS_INIT) := fun hc => h4 hc.2.2
        rw [if_neg h4]
        exact (if_neg hr).symm

/-- The acceptor state after the proposer logic: `min_proposal` becomes the
proposed ballot when the block INITIATE PAXOS ALGORITHM (2/3) is reached, and
nothing else changes. -/
theorem proposer_logic_acceptor (env : Env) (slot_count : Nat) (pl : paxos_t) (f : Frame) :
    (proposer_logic env slot_count pl f).g.paxos_state.acceptor =
      if initiates_on_smaller pl f then
        { f.g.paxos_state.acceptor with
          min_proposal := f.g.paxos_state.proposer.proposed_ballot }
      else f.g.paxos_state.acceptor := by
  unfold proposer_logic initiates_on_smaller
  by_cases h0 : f.g.paxos_state.proposer.is_proposer ≠ 0
      ∧ f.g.paxos_state.proposer.got_majority = 0
  · rw [if_pos h0, (proposer_finish_frame _ _).1]
    by_cases h1 : f.g.paxos_state.proposer.loser_timeout > 0
    · rw [if_pos h1]
      exact (if_neg (fun hc => hc.2.1 h1)).symm
    · rw [if_neg h1, proposer_compete_acceptor]
      by_cases h2 : ¬ pl.ballot = f.g.paxos_state.proposer.proposed_ballot
          ∧ ¬ (pl.ballot > f.g.paxos_state.proposer.proposed_ballot
                ∧ f.g.paxos_state.proposer.got_majority = 0)
          ∧ f.g.paxos_state.proposer.phase = PAXOS_INIT
      · exact (if_pos h2).trans (if_pos ⟨h0, h1, h2⟩).symm
      · exact (if_neg h2).trans (if_neg (fun hc => h2 hc.2.2)).symm
  · rw [if_neg h0]
    exact (if_neg (fun hc => h0 hc.1)).symm

/-- The acceptor state after the acceptor and proposer logic of a slot. -/
theorem paxos_slot_acceptor (env : Env) (slot_count : Nat) (cs : chaos_state_t)
    (rx : paxos_t) (rnd : Nat) (f : Frame) :
    (paxos_slot env slot_count cs rx rnd f).g.paxos_state.acceptor =
      if initiates_on_smaller (payload cs rx (acceptor_logic env slot_count cs rx rnd f))
          (acceptor_logic env slot_count cs rx rnd f) then
        { (if ordering_ok (payload cs rx f) f.tx_paxos
           then acceptor_step (payload cs rx f) f.g.paxos_state.acceptor
           else f.g.paxos_state.acceptor) with
          min_proposal := f.g.paxos_state.proposer.proposed_ballot }
      else
        (if ordering_ok (payload cs rx f) f.tx_paxos
         then acceptor_step (payload cs rx f) f.g.paxos_state.acceptor
         else f.g.paxos_state.acceptor) := by
  unfold paxos_slot
  rw [proposer_logic_acceptor, (acceptor_logic_frame _ _ _ _ _ _).1,
    (acceptor_logic_frame _ _ _ _ _ _).2]

/-- A merging call runs the acceptor and proposer logic on the opened entry
frame. -/
theorem valid_slot_of_merges (env : Env) (slot_count : Nat) (cs : chaos_state_t) (succ : Nat)
    (rx : paxos_t) (rnd : Nat) (tx : paxos_t) (g : Globals)
    (hv : slot_valid cs succ g) (hh : ¬ is_heartbeat (entry_payload cs rx tx) g) :
    valid_slot env slot_count cs succ rx rnd (entry_frame tx g)
      = paxos_slot env slot_count cs rx rnd (open_valid (entry_frame tx g)) := by
  have hv' : succ ≠ 0 ∧ (cs = CHAOS_RX
      ∨ cs = CHAOS_TX ∧ (entry_frame tx g).g.paxos_state.proposer.is_proposer ≠ 0) := hv
  have hh' : ¬ ((payload cs rx (open_valid (entry_frame tx g))).phase = PAXOS_INIT
      ∧ (open_valid (entry_frame tx g)).g.paxos_state.acceptor.min_proposal = 0) := hh
  unfold valid_slot
  rw [if_pos hv', if_neg hh']

/-- The acceptor state a call of `process` leaves, for a call that is not the
round start: the one its valid-slot block leaves. -/
theorem process_acceptor_of_not_init (env : Env) (slot_count : Nat) (cs : chaos_state_t)
    (succ : Nat) (rx : paxos_t) (rnd : Nat) (tx : paxos_t) (g : Globals) (h : cs ≠ CHAOS_INIT) :
    (process env slot_count cs succ rx rnd tx g).g.paxos_state.acceptor
      = (valid_slot env slot_count cs succ rx rnd (entry_frame tx g)).g.paxos_state.acceptor := by
  show (process_frame env slot_count cs succ rx rnd tx g).g.paxos_state.acceptor = _
  unfold process_frame
  rw [(exit_frame_frame _ _ _).1, (synchrotron_logic_frame _ _ _ _ _ h).1]

/-! ## Ballots -/

/-- C8. Ballot packing and order: for round counters and node ids below 256, the
ballot whose `id` and `round` bit-fields were assigned `i` and `r` is the number
`256 * r + i`, its bit-fields read back `r` and `i`, the numeric order of packed
ballots is the lexicographic order of `(round, id)`, and ballots with different
node ids differ. -/
theorem ballot_packing_order (b r i r' i' : Nat)
    (hr : r < 256) (hi : i < 256) (hr' : r' < 256) (hi' : i' < 256) :
    ballot_set_round (ballot_set_id b i) r = 256 * r + i
    ∧ ballot_round (ballot_set_round (ballot_set_id b i) r) = r
    ∧ ballot_id (ballot_set_round (ballot_set_id b i) r) = i
    ∧ (ballot_set_round (ballot_set_id b i) r < ballot_set_round (ballot_set_id b i') r'
        ↔ r < r' ∨ (r = r' ∧ i < i'))
    ∧ (i ≠ i' →
        ballot_set_round (ballot_set_id b i) r ≠ ballot_set_round (ballot_set_id b i') r') := by
  have pack : ∀ r i : Nat, r < 256 → i < 256 →
      ballot_set_round (ballot_set_id b i) r = 256 * r + i := by
    intro r i hr hi
    unfold ballot_set_round ballot_set_id ballot_round ballot_id
    rw [Nat.mod_eq_of_lt hr, Nat.mod_eq_of_lt hi, Nat.mul_add_mod, Nat.mod_eq_of_lt hi]
  rw [pack r i hr hi, pack r' i' hr' hi']
  unfold ballot_round ballot_id
  refine ⟨rfl, by omega, by omega, by omega, by omega⟩

/-- C8, at the ballots (1,5) and (2,1): packed as 261 and 513, ordered by round
first. -/
theorem ballot_packing_order_witness :
    ballot_set_round (ballot_set_id 0 5) 1 = 256 * 1 + 5
    ∧ ballot_round (ballot_set_round (ballot_set_id 0 5) 1) = 1
    ∧ ballot_id (ballot_set_round (ballot_set_id 0 5) 1) = 5
    ∧ (ballot_set_round (ballot_set_id 0 5) 1 < ballot_set_round (ballot_set_id 0 1) 2
        ↔ 1 < 2 ∨ (1 = 2 ∧ 5 < 1))
    ∧ (5 ≠ 1 →
        ballot_set_round (ballot_set_id 0 5) 1 ≠ ballot_set_round (ballot_set_id 0 1) 2) :=
  ballot_packing_order 0 1 5 2 1 (by decide) (by decide) (by decide) (by decide)

/-- A valid slot is not the round start. -/
theorem not_init_of_slot_valid {cs : chaos_state_t} {succ : Nat} {g : Globals}
    (hv : slot_valid cs succ g) : cs ≠ CHAOS_INIT := by
  intro h
  rcases hv.2 with h1 | h1
  · rw [h] at h1; exact chaos_state_t.noConfusion h1
  · rw [h] at h1; exact chaos_state_t.noConfusion h1.1

/-- When the block INITIATE PAXOS ALGORITHM (2/3) is reached after the acceptor
logic, the payload's ballot is below the proposed ballot. -/
theorem ballot_lt_of_initiates (env : Env) (slot_count : Nat) (cs : chaos_state_t)
    (rx : paxos_t) (rnd : Nat) (f : Frame)
    (h : initiates_on_smaller (payload cs rx (acceptor_logic env slot_count cs rx rnd f))
      (acceptor_logic env slot_count cs rx rnd f)) :
    (payload cs rx f).ballot < f.g.paxos_state.proposer.proposed_ballot := by
  unfold initiates_on_smaller at h
  rw [(payload_after_acceptor_logic _ _ _ _ _ _).1, (acceptor_logic_frame _ _ _ _ _ _).2] at h
  have h1 := h.2.2.1
  have h2 := h.2.2.2.1
  have h3 := h.1.2
  by_contra hc
  exact h2 ⟨by omega, h3⟩

/-- C2. Single-decree acceptor ACCEPT rule: when a call of `process` merges an
ACCEPT-phase payload whose ballot is not below the acceptor's `min_proposal`,
the acceptor afterwards holds that ballot as `accepted_proposal`, the payload's
value as `accepted_value`, and a `min_proposal` that is not below the ballot;
when the ballot is below `min_proposal`, `accepted_proposal` and
`accepted_value` are unchanged. -/
theorem accept_rule (env : Env) (slot_count : Nat) (cs : chaos_state_t) (succ : Nat)
    (rx : paxos_t) (rnd : Nat) (tx : paxos_t) (g : Globals)
    (hm : merges cs succ rx tx g)
    (hph : (entry_payload cs rx tx).phase = PAXOS_ACCEPT) :
    ((entry_payload cs rx tx).ballot ≥ g.paxos_state.acceptor.min_proposal →
      (process env slot_count cs succ rx rnd tx g).g.paxos_state.acceptor.accepted_proposal
          = (entry_payload cs rx tx).ballot
      ∧ (process env slot_count cs succ rx rnd tx g).g.paxos_state.acceptor.accepted_value
          = (entry_payload cs rx tx).value
      ∧ (process env slot_count cs succ rx rnd tx g).g.paxos_state.acceptor.min_proposal
          ≥ (entry_payload cs rx tx).ballot)
    ∧ ((entry_payload cs rx tx).ballot < g.paxos_state.acceptor.min_proposal →
      (process env slot_count cs succ rx rnd tx g).g.paxos_state.acceptor.accepted_proposal
          = g.paxos_state.acceptor.accepted_proposal
      ∧ (process env slot_count cs succ rx rnd tx g).g.paxos_state.acceptor.accepted_value
          = g.paxos_state.acceptor.accepted_value) := by
  have hord : ordering_ok (payload cs rx (open_valid (entry_frame tx g)))
      (open_valid (entry_frame tx g)).tx_paxos := hm.2.2
  have hph' : (payload cs rx (open_valid (entry_frame tx g))).phase = PAXOS_ACCEPT := hph
  rw [process_acceptor_of_not_init _ _ _ _ _ _ _ _ (not_init_of_slot_valid hm.1),
    valid_slot_of_merges _ _ _ _ _ _ _ _ hm.1 hm.2.1, paxos_slot_acceptor, if_pos hord]
  have hstep : acceptor_step (payload cs rx (open_valid (entry_frame tx g)))
        (open_valid (entry_frame tx g)).g.paxos_state.acceptor
      = if (entry_payload cs rx tx).ballot ≥ g.paxos_state.acceptor.min_proposal then
          { accepted_proposal := (entry_payload cs rx tx).ballot,
            min_proposal := (entry_payload cs rx tx).ballot,
            accepted_value := (entry_payload cs rx tx).value }
        else g.paxos_state.acceptor := by
    unfold acceptor_step
    rw [if_neg (by rw [hph']; decide), if_pos hph']
    rfl
  rw [hstep]
  constructor
  · intro hge
    rw [if_pos hge]
    by_cases hi : initiates_on_smaller
        (payload cs rx (acceptor_logic env slot_count cs rx rnd (open_valid (entry_frame tx g))))
        (acceptor_logic env slot_count cs rx rnd (open_valid (entry_frame tx g)))
    · rw [if_pos hi]
      exact ⟨rfl, rfl, Nat.le_of_lt (ballot_lt_of_initiates _ _ _ _ _ _ hi)⟩
    · rw [if_neg hi]
      exact ⟨rfl, rfl, Nat.le_refl _⟩
  · intro hlt
    rw [if_neg (Nat.not_le_of_lt hlt)]
    by_cases hi : initiates_on_smaller
        (payload cs rx (acceptor_logic env slot_count cs rx rnd (open_valid (entry_frame tx g))))
        (acceptor_logic env slot_count cs rx rnd (open_valid (entry_frame tx g)))
    · rw [if_pos hi]
      exact ⟨rfl, rfl⟩
    · rw [if_neg hi]
      exact ⟨rfl, rfl⟩

/-- C2 on node 1 of the three-node network, fresh after a reset: the ACCEPT
packet of ballot (1,0) with value 7 is merged and accepted. -/
theorem accept_rule_witness :
    merges CHAOS_RX 1 ⟨ballot_of 1 0, PAXOS_ACCEPT, 7, 0, [1]⟩
        (Node.start (env3 1) 0 0 0).tx_paxos (Node.start (env3 1) 0 0 0).g
    ∧ (entry_payload CHAOS_RX ⟨ballot_of 1 0, PAXOS_ACCEPT, 7, 0, [1]⟩
        (Node.start (env3 1) 0 0 0).tx_paxos).phase = PAXOS_ACCEPT
    ∧ (process (env3 1) 1 CHAOS_RX 1 ⟨ballot_of 1 0, PAXOS_ACCEPT, 7, 0, [1]⟩ 0
        (Node.start (env3 1) 0 0 0).tx_paxos
        (Node.start (env3 1) 0 0 0).g).g.paxos_state.acceptor.accepted_proposal = 256
    ∧ (process (env3 1) 1 CHAOS_RX 1 ⟨ballot_of 1 0, PAXOS_ACCEPT, 7, 0, [1]⟩ 0
        (Node.start (env3 1) 0 0 0).tx_paxos
        (Node.start (env3 1) 0 0 0).g).g.paxos_state.acceptor.accepted_value = 7
    ∧ (process (env3 1) 1 CHAOS_RX 1 ⟨ballot_of 1 0, PAXOS_ACCEPT, 7, 0, [1]⟩ 0
        (Node.start (env3 1) 0 0 0).tx_paxos
        (Node.start (env3 1) 0 0 0).g).g.paxos_state.acceptor.min_proposal ≥ 256 :=
  ⟨by decide, by decide,
    (accept_rule (env3 1) 1 CHAOS_RX 1 ⟨ballot_of 1 0, PAXOS_ACCEPT, 7, 0, [1]⟩ 0
      (Node.start (env3 1) 0 0 0).tx_paxos (Node.start (env3 1) 0 0 0).g
      (by decide) (by decide)).1 (by decide)⟩

/-- A property of both branches holds of a conditional; each branch may use the
condition. -/
theorem ite_elim_cond {α : Sort _} {P : α → Prop} {c : Prop} [Decidable c] {a b : α}
    (ha : c → P a) (hb : ¬ c → P b) : P (if c then a else b) := by
  by_cases h : c
  · rw [if_pos h]; exact ha h
  · rw [if_neg h]; exact hb h

/-- The proposer state after the adoption statement: only `proposed_value` may
change, to the reported value when a proposal was reported. -/
theorem adopt_reported_proposer (f : Frame) :
    (adopt_reported f).g.paxos_state.proposer =
      { f.g.paxos_state.proposer with
        proposed_value :=
          if f.g.paxos_state.rx_accepted_proposal > 0 then f.g.paxos_state.rx_accepted_value
          else f.g.paxos_state.proposer.proposed_value } := by
  unfold adopt_reported
  by_cases h : f.g.paxos_state.rx_accepted_proposal > 0
  · rw [if_pos h, if_pos h]
  · rw [if_neg h, if_neg h]

/-- The majority step of a proposer in PREPARE either changes nothing or enters
ACCEPT and asks for the phase update. -/
theorem proposer_majority_of_prepare (env : Env) (slot_count : Nat) (a : PropFrame)
    (h : a.f.g.paxos_state.proposer.phase = PAXOS_PREPARE) :
    proposer_majority env slot_count a = a
    ∨ proposer_majority env slot_count a =
        { a with f.g.paxos_state.proposer.phase := PAXOS_ACCEPT, update_phase := 1 } := by
  unfold proposer_majority
  by_cases h1 : a.lost_proposal = 0 ∧ a.f.g.n_replies > env.chaos_node_count / 2
  · rw [if_pos h1, if_pos h]; exact Or.inr rfl
  · rw [if_neg h1]; exact Or.inl rfl

/-- The late loss check writes only `lost_proposal`. -/
theorem proposer_late_loss_frame (a : PropFrame) :
    (proposer_late_loss a).f = a.f ∧ (proposer_late_loss a).update_phase = a.update_phase := by
  unfold proposer_late_loss
  show holds (fun x : PropFrame => x.f = a.f ∧ x.update_phase = a.update_phase) _
  repeat' apply ite_elim
  all_goals exact ⟨rfl, rfl⟩

/-- A proposer in PREPARE that evaluates a payload with its own ballot and phase:
it stays in PREPARE, or enters ACCEPT with the phase update requested; its
ballot is kept, its value is the reported one if a proposal was reported, and
the aggregation variables and the TX buffer are kept. -/
theorem proposer_own_phase_of_prepare (env : Env) (slot_count : Nat) (f : Frame)
    (h : f.g.paxos_state.proposer.phase = PAXOS_PREPARE) :
    ((proposer_own_phase env slot_count f).f.g.paxos_state.proposer.phase = PAXOS_PREPARE
      ∨ ((proposer_own_phase env slot_count f).f.g.paxos_state.proposer.phase = PAXOS_ACCEPT
          ∧ (proposer_own_phase env slot_count f).update_phase = 1))
    ∧ (proposer_own_phase env slot_count f).f.g.paxos_state.proposer.proposed_ballot
        = f.g.paxos_state.proposer.proposed_ballot
    ∧ (proposer_own_phase env slot_count f).f.g.paxos_state.proposer.proposed_value
        = (if f.g.paxos_state.rx_accepted_proposal > 0 then f.g.paxos_state.rx_accepted_value
           else f.g.paxos_state.proposer.proposed_value)
    ∧ (proposer_own_phase env slot_count f).f.g.paxos_state.rx_accepted_proposal
        = f.g.paxos_state.rx_accepted_proposal
    ∧ (proposer_own_phase env slot_count f).f.g.paxos_state.rx_accepted_value
        = f.g.paxos_state.rx_accepted_value := by
  have hr : proposer_reports f =
      ⟨adopt_reported f,
       if f.g.paxos_state.rx_accepted_proposal > f.g.paxos_state.proposer.proposed_ballot
       then 1 else 0, 0⟩ := by
    unfold proposer_reports
    rw [if_pos h]
  have ha := adopt_reported_proposer f
  have hf := adopt_reported_frame f
  have hph : (proposer_count env (proposer_reports f)).f.g.paxos_state.proposer.phase
      = PAXOS_PREPARE := by
    rw [hr]
    show (adopt_reported f).g.paxos_state.proposer.phase = PAXOS_PREPARE
    rw [ha]; exact h
  unfold proposer_own_phase
  rw [(proposer_late_loss_frame _).1, (proposer_late_loss_frame _).2]
  rcases proposer_majority_of_prepare env slot_count _ hph with hm | hm
  · rw [hm, hr]
    refine ⟨Or.inl ?_, ?_, ?_, hf.2.2.2.2.1, hf.2.2.2.2.2.1⟩
    · show (adopt_reported f).g.paxos_state.proposer.phase = PAXOS_PREPARE
      rw [ha]; exact h
    · show (adopt_reported f).g.paxos_state.proposer.proposed_ballot = _
      rw [ha]
    · show (adopt_reported f).g.paxos_state.proposer.proposed_value = _
      rw [ha]
  · rw [hm, hr]
    refine ⟨Or.inr ⟨rfl, rfl⟩, ?_, ?_, hf.2.2.2.2.1, hf.2.2.2.2.2.1⟩
    · show (adopt_reported f).g.paxos_state.proposer.proposed_ballot = _
      rw [ha]
    · show (adopt_reported f).g.paxos_state.proposer.proposed_value = _
      rw [ha]

/-- Without a loss the proposer logic closes with the phase update alone. -/
theorem proposer_finish_no_loss (env : Env) (a : PropFrame) (h : a.lost_proposal = 0) :
    proposer_finish env a
      = if a.update_phase ≠ 0 then proposer_update_phase env a.f else a.f := by
  have hn : ¬ a.lost_proposal ≠ 0 := fun hn => hn h
  unfold proposer_finish
  rw [if_neg hn]

/-- Without a loss the proposer logic closes with the node state it had. -/
theorem proposer_finish_no_loss_state (env : Env) (a : PropFrame) (h : a.lost_proposal = 0) :
    (proposer_finish env a).g.paxos_state = a.f.g.paxos_state := by
  rw [proposer_finish_no_loss env a h]
  show holds (fun x : Frame => x.g.paxos_state = a.f.g.paxos_state) _
  apply ite_elim
  all_goals rfl

/-- After a loss the proposer is back in PREPARE. -/
theorem proposer_finish_lost_phase (env : Env) (a : PropFrame) (h : a.lost_proposal ≠ 0) :
    (proposer_finish env a).g.paxos_state.proposer.phase = PAXOS_PREPARE := by
  unfold proposer_finish
  rw [if_pos h]
  show holds (fun x : Frame => x.g.paxos_state.proposer.phase = PAXOS_PREPARE) _
  apply ite_elim
  all_goals rfl

/-- A proposer that is in PREPARE before the proposer logic and in ACCEPT after
it has rewritten the TX header from its proposal, whose value is the reported
one if a proposal was reported. -/
theorem proposer_logic_enters_accept (env : Env) (slot_count : Nat) (pl : paxos_t) (f : Frame)
    (h1 : f.g.paxos_state.proposer.phase = PAXOS_PREPARE)
    (h2 : (proposer_logic env slot_count pl f).g.paxos_state.proposer.phase = PAXOS_ACCEPT) :
    (proposer_logic env slot_count pl f).tx_paxos.ballot
        = (proposer_logic env slot_count pl f).g.paxos_state.proposer.proposed_ballot
    ∧ (proposer_logic env slot_count pl f).tx_paxos.phase = PAXOS_ACCEPT
    ∧ (proposer_logic env slot_count pl f).tx_paxos.proposal = 0
    ∧ (proposer_logic env slot_count pl f).tx_paxos.value
        = (proposer_logic env slot_count pl f).g.paxos_state.proposer.proposed_value
    ∧ (proposer_logic env slot_count pl f).g.paxos_state.proposer.proposed_value
        = (if f.g.paxos_state.rx_accepted_proposal > 0 then f.g.paxos_state.rx_accepted_value
           else f.g.paxos_state.proposer.proposed_value)
    ∧ (proposer_logic env slot_count pl f).g.paxos_state.rx_accepted_proposal
        = f.g.paxos_state.rx_accepted_proposal
    ∧ (proposer_logic env slot_count pl f).g.paxos_state.rx_accepted_value
        = f.g.paxos_state.rx_accepted_value := by
  have hne : PAXOS_PREPARE ≠ PAXOS_ACCEPT := by decide
  unfold proposer_logic at h2 ⊢
  by_cases h0 : f.g.paxos_state.proposer.is_proposer ≠ 0
      ∧ f.g.paxos_state.proposer.got_majority = 0
  · rw [if_pos h0] at h2 ⊢
    by_cases ht : f.g.paxos_state.proposer.loser_timeout > 0
    · rw [if_pos ht] at h2
      rw [proposer_finish_no_loss_state env _ rfl] at h2
      exact absurd (h1.symm.trans h2) hne
    · rw [if_neg ht] at h2 ⊢
      unfold proposer_compete at h2 ⊢
      by_cases hb : pl.ballot = f.g.paxos_state.proposer.proposed_ballot
      · rw [if_pos hb] at h2 ⊢
        by_cases hp : pl.phase = f.g.paxos_state.proposer.phase
        · rw [if_pos hp] at h2 ⊢
          have hown := proposer_own_phase_of_prepare env slot_count f h1
          by_cases hl : (proposer_own_phase env slot_count f).lost_proposal = 0
          · have hst := proposer_finish_no_loss_state env _ hl
            rw [hst] at h2
            rcases hown.1 with hq | hq
            · exact absurd (hq.symm.trans h2) hne
            · rw [proposer_finish_no_loss env _ hl, hq.2, if_pos (by decide)]
              exact ⟨rfl, hq.1, rfl, rfl, hown.2.2.1, hown.2.2.2.1, hown.2.2.2.2⟩
          · exact absurd ((proposer_finish_lost_phase env _ hl).symm.trans h2) hne
        · rw [if_neg hp] at h2
          rw [proposer_finish_no_loss_state env _ rfl] at h2
          exact absurd (h1.symm.trans h2) hne
      · rw [if_neg hb] at h2 ⊢
        by_cases hh : pl.ballot > f.g.paxos_state.proposer.proposed_ballot
            ∧ f.g.paxos_state.proposer.got_majority = 0
        · rw [if_pos hh] at h2
          exact absurd ((proposer_finish_lost_phase env ⟨f, 1, 0⟩ Nat.one_ne_zero).symm.trans h2) hne
        · rw [if_neg hh] at h2
          rw [proposer_finish_no_loss_state env _ rfl] at h2
          unfold proposer_smaller at h2
          rw [if_neg (by rw [h1]; decide)] at h2
          exact absurd (h1.symm.trans h2) hne
  · rw [if_neg h0] at h2
    exact absurd (h1.symm.trans h2) hne

/-- The proposer logic never writes `is_proposer`. -/
theorem proposer_logic_is_proposer (env : Env) (slot_count : Nat) (pl : paxos_t) (f : Frame) :
    (proposer_logic env slot_count pl f).g.paxos_state.proposer.is_proposer
      = f.g.paxos_state.proposer.is_proposer := by
  have hfin : ∀ a : PropFrame, (proposer_finish env a).g.paxos_state.proposer.is_proposer
      = a.f.g.paxos_state.proposer.is_proposer := by
    intro a
    have hl : (if a.lost_proposal ≠ 0 then proposer_lost env a.f
        else a.f).g.paxos_state.proposer.is_proposer = a.f.g.paxos_state.proposer.is_proposer := by
      show holds (fun x : Frame => x.g.paxos_state.proposer.is_proposer
        = a.f.g.paxos_state.proposer.is_proposer) _
      apply ite_elim
      · show (adopt_reported a.f).g.paxos_state.proposer.is_proposer = _
        rw [adopt_reported_proposer]
      · rfl
    unfold proposer_finish
    show holds (fun x : Frame => x.g.paxos_state.proposer.is_proposer
      = a.f.g.paxos_state.proposer.is_proposer) _
    apply ite_elim
    · exact hl
    · exact hl
  have hmaj : ∀ a : PropFrame,
      (proposer_majority env slot_count a).f.g.paxos_state.proposer.is_proposer
        = a.f.g.paxos_state.proposer.is_proposer := by
    intro a
    unfold proposer_majority
    show holds (fun x : PropFrame => x.f.g.paxos_state.proposer.is_proposer
      = a.f.g.paxos_state.proposer.is_proposer) _
    repeat' apply ite_elim
    all_goals rfl
  have hrep : (proposer_reports f).f.g.paxos_state.proposer.is_proposer
      = f.g.paxos_state.proposer.is_proposer := by
    unfold proposer_reports
    show holds (fun x : PropFrame => x.f.g.paxos_state.proposer.is_proposer
      = f.g.paxos_state.proposer.is_proposer) _
    apply ite_elim
    · show (adopt_reported f).g.paxos_state.proposer.is_proposer = _
      rw [adopt_reported_proposer]
    · apply ite_elim
      all_goals rfl
  have hown : (proposer_own_phase env slot_count f).f.g.paxos_state.proposer.is_proposer
      = f.g.paxos_state.proposer.is_proposer := by
    unfold proposer_own_phase
    rw [(proposer_late_loss_frame _).1, hmaj]
    exact hrep
  unfold proposer_logic
  show holds (fun x : Frame => x.g.paxos_state.proposer.is_proposer
    = f.g.paxos_state.proposer.is_proposer) _
  apply ite_elim
  · show (proposer_finish env _).g.paxos_state.proposer.is_proposer = _
    rw [hfin]
    show holds (fun x : PropFrame => x.f.g.paxos_state.proposer.is_proposer
      = f.g.paxos_state.proposer.is_proposer) _
    apply ite_elim
    · rfl
    · unfold proposer_compete
      apply ite_elim
      · apply ite_elim
        · exact hown
        · rfl
      · apply ite_elim
        · rfl
        · show holds (fun x : Frame => x.g.paxos_state.proposer.is_proposer
            = f.g.paxos_state.proposer.is_proposer) (proposer_smaller f)
          unfold proposer_smaller
          apply ite_elim
          all_goals rfl
  · rfl

/-- The Synchrotron state logic changes the node state only for a proposer that
is still in `PAXOS_INIT`. -/
theorem synchrotron_logic_keeps (env : Env) (cs : chaos_state_t) (succ rnd : Nat) (f : Frame)
    (h : f.g.paxos_state.proposer.phase ≠ PAXOS_INIT) :
    (synchrotron_logic env cs succ rnd f).2.g.paxos_state = f.g.paxos_state
    ∧ (synchrotron_logic env cs succ rnd f).2.tx_paxos = f.tx_paxos := by
  have hn : ¬ (f.g.paxos_state.proposer.is_proposer ≠ 0
      ∧ f.g.paxos_state.proposer.phase = PAXOS_INIT) := fun hc => h hc.2
  unfold synchrotron_logic sync_initiate
  rw [if_neg hn]
  show holds (fun x : chaos_state_t × Frame =>
    x.2.g.paxos_state = f.g.paxos_state ∧ x.2.tx_paxos = f.tx_paxos) _
  repeat' apply ite_elim
  all_goals exact ⟨rfl, rfl⟩

/-- The proposer phase after the Synchrotron state logic is the one before, or
`PAXOS_PREPARE`; `is_proposer` is kept. -/
theorem synchrotron_logic_phase (env : Env) (cs : chaos_state_t) (succ rnd : Nat) (f : Frame) :
    ((synchrotron_logic env cs succ rnd f).2.g.paxos_state.proposer.phase
        = f.g.paxos_state.proposer.phase
      ∨ (synchrotron_logic env cs succ rnd f).2.g.paxos_state.proposer.phase = PAXOS_PREPARE)
    ∧ (synchrotron_logic env cs succ rnd f).2.g.paxos_state.proposer.is_proposer
        = f.g.paxos_state.proposer.is_proposer := by
  unfold synchrotron_logic sync_initiate
  show holds (fun x : chaos_state_t × Frame =>
    (x.2.g.paxos_state.proposer.phase = f.g.paxos_state.proposer.phase
      ∨ x.2.g.paxos_state.proposer.phase = PAXOS_PREPARE)
    ∧ x.2.g.paxos_state.proposer.is_proposer = f.g.paxos_state.proposer.is_proposer) _
  apply ite_elim
  · show holds (fun x : Frame =>
      (x.g.paxos_state.proposer.phase = f.g.paxos_state.proposer.phase
        ∨ x.g.paxos_state.proposer.phase = PAXOS_PREPARE)
      ∧ x.g.paxos_state.proposer.is_proposer = f.g.paxos_state.proposer.is_proposer) _
    apply ite_elim
    · exact ⟨Or.inr rfl, rfl⟩
    · exact ⟨Or.inl rfl, rfl⟩
  · repeat' apply ite_elim
    all_goals exact ⟨Or.inl rfl, rfl⟩

/-- On a proposer the end of a call keeps the node state and the TX buffer. -/
theorem exit_frame_proposer (env : Env) (slot_count : Nat) (r : chaos_state_t × Frame)
    (h : r.2.g.paxos_state.proposer.is_proposer ≠ 0) :
    (exit_frame env slot_count r).g.paxos_state = r.2.g.paxos_state
    ∧ (exit_frame env slot_count r).tx_paxos = r.2.tx_paxos := by
  unfold exit_frame
  rw [(mark_off_frame _ _ _ _).1, (mark_off_frame _ _ _ _).2, report_final_proposer _ _ _ h,
    (report_final_frame _ _ _).2.2.2]
  exact ⟨rfl, rfl⟩

/-- On a proposer that ends a call in `PAXOS_ACCEPT`, the node state and the TX
buffer at the end of the call are those the valid-slot block left. -/
theorem process_of_accept_phase (env : Env) (slot_count : Nat) (cs : chaos_state_t)
    (succ : Nat) (rx : paxos_t) (rnd : Nat) (tx : paxos_t) (g : Globals)
    (hp : (valid_slot env slot_count cs succ rx rnd
      (entry_frame tx g)).g.paxos_state.proposer.is_proposer ≠ 0)
    (h2 : (process env slot_count cs succ rx rnd tx g).g.paxos_state.proposer.phase
      = PAXOS_ACCEPT) :
    (process env slot_count cs succ rx rnd tx g).g.paxos_state
      = (valid_slot env slot_count cs succ rx rnd (entry_frame tx g)).g.paxos_state
    ∧ (process env slot_count cs succ rx rnd tx g).tx_paxos
      = (valid_slot env slot_count cs succ rx rnd (entry_frame tx g)).tx_paxos := by
  have hsp := synchrotron_logic_phase env cs succ rnd
    (valid_slot env slot_count cs succ rx rnd (entry_frame tx g))
  have hp' : (synchrotron_logic env cs succ rnd
      (valid_slot env slot_count cs succ rx rnd
        (entry_frame tx g))).2.g.paxos_state.proposer.is_proposer ≠ 0 := by
    rw [hsp.2]; exact hp
  have hex := exit_frame_proposer env slot_count _ hp'
  change (process_frame env slot_count cs succ rx rnd tx g).g.paxos_state.proposer.phase
    = PAXOS_ACCEPT at h2
  show (process_frame env slot_count cs succ rx rnd tx g).g.paxos_state = _
    ∧ (process_frame env slot_count cs succ rx rnd tx g).tx_paxos = _
  unfold process_frame at h2 ⊢
  rw [hex.1] at h2
  rw [hex.1, hex.2]
  by_cases hi : (valid_slot env slot_count cs succ rx rnd
      (entry_frame tx g)).g.paxos_state.proposer.phase = PAXOS_INIT
  · rcases hsp.1 with hq | hq
    · rw [hq, hi] at h2; exact absurd h2 (by decide)
    · rw [hq] at h2; exact absurd h2 (by decide)
  · exact synchrotron_logic_keeps env cs succ rnd _ hi

/-- On a proposer in `PAXOS_PREPARE`, the valid-slot block either keeps the node
state or runs the acceptor and proposer logic. -/
theorem valid_slot_of_prepare (env : Env) (slot_count : Nat) (cs : chaos_state_t)
    (succ : Nat) (rx : paxos_t) (rnd : Nat) (tx : paxos_t) (g : Globals)
    (hp : g.paxos_state.proposer.is_proposer ≠ 0)
    (h1 : g.paxos_state.proposer.phase = PAXOS_PREPARE) :
    (valid_slot env slot_count cs succ rx rnd (entry_frame tx g)).g.paxos_state = g.paxos_state
    ∨ valid_slot env slot_count cs succ rx rnd (entry_frame tx g)
        = paxos_slot env slot_count cs rx rnd (open_valid (entry_frame tx g)) := by
  unfold valid_slot
  by_cases hv : succ ≠ 0 ∧ (cs = CHAOS_RX
      ∨ cs = CHAOS_TX ∧ (entry_frame tx g).g.paxos_state.proposer.is_proposer ≠ 0)
  · rw [if_pos hv]
    by_cases hh : (payload cs rx (open_valid (entry_frame tx g))).phase = PAXOS_INIT
        ∧ (open_valid (entry_frame tx g)).g.paxos_state.acceptor.min_proposal = 0
    · rw [if_pos hh]
      left
      have hp' : (open_valid (entry_frame tx g)).g.paxos_state.proposer.is_proposer ≠ 0 := hp
      have hn : ¬ (open_valid (entry_frame tx g)).g.paxos_state.proposer.phase = PAXOS_INIT := by
        show ¬ g.paxos_state.proposer.phase = PAXOS_INIT
        rw [h1]; decide
      unfold heartbeat heartbeat_proposer
      rw [if_pos hp', if_neg hn]
      rfl
    · rw [if_neg hh]
      right; rfl
  · rw [if_neg hv]
    left; rfl

/-- C6. Value adoption on entering ACCEPT (single-decree, Paxos rule P2b): when a
call of `process` takes a proposer from `PAXOS_PREPARE` to `PAXOS_ACCEPT`, the TX
packet after the call carries the proposed ballot, phase ACCEPT, proposal 0 and
the proposed value, and the proposed value is `rx_accepted_value` if
`rx_accepted_proposal > 0` and the previous proposed value otherwise. -/
theorem value_adoption_on_accept (env : Env) (slot_count : Nat) (cs : chaos_state_t)
    (succ : Nat) (rx : paxos_t) (rnd : Nat) (tx : paxos_t) (g : Globals)
    (hp : g.paxos_state.proposer.is_proposer ≠ 0)
    (h1 : g.paxos_state.proposer.phase = PAXOS_PREPARE)
    (h2 : (process env slot_count cs succ rx rnd tx g).g.paxos_state.proposer.phase
      = PAXOS_ACCEPT) :
    (process env slot_count cs succ rx rnd tx g).tx_paxos.ballot
        = (process env slot_count cs succ rx rnd tx g).g.paxos_state.proposer.proposed_ballot
    ∧ (process env slot_count cs succ rx rnd tx g).tx_paxos.phase = PAXOS_ACCEPT
    ∧ (process env slot_count cs succ rx rnd tx g).tx_paxos.proposal = 0
    ∧ (process env slot_count cs succ rx rnd tx g).tx_paxos.value
        = (process env slot_count cs succ rx rnd tx g).g.paxos_state.proposer.proposed_value
    ∧ (process env slot_count cs succ rx rnd tx g).g.paxos_state.proposer.proposed_value
        = (if (process env slot_count cs succ rx rnd tx g).g.paxos_state.rx_accepted_proposal > 0
           then (process env slot_count cs succ rx rnd tx g).g.paxos_state.rx_accepted_value
           else g.paxos_state.proposer.proposed_value) := by
  rcases valid_slot_of_prepare env slot_count cs succ rx rnd tx g hp h1 with hk | hk
  · have hp' : (valid_slot env slot_count cs succ rx rnd
        (entry_frame tx g)).g.paxos_state.proposer.is_proposer ≠ 0 := by
      rw [hk]; exact hp
    have hst := (process_of_accept_phase env slot_count cs succ rx rnd tx g hp' h2).1
    rw [hst, hk, h1] at h2
    exact absurd h2 (by decide)
  · have hacc := (acceptor_logic_frame env slot_count cs rx rnd
      (open_valid (entry_frame tx g))).2
    have hp' : (valid_slot env slot_count cs succ rx rnd
        (entry_frame tx g)).g.paxos_state.proposer.is_proposer ≠ 0 := by
      rw [hk]
      unfold paxos_slot
      rw [proposer_logic_is_proposer, hacc]
      exact hp
    have hpr := process_of_accept_phase env slot_count cs succ rx rnd tx g hp' h2
    rw [hpr.1] at h2 ⊢
    rw [hpr.2]
    rw [hk] at h2 ⊢
    unfold paxos_slot at h2 ⊢
    have h1' : (acceptor_logic env slot_count cs rx rnd
        (open_valid (entry_frame tx g))).g.paxos_state.proposer.phase = PAXOS_PREPARE := by
      rw [hacc]; exact h1
    have hpl := proposer_logic_enters_accept env slot_count _ _ h1' h2
    refine ⟨hpl.1, hpl.2.1, hpl.2.2.1, hpl.2.2.2.1, ?_⟩
    rw [hpl.2.2.2.2.1, hpl.2.2.2.2.2.1, hpl.2.2.2.2.2.2, hacc]
    rfl

/-- C6 on node 0 of the three-node network: the reply of node 1 completes the
majority of the prepare phase, and the proposer enters ACCEPT with its own value
7, no proposal having been reported. -/
theorem value_adoption_on_accept_witness :
    prepared_proposer.g.paxos_state.proposer.is_proposer ≠ 0
    ∧ prepared_proposer.g.paxos_state.proposer.phase = PAXOS_PREPARE
    ∧ (process (env3 0) 2 CHAOS_RX 1 prepare_reply 0 prepared_proposer.tx_paxos
        prepared_proposer.g).g.paxos_state.proposer.phase = PAXOS_ACCEPT
    ∧ (process (env3 0) 2 CHAOS_RX 1 prepare_reply 0 prepared_proposer.tx_paxos
        prepared_proposer.g).tx_paxos.phase = PAXOS_ACCEPT
    ∧ (process (env3 0) 2 CHAOS_RX 1 prepare_reply 0 prepared_proposer.tx_paxos
        prepared_proposer.g).tx_paxos.proposal = 0
    ∧ (process (env3 0) 2 CHAOS_RX 1 prepare_reply 0 prepared_proposer.tx_paxos
        prepared_proposer.g).tx_paxos.value = 7 :=
  ⟨by decide, by decide, by decide,
    (value_adoption_on_accept (env3 0) 2 CHAOS_RX 1 prepare_reply 0 prepared_proposer.tx_paxos
      prepared_proposer.g (by decide) (by decide) (by decide)).2.1,
    (value_adoption_on_accept (env3 0) 2 CHAOS_RX 1 prepare_reply 0 prepared_proposer.tx_paxos
      prepared_proposer.g (by decide) (by decide) (by decide)).2.2.1,
    by decide⟩

/-- On a node that is not a proposer the Synchrotron state logic writes counters
only. -/
theorem synchrotron_logic_acceptor_only (env : Env) (cs : chaos_state_t) (succ rnd : Nat)
    (f : Frame) (h : f.g.paxos_state.proposer.is_proposer = 0) :
    (synchrotron_logic env cs succ rnd f).2.g.paxos_state = f.g.paxos_state
    ∧ (synchrotron_logic env cs succ rnd f).2.tx_paxos = f.tx_paxos
    ∧ (synchrotron_logic env cs succ rnd f).2.g.paxos_local = f.g.paxos_local
    ∧ (synchrotron_logic env cs succ rnd f).2.g.value_chosen_this_round
        = f.g.value_chosen_this_round
    ∧ (synchrotron_logic env cs succ rnd f).2.g.complete = f.g.complete := by
  have hn : ¬ (f.g.paxos_state.proposer.is_proposer ≠ 0
      ∧ f.g.paxos_state.proposer.phase = PAXOS_INIT) := fun hc => hc.1 h
  unfold synchrotron_logic sync_initiate
  rw [if_neg hn]
  show holds (fun x : chaos_state_t × Frame =>
    x.2.g.paxos_state = f.g.paxos_state ∧ x.2.tx_paxos = f.tx_paxos
    ∧ x.2.g.paxos_local = f.g.paxos_local
    ∧ x.2.g.value_chosen_this_round = f.g.value_chosen_this_round
    ∧ x.2.g.complete = f.g.complete) _
  repeat' apply ite_elim
  all_goals exact ⟨rfl, rfl, rfl, rfl, rfl⟩

/-- A failed slot on a node whose state is all zero, whose template header is
zero and whose TX phase is `PAXOS_INIT`: the call leaves the state, the
template, the TX buffer and `value_chosen_this_round` as they are. -/
theorem process_empty_slot (env : Env) (slot_count : Nat) (cs : chaos_state_t)
    (rx : paxos_t) (rnd : Nat) (tx : paxos_t) (g : Globals) (flags : List Nat)
    (hs : g.paxos_state = paxos_state_zero) (hl : g.paxos_local = template_zero flags)
    (ht : tx.phase = PAXOS_INIT) :
    (process env slot_count cs 0 rx rnd tx g).g.paxos_state = paxos_state_zero
    ∧ (process env slot_count cs 0 rx rnd tx g).g.paxos_local = template_zero flags
    ∧ (process env slot_count cs 0 rx rnd tx g).tx_paxos = tx
    ∧ (process env slot_count cs 0 rx rnd tx g).g.value_chosen_this_round
        = g.value_chosen_this_round := by
  have hv : valid_slot env slot_count cs 0 rx rnd (entry_frame tx g) = entry_frame tx g := by
    unfold valid_slot
    rw [if_neg (fun hc => hc.1 rfl)]
  have hp : (entry_frame tx g).g.paxos_state.proposer.is_proposer = 0 := by
    show g.paxos_state.proposer.is_proposer = 0
    rw [hs]; rfl
  have hsy := synchrotron_logic_acceptor_only env cs 0 rnd (entry_frame tx g) hp
  show (process_frame env slot_count cs 0 rx rnd tx g).g.paxos_state = paxos_state_zero
    ∧ (process_frame env slot_count cs 0 rx rnd tx g).g.paxos_local = template_zero flags
    ∧ (process_frame env slot_count cs 0 rx rnd tx g).tx_paxos = tx
    ∧ (process_frame env slot_count cs 0 rx rnd tx g).g.value_chosen_this_round
        = g.value_chosen_this_round
  unfold process_frame
  rw [hv]
  generalize synchrotron_logic env cs 0 rnd (entry_frame tx g) = r at hsy
  have h1 : r.2.g.paxos_state = paxos_state_zero := hsy.1.trans hs
  have h2 : r.2.tx_paxos = tx := hsy.2.1
  have h3 : r.2.g.paxos_local = template_zero flags := hsy.2.2.1.trans hl
  have h4 : r.2.g.value_chosen_this_round = g.value_chosen_this_round := hsy.2.2.2.1
  unfold exit_frame mark_off
  show holds (fun x : Frame => x.g.paxos_state = paxos_state_zero
    ∧ x.g.paxos_local = template_zero flags ∧ x.tx_paxos = tx
    ∧ x.g.value_chosen_this_round = g.value_chosen_this_round) _
  have hrep : holds (fun x : Frame => x.g.paxos_state = paxos_state_zero
      ∧ x.g.paxos_local = template_zero flags ∧ x.tx_paxos = tx
      ∧ x.g.value_chosen_this_round = g.value_chosen_this_round)
      (report_final env slot_count r.2) := by
    unfold report_final report_template
    apply ite_elim
    · rw [if_pos (by rw [h1]; rfl)]
      refine ⟨?_, ?_, h2, h4⟩
      · show { r.2.g.paxos_state with
          proposer := { r.2.g.paxos_state.proposer with phase := r.2.tx_paxos.phase } }
          = paxos_state_zero
        rw [h1, h2, ht]; rfl
      · show { r.2.g.paxos_local with
          value := r.2.g.paxos_state.acceptor.accepted_value,
          proposal := r.2.g.paxos_state.acceptor.accepted_proposal,
          ballot := r.2.g.paxos_state.acceptor.min_proposal,
          phase := r.2.tx_paxos.phase } = template_zero flags
        rw [h1, h2, h3, ht]; rfl
    · exact ⟨h1, h3, h2, h4⟩
  apply ite_elim
  · exact hrep
  · exact hrep

/-- A round of failed slots on a node whose state is all zero: the scheduler
leaves the state, the template, the TX buffer and `value_chosen_this_round` as
they are. -/
theorem chaos_round_empty (env : Env) (max_slots : Nat) (flags : List Nat) :
    ∀ (slots : List SlotInput) (slot_count : Nat) (cs : chaos_state_t) (tx : paxos_t)
      (g : Globals),
      (∀ s ∈ slots, s.chaos_txrx_success = 0) →
      g.paxos_state = paxos_state_zero → g.paxos_local = template_zero flags →
      tx.phase = PAXOS_INIT →
      (chaos_round env max_slots slots slot_count cs tx g).2.paxos_state = paxos_state_zero
      ∧ (chaos_round env max_slots slots slot_count cs tx g).2.paxos_local = template_zero flags
      ∧ (chaos_round env max_slots slots slot_count cs tx g).1 = tx
      ∧ (chaos_round env max_slots slots slot_count cs tx g).2.value_chosen_this_round
          = g.value_chosen_this_round := by
  intro slots
  induction slots with
  | nil =>
    intro slot_count cs tx g _ hs hl _
    exact ⟨hs, hl, rfl, rfl⟩
  | cons s rest ih =>
    intro slot_count cs tx g hall hs hl ht
    have h0 : s.chaos_txrx_success = 0 := hall s (List.mem_cons_self _ _)
    have hrest : ∀ s' ∈ rest, s'.chaos_txrx_success = 0 :=
      fun s' hs' => hall s' (List.mem_cons_of_mem _ hs')
    unfold chaos_round
    by_cases hstop : slot_count ≥ max_slots ∨ cs = CHAOS_OFF
    · rw [if_pos hstop]
      exact ⟨hs, hl, rfl, rfl⟩
    · rw [if_neg hstop, h0]
      have hp := process_empty_slot env slot_count cs s.rx_paxos s.rnd tx g flags hs hl ht
      have hi := ih (slot_count + 1)
        (process env slot_count cs 0 s.rx_paxos s.rnd tx g).next_state
        (process env slot_count cs 0 s.rx_paxos s.rnd tx g).tx_paxos
        (process env slot_count cs 0 s.rx_paxos s.rnd tx g).g hrest hp.1 hp.2.1
        (by rw [hp.2.2.1]; exact ht)
      exact ⟨hi.1, hi.2.1, hi.2.2.1.trans hp.2.2.1, hi.2.2.2.trans hp.2.2.2⟩

/-- Copying the first `len` bytes of an array onto itself changes nothing. -/
theorem memcpy_flags_take_self (len : Nat) (t : List Nat) :
    memcpy_flags len t (t.take len) = t := by
  unfold memcpy_flags
  have key : ∀ (l : List Nat), (∀ i ∈ l, i < len) →
      l.foldl (fun d i => d.set i (rd (t.take len) i)) t = t := by
    intro l
    induction l with
    | nil => intro _; rfl
    | cons i l ih =>
      intro hl
      have hi : i < len := hl i (List.mem_cons_self _ _)
      have hset : t.set i (rd (t.take len) i) = t := by
        unfold rd
        by_cases hlt : i < t.length
        · apply List.ext_getElem (by simp)
          intro n h1 h2
          by_cases hn : i = n
          · subst hn
            simp [List.getD_eq_getElem?_getD, List.getElem?_take, hi, hlt]
          · simp [List.getElem_set_ne hn]
        · exact List.set_eq_of_length_le (by omega)
      rw [List.foldl_cons, hset]
      exact ih (fun j hj => hl j (List.mem_cons_of_mem _ hj))
  exact key (List.range len) (fun i hi => List.mem_range.mp hi)

/-- C10. Reset then empty round: after `paxos_reset_state` every field of
`paxos_state` is zero; and when `paxos_round_begin` is then called with
`is_proposer = 0` and no slot of the round succeeds, `paxos_state` is still all
zero when the round ends, the function returns 0, and the template is the zero
header with only the own flag set. -/
theorem reset_then_empty_round (env : Env) (paxos_value rnd0 : Nat) (slots : List SlotInput)
    (g : Globals) (h : ∀ s ∈ slots, s.chaos_txrx_success = 0) :
    (paxos_reset_state g).paxos_state = paxos_state_zero
    ∧ (paxos_round_begin env 0 paxos_value rnd0 slots (paxos_reset_state g)).g.paxos_state
        = paxos_state_zero
    ∧ (paxos_round_begin env 0 paxos_value rnd0 slots (paxos_reset_state g)).ret = 0
    ∧ (paxos_round_begin env 0 paxos_value rnd0 slots (paxos_reset_state g)).g.paxos_local
        = template_zero (set_own_flag env (List.replicate g.paxos_local.flags.length 0)) := by
  have hr := chaos_round_empty env env.PAXOS_ROUND_MAX_SLOTS
    (set_own_flag env (List.replicate g.paxos_local.flags.length 0)) slots 0 CHAOS_INIT
    (initial_tx env (paxos_round_entry env 0 paxos_value rnd0 (paxos_reset_state g)))
    (paxos_round_entry env 0 paxos_value rnd0 (paxos_reset_state g)) h rfl rfl rfl
  refine ⟨rfl, ?_⟩
  unfold paxos_round_begin
  generalize chaos_round env env.PAXOS_ROUND_MAX_SLOTS slots 0 CHAOS_INIT
    (initial_tx env (paxos_round_entry env 0 paxos_value rnd0 (paxos_reset_state g)))
    (paxos_round_entry env 0 paxos_value rnd0 (paxos_reset_state g)) = r at hr
  have h1 := hr.1
  have h2 := hr.2.1
  have h3 := hr.2.2.1
  have h4 : r.2.value_chosen_this_round = 0 := hr.2.2.2
  show holds (fun x : Globals => x.paxos_state = paxos_state_zero
    ∧ x.value_chosen_this_round = 0
    ∧ x.paxos_local
        = template_zero (set_own_flag env (List.replicate g.paxos_local.flags.length 0)))
    (paxos_round_report env r.1 r.2)
  unfold paxos_round_report
  apply ite_elim
  · refine ⟨h1, h4, ?_⟩
    show { r.2.paxos_local with
      flags := memcpy_flags (FLAGS_LEN env) r.2.paxos_local.flags r.1.flags } = _
    rw [h2, h3]
    show template_zero (memcpy_flags (FLAGS_LEN env)
      (set_own_flag env (List.replicate g.paxos_local.flags.length 0))
      ((set_own_flag env (List.replicate g.paxos_local.flags.length 0)).take (FLAGS_LEN env)))
      = _
    rw [memcpy_flags_take_self]
  · exact ⟨h1, h4, h2⟩

/-- C10 on node 1 of the three-node network: three failed slots after a reset. -/
theorem reset_then_empty_round_witness :
    (∀ s ∈ [(⟨0, empty_packet, 0⟩ : SlotInput), ⟨0, empty_packet, 0⟩, ⟨0, empty_packet, 0⟩],
      s.chaos_txrx_success = 0)
    ∧ (paxos_round_begin (env3 1) 0 5 0
        [⟨0, empty_packet, 0⟩, ⟨0, empty_packet, 0⟩, ⟨0, empty_packet, 0⟩]
        (paxos_reset_state (fresh_globals 1))).g.paxos_state = paxos_state_zero
    ∧ (paxos_round_begin (env3 1) 0 5 0
        [⟨0, empty_packet, 0⟩, ⟨0, empty_packet, 0⟩, ⟨0, empty_packet, 0⟩]
        (paxos_reset_state (fresh_globals 1))).ret = 0 :=
  ⟨by decide,
    (reset_then_empty_round (env3 1) 5 0
      [⟨0, empty_packet, 0⟩, ⟨0, empty_packet, 0⟩, ⟨0, empty_packet, 0⟩] (fresh_globals 1)
      (by decide)).2.1,
    (reset_then_empty_round (env3 1) 5 0
      [⟨0, empty_packet, 0⟩, ⟨0, empty_packet, 0⟩, ⟨0, empty_packet, 0⟩] (fresh_globals 1)
      (by decide)).2.2.1⟩

/-- C1. Single-decree agreement fails on the code: in the run `contention_events`
of three nodes that start fresh after a reset, every listening node that
receives a packet receives the current TX packet of another, transmitting node;
at the end node 0 has recorded the learned value 7 and node 2 has recorded the
learned value 9, each with `value_chosen_this_round` set. -/
theorem agreement_violated :
    run_ok 0 contention_nodes contention_events = true
    ∧ (net_run 0 contention_nodes contention_events).map Node.learned
        = [(1, 7), (0, 0), (1, 9)] := by
  decide

/-- C3. The invariant `accepted_proposal ≤ min_proposal` is broken by the block
INITIATE PAXOS ALGORITHM (3/3): node 1 holds the accepted proposal (1,2) with
`min_proposal` (1,2); as initiator and proposer of the next round its first call
of `process` sets `min_proposal` to its own ballot (1,1), below the accepted
proposal. -/
theorem accepted_le_min_broken :
    (late_proposer true).g.paxos_state.acceptor.accepted_proposal
      ≤ (late_proposer true).g.paxos_state.acceptor.min_proposal
    ∧ (process (late_proposer true).env 0 CHAOS_INIT 0 empty_packet 0
        (late_proposer true).tx_paxos (late_proposer true).g).g.paxos_state.acceptor
      = ⟨ballot_of 1 1, ballot_of 1 2, 9⟩
    ∧ ¬ ((process (late_proposer true).env 0 CHAOS_INIT 0 empty_packet 0
          (late_proposer true).tx_paxos
          (late_proposer true).g).g.paxos_state.acceptor.accepted_proposal
        ≤ (process (late_proposer true).env 0 CHAOS_INIT 0 empty_packet 0
          (late_proposer true).tx_paxos
          (late_proposer true).g).g.paxos_state.acceptor.min_proposal) := by
  decide

/-- C4. `min_proposal` is lowered by the block INITIATE PAXOS ALGORITHM (2/3):
node 1 has promised ballot (1,2); as a proposer of the next round, still in
`PAXOS_INIT`, it receives the heartbeat of the initiator in slot 1 and sets
`min_proposal` to its own ballot (1,1). -/
theorem min_proposal_lowered :
    ((late_proposer false).slot 0 ⟨0, empty_packet, 0⟩).state = CHAOS_RX
    ∧ ((late_proposer false).slot 0 ⟨0, empty_packet, 0⟩).g.paxos_state.acceptor.min_proposal
        = ballot_of 1 2
    ∧ (process (late_proposer false).env 1 CHAOS_RX 1 heartbeat_packet 0
        ((late_proposer false).slot 0 ⟨0, empty_packet, 0⟩).tx_paxos
        ((late_proposer false).slot 0 ⟨0, empty_packet, 0⟩).g).g.paxos_state.acceptor.min_proposal
      = ballot_of 1 1
    ∧ ballot_of 1 1 < ballot_of 1 2 := by
  decide

/-- C5. The PREPARE reporting leaves out the local accepted proposal: acceptor 3
holds the accepted proposal (1,5) with value 9 and merges the PREPARE of ballot
(2,1), which is a new phase; it ends the slot with `rx_accepted_proposal = 0`
and the payload's value in `rx_accepted_value`, and its TX packet reports
proposal 0. -/
theorem prepare_report_omits_local :
    acceptor3.g.paxos_state.acceptor.accepted_proposal = ballot_of 1 5
    ∧ acceptor3.g.paxos_state.acceptor.accepted_value = 9
    ∧ merges CHAOS_RX 1 prepare_of_2_1 acceptor3.tx_paxos acceptor3.g
    ∧ (process acceptor3.env 1 CHAOS_RX 1 prepare_of_2_1 0 acceptor3.tx_paxos
        acceptor3.g).g.paxos_state.rx_accepted_proposal = 0
    ∧ (process acceptor3.env 1 CHAOS_RX 1 prepare_of_2_1 0 acceptor3.tx_paxos
        acceptor3.g).g.paxos_state.rx_accepted_value = 4
    ∧ (process acceptor3.env 1 CHAOS_RX 1 prepare_of_2_1 0 acceptor3.tx_paxos
        acceptor3.g).tx_paxos.proposal = 0
    ∧ (process acceptor3.env 1 CHAOS_RX 1 prepare_of_2_1 0 acceptor3.tx_paxos
        acceptor3.g).tx_paxos.value = 4 := by
  decide

/-- C9. `paxos_round_begin` does not write `*paxos_value`: node 1 passes in the
value 1, the round delivers an ACCEPT packet of ballot (1,2) with value 9 under
the flags of nodes 0 and 2, the function returns 1 with the learned value 9,
and `*paxos_value` is still 1. -/
theorem round_begin_keeps_value :
    (paxos_round_begin (env3 1) 0 1 0
      [⟨0, empty_packet, 0⟩, ⟨1, ⟨ballot_of 1 2, PAXOS_ACCEPT, 9, ballot_of 1 2, [5]⟩, 0⟩]
      (paxos_reset_state (fresh_globals 1))).ret = 1
    ∧ paxos_get_learned_value (paxos_round_begin (env3 1) 0 1 0
      [⟨0, empty_packet, 0⟩, ⟨1, ⟨ballot_of 1 2, PAXOS_ACCEPT, 9, ballot_of 1 2, [5]⟩, 0⟩]
      (paxos_reset_state (fresh_globals 1))).g = 9
    ∧ (paxos_round_begin (env3 1) 0 1 0
      [⟨0, empty_packet, 0⟩, ⟨1, ⟨ballot_of 1 2, PAXOS_ACCEPT, 9, ballot_of 1 2, [5]⟩, 0⟩]
      (paxos_reset_state (fresh_globals 1))).paxos_value = 1 := by
  decide

/-! ## The flag loops -/

/-- Reading a byte array after one write. -/
theorem rd_set (l : List Nat) (n v i : Nat) :
    rd (l.set n v) i = if i = n ∧ n < l.length then v else rd l i := by
  unfold rd
  by_cases h : i = n
  · subst h
    by_cases hl : i < l.length
    · rw [if_pos ⟨rfl, hl⟩]
      simp [List.getD_eq_getElem?_getD, List.getElem?_set, hl]
    · rw [if_neg (fun hc => hl hc.2), List.set_eq_of_length_le (by omega)]
  · rw [if_neg (fun hc => h hc.1)]
    simp [List.getD_eq_getElem?_getD, List.getElem?_set, Ne.symm h]

/-- One more round of a counting loop. -/
theorem fold_count_succ (f : Nat → Nat) (n : Nat) :
    (List.range (n + 1)).foldl (fun a i => a + f i) 0
      = (List.range n).foldl (fun a i => a + f i) 0 + f n := by
  rw [List.range_succ, List.foldl_append]
  rfl

/-- A counting loop over `n` indices depends on the counted function below `n`
only, and is monotone in it. -/
theorem fold_count_le (f g : Nat → Nat) (n : Nat) (h : ∀ i < n, f i ≤ g i) :
    (List.range n).foldl (fun a i => a + f i) 0 ≤ (List.range n).foldl (fun a i => a + g i) 0 := by
  induction n with
  | zero => exact Nat.le_refl _
  | succ n ih =>
    rw [fold_count_succ, fold_count_succ]
    exact Nat.add_le_add (ih (fun i hi => h i (Nat.lt_succ_of_lt hi))) (h n (Nat.lt_succ_self n))

theorem fold_count_congr (f g : Nat → Nat) (n : Nat) (h : ∀ i < n, f i = g i) :
    (List.range n).foldl (fun a i => a + f i) 0 = (List.range n).foldl (fun a i => a + g i) 0 :=
  Nat.le_antisymm (fold_count_le f g n (fun i hi => Nat.le_of_eq (h i hi)))
    (fold_count_le g f n (fun i hi => Nat.le_of_eq (h i hi).symm))

/-- One more round of the merging loop. -/
theorem merge_loop_succ (n : Nat) (p t : List Nat) (d : Nat) :
    merge_loop (n + 1) p t d = merge_step p (merge_loop n p t d) n := by
  unfold merge_loop
  rw [List.range_succ, List.foldl_append]
  rfl

/-- One more round of the copying loop. -/
theorem copy_loop_succ (n : Nat) (p t : List Nat) (d : Nat) :
    copy_loop (n + 1) p t d = copy_step p (copy_loop n p t d) n := by
  unfold copy_loop
  rw [List.range_succ, List.foldl_append]
  rfl

/-- The merging loop over `n ≤ length` bytes: the array keeps its length, its
bytes stay below 256 when those of both arrays are, and `n_replies` is the
count of the first `n` bytes of the result. -/
theorem merge_loop_spec (p t : List Nat) (d : Nat) (hp : bytes_ok p) (ht : bytes_ok t) :
    ∀ n, n ≤ t.length →
      (merge_loop n p t d).flags.length = t.length
      ∧ bytes_ok (merge_loop n p t d).flags
      ∧ (merge_loop n p t d).n_replies = count_flags n (merge_loop n p t d).flags := by
  intro n
  induction n with
  | zero => intro _; exact ⟨rfl, ht, rfl⟩
  | succ n ih =>
    intro hn
    have ih' := ih (Nat.le_of_succ_le hn)
    rw [merge_loop_succ]
    generalize merge_loop n p t d = a at ih'
    have hlen : n < a.flags.length := by rw [ih'.1]; exact hn
    unfold merge_step
    refine ⟨by simp [ih'.1], ?_, ?_⟩
    · intro i
      show rd (a.flags.set n (rd a.flags n ||| rd p n)) i < 256
      rw [rd_set]
      by_cases hc : i = n ∧ n < a.flags.length
      · rw [if_pos hc]
        exact Nat.or_lt_two_pow (n := 8) (ih'.2.1 n) (hp n)
      · rw [if_neg hc]; exact ih'.2.1 i
    · show a.n_replies + bit_count (rd a.flags n ||| rd p n)
        = count_flags (n + 1) (a.flags.set n (rd a.flags n ||| rd p n))
      unfold count_flags
      rw [fold_count_succ, rd_set, if_pos ⟨rfl, hlen⟩, ih'.2.2]
      unfold count_flags
      congr 1
      apply fold_count_congr
      intro i hi
      rw [rd_set, if_neg (fun hc => Nat.ne_of_lt hi hc.1)]

/-- The copying loop over `n ≤ length` bytes: as for the merging loop. -/
theorem copy_loop_spec (p t : List Nat) (d : Nat) (hp : bytes_ok p) (ht : bytes_ok t) :
    ∀ n, n ≤ t.length →
      (copy_loop n p t d).flags.length = t.length
      ∧ bytes_ok (copy_loop n p t d).flags
      ∧ (copy_loop n p t d).n_replies = count_flags n (copy_loop n p t d).flags := by
  intro n
  induction n with
  | zero => intro _; exact ⟨rfl, ht, rfl⟩
  | succ n ih =>
    intro hn
    have ih' := ih (Nat.le_of_succ_le hn)
    rw [copy_loop_succ]
    generalize copy_loop n p t d = a at ih'
    have hlen : n < a.flags.length := by rw [ih'.1]; exact hn
    unfold copy_step
    refine ⟨by simp [ih'.1], ?_, ?_⟩
    · intro i
      show rd (a.flags.set n (rd p n)) i < 256
      rw [rd_set]
      by_cases hc : i = n ∧ n < a.flags.length
      · rw [if_pos hc]; exact hp n
      · rw [if_neg hc]; exact ih'.2.1 i
    · show a.n_replies + bit_count (rd p n) = count_flags (n + 1) (a.flags.set n (rd p n))
      unfold count_flags
      rw [fold_count_succ, rd_set, if_pos ⟨rfl, hlen⟩, ih'.2.2]
      unfold count_flags
      congr 1
      apply fold_count_congr
      intro i hi
      rw [rd_set, if_neg (fun hc => Nat.ne_of_lt hi hc.1)]

set_option maxRecDepth 1000000 in
/-- On bytes `bit_count` is the population count. -/
theorem bit_count_eq_popcount : ∀ u, u < 256 → bit_count u = popcount u := by
  decide

/-- Setting further bits of a byte does not lower its population count. -/
theorem popcount_or_le (b m : Nat) : popcount b ≤ popcount (b ||| m) := by
  unfold popcount
  apply List.Sublist.length_le
  apply List.monotone_filter_right
  intro k hk
  simp only [Nat.testBit_or, Bool.or_eq_true]
  exact Or.inl hk

/-- The code's count of the flags is at most the population count of the flags
with the own flag set. -/
theorem count_le_popcount_own (env : Env) (len : Nat) (fl : List Nat) (h : bytes_ok fl) :
    count_flags len fl ≤ flags_popcount len (set_own_flag env fl) := by
  unfold count_flags flags_popcount
  apply fold_count_le
  intro i _
  rw [bit_count_eq_popcount _ (h i)]
  unfold set_own_flag
  rw [rd_set]
  by_cases hc : i = env.chaos_node_index / 8 ∧ env.chaos_node_index / 8 < fl.length
  · rw [if_pos hc, hc.1]
    exact popcount_or_le _ _
  · rw [if_neg hc]

/-- The acceptor logic after the ordering check, written over the frame at the
quorum read. -/
theorem acceptor_merge_eq (env : Env) (slot_count : Nat) (cs : chaos_state_t)
    (rx : paxos_t) (rnd : Nat) (f : Frame) :
    acceptor_merge env slot_count cs rx rnd (new_phase_of (payload cs rx f) f.tx_paxos)
        (payload cs rx f) f
      = completion env slot_count (payload cs rx (after_flags env cs rx f))
          (merged_flags env cs rx f).flag_sum
          (quorum_read env (payload cs rx (after_flags env cs rx f))
            (dampening env (payload cs rx (after_flags env cs rx f)) rnd
              (after_flags env cs rx f))) :=
  rfl

/-- The quorum read either leaves `value_chosen_this_round` and the learner as
they are, or its condition holds and it records the payload's value. -/
theorem quorum_read_cases (env : Env) (pl : paxos_t) (f : Frame) :
    ((quorum_read env pl f).g.value_chosen_this_round = f.g.value_chosen_this_round
      ∧ (quorum_read env pl f).g.paxos_state.learner = f.g.paxos_state.learner)
    ∨ (quorum_condition env pl f
      ∧ (quorum_read env pl f).g.value_chosen_this_round = 1
      ∧ (quorum_read env pl f).g.paxos_state.learner.learned_value = pl.value) := by
  unfold quorum_read
  by_cases h : pl.phase = PAXOS_ACCEPT ∧ pl.ballot = pl.proposal
      ∧ f.g.n_replies > env.chaos_node_count / 2
  · rw [if_pos h]; exact Or.inr ⟨h, rfl, rfl⟩
  · rw [if_neg h]; exact Or.inl ⟨rfl, rfl⟩

/-- The blocks before the quorum read leave `value_chosen_this_round` and the
learner alone. -/
theorem after_flags_learned (env : Env) (cs : chaos_state_t) (rx : paxos_t) (f : Frame) :
    (after_flags env cs rx f).g.value_chosen_this_round = f.g.value_chosen_this_round
    ∧ (after_flags env cs rx f).g.paxos_state.learner = f.g.paxos_state.learner := by
  have h1 : (after_new_phase env cs rx f).g.value_chosen_this_round = f.g.value_chosen_this_round
      ∧ (after_new_phase env cs rx f).g.paxos_state.learner = f.g.paxos_state.learner := by
    unfold after_new_phase
    show holds (fun x : Frame => x.g.value_chosen_this_round = f.g.value_chosen_this_round
      ∧ x.g.paxos_state.learner = f.g.paxos_state.learner) _
    apply ite_elim
    all_goals exact ⟨rfl, rfl⟩
  have h2 : ∀ (pl : paxos_t) (x : Frame),
      (acceptor_phase pl x).g.value_chosen_this_round = x.g.value_chosen_this_round := by
    intro pl x
    have e1 : ∀ y : Frame, (prepare_promise pl y).g.value_chosen_this_round
        = y.g.value_chosen_this_round := by
      intro y; unfold prepare_promise
      show holds (fun z : Frame => z.g.value_chosen_this_round = y.g.value_chosen_this_round) _
      apply ite_elim
      all_goals rfl
    have e2 : ∀ y : Frame, (prepare_report pl y).g.value_chosen_this_round
        = y.g.value_chosen_this_round := by
      intro y; unfold prepare_report
      show holds (fun z : Frame => z.g.value_chosen_this_round = y.g.value_chosen_this_round) _
      apply ite_elim
      all_goals rfl
    have e3 : ∀ y : Frame, (accept_write pl y).g.value_chosen_this_round
        = y.g.value_chosen_this_round := by
      intro y; unfold accept_write
      show holds (fun z : Frame => z.g.value_chosen_this_round = y.g.value_chosen_this_round) _
      apply ite_elim
      all_goals rfl
    have e4 : ∀ y : Frame, (accept_min_report pl y).g.value_chosen_this_round
        = y.g.value_chosen_this_round := by
      intro y; unfold accept_min_report
      show holds (fun z : Frame => z.g.value_chosen_this_round = y.g.value_chosen_this_round) _
      apply ite_elim
      all_goals rfl
    have e5 : ∀ y : Frame, (accept_carry y).g.value_chosen_this_round
        = y.g.value_chosen_this_round := by
      intro y; unfold accept_carry
      show holds (fun z : Frame => z.g.value_chosen_this_round = y.g.value_chosen_this_round) _
      apply ite_elim
      all_goals rfl
    unfold acceptor_phase acceptor_prepare acceptor_accept
    show holds (fun z : Frame => z.g.value_chosen_this_round = x.g.value_chosen_this_round) _
    apply ite_elim
    · show (prepare_report pl (prepare_promise pl x)).g.value_chosen_this_round = _
      rw [e2, e1]
    · apply ite_elim
      · show (accept_carry (accept_min_report pl (accept_write pl x))).g.value_chosen_this_round
          = _
        rw [e5, e4, e3]
      · rfl
  unfold after_flags after_acceptor
  refine ⟨?_, ?_⟩
  · show (acceptor_phase _ (after_new_phase env cs rx f)).g.value_chosen_this_round = _
    rw [h2, h1.1]
  · show (acceptor_phase _ (after_new_phase env cs rx f)).g.paxos_state.learner = _
    rw [(acceptor_phase_frame _ _).2.2.2.2, h1.2]

/-- The proposer logic leaves `value_chosen_this_round` and the learner alone. -/
theorem proposer_logic_learned (env : Env) (slot_count : Nat) (pl : paxos_t) (f : Frame) :
    (proposer_logic env slot_count pl f).g.value_chosen_this_round = f.g.value_chosen_this_round
    ∧ (proposer_logic env slot_count pl f).g.paxos_state.learner = f.g.paxos_state.learner := by
  unfold proposer_logic
  show holds (fun x : Frame => x.g.value_chosen_this_round = f.g.value_chosen_this_round
    ∧ x.g.paxos_state.learner = f.g.paxos_state.learner) _
  apply ite_elim
  · show (proposer_finish env _).g.value_chosen_this_round = f.g.value_chosen_this_round
      ∧ (proposer_finish env _).g.paxos_state.learner = f.g.paxos_state.learner
    rw [(proposer_finish_frame _ _).2.1, (proposer_finish_frame _ _).2.2]
    show holds (fun x : PropFrame => x.f.g.value_chosen_this_round = f.g.value_chosen_this_round
      ∧ x.f.g.paxos_state.learner = f.g.paxos_state.learner) _
    apply ite_elim
    · exact ⟨rfl, rfl⟩
    · unfold proposer_compete
      apply ite_elim
      · apply ite_elim
        · exact ⟨(proposer_own_phase_frame env slot_count f).2.2.2,
            (proposer_own_phase_frame env slot_count f).2.2.1⟩
        · exact ⟨rfl, rfl⟩
      · apply ite_elim
        · exact ⟨rfl, rfl⟩
        · show holds (fun x : Frame => x.g.value_chosen_this_round = f.g.value_chosen_this_round
            ∧ x.g.paxos_state.learner = f.g.paxos_state.learner) (proposer_smaller f)
          unfold proposer_smaller
          apply ite_elim
          all_goals exact ⟨rfl, rfl⟩
  · exact ⟨rfl, rfl⟩

/-- The Synchrotron state logic leaves `value_chosen_this_round` and the learner
alone. -/
theorem synchrotron_logic_learned (env : Env) (cs : chaos_state_t) (succ rnd : Nat) (f : Frame) :
    (synchrotron_logic env cs succ rnd f).2.g.value_chosen_this_round
        = f.g.value_chosen_this_round
    ∧ (synchrotron_logic env cs succ rnd f).2.g.paxos_state.learner
        = f.g.paxos_state.learner := by
  unfold synchrotron_logic
  show holds (fun x : chaos_state_t × Frame =>
    x.2.g.value_chosen_this_round = f.g.value_chosen_this_round
    ∧ x.2.g.paxos_state.learner = f.g.paxos_state.learner) _
  apply ite_elim
  · show holds (fun x : Frame => x.g.value_chosen_this_round = f.g.value_chosen_this_round
      ∧ x.g.paxos_state.learner = f.g.paxos_state.learner) (sync_initiate f)
    unfold sync_initiate
    apply ite_elim
    all_goals exact ⟨rfl, rfl⟩
  · repeat' apply ite_elim
    all_goals exact ⟨rfl, rfl⟩

/-- The end of a call leaves `value_chosen_this_round` and the learner alone. -/
theorem exit_frame_learned (env : Env) (slot_count : Nat) (r : chaos_state_t × Frame) :
    (exit_frame env slot_count r).g.value_chosen_this_round = r.2.g.value_chosen_this_round
    ∧ (exit_frame env slot_count r).g.paxos_state.learner = r.2.g.paxos_state.learner := by
  have hm : ∀ x : Frame,
      (mark_off env slot_count r.1 x).g.value_chosen_this_round = x.g.value_chosen_this_round := by
    intro x
    unfold mark_off
    show holds (fun z : Frame => z.g.value_chosen_this_round = x.g.value_chosen_this_round) _
    apply ite_elim
    all_goals rfl
  unfold exit_frame
  rw [hm, (mark_off_frame _ _ _ _).1]
  exact ⟨(report_final_frame _ _ _).2.2.1, (report_final_frame _ _ _).2.1⟩

/-- The heartbeat branch leaves `value_chosen_this_round` and the learner alone. -/
theorem heartbeat_learned (env : Env) (cs : chaos_state_t) (rx : paxos_t) (f : Frame) :
    (heartbeat env cs rx f).g.value_chosen_this_round = f.g.value_chosen_this_round
    ∧ (heartbeat env cs rx f).g.paxos_state.learner = f.g.paxos_state.learner := by
  unfold heartbeat
  show holds (fun x : Frame => x.g.value_chosen_this_round = f.g.value_chosen_this_round
    ∧ x.g.paxos_state.learner = f.g.paxos_state.learner)
    (if f.g.paxos_state.proposer.is_proposer ≠ 0 then heartbeat_proposer env f
     else heartbeat_forward env cs rx f)
  apply ite_elim
  · show holds (fun x : Frame => x.g.value_chosen_this_round = f.g.value_chosen_this_round
      ∧ x.g.paxos_state.learner = f.g.paxos_state.learner)
      (if f.g.paxos_state.proposer.phase = PAXOS_INIT then proposer_initiate (template_flags env f)
       else f)
    apply ite_elim
    all_goals exact ⟨rfl, rfl⟩
  · exact ⟨rfl, rfl⟩

/-- What a call of `process` leaves in `value_chosen_this_round` and the learner
is what its valid-slot block leaves there. -/
theorem process_learned (env : Env) (slot_count : Nat) (cs : chaos_state_t)
    (succ : Nat) (rx : paxos_t) (rnd : Nat) (tx : paxos_t) (g : Globals) :
    (process env slot_count cs succ rx rnd tx g).g.value_chosen_this_round
      = (valid_slot env slot_count cs succ rx rnd (entry_frame tx g)).g.value_chosen_this_round
    ∧ (process env slot_count cs succ rx rnd tx g).g.paxos_state.learner
      = (valid_slot env slot_count cs succ rx rnd (entry_frame tx g)).g.paxos_state.learner := by
  show (process_frame env slot_count cs succ rx rnd tx g).g.value_chosen_this_round = _
    ∧ (process_frame env slot_count cs succ rx rnd tx g).g.paxos_state.learner = _
  unfold process_frame
  rw [(exit_frame_learned _ _ _).1, (exit_frame_learned _ _ _).2,
    (synchrotron_logic_learned _ _ _ _ _).1, (synchrotron_logic_learned _ _ _ _ _).2]
  exact ⟨rfl, rfl⟩

/-- The byte copy keeps the length of the target, and its bytes stay below 256
when those of both arrays are. -/
theorem memcpy_flags_spec (len : Nat) (dst src : List Nat) (hd : bytes_ok dst)
    (hs : bytes_ok src) :
    (memcpy_flags len dst src).length = dst.length ∧ bytes_ok (memcpy_flags len dst src) := by
  unfold memcpy_flags
  have key : ∀ (l : List Nat) (d : List Nat), bytes_ok d →
      (l.foldl (fun d i => d.set i (rd src i)) d).length = d.length
      ∧ bytes_ok (l.foldl (fun d i => d.set i (rd src i)) d) := by
    intro l
    induction l with
    | nil => intro d hd'; exact ⟨rfl, hd'⟩
    | cons i l ih =>
      intro d hd'
      rw [List.foldl_cons]
      have hset : bytes_ok (d.set i (rd src i)) := by
        intro j
        rw [rd_set]
        by_cases hc : j = i ∧ i < d.length
        · rw [if_pos hc]; exact hs i
        · rw [if_neg hc]; exact hd' j
      have h := ih (d.set i (rd src i)) hset
      exact ⟨h.1.trans (List.length_set _ _ _), h.2⟩
  exact key (List.range len) dst hd

/-- The flags before the flag loop of a merged payload: as long as the TX flags
on entry, with bytes below 256 when those of the TX and RX flags are. -/
theorem after_acceptor_flags (env : Env) (cs : chaos_state_t) (rx : paxos_t) (f : Frame)
    (ht : bytes_ok f.tx_paxos.flags) (hr : bytes_ok rx.flags) :
    (after_acceptor env cs rx f).tx_paxos.flags.length = f.tx_paxos.flags.length
    ∧ bytes_ok (after_acceptor env cs rx f).tx_paxos.flags
    ∧ bytes_ok (payload cs rx (after_acceptor env cs rx f)).flags := by
  have hpl : bytes_ok (payload cs rx f).flags := by
    unfold payload
    show holds (fun x : paxos_t => bytes_ok x.flags) _
    apply ite_elim
    · exact ht
    · exact hr
  have h1 : (after_new_phase env cs rx f).tx_paxos.flags.length = f.tx_paxos.flags.length
      ∧ bytes_ok (after_new_phase env cs rx f).tx_paxos.flags := by
    unfold after_new_phase
    show holds (fun x : Frame => x.tx_paxos.flags.length = f.tx_paxos.flags.length
      ∧ bytes_ok x.tx_paxos.flags) _
    apply ite_elim
    · exact memcpy_flags_spec _ _ _ ht hpl
    · exact ⟨rfl, ht⟩
  have h2 : (after_acceptor env cs rx f).tx_paxos.flags
      = (after_new_phase env cs rx f).tx_paxos.flags := by
    unfold after_acceptor
    exact (acceptor_phase_frame _ _).2.2.1
  refine ⟨by rw [h2]; exact h1.1, by rw [h2]; exact h1.2, ?_⟩
  unfold payload
  show holds (fun x : paxos_t => bytes_ok x.flags) _
  apply ite_elim
  · show bytes_ok (after_acceptor env cs rx f).tx_paxos.flags
    rw [h2]; exact h1.2
  · exact hr

/-- At the quorum read `n_replies` is at most the population count of the TX
flags, when the flag arrays are well formed. -/
theorem after_flags_count (env : Env) (cs : chaos_state_t) (rx : paxos_t) (f : Frame)
    (hl : FLAGS_LEN env ≤ f.tx_paxos.flags.length)
    (ht : bytes_ok f.tx_paxos.flags) (hr : bytes_ok rx.flags) :
    (after_flags env cs rx f).g.n_replies
      ≤ flags_popcount (FLAGS_LEN env) (after_flags env cs rx f).tx_paxos.flags := by
  have ha := after_acceptor_flags env cs rx f ht hr
  have hm : (merged_flags env cs rx f).n_replies
        = count_flags (FLAGS_LEN env) (merged_flags env cs rx f).flags
      ∧ bytes_ok (merged_flags env cs rx f).flags := by
    unfold merged_flags flag_loop
    show holds (fun x : FlagAcc => x.n_replies = count_flags (FLAGS_LEN env) x.flags
      ∧ bytes_ok x.flags) _
    apply ite_elim
    · have h := merge_loop_spec (payload cs rx (after_acceptor env cs rx f)).flags
        (after_acceptor env cs rx f).tx_paxos.flags (after_acceptor env cs rx f).rx_delta
        ha.2.2 ha.2.1 (FLAGS_LEN env) (by rw [ha.1]; exact hl)
      exact ⟨h.2.2, h.2.1⟩
    · have h := copy_loop_spec (payload cs rx (after_acceptor env cs rx f)).flags
        (after_acceptor env cs rx f).tx_paxos.flags 1
        ha.2.2 ha.2.1 (FLAGS_LEN env) (by rw [ha.1]; exact hl)
      exact ⟨h.2.2, h.2.1⟩
  show (merged_flags env cs rx f).n_replies
    ≤ flags_popcount (FLAGS_LEN env) (set_own_flag env (merged_flags env cs rx f).flags)
  rw [hm.1]
  exact count_le_popcount_own env _ _ hm.2

/-- Without a phase update the proposer logic closes with the TX buffer it had. -/
theorem proposer_finish_no_update (env : Env) (a : PropFrame) (h : a.update_phase = 0) :
    (proposer_finish env a).tx_paxos = a.f.tx_paxos := by
  have hn : ¬ a.update_phase ≠ 0 := fun hn => hn h
  unfold proposer_finish
  rw [if_neg hn]
  show holds (fun x : Frame => x.tx_paxos = a.f.tx_paxos) _
  apply ite_elim
  · exact (proposer_lost_frame env a.f).1
  · rfl

/-- A proposer that is not in PREPARE asks for no phase update when it evaluates
a payload with its own ballot and phase. -/
theorem proposer_own_phase_no_update (env : Env) (slot_count : Nat) (f : Frame)
    (h : f.g.paxos_state.proposer.phase ≠ PAXOS_PREPARE) :
    (proposer_own_phase env slot_count f).update_phase = 0 := by
  have hr : (proposer_reports f).update_phase = 0
      ∧ (proposer_reports f).f.g.paxos_state.proposer.phase ≠ PAXOS_PREPARE := by
    unfold proposer_reports
    rw [if_neg h]
    show holds (fun x : PropFrame => x.update_phase = 0
      ∧ x.f.g.paxos_state.proposer.phase ≠ PAXOS_PREPARE) _
    apply ite_elim
    all_goals exact ⟨rfl, h⟩
  have hm : ∀ a : PropFrame, a.update_phase = 0 →
      a.f.g.paxos_state.proposer.phase ≠ PAXOS_PREPARE →
      (proposer_majority env slot_count a).update_phase = 0 := by
    intro a h0 hp
    unfold proposer_majority
    rw [if_neg hp]
    show holds (fun x : PropFrame => x.update_phase = 0) _
    repeat' apply ite_elim
    all_goals exact h0
  unfold proposer_own_phase
  rw [(proposer_late_loss_frame _).2]
  exact hm _ hr.1 hr.2

/-- For an ACCEPT-phase payload the proposer logic keeps the TX flags, unless the
node is a proposer without majority whose loser timeout is 1: that timeout
reaches 0 in this call and the phase update resets the flags. -/
theorem proposer_logic_flags_kept (env : Env) (slot_count : Nat) (pl : paxos_t) (f : Frame)
    (hph : pl.phase = PAXOS_ACCEPT)
    (hno : ¬ (f.g.paxos_state.proposer.is_proposer ≠ 0
      ∧ f.g.paxos_state.proposer.got_majority = 0
      ∧ f.g.paxos_state.proposer.loser_timeout = 1)) :
    (proposer_logic env slot_count pl f).tx_paxos.flags = f.tx_paxos.flags := by
  unfold proposer_logic
  by_cases h0 : f.g.paxos_state.proposer.is_proposer ≠ 0
      ∧ f.g.paxos_state.proposer.got_majority = 0
  · rw [if_pos h0]
    by_cases ht : f.g.paxos_state.proposer.loser_timeout > 0
    · rw [if_pos ht]
      have hne : f.g.paxos_state.proposer.loser_timeout ≠ 1 := fun hc => hno ⟨h0.1, h0.2, hc⟩
      have hu : (proposer_timeout f).update_phase = 0 := by
        unfold proposer_timeout
        show (if f.g.paxos_state.proposer.loser_timeout - 1 = 0 then 1 else 0) = 0
        rw [if_neg (by omega)]
      rw [proposer_finish_no_update env _ hu]
      rfl
    · rw [if_neg ht]
      have hc : (proposer_compete env slot_count pl f).update_phase = 0
          ∧ (proposer_compete env slot_count pl f).f.tx_paxos.flags = f.tx_paxos.flags := by
        unfold proposer_compete
        show holds (fun x : PropFrame => x.update_phase = 0
          ∧ x.f.tx_paxos.flags = f.tx_paxos.flags) _
        apply ite_elim
        · show holds (fun x : PropFrame => x.update_phase = 0
            ∧ x.f.tx_paxos.flags = f.tx_paxos.flags)
            (if pl.phase = f.g.paxos_state.proposer.phase then proposer_own_phase env slot_count f
             else ⟨set_tx f, 0, 0⟩)
          by_cases hp : pl.phase = f.g.paxos_state.proposer.phase
          · rw [if_pos hp]
            have hnp : f.g.paxos_state.proposer.phase ≠ PAXOS_PREPARE := by
              rw [← hp, hph]; decide
            exact ⟨proposer_own_phase_no_update env slot_count f hnp,
              by rw [(proposer_own_phase_frame env slot_count f).1]⟩
          · rw [if_neg hp]; exact ⟨rfl, rfl⟩
        · apply ite_elim
          · exact ⟨rfl, rfl⟩
          · refine ⟨rfl, ?_⟩
            show holds (fun x : Frame => x.tx_paxos.flags = f.tx_paxos.flags) (proposer_smaller f)
            unfold proposer_smaller
            apply ite_elim
            all_goals rfl
      rw [proposer_finish_no_update env _ hc.1]
      exact hc.2
  · rw [if_neg h0]

/-- The phase of the payload reads the same at the quorum read as on entry. -/
theorem payload_after_flags (env : Env) (cs : chaos_state_t) (rx : paxos_t) (f : Frame) :
    (payload cs rx (after_flags env cs rx f)).phase = (payload cs rx f).phase := by
  unfold payload
  by_cases h : cs = CHAOS_TX
  · rw [if_pos h, if_pos h]
    show (after_acceptor env cs rx f).tx_paxos.phase = f.tx_paxos.phase
    unfold after_acceptor
    rw [(acceptor_phase_frame _ _).2.1]
    have hp := payload_after_new_phase env cs rx f
    unfold payload at hp
    rw [if_pos h, if_pos h] at hp
    unfold after_new_phase payload
    rw [if_pos h, hp]
  · rw [if_neg h, if_neg h]

/-- The ordering check either leaves `value_chosen_this_round` and the learner as
they are, or the quorum read fired on the frame `after_flags`: its condition
holds there, the payload's value is learned, and the TX buffer is the one of
that frame. -/
theorem acceptor_check_cases (env : Env) (slot_count : Nat) (cs : chaos_state_t)
    (rx : paxos_t) (rnd : Nat) (f : Frame) :
    ((acceptor_check env slot_count cs rx rnd f).g.value_chosen_this_round
        = f.g.value_chosen_this_round
      ∧ (acceptor_check env slot_count cs rx rnd f).g.paxos_state.learner
        = f.g.paxos_state.learner)
    ∨ (ordering_ok (payload cs rx f) f.tx_paxos
      ∧ quorum_condition env (payload cs rx (after_flags env cs rx f)) (after_flags env cs rx f)
      ∧ (acceptor_check env slot_count cs rx rnd f).g.value_chosen_this_round = 1
      ∧ (acceptor_check env slot_count cs rx rnd f).g.paxos_state.learner.learned_value
        = (payload cs rx (after_flags env cs rx f)).value
      ∧ (acceptor_check env slot_count cs rx rnd f).tx_paxos
        = (after_flags env cs rx f).tx_paxos) := by
  unfold acceptor_check
  by_cases ho : (payload cs rx f).ballot > f.tx_paxos.ballot
      ∨ ((payload cs rx f).ballot = f.tx_paxos.ballot ∧ (payload cs rx f).phase ≥ f.tx_paxos.phase)
  · rw [if_pos ho, acceptor_merge_eq, (completion_frame _ _ _ _ _).1,
      (completion_frame _ _ _ _ _).2.1, (completion_frame _ _ _ _ _).2.2]
    have hd := dampening_frame env (payload cs rx (after_flags env cs rx f)) rnd
      (after_flags env cs rx f)
    have ha := after_flags_learned env cs rx f
    rcases quorum_read_cases env (payload cs rx (after_flags env cs rx f))
      (dampening env (payload cs rx (after_flags env cs rx f)) rnd (after_flags env cs rx f))
      with hq | hq
    · left
      refine ⟨hq.1.trans (hd.2.2.2.trans ha.1), ?_⟩
      rw [hq.2, hd.1]
      exact ha.2
    · right
      refine ⟨ho, ?_, hq.2.1, hq.2.2, ?_⟩
      · have hc := hq.1
        unfold quorum_condition at hc ⊢
        rw [hd.2.2.1] at hc
        exact hc
      · rw [(quorum_read_frame _ _ _).2.2.2.2.2, hd.2.1]
  · rw [if_neg ho]
    left; exact ⟨rfl, rfl⟩

/-- Outside the round start the TX buffer a call of `process` leaves is the one
its valid-slot block leaves. -/
theorem process_tx_of_not_init (env : Env) (slot_count : Nat) (cs : chaos_state_t)
    (succ : Nat) (rx : paxos_t) (rnd : Nat) (tx : paxos_t) (g : Globals) (h : cs ≠ CHAOS_INIT) :
    (process env slot_count cs succ rx rnd tx g).tx_paxos
      = (valid_slot env slot_count cs succ rx rnd (entry_frame tx g)).tx_paxos := by
  show (process_frame env slot_count cs succ rx rnd tx g).tx_paxos = _
  unfold process_frame
  rw [(exit_frame_frame _ _ _).2.2, (synchrotron_logic_frame _ _ _ _ _ h).2]

/-- C7, amended. Quorum-read correctness (single-decree): when a call of `process`
changes `value_chosen_this_round` or the learned value, the call merged its
payload and `value_chosen_this_round` is 1 after it; the payload, as read at the
quorum read, has phase ACCEPT and its ballot equals its proposal (it is the RX
packet when the node was listening); the learned value after the call is the
payload's value; and, for well-formed flag arrays, the population count of the
TX flags after the flag merge exceeds N/2, as does that of the TX flags at the
end of the slot unless the node is a proposer without majority whose loser
timeout is 1 before the call. -/
theorem quorum_read_correct (env : Env) (slot_count : Nat) (cs : chaos_state_t)
    (succ : Nat) (rx : paxos_t) (rnd : Nat) (tx : paxos_t) (g : Globals)
    (h : (process env slot_count cs succ rx rnd tx g).g.value_chosen_this_round
          ≠ g.value_chosen_this_round
        ∨ (process env slot_count cs succ rx rnd tx g).g.paxos_state.learner.learned_value
          ≠ g.paxos_state.learner.learned_value) :
    merges cs succ rx tx g
    ∧ (process env slot_count cs succ rx rnd tx g).g.value_chosen_this_round = 1
    ∧ (quorum_payload env cs rx tx g).phase = PAXOS_ACCEPT
    ∧ (quorum_payload env cs rx tx g).ballot = (quorum_payload env cs rx tx g).proposal
    ∧ (cs = CHAOS_RX → quorum_payload env cs rx tx g = rx)
    ∧ (process env slot_count cs succ rx rnd tx g).g.paxos_state.learner.learned_value
        = (quorum_payload env cs rx tx g).value
    ∧ (FLAGS_LEN env ≤ tx.flags.length → bytes_ok tx.flags → bytes_ok rx.flags →
        flags_popcount (FLAGS_LEN env) (quorum_frame env cs rx tx g).tx_paxos.flags
          > env.chaos_node_count / 2
        ∧ (¬ (g.paxos_state.proposer.is_proposer ≠ 0
              ∧ g.paxos_state.proposer.got_majority = 0
              ∧ g.paxos_state.proposer.loser_timeout = 1) →
          flags_popcount (FLAGS_LEN env)
              (process env slot_count cs succ rx rnd tx g).tx_paxos.flags
            > env.chaos_node_count / 2)) := by
  have hpl := process_learned env slot_count cs succ rx rnd tx g
  have hkeep : (valid_slot env slot_count cs succ rx rnd
        (entry_frame tx g)).g.value_chosen_this_round = g.value_chosen_this_round →
      (valid_slot env slot_count cs succ rx rnd (entry_frame tx g)).g.paxos_state.learner
        = g.paxos_state.learner → False := by
    intro hv hl
    rcases h with h | h
    · exact h (hpl.1.trans hv)
    · exact h (by rw [hpl.2, hl])
  rw [hpl.1, hpl.2]
  by_cases hv : slot_valid cs succ g
  · have hcs := not_init_of_slot_valid hv
    by_cases hh : is_heartbeat (entry_payload cs rx tx) g
    · exfalso
      have hv' : succ ≠ 0 ∧ (cs = CHAOS_RX
          ∨ cs = CHAOS_TX ∧ (entry_frame tx g).g.paxos_state.proposer.is_proposer ≠ 0) := hv
      have hh' : (payload cs rx (open_valid (entry_frame tx g))).phase = PAXOS_INIT
          ∧ (open_valid (entry_frame tx g)).g.paxos_state.acceptor.min_proposal = 0 := hh
      have hvs : valid_slot env slot_count cs succ rx rnd (entry_frame tx g)
          = heartbeat env cs rx (open_valid (entry_frame tx g)) := by
        unfold valid_slot
        rw [if_pos hv', if_pos hh']
      rw [hvs] at hkeep
      exact hkeep (heartbeat_learned _ _ _ _).1 (heartbeat_learned _ _ _ _).2
    · rw [process_tx_of_not_init _ _ _ _ _ _ _ _ hcs]
      rw [valid_slot_of_merges _ _ _ _ _ _ _ _ hv hh] at hkeep ⊢
      unfold paxos_slot at hkeep ⊢
      rw [(proposer_logic_learned _ _ _ _).1, (proposer_logic_learned _ _ _ _).2] at hkeep
      rw [(proposer_logic_learned _ _ _ _).1, (proposer_logic_learned _ _ _ _).2]
      rcases acceptor_check_cases env slot_count cs rx rnd
        (clear_tx (open_valid (entry_frame tx g))) with hc | hc
      · exact absurd hc.2 (hkeep hc.1)
      · have hq : quorum_condition env (quorum_payload env cs rx tx g)
            (quorum_frame env cs rx tx g) := hc.2.1
        have hphase : (payload cs rx (acceptor_logic env slot_count cs rx rnd
            (open_valid (entry_frame tx g)))).phase = PAXOS_ACCEPT := by
          rw [(payload_after_acceptor_logic _ _ _ _ _ _).2]
          have h2 := payload_after_flags env cs rx (clear_tx (open_valid (entry_frame tx g)))
          exact h2.symm.trans hq.1
        refine ⟨⟨hv, hh, hc.1⟩, hc.2.2.1, hq.1, hq.2.1, ?_, hc.2.2.2.1, ?_⟩
        · intro hrx
          unfold quorum_payload payload
          rw [if_neg (by rw [hrx]; decide)]
        · intro hl ht hr
          have hcnt := after_flags_count env cs rx (clear_tx (open_valid (entry_frame tx g)))
            hl ht hr
          have hgt : flags_popcount (FLAGS_LEN env) (quorum_frame env cs rx tx g).tx_paxos.flags
              > env.chaos_node_count / 2 := Nat.lt_of_lt_of_le hq.2.2 hcnt
          refine ⟨hgt, ?_⟩
          intro hno
          have hno' : ¬ ((acceptor_logic env slot_count cs rx rnd
                (open_valid (entry_frame tx g))).g.paxos_state.proposer.is_proposer ≠ 0
              ∧ (acceptor_logic env slot_count cs rx rnd
                (open_valid (entry_frame tx g))).g.paxos_state.proposer.got_majority = 0
              ∧ (acceptor_logic env slot_count cs rx rnd
                (open_valid (entry_frame tx g))).g.paxos_state.proposer.loser_timeout = 1) := by
            rw [(acceptor_logic_frame _ _ _ _ _ _).2]
            exact hno
          rw [proposer_logic_flags_kept env slot_count _ _ hphase hno']
          have htx : (acceptor_logic env slot_count cs rx rnd
              (open_valid (entry_frame tx g))).tx_paxos
              = (quorum_frame env cs rx tx g).tx_paxos := hc.2.2.2.2
          rw [htx]
          exact hgt
  · exfalso
    have hv' : ¬ (succ ≠ 0 ∧ (cs = CHAOS_RX
        ∨ cs = CHAOS_TX ∧ (entry_frame tx g).g.paxos_state.proposer.is_proposer ≠ 0)) := hv
    have hvs : valid_slot env slot_count cs succ rx rnd (entry_frame tx g)
        = entry_frame tx g := by
      unfold valid_slot
      rw [if_neg hv']
    rw [hvs] at hkeep
    exact hkeep rfl rfl

/-- A flag array whose elements are all below 256 is an array of bytes. -/
theorem bytes_ok_of_forall (t : List Nat) (h : ∀ x ∈ t, x < 256) : bytes_ok t := by
  intro i
  unfold rd
  by_cases hi : i < t.length
  · rw [List.getD_eq_getElem _ _ hi]
    exact h _ (List.getElem_mem hi)
  · rw [List.getD_eq_default _ _ (Nat.le_of_not_lt hi)]
    decide

/-- C7 on node 1 of the three-node network: fresh after a reset, it receives in
slot 1 the ACCEPT of ballot (1,2) with the flags of nodes 0 and 2, learns 9 and
holds three flags. -/
theorem quorum_read_correct_witness :
    (process (env3 1) 1 CHAOS_RX 1 majority_accept 0
        (Node.start (env3 1) 0 0 0).tx_paxos
        (Node.start (env3 1) 0 0 0).g).g.value_chosen_this_round
      ≠ (Node.start (env3 1) 0 0 0).g.value_chosen_this_round
    ∧ (process (env3 1) 1 CHAOS_RX 1 majority_accept 0
        (Node.start (env3 1) 0 0 0).tx_paxos
        (Node.start (env3 1) 0 0 0).g).g.paxos_state.learner.learned_value
      = (quorum_payload (env3 1) CHAOS_RX majority_accept
          (Node.start (env3 1) 0 0 0).tx_paxos (Node.start (env3 1) 0 0 0).g).value
    ∧ flags_popcount (FLAGS_LEN (env3 1))
        (process (env3 1) 1 CHAOS_RX 1 majority_accept 0
          (Node.start (env3 1) 0 0 0).tx_paxos
          (Node.start (env3 1) 0 0 0).g).tx_paxos.flags
      > (env3 1).chaos_node_count / 2 :=
  ⟨by decide,
    (quorum_read_correct (env3 1) 1 CHAOS_RX 1 majority_accept 0
      (Node.start (env3 1) 0 0 0).tx_paxos (Node.start (env3 1) 0 0 0).g
      (Or.inl (by decide))).2.2.2.2.2.1,
    ((quorum_read_correct (env3 1) 1 CHAOS_RX 1 majority_accept 0
      (Node.start (env3 1) 0 0 0).tx_paxos (Node.start (env3 1) 0 0 0).g
      (Or.inl (by decide))).2.2.2.2.2.2 (by decide)
        (bytes_ok_of_forall _ (by decide)) (bytes_ok_of_forall _ (by decide))).2 (by decide)⟩

/-- C7, as stated, fails on the code. Node 0 of the three-node network is a
proposer that lost a competition and whose loser timeout stands at 1; its TX
buffer holds the PREPARE of ballot (1,2). It receives the ACCEPT of ballot (1,2)
with the flags of nodes 1 and 2. The call fires the quorum read and learns 9,
the proposer logic then lets the timeout expire and resets the TX flags to the
template: at the end of the slot the TX flags hold one bit, which does not
exceed 3/2. -/
theorem quorum_read_flags_reset :
    waiting_proposer.value_chosen_this_round = 0
    ∧ (process (env3 0) 5 CHAOS_RX 1 accept_reply_of_2 0 forwarded_prepare
        waiting_proposer).g.value_chosen_this_round = 1
    ∧ (process (env3 0) 5 CHAOS_RX 1 accept_reply_of_2 0 forwarded_prepare
        waiting_proposer).g.paxos_state.learner.learned_value = 9
    ∧ (process (env3 0) 5 CHAOS_RX 1 accept_reply_of_2 0 forwarded_prepare
        waiting_proposer).tx_paxos.flags = [1]
    ∧ ¬ (flags_popcount (FLAGS_LEN (env3 0))
          (process (env3 0) 5 CHAOS_RX 1 accept_reply_of_2 0 forwarded_prepare
            waiting_proposer).tx_paxos.flags
        > (env3 0).chaos_node_count / 2) := by
  decide

/-- The flag sum of the copying loop is the sum of the payload's flag bytes. -/
theorem copy_loop_flag_sum (p t : List Nat) (d : Nat) (n : Nat) :
    (copy_loop n p t d).flag_sum = (List.range n).foldl (fun a i => a + rd p i) 0 := by
  induction n with
  | zero => rfl
  | succ n ih =>
    rw [copy_loop_succ, fold_count_succ, ← ih]
    rfl

/-- A sum of terms, each bounded by its mask, reaches the sum of the masks only
when every term equals its mask. -/
theorem fold_sum_ge_iff (f g : Nat → Nat) (n : Nat) (h : ∀ i < n, f i ≤ g i) :
    (List.range n).foldl (fun a i => a + g i) 0 ≤ (List.range n).foldl (fun a i => a + f i) 0
      ↔ ∀ i < n, f i = g i := by
  induction n with
  | zero => exact ⟨fun _ i hi => absurd hi (Nat.not_lt_zero i), fun _ => Nat.le_refl _⟩
  | succ n ih =>
    have hle := fold_count_le f g n (fun i hi => h i (Nat.lt_succ_of_lt hi))
    have hn := h n (Nat.lt_succ_self n)
    have ih' := ih (fun i hi => h i (Nat.lt_succ_of_lt hi))
    rw [fold_count_succ, fold_count_succ]
    constructor
    · intro hge i hi
      have h1 : (List.range n).foldl (fun a i => a + g i) 0
          ≤ (List.range n).foldl (fun a i => a + f i) 0 := by omega
      rcases Nat.lt_succ_iff_lt_or_eq.mp hi with hlt | heq
      · exact ih'.mp h1 i hlt
      · rw [heq]; omega
    · intro heq
      have h1 := ih'.mpr (fun i hi => heq i (Nat.lt_succ_of_lt hi))
      have h2 := heq n (Nat.lt_succ_self n)
      omega

/-- A number equals `2^k - 1` exactly when its set bits are the bits below `k`. -/
theorem eq_mask_iff (x k : Nat) :
    x = 2 ^ k - 1 ↔ ∀ b, x.testBit b = decide (b < k) := by
  constructor
  · intro h b
    rw [h, Nat.testBit_two_pow_sub_one]
  · intro h
    apply Nat.eq_of_testBit_eq
    intro b
    rw [h b, Nat.testBit_two_pow_sub_one]

/-- Width of the mask of flag byte `i`: 8 for a full byte, and for the last byte
the number of nodes it holds. -/
theorem flags_len_eq (N : Nat) : FLAGS_LEN_X N = (N + 7) / 8 := by
  unfold FLAGS_LEN_X
  have h1 : N >>> 3 = N / 8 := by
    rw [Nat.shiftRight_eq_div_pow]
  have h2 : N &&& 7 = N % 8 := Nat.and_pow_two_sub_one_eq_mod N 3
  rw [h1, h2]
  by_cases h : N % 8 ≠ 0
  · rw [if_pos h]; omega
  · rw [if_neg h]; omega

theorem last_flags_eq (env : Env) (h1 : 1 ≤ env.chaos_node_count) :
    LAST_FLAGS env = ((2 ^ ((env.chaos_node_count - 1) % 8 + 1) - 1 : Nat) : Int) := by
  unfold LAST_FLAGS
  have h : (((env.chaos_node_count : Int) - 1) % 8).toNat = (env.chaos_node_count - 1) % 8 := by
    omega
  rw [h, Nat.shiftLeft_eq, Nat.one_mul]
  have hp : 1 ≤ 2 ^ ((env.chaos_node_count - 1) % 8 + 1) := Nat.one_le_two_pow
  omega

/-- The sum of the masks of the flag bytes is `FLAG_SUM`. -/
theorem mask_sum_full (env : Env) (n : Nat) (h : n < FLAGS_LEN env) :
    (List.range n).foldl (fun a i => a + (2 ^ flag_bits env i - 1)) 0 = 255 * n := by
  induction n with
  | zero => rfl
  | succ n ih =>
    rw [fold_count_succ, ih (Nat.lt_of_succ_lt h)]
    have hb : flag_bits env n = 8 := by
      unfold flag_bits
      rw [if_pos h]
    rw [hb]
    omega

theorem mask_sum_eq (env : Env) (h1 : 1 ≤ env.chaos_node_count) :
    (((List.range (FLAGS_LEN env)).foldl (fun a i => a + (2 ^ flag_bits env i - 1)) 0 : Nat) : Int)
      = FLAG_SUM env := by
  have hlen : FLAGS_LEN env = (env.chaos_node_count + 7) / 8 := flags_len_eq _
  have hpos : FLAGS_LEN env = (FLAGS_LEN env - 1) + 1 := by omega
  unfold FLAG_SUM
  rw [last_flags_eq env h1]
  rw [hpos, fold_count_succ, mask_sum_full env _ (by omega)]
  have hb : flag_bits env (FLAGS_LEN env - 1) = (env.chaos_node_count - 1) % 8 + 1 := by
    unfold flag_bits
    rw [if_neg (by omega)]
  rw [hb]
  have hp : 1 ≤ 2 ^ ((env.chaos_node_count - 1) % 8 + 1) := Nat.one_le_two_pow
  push_cast
  omega

/-- A flag byte has no bit set at or above the width of its mask. -/
theorem byte_bits_false (env : Env) (p : List Nat) (h1 : 1 ≤ env.chaos_node_count)
    (hb : bytes_ok p) (hs : no_stray_flags env p) (i : Nat) (hi : i < FLAGS_LEN env)
    (b : Nat) (hk : flag_bits env i ≤ b) : (rd p i).testBit b = false := by
  have hlen : FLAGS_LEN env = (env.chaos_node_count + 7) / 8 := flags_len_eq _
  by_cases h8 : 8 ≤ b
  · apply Nat.testBit_lt_two_pow
    have h256 : (2 : Nat) ^ 8 ≤ 2 ^ b := Nat.pow_le_pow_right Nat.two_pos h8
    exact Nat.lt_of_lt_of_le (hb i) h256
  · have hj := hs (8 * i + b) (by unfold flag_bits at hk; split at hk <;> omega) (by omega)
    have e1 : (8 * i + b) / 8 = i := by omega
    have e2 : (8 * i + b) % 8 = b := by omega
    rw [e1, e2] at hj
    exact hj

/-- C13, amended. The completion test of the code, applied to a flag array in
which no bit above the node count is set: the sum of the first `FLAGS_LEN` flag
bytes, as the flag loop computes it, reaches `FLAG_SUM` exactly when the flag of
every node is set. -/
theorem completion_test_iff (env : Env) (p t : List Nat) (d : Nat)
    (h1 : 1 ≤ env.chaos_node_count) (h2 : env.chaos_node_count ≤ 255)
    (hb : bytes_ok p) (hs : no_stray_flags env p) :
    ((copy_loop (FLAGS_LEN env) p t d).flag_sum : Int) ≥ FLAG_SUM env ↔ all_flags_set env p := by
  have hlen : FLAGS_LEN env = (env.chaos_node_count + 7) / 8 := flags_len_eq _
  have hle : ∀ i < FLAGS_LEN env, rd p i ≤ 2 ^ flag_bits env i - 1 := by
    intro i hi
    have := Nat.lt_pow_two_of_testBit (rd p i)
      (fun b hk => byte_bits_false env p h1 hb hs i hi b hk)
    omega
  rw [copy_loop_flag_sum, ← mask_sum_eq env h1, ge_iff_le, Int.ofNat_le,
    fold_sum_ge_iff _ _ _ hle]
  constructor
  · intro h j hj
    have hi : j / 8 < FLAGS_LEN env := by omega
    rw [h _ hi, Nat.testBit_two_pow_sub_one]
    apply decide_eq_true
    unfold flag_bits
    split <;> omega
  · intro h i hi
    rw [eq_mask_iff]
    intro b
    by_cases hk : b < flag_bits env i
    · rw [decide_eq_true hk]
      have hj := h (8 * i + b) (by unfold flag_bits at hk; split at hk <;> omega)
      have e1 : (8 * i + b) / 8 = i := by unfold flag_bits at hk; split at hk <;> omega
      have e2 : (8 * i + b) % 8 = b := by unfold flag_bits at hk; split at hk <;> omega
      rw [e1, e2] at hj
      exact hj
    · rw [decide_eq_false hk]
      exact byte_bits_false env p h1 hb hs i hi b (Nat.le_of_not_lt hk)

/-- C13 on three nodes: the flag byte 7 passes the test and holds all three
flags. -/
theorem completion_test_iff_witness :
    (1 ≤ (env3 0).chaos_node_count ∧ (env3 0).chaos_node_count ≤ 255)
    ∧ (((copy_loop (FLAGS_LEN (env3 0)) [7] [0] 0).flag_sum : Int) ≥ FLAG_SUM (env3 0)
        ↔ all_flags_set (env3 0) [7]) :=
  ⟨by decide,
    completion_test_iff (env3 0) [7] [0] 0 (by decide) (by decide)
      (bytes_ok_of_forall _ (by decide))
      (fun j h1 h2 => by
        have h3 : 3 ≤ j := h1
        have h8 : j < 8 := h2
        interval_cases j <;> rfl)⟩

/-- C13, as stated, fails for arbitrary byte values: with three nodes the flag
byte 8, in which only bit 3 is set, passes the completion test (8 ≥ 7) although
none of the flags of nodes 0, 1 and 2 is set. -/
theorem completion_test_stray_bit :
    (1 ≤ (env3 0).chaos_node_count ∧ (env3 0).chaos_node_count ≤ 255)
    ∧ stray_flag.length = FLAGS_LEN (env3 0)
    ∧ ((copy_loop (FLAGS_LEN (env3 0)) stray_flag stray_flag 0).flag_sum : Int)
        ≥ FLAG_SUM (env3 0)
    ∧ ¬ all_flags_set (env3 0) stray_flag :=
  ⟨by decide, by decide, by decide, fun h => absurd (h 0 (by decide)) (by decide)⟩

/-- The acceptor phases leave `complete` and `completion_slot` alone. -/
theorem acceptor_phase_complete (pl : paxos_t) (f : Frame) :
    (acceptor_phase pl f).g.complete = f.g.complete
    ∧ (acceptor_phase pl f).g.completion_slot = f.g.completion_slot := by
  unfold acceptor_phase acceptor_prepare acceptor_accept accept_carry accept_min_report
    accept_write prepare_report prepare_promise
  repeat' split
  all_goals exact ⟨rfl, rfl⟩

/-- The frame before the completion test has the `complete` and
`completion_slot` of the call's entry. -/
theorem after_flags_complete (env : Env) (cs : chaos_state_t) (rx : paxos_t) (f : Frame) :
    (after_flags env cs rx f).g.complete = f.g.complete
    ∧ (after_flags env cs rx f).g.completion_slot = f.g.completion_slot := by
  have h1 : (after_new_phase env cs rx f).g.complete = f.g.complete
      ∧ (after_new_phase env cs rx f).g.completion_slot = f.g.completion_slot := by
    unfold after_new_phase
    split <;> exact ⟨rfl, rfl⟩
  have h2 := acceptor_phase_complete
    (payload cs rx (after_new_phase env cs rx f)) (after_new_phase env cs rx f)
  exact ⟨h2.1.trans h1.1, h2.2.trans h1.2⟩

/-- The proposer's evaluation of its own phase leaves `complete` and
`completion_slot` alone. -/
theorem proposer_own_phase_complete (env : Env) (slot_count : Nat) (f : Frame) :
    (proposer_own_phase env slot_count f).f.g.complete = f.g.complete
    ∧ (proposer_own_phase env slot_count f).f.g.completion_slot = f.g.completion_slot := by
  have h1 : (proposer_reports f).f.g.complete = f.g.complete
      ∧ (proposer_reports f).f.g.completion_slot = f.g.completion_slot := by
    unfold proposer_reports
    split
    · show (adopt_reported f).g.complete = f.g.complete
        ∧ (adopt_reported f).g.completion_slot = f.g.completion_slot
      unfold adopt_reported
      split <;> exact ⟨rfl, rfl⟩
    · split <;> exact ⟨rfl, rfl⟩
  have h2 : ∀ a : PropFrame, (proposer_majority env slot_count a).f.g.complete = a.f.g.complete
      ∧ (proposer_majority env slot_count a).f.g.completion_slot = a.f.g.completion_slot := by
    intro a
    unfold proposer_majority
    repeat' split
    all_goals exact ⟨rfl, rfl⟩
  have h3 : ∀ a : PropFrame, (proposer_late_loss a).f.g.complete = a.f.g.complete
      ∧ (proposer_late_loss a).f.g.completion_slot = a.f.g.completion_slot := by
    intro a
    unfold proposer_late_loss
    split <;> exact ⟨rfl, rfl⟩
  unfold proposer_own_phase
  exact ⟨(h3 _).1.trans ((h2 _).1.trans h1.1), (h3 _).2.trans ((h2 _).2.trans h1.2)⟩

/-- The closing blocks of the proposer logic leave `complete` and
`completion_slot` alone. -/
theorem proposer_finish_complete (env : Env) (a : PropFrame) :
    (proposer_finish env a).g.complete = a.f.g.complete
    ∧ (proposer_finish env a).g.completion_slot = a.f.g.completion_slot := by
  have h1 : (proposer_lost env a.f).g.complete = a.f.g.complete
      ∧ (proposer_lost env a.f).g.completion_slot = a.f.g.completion_slot := by
    unfold proposer_lost adopt_reported
    split <;> exact ⟨rfl, rfl⟩
  have h0 : ∀ x : Frame, (proposer_update_phase env x).g.complete = x.g.complete
      ∧ (proposer_update_phase env x).g.completion_slot = x.g.completion_slot :=
    fun _ => ⟨rfl, rfl⟩
  unfold proposer_finish
  split
  · split
    · exact ⟨(h0 _).1.trans h1.1, (h0 _).2.trans h1.2⟩
    · exact h1
  · split
    · exact h0 _
    · exact ⟨rfl, rfl⟩

/-- The proposer logic leaves `complete` and `completion_slot` alone. -/
theorem proposer_logic_complete (env : Env) (slot_count : Nat) (pl : paxos_t) (f : Frame) :
    (proposer_logic env slot_count pl f).g.complete = f.g.complete
    ∧ (proposer_logic env slot_count pl f).g.completion_slot = f.g.completion_slot := by
  unfold proposer_logic
  split
  · rw [(proposer_finish_complete _ _).1, (proposer_finish_complete _ _).2]
    split
    · exact ⟨rfl, rfl⟩
    · unfold proposer_compete
      split
      · split
        · exact proposer_own_phase_complete env slot_count f
        · exact ⟨rfl, rfl⟩
      · split
        · exact ⟨rfl, rfl⟩
        · show (proposer_smaller f).g.complete = f.g.complete
            ∧ (proposer_smaller f).g.completion_slot = f.g.completion_slot
          unfold proposer_smaller
          split <;> exact ⟨rfl, rfl⟩
  · exact ⟨rfl, rfl⟩

/-- The Synchrotron state logic leaves `complete` and `completion_slot` alone. -/
theorem synchrotron_logic_complete (env : Env) (cs : chaos_state_t) (succ rnd : Nat)
    (f : Frame) :
    (synchrotron_logic env cs succ rnd f).2.g.complete = f.g.complete
    ∧ (synchrotron_logic env cs succ rnd f).2.g.completion_slot = f.g.completion_slot := by
  unfold synchrotron_logic sync_initiate sync_rx_ok sync_rx_fail
  repeat' split
  all_goals exact ⟨rfl, rfl⟩

/-- The end of a call leaves `complete` and `completion_slot` alone. -/
theorem exit_frame_complete (env : Env) (slot_count : Nat) (r : chaos_state_t × Frame) :
    (exit_frame env slot_count r).g.complete = r.2.g.complete
    ∧ (exit_frame env slot_count r).g.completion_slot = r.2.g.completion_slot := by
  unfold exit_frame mark_off report_final
  repeat' split
  all_goals exact ⟨rfl, rfl⟩

/-- What the ordering check and the merge leave in `complete` and
`completion_slot`: the first completion in ACCEPT is recorded with its slot,
anything else leaves both as they are. -/
theorem acceptor_check_complete (env : Env) (slot_count : Nat) (cs : chaos_state_t)
    (rx : paxos_t) (rnd : Nat) (f : Frame) :
    ((acceptor_check env slot_count cs rx rnd f).g.complete,
      (acceptor_check env slot_count cs rx rnd f).g.completion_slot)
    = if (ordering_ok (payload cs rx f) f.tx_paxos
          ∧ (payload cs rx f).phase = PAXOS_ACCEPT
          ∧ ((merged_flags env cs rx f).flag_sum : Int) ≥ FLAG_SUM env)
        ∧ f.g.complete = 0
      then (1, slot_count) else (f.g.complete, f.g.completion_slot) := by
  have hq : ∀ (pl : paxos_t) (x : Frame), (quorum_read env pl x).g.complete = x.g.complete
      ∧ (quorum_read env pl x).g.completion_slot = x.g.completion_slot := by
    intro pl x
    unfold quorum_read
    split <;> exact ⟨rfl, rfl⟩
  have hd : ∀ (pl : paxos_t) (x : Frame), (dampening env pl rnd x).g.complete = x.g.complete
      ∧ (dampening env pl rnd x).g.completion_slot = x.g.completion_slot := by
    intro pl x
    unfold dampening
    split <;> exact ⟨rfl, rfl⟩
  have ha := after_flags_complete env cs rx f
  have hph := payload_after_flags env cs rx f
  unfold acceptor_check
  by_cases ho : ordering_ok (payload cs rx f) f.tx_paxos
  · have ho' : (payload cs rx f).ballot > f.tx_paxos.ballot
        ∨ ((payload cs rx f).ballot = f.tx_paxos.ballot
          ∧ (payload cs rx f).phase ≥ f.tx_paxos.phase) := ho
    rw [if_pos ho', acceptor_merge_eq]
    unfold completion
    rw [hph]
    by_cases hc : (payload cs rx f).phase = PAXOS_ACCEPT
        ∧ ((merged_flags env cs rx f).flag_sum : Int) ≥ FLAG_SUM env
    · rw [if_pos hc]
      unfold record_completion
      rw [(hq _ _).1, (hd _ _).1, ha.1]
      by_cases h0 : f.g.complete = 0
      · rw [if_pos h0, if_pos ⟨⟨ho, hc.1, hc.2⟩, h0⟩]
        rfl
      · rw [if_neg h0, if_neg (fun h => h0 h.2)]
        show ((quorum_read env _ (dampening env _ rnd (after_flags env cs rx f))).g.complete,
          (quorum_read env _ (dampening env _ rnd (after_flags env cs rx f))).g.completion_slot)
          = _
        rw [(hq _ _).1, (hd _ _).1, ha.1, (hq _ _).2, (hd _ _).2, ha.2]
    · rw [if_neg hc, if_neg (fun h => hc ⟨h.1.2.1, h.1.2.2⟩)]
      rw [(hq _ _).1, (hd _ _).1, ha.1, (hq _ _).2, (hd _ _).2, ha.2]
  · have ho' : ¬ ((payload cs rx f).ballot > f.tx_paxos.ballot
        ∨ ((payload cs rx f).ballot = f.tx_paxos.ballot
          ∧ (payload cs rx f).phase ≥ f.tx_paxos.phase)) := ho
    rw [if_neg ho', if_neg (fun h => ho h.1.1)]
    rfl

/-- The heartbeat branch leaves `completion_slot` alone and does not clear
`complete`. -/
theorem heartbeat_complete (env : Env) (cs : chaos_state_t) (rx : paxos_t) (f : Frame) :
    (heartbeat env cs rx f).g.completion_slot = f.g.completion_slot
    ∧ (f.g.complete ≠ 0 → (heartbeat env cs rx f).g.complete ≠ 0) := by
  unfold heartbeat
  show holds (fun x : Frame => x.g.completion_slot = f.g.completion_slot
    ∧ (f.g.complete ≠ 0 → x.g.complete ≠ 0))
    (if f.g.paxos_state.proposer.is_proposer ≠ 0 then heartbeat_proposer env f
     else heartbeat_forward env cs rx f)
  apply ite_elim
  · show holds (fun x : Frame => x.g.completion_slot = f.g.completion_slot
      ∧ (f.g.complete ≠ 0 → x.g.complete ≠ 0))
      (if f.g.paxos_state.proposer.phase = PAXOS_INIT then proposer_initiate (template_flags env f)
       else f)
    apply ite_elim
    all_goals exact ⟨rfl, fun h => h⟩
  · refine ⟨rfl, fun h => ?_⟩
    show (if ((merge_loop (FLAGS_LEN env) rx.flags f.tx_paxos.flags f.g.tx).flag_sum : Int)
        ≥ FLAG_SUM env then 1 else f.g.complete) ≠ 0
    split
    · exact Nat.one_ne_zero
    · exact h

/-- What a call of `process` leaves in `complete` and `completion_slot`: a call
that completes in ACCEPT while `complete` is 0 sets `complete` and records its
slot; any other call leaves `completion_slot` as it is; and `complete`, once
set, stays set. -/
theorem process_complete (env : Env) (slot_count : Nat) (cs : chaos_state_t)
    (succ : Nat) (rx : paxos_t) (rnd : Nat) (tx : paxos_t) (g : Globals) :
    (completes_in_accept env cs succ rx tx g ∧ g.complete = 0 →
      (process env slot_count cs succ rx rnd tx g).g.complete = 1
      ∧ (process env slot_count cs succ rx rnd tx g).g.completion_slot = slot_count)
    ∧ (¬ (completes_in_accept env cs succ rx tx g ∧ g.complete = 0) →
      (process env slot_count cs succ rx rnd tx g).g.completion_slot = g.completion_slot)
    ∧ (g.complete ≠ 0 → (process env slot_count cs succ rx rnd tx g).g.complete ≠ 0) := by
  have hp : (process env slot_count cs succ rx rnd tx g).g.complete
        = (valid_slot env slot_count cs succ rx rnd (entry_frame tx g)).g.complete
      ∧ (process env slot_count cs succ rx rnd tx g).g.completion_slot
        = (valid_slot env slot_count cs succ rx rnd (entry_frame tx g)).g.completion_slot := by
    show (process_frame env slot_count cs succ rx rnd tx g).g.complete = _
      ∧ (process_frame env slot_count cs succ rx rnd tx g).g.completion_slot = _
    unfold process_frame
    rw [(exit_frame_complete _ _ _).1, (exit_frame_complete _ _ _).2,
      (synchrotron_logic_complete _ _ _ _ _).1, (synchrotron_logic_complete _ _ _ _ _).2]
    exact ⟨rfl, rfl⟩
  rw [hp.1, hp.2]
  by_cases hv : slot_valid cs succ g
  · by_cases hh : is_heartbeat (entry_payload cs rx tx) g
    · have hv' : succ ≠ 0 ∧ (cs = CHAOS_RX
          ∨ cs = CHAOS_TX ∧ (entry_frame tx g).g.paxos_state.proposer.is_proposer ≠ 0) := hv
      have hh' : (payload cs rx (open_valid (entry_frame tx g))).phase = PAXOS_INIT
          ∧ (open_valid (entry_frame tx g)).g.paxos_state.acceptor.min_proposal = 0 := hh
      have hvs : valid_slot env slot_count cs succ rx rnd (entry_frame tx g)
          = heartbeat env cs rx (open_valid (entry_frame tx g)) := by
        unfold valid_slot
        rw [if_pos hv', if_pos hh']
      rw [hvs]
      have hb := heartbeat_complete env cs rx (open_valid (entry_frame tx g))
      exact ⟨fun h => absurd hh h.1.1.2.1, fun _ => hb.1, hb.2⟩
    · rw [valid_slot_of_merges _ _ _ _ _ _ _ _ hv hh]
      unfold paxos_slot
      rw [(proposer_logic_complete _ _ _ _).1, (proposer_logic_complete _ _ _ _).2]
      have hc := acceptor_check_complete env slot_count cs rx rnd
        (clear_tx (open_valid (entry_frame tx g)))
      have hc1 := congrArg Prod.fst hc
      have hc2 := congrArg Prod.snd hc
      have hiff : (ordering_ok (payload cs rx (clear_tx (open_valid (entry_frame tx g))))
            (clear_tx (open_valid (entry_frame tx g))).tx_paxos
          ∧ (payload cs rx (clear_tx (open_valid (entry_frame tx g)))).phase = PAXOS_ACCEPT
          ∧ ((merged_flags env cs rx (clear_tx (open_valid (entry_frame tx g)))).flag_sum : Int)
            ≥ FLAG_SUM env)
          ↔ completes_in_accept env cs succ rx tx g :=
        ⟨fun h => ⟨⟨hv, hh, h.1⟩, h.2.1, h.2.2⟩, fun h => ⟨h.1.2.2, h.2.1, h.2.2⟩⟩
      refine ⟨fun h => ?_, fun h => ?_, fun h => ?_⟩
      · have hcond : (ordering_ok (payload cs rx (clear_tx (open_valid (entry_frame tx g))))
              (clear_tx (open_valid (entry_frame tx g))).tx_paxos
            ∧ (payload cs rx (clear_tx (open_valid (entry_frame tx g)))).phase = PAXOS_ACCEPT
            ∧ ((merged_flags env cs rx (clear_tx (open_valid (entry_frame tx g)))).flag_sum : Int)
              ≥ FLAG_SUM env)
            ∧ (clear_tx (open_valid (entry_frame tx g))).g.complete = 0 :=
          ⟨hiff.mpr h.1, h.2⟩
        rw [if_pos hcond] at hc1 hc2
        exact ⟨hc1, hc2⟩
      · have hcond : ¬ ((ordering_ok (payload cs rx (clear_tx (open_valid (entry_frame tx g))))
              (clear_tx (open_valid (entry_frame tx g))).tx_paxos
            ∧ (payload cs rx (clear_tx (open_valid (entry_frame tx g)))).phase = PAXOS_ACCEPT
            ∧ ((merged_flags env cs rx (clear_tx (open_valid (entry_frame tx g)))).flag_sum : Int)
              ≥ FLAG_SUM env)
            ∧ (clear_tx (open_valid (entry_frame tx g))).g.complete = 0) :=
          fun hn => h ⟨hiff.mp hn.1, hn.2⟩
        rw [if_neg hcond] at hc2
        exact hc2
      · have hcond : ¬ ((ordering_ok (payload cs rx (clear_tx (open_valid (entry_frame tx g))))
              (clear_tx (open_valid (entry_frame tx g))).tx_paxos
            ∧ (payload cs rx (clear_tx (open_valid (entry_frame tx g)))).phase = PAXOS_ACCEPT
            ∧ ((merged_flags env cs rx (clear_tx (open_valid (entry_frame tx g)))).flag_sum : Int)
              ≥ FLAG_SUM env)
            ∧ (clear_tx (open_valid (entry_frame tx g))).g.complete = 0) :=
          fun hn => h hn.2
        rw [if_neg hcond] at hc1
        have hc1' : (acceptor_logic env slot_count cs rx rnd
            (open_valid (entry_frame tx g))).g.complete = g.complete := hc1
        rw [hc1']
        exact h
  · have hv' : ¬ (succ ≠ 0 ∧ (cs = CHAOS_RX
        ∨ cs = CHAOS_TX ∧ (entry_frame tx g).g.paxos_state.proposer.is_proposer ≠ 0)) := hv
    have hvs : valid_slot env slot_count cs succ rx rnd (entry_frame tx g)
        = entry_frame tx g := by
      unfold valid_slot
      rw [if_neg hv']
    rw [hvs]
    exact ⟨fun h => absurd h.1.1.1 hv, fun _ => rfl, fun h => h⟩

/-- The completion facts of one call, on the pair of TX buffer and statics. -/
theorem call_complete (env : Env) (c : Call) (s : paxos_t × Globals) :
    (c.completes env s ∧ s.2.complete = 0 →
      (c.run env s).2.complete = 1 ∧ (c.run env s).2.completion_slot = c.slot_count)
    ∧ (¬ (c.completes env s ∧ s.2.complete = 0) →
      (c.run env s).2.completion_slot = s.2.completion_slot)
    ∧ (s.2.complete ≠ 0 → (c.run env s).2.complete ≠ 0) :=
  process_complete env c.slot_count c.current_state c.chaos_txrx_success c.rx_paxos c.rnd s.1 s.2

/-- Once `complete` is set, a sequence of calls keeps it set and leaves
`completion_slot` as it is. -/
theorem run_calls_completed (env : Env) (calls : List Call) :
    ∀ s : paxos_t × Globals, s.2.complete ≠ 0 →
      (run_calls env calls s).2.complete ≠ 0
      ∧ (run_calls env calls s).2.completion_slot = s.2.completion_slot := by
  induction calls with
  | nil => intro s h; exact ⟨h, rfl⟩
  | cons c rest ih =>
    intro s h
    have hc := call_complete env c s
    have h1 := ih (c.run env s) (hc.2.2 h)
    exact ⟨h1.1, h1.2.trans (hc.2.1 (fun hn => h hn.2))⟩

/-- The first call that completes in ACCEPT while `complete` is 0 decides
`completion_slot` for the rest of the sequence. -/
theorem run_calls_first_completion (env : Env) (pre : List Call) :
    ∀ (s : paxos_t × Globals) (c : Call) (post : List Call),
      (run_calls env pre s).2.complete = 0 → c.completes env (run_calls env pre s) →
      (run_calls env (pre ++ c :: post) s).2.completion_slot = c.slot_count := by
  intro s c post h0 hc
  have happ : run_calls env (pre ++ c :: post) s
      = run_calls env post (c.run env (run_calls env pre s)) := by
    unfold run_calls
    rw [List.foldl_append, List.foldl_cons]
  have h1 := (call_complete env c (run_calls env pre s)).1 ⟨hc, h0⟩
  have h2 := run_calls_completed env post (c.run env (run_calls env pre s))
    (by rw [h1.1]; exact Nat.one_ne_zero)
  rw [happ, h2.2, h1.2]

/-- A sequence that ends with `completion_slot > 0`, started with `complete = 0`
and `completion_slot = 0`, has a first call that completes in ACCEPT. -/
theorem run_calls_completion_source (env : Env) (calls : List Call) :
    ∀ s : paxos_t × Globals, s.2.complete = 0 → s.2.completion_slot = 0 →
      (run_calls env calls s).2.completion_slot > 0 →
      ∃ pre c post, calls = pre ++ c :: post ∧ (run_calls env pre s).2.complete = 0
        ∧ c.completes env (run_calls env pre s) := by
  induction calls with
  | nil =>
    intro s _ h1 h
    exact absurd h (by rw [show (run_calls env [] s) = s from rfl, h1]; exact Nat.lt_irrefl 0)
  | cons c rest ih =>
    intro s h0 h1 h
    have hc := call_complete env c s
    by_cases hcomp : c.completes env s
    · exact ⟨[], c, rest, rfl, h0, hcomp⟩
    · have hslot : (c.run env s).2.completion_slot = 0 :=
        (hc.2.1 (fun hn => hcomp hn.1)).trans h1
      by_cases hz : (c.run env s).2.complete = 0
      · obtain ⟨pre, c', post, he, hp, hq⟩ := ih (c.run env s) hz hslot h
        exact ⟨c :: pre, c', post, by rw [he]; rfl, hp, hq⟩
      · have h2 := (run_calls_completed env rest (c.run env s) hz).2
        have h3 : (run_calls env (c :: rest) s).2.completion_slot = 0 := h2.trans hslot
        rw [h3] at h
        exact absurd h (Nat.lt_irrefl 0)

/-- The completion slot as the code records it (single-decree): for every sequence
of calls of `process` started with `complete = 0` and `completion_slot = 0`,
`completion_slot > 0` at the end exactly when some call at a slot of at least 1
merged an ACCEPT-phase payload with `flag_sum ≥ FLAG_SUM` while `complete` was
still 0 before that call; and `completion_slot` is the slot of the call that
did so. A call that finds `complete` already set records nothing. -/
theorem completion_trigger (env : Env) (calls : List Call) (tx : paxos_t) (g : Globals)
    (h0 : g.complete = 0) (h1 : g.completion_slot = 0) :
    ((run_calls env calls (tx, g)).2.completion_slot > 0
      ↔ ∃ pre c post, calls = pre ++ c :: post
          ∧ (run_calls env pre (tx, g)).2.complete = 0
          ∧ c.completes env (run_calls env pre (tx, g)) ∧ c.slot_count ≥ 1)
    ∧ (∀ pre c post, calls = pre ++ c :: post →
        (run_calls env pre (tx, g)).2.complete = 0 →
        c.completes env (run_calls env pre (tx, g)) →
        (run_calls env calls (tx, g)).2.completion_slot = c.slot_count) := by
  have huniq : ∀ pre c post, calls = pre ++ c :: post →
      (run_calls env pre (tx, g)).2.complete = 0 →
      c.completes env (run_calls env pre (tx, g)) →
      (run_calls env calls (tx, g)).2.completion_slot = c.slot_count := by
    intro pre c post he hp hc
    rw [he]
    exact run_calls_first_completion env pre (tx, g) c post hp hc
  refine ⟨⟨fun h => ?_, fun h => ?_⟩, huniq⟩
  · obtain ⟨pre, c, post, he, hp, hc⟩ :=
      run_calls_completion_source env calls (tx, g) h0 h1 h
    refine ⟨pre, c, post, he, hp, hc, ?_⟩
    rw [huniq pre c post he hp hc] at h
    exact h
  · obtain ⟨pre, c, post, he, hp, hc, hs⟩ := h
    rw [huniq pre c post he hp hc]
    exact hs

/-- The completion slot on node 1 of the three-node network: the ACCEPT packet
with all flags, received in slot 1, records `completion_slot = 1`. -/
theorem completion_trigger_witness :
    (Node.start (env3 1) 0 0 0).g.complete = 0
    ∧ (Node.start (env3 1) 0 0 0).g.completion_slot = 0
    ∧ (run_calls (env3 1) accept_at_once
        ((Node.start (env3 1) 0 0 0).tx_paxos, (Node.start (env3 1) 0 0 0).g)).2.completion_slot
      = 1 :=
  ⟨by decide, by decide,
    (completion_trigger (env3 1) accept_at_once (Node.start (env3 1) 0 0 0).tx_paxos
      (Node.start (env3 1) 0 0 0).g (by decide) (by decide)).2
      [⟨0, CHAOS_INIT, 0, empty_packet, 0⟩] ⟨1, CHAOS_RX, 1, accept_all_flags, 0⟩ [] rfl
      (by decide) (by decide)⟩

/-- C12. Completion trigger (single-decree): the code does not record the
completion slot of a round in which a heartbeat reached the complete mask first.
Node 1 starts a round with `complete = 0` and `completion_slot = 0`; the
heartbeat it forwards in slot 1 reaches the complete mask and sets `complete`
without a slot; the ACCEPT packet it merges in slot 3 has `flag_sum ≥ FLAG_SUM`,
so all flags were set while in ACCEPT, but with `complete` already set the slot
is not recorded, and `completion_slot` is 0 at the end of the round. -/
theorem completion_not_recorded :
    (Node.start (env3 1) 0 0 0).g.complete = 0
    ∧ (Node.start (env3 1) 0 0 0).g.completion_slot = 0
    ∧ (run_calls (env3 1) (heartbeat_then_accept.take 2)
        ((Node.start (env3 1) 0 0 0).tx_paxos, (Node.start (env3 1) 0 0 0).g)).2.complete = 1
    ∧ Call.completes (env3 1) ⟨3, CHAOS_RX, 1, accept_all_flags, 0⟩
        (run_calls (env3 1) (heartbeat_then_accept.take 3)
          ((Node.start (env3 1) 0 0 0).tx_paxos, (Node.start (env3 1) 0 0 0).g))
    ∧ (run_calls (env3 1) heartbeat_then_accept
        ((Node.start (env3 1) 0 0 0).tx_paxos, (Node.start (env3 1) 0 0 0).g)).2.completion_slot
      = 0 := by
  decide

theorem flags_within_refl (a : List Nat) : flags_within a a := fun _ _ h => h

theorem flags_within_trans {a b c : List Nat} (h1 : flags_within a b) (h2 : flags_within b c) :
    flags_within a c := fun i k h => h2 i k (h1 i k h)

/-- The merging loop only adds flag bits. -/
theorem merge_loop_within (p t : List Nat) (d : Nat) (n : Nat) :
    flags_within t (merge_loop n p t d).flags := by
  induction n with
  | zero => exact flags_within_refl t
  | succ n ih =>
    rw [merge_loop_succ]
    refine flags_within_trans ih ?_
    intro i k h
    show (rd ((merge_loop n p t d).flags.set n
      (rd (merge_loop n p t d).flags n ||| rd p n)) i).testBit k = true
    rw [rd_set]
    by_cases hc : i = n ∧ n < (merge_loop n p t d).flags.length
    · rw [if_pos hc, Nat.testBit_or]
      rw [hc.1] at h
      rw [h]
      rfl
    · rw [if_neg hc]
      exact h

/-- Setting the own flag only adds a flag bit. -/
theorem set_own_flag_within (env : Env) (t : List Nat) : flags_within t (set_own_flag env t) := by
  intro i k h
  unfold set_own_flag
  rw [rd_set]
  by_cases hc : i = env.chaos_node_index / 8 ∧ env.chaos_node_index / 8 < t.length
  · rw [if_pos hc, Nat.testBit_or]
    rw [hc.1] at h
    rw [h]
    rfl
  · rw [if_neg hc]
    exact h

/-- The Synchrotron state logic leaves the TX flags and `n_replies` alone. -/
theorem synchrotron_logic_flags (env : Env) (cs : chaos_state_t) (succ rnd : Nat) (f : Frame) :
    (synchrotron_logic env cs succ rnd f).2.tx_paxos.flags = f.tx_paxos.flags
    ∧ (synchrotron_logic env cs succ rnd f).2.g.n_replies = f.g.n_replies := by
  unfold synchrotron_logic sync_initiate sync_rx_ok sync_rx_fail
  repeat' split
  all_goals exact ⟨rfl, rfl⟩

/-- The end of a call leaves `n_replies` alone. -/
theorem exit_frame_n_replies (env : Env) (slot_count : Nat) (r : chaos_state_t × Frame) :
    (exit_frame env slot_count r).g.n_replies = r.2.g.n_replies := by
  unfold exit_frame mark_off report_final
  repeat' split
  all_goals rfl

/-- The TX flags and `n_replies` a call of `process` leaves are those its
valid-slot block leaves. -/
theorem process_flags (env : Env) (slot_count : Nat) (cs : chaos_state_t)
    (succ : Nat) (rx : paxos_t) (rnd : Nat) (tx : paxos_t) (g : Globals) :
    (process env slot_count cs succ rx rnd tx g).tx_paxos.flags
      = (valid_slot env slot_count cs succ rx rnd (entry_frame tx g)).tx_paxos.flags
    ∧ (process env slot_count cs succ rx rnd tx g).g.n_replies
      = (valid_slot env slot_count cs succ rx rnd (entry_frame tx g)).g.n_replies := by
  show (process_frame env slot_count cs succ rx rnd tx g).tx_paxos.flags = _
    ∧ (process_frame env slot_count cs succ rx rnd tx g).g.n_replies = _
  unfold process_frame
  rw [(exit_frame_frame _ _ _).2.2, exit_frame_n_replies,
    (synchrotron_logic_flags _ _ _ _ _).1, (synchrotron_logic_flags _ _ _ _ _).2]
  exact ⟨rfl, rfl⟩

/-- When the proposer's evaluation of its own phase asks for a phase update, it
has counted more than N/2 flags. -/
theorem proposer_own_phase_update (env : Env) (slot_count : Nat) (f : Frame)
    (h : (proposer_own_phase env slot_count f).update_phase ≠ 0) :
    (proposer_own_phase env slot_count f).f.g.n_replies > env.chaos_node_count / 2 := by
  have h_rep : (proposer_reports f).update_phase = 0 := by
    unfold proposer_reports
    repeat' split
    all_goals rfl
  have h_maj : ∀ a : PropFrame, a.update_phase = 0 →
      (proposer_majority env slot_count a).update_phase ≠ 0 →
      (proposer_majority env slot_count a).f.g.n_replies > env.chaos_node_count / 2 := by
    intro a ha
    unfold proposer_majority
    split
    · rename_i hc
      split
      · intro _
        exact hc.2
      · split
        · split
          · intro hn; exact absurd ha hn
          · intro hn; exact absurd ha hn
        · intro hn; exact absurd ha hn
    · intro hn; exact absurd ha hn
  have h_late : ∀ a : PropFrame, (proposer_late_loss a).update_phase = a.update_phase
      ∧ (proposer_late_loss a).f.g.n_replies = a.f.g.n_replies := by
    intro a
    unfold proposer_late_loss
    split <;> exact ⟨rfl, rfl⟩
  unfold proposer_own_phase at h ⊢
  rw [(h_late _).1] at h
  rw [(h_late _).2]
  exact h_maj _ h_rep h

/-- The closing blocks of the proposer logic leave `n_replies` alone. -/
theorem proposer_finish_n_replies (env : Env) (a : PropFrame) :
    (proposer_finish env a).g.n_replies = a.f.g.n_replies := by
  have h1 : (proposer_lost env a.f).g.n_replies = a.f.g.n_replies := by
    unfold proposer_lost adopt_reported
    split <;> rfl
  have h0 : ∀ x : Frame, (proposer_update_phase env x).g.n_replies = x.g.n_replies :=
    fun _ => rfl
  unfold proposer_finish
  split
  · split
    · exact (h0 _).trans h1
    · exact h1
  · split
    · exact h0 _
    · rfl

/-- The proposer logic leaves the TX flags as they are unless it performs a phase
update: the loser timeout stood at 1, or the proposer was in PREPARE, read its
own ballot in that phase and counted more than N/2 flags. -/
theorem proposer_logic_flags_cases (env : Env) (slot_count : Nat) (pl : paxos_t) (f : Frame) :
    (proposer_logic env slot_count pl f).tx_paxos.flags = f.tx_paxos.flags
    ∨ (f.g.paxos_state.proposer.is_proposer ≠ 0 ∧ f.g.paxos_state.proposer.got_majority = 0
      ∧ (f.g.paxos_state.proposer.loser_timeout = 1
        ∨ (f.g.paxos_state.proposer.loser_timeout = 0
          ∧ f.g.paxos_state.proposer.phase = PAXOS_PREPARE
          ∧ pl.ballot = f.g.paxos_state.proposer.proposed_ballot
          ∧ pl.phase = PAXOS_PREPARE
          ∧ (proposer_logic env slot_count pl f).g.n_replies > env.chaos_node_count / 2))) := by
  unfold proposer_logic
  by_cases hp : f.g.paxos_state.proposer.is_proposer ≠ 0
      ∧ f.g.paxos_state.proposer.got_majority = 0
  · rw [if_pos hp]
    by_cases ht : f.g.paxos_state.proposer.loser_timeout > 0
    · rw [if_pos ht]
      by_cases h1 : f.g.paxos_state.proposer.loser_timeout = 1
      · exact Or.inr ⟨hp.1, hp.2, Or.inl h1⟩
      · left
        have hu : (proposer_timeout f).update_phase = 0 := by
          show (if f.g.paxos_state.proposer.loser_timeout - 1 = 0 then 1 else 0) = 0
          rw [if_neg (by omega)]
        rw [proposer_finish_no_update _ _ hu]
        rfl
    · rw [if_neg ht]
      unfold proposer_compete
      by_cases hb : pl.ballot = f.g.paxos_state.proposer.proposed_ballot
      · rw [if_pos hb]
        by_cases hph : pl.phase = f.g.paxos_state.proposer.phase
        · rw [if_pos hph]
          by_cases hu : (proposer_own_phase env slot_count f).update_phase = 0
          · left
            rw [proposer_finish_no_update _ _ hu, (proposer_own_phase_frame _ _ _).1]
          · right
            have hprep : f.g.paxos_state.proposer.phase = PAXOS_PREPARE := by
              by_contra hn
              exact hu (proposer_own_phase_no_update env slot_count f hn)
            refine ⟨hp.1, hp.2, Or.inr ⟨by omega, hprep, hb, hph.trans hprep, ?_⟩⟩
            rw [proposer_finish_n_replies]
            exact proposer_own_phase_update env slot_count f hu
        · rw [if_neg hph]
          left
          rw [proposer_finish_no_update _ _ rfl]
          rfl
      · rw [if_neg hb]
        left
        by_cases hg : pl.ballot > f.g.paxos_state.proposer.proposed_ballot
            ∧ f.g.paxos_state.proposer.got_majority = 0
        · rw [if_pos hg, proposer_finish_no_update _ _ rfl]
        · rw [if_neg hg, proposer_finish_no_update _ _ rfl]
          show (proposer_smaller f).tx_paxos.flags = f.tx_paxos.flags
          unfold proposer_smaller
          split <;> rfl
  · rw [if_neg hp]
    exact Or.inl rfl

/-- A merge that is not a new phase only adds flag bits to the TX flags, and an
older packet leaves them as they are. -/
theorem acceptor_check_within (env : Env) (slot_count : Nat) (cs : chaos_state_t)
    (rx : paxos_t) (rnd : Nat) (f : Frame)
    (h : ¬ (ordering_ok (payload cs rx f) f.tx_paxos
      ∧ is_new_phase (payload cs rx f) f.tx_paxos)) :
    flags_within f.tx_paxos.flags (acceptor_check env slot_count cs rx rnd f).tx_paxos.flags := by
  unfold acceptor_check
  by_cases ho : ordering_ok (payload cs rx f) f.tx_paxos
  · have ho' : (payload cs rx f).ballot > f.tx_paxos.ballot
        ∨ ((payload cs rx f).ballot = f.tx_paxos.ballot
          ∧ (payload cs rx f).phase ≥ f.tx_paxos.phase) := ho
    rw [if_pos ho', acceptor_merge_eq, (completion_frame _ _ _ _ _).2.1,
      (quorum_read_frame _ _ _).2.2.2.2.2, (dampening_frame _ _ _ _).2.1]
    have hsame : (payload cs rx f).ballot = f.tx_paxos.ballot
        ∧ (payload cs rx f).phase = f.tx_paxos.phase := by
      by_contra hn
      exact h ⟨ho, hn⟩
    have hnp : new_phase_of (payload cs rx f) f.tx_paxos = 0 := by
      unfold new_phase_of
      rw [if_neg (fun hn => hn hsame)]
    have ha : (after_acceptor env cs rx f).tx_paxos.flags = f.tx_paxos.flags := by
      unfold after_acceptor
      rw [(acceptor_phase_frame _ _).2.2.1]
      unfold after_new_phase
      rw [hnp, if_neg (fun hn => hn rfl)]
    show flags_within _ (set_own_flag env (merged_flags env cs rx f).flags)
    refine flags_within_trans ?_ (set_own_flag_within env _)
    unfold merged_flags flag_loop
    rw [hnp, if_pos rfl, ha]
    exact merge_loop_within _ _ _ _
  · have ho' : ¬ ((payload cs rx f).ballot > f.tx_paxos.ballot
        ∨ ((payload cs rx f).ballot = f.tx_paxos.ballot
          ∧ (payload cs rx f).phase ≥ f.tx_paxos.phase)) := ho
    rw [if_neg ho']
    exact flags_within_refl _

/-- The heartbeat branch only adds flag bits to the TX flags, unless a proposer
still in `PAXOS_INIT` starts its prepare phase. -/
theorem heartbeat_within (env : Env) (cs : chaos_state_t) (rx : paxos_t) (f : Frame)
    (h : ¬ (f.g.paxos_state.proposer.is_proposer ≠ 0
      ∧ f.g.paxos_state.proposer.phase = PAXOS_INIT)) :
    flags_within f.tx_paxos.flags (heartbeat env cs rx f).tx_paxos.flags := by
  unfold heartbeat
  show flags_within _ (if f.g.paxos_state.proposer.is_proposer ≠ 0 then heartbeat_proposer env f
     else heartbeat_forward env cs rx f).tx_paxos.flags
  by_cases hp : f.g.paxos_state.proposer.is_proposer ≠ 0
  · rw [if_pos hp]
    unfold heartbeat_proposer
    show flags_within _ (if f.g.paxos_state.proposer.phase = PAXOS_INIT
      then proposer_initiate (template_flags env f) else f).tx_paxos.flags
    rw [if_neg (fun hn => h ⟨hp, hn⟩)]
    exact flags_within_refl _
  · rw [if_neg hp]
    exact merge_loop_within _ _ _ _

/-- C11, amended. Flag monotonicity (single-decree): every flag bit set in the TX
buffer before a call of `process` is still set after the call, unless the call
detected a new phase, or ran INITIATE (1/3) on a heartbeat, or met what a phase
update of the proposer logic requires: a proposer without majority whose loser
timeout stood at 1, or that was in PREPARE, read its own ballot in that phase
and counted more than N/2 flags. -/
theorem flags_kept (env : Env) (slot_count : Nat) (cs : chaos_state_t)
    (succ : Nat) (rx : paxos_t) (rnd : Nat) (tx : paxos_t) (g : Globals)
    (hnew : ¬ (merges cs succ rx tx g ∧ is_new_phase (entry_payload cs rx tx) tx))
    (hinit : ¬ initiates_on_heartbeat cs succ rx tx g)
    (hupd : ¬ may_update_phase env slot_count cs succ rx rnd tx g) :
    flags_within tx.flags (process env slot_count cs succ rx rnd tx g).tx_paxos.flags := by
  have hpf := process_flags env slot_count cs succ rx rnd tx g
  rw [hpf.1]
  by_cases hv : slot_valid cs succ g
  · by_cases hh : is_heartbeat (entry_payload cs rx tx) g
    · have hv' : succ ≠ 0 ∧ (cs = CHAOS_RX
          ∨ cs = CHAOS_TX ∧ (entry_frame tx g).g.paxos_state.proposer.is_proposer ≠ 0) := hv
      have hh' : (payload cs rx (open_valid (entry_frame tx g))).phase = PAXOS_INIT
          ∧ (open_valid (entry_frame tx g)).g.paxos_state.acceptor.min_proposal = 0 := hh
      have hvs : valid_slot env slot_count cs succ rx rnd (entry_frame tx g)
          = heartbeat env cs rx (open_valid (entry_frame tx g)) := by
        unfold valid_slot
        rw [if_pos hv', if_pos hh']
      rw [hvs]
      exact heartbeat_within env cs rx (open_valid (entry_frame tx g))
        (fun hn => hinit ⟨hv, hh, hn.1, hn.2⟩)
    · have hvs := valid_slot_of_merges env slot_count cs succ rx rnd tx g hv hh
      rw [hvs] at hpf ⊢
      unfold paxos_slot at hpf ⊢
      have hacc : flags_within tx.flags
          (acceptor_logic env slot_count cs rx rnd (open_valid (entry_frame tx g))).tx_paxos.flags :=
        acceptor_check_within env slot_count cs rx rnd (clear_tx (open_valid (entry_frame tx g)))
          (fun hn => hnew ⟨⟨hv, hh, hn.1⟩, hn.2⟩)
      rcases proposer_logic_flags_cases env slot_count
        (payload cs rx (acceptor_logic env slot_count cs rx rnd (open_valid (entry_frame tx g))))
        (acceptor_logic env slot_count cs rx rnd (open_valid (entry_frame tx g))) with hk | hk
      · rw [hk]
        exact hacc
      · exfalso
        rw [(acceptor_logic_frame _ _ _ _ _ _).2, (payload_after_acceptor_logic _ _ _ _ _ _).1,
          (payload_after_acceptor_logic _ _ _ _ _ _).2, ← hpf.2] at hk
        exact hupd ⟨hv, hh, hk.1, hk.2.1, hk.2.2⟩
  · have hv' : ¬ (succ ≠ 0 ∧ (cs = CHAOS_RX
        ∨ cs = CHAOS_TX ∧ (entry_frame tx g).g.paxos_state.proposer.is_proposer ≠ 0)) := hv
    have hvs : valid_slot env slot_count cs succ rx rnd (entry_frame tx g)
        = entry_frame tx g := by
      unfold valid_slot
      rw [if_neg hv']
    rw [hvs]
    exact flags_within_refl _

/-- C11 on an acceptor: node 1 holds the flags of nodes 0 and 1 for the PREPARE of
ballot (1,0) and merges the same PREPARE with the flags of nodes 0 and 2; it
ends with all three flags. -/
theorem flags_kept_witness :
    ¬ (merges CHAOS_RX 1 prepare_reply_of_2 replying_acceptor.tx_paxos replying_acceptor.g
        ∧ is_new_phase (entry_payload CHAOS_RX prepare_reply_of_2 replying_acceptor.tx_paxos)
          replying_acceptor.tx_paxos)
    ∧ ¬ initiates_on_heartbeat CHAOS_RX 1 prepare_reply_of_2 replying_acceptor.tx_paxos
        replying_acceptor.g
    ∧ ¬ may_update_phase (env3 1) 3 CHAOS_RX 1 prepare_reply_of_2 0 replying_acceptor.tx_paxos
        replying_acceptor.g
    ∧ replying_acceptor.tx_paxos.flags = [3]
    ∧ (process (env3 1) 3 CHAOS_RX 1 prepare_reply_of_2 0 replying_acceptor.tx_paxos
        replying_acceptor.g).tx_paxos.flags = [7]
    ∧ flags_within replying_acceptor.tx_paxos.flags
        (process (env3 1) 3 CHAOS_RX 1 prepare_reply_of_2 0 replying_acceptor.tx_paxos
          replying_acceptor.g).tx_paxos.flags :=
  ⟨by decide, by decide, by decide, by decide, by decide,
    flags_kept (env3 1) 3 CHAOS_RX 1 prepare_reply_of_2 0 replying_acceptor.tx_paxos
      replying_acceptor.g (by decide) (by decide) (by decide)⟩

/-- C11, as stated, fails on the code. Proposer 0 of the five-node network holds
the flags of nodes 0 and 1 for its PREPARE of ballot (1,0) and receives the same
PREPARE with the flags of nodes 0 and 2: no new phase is detected, the merged
flags are a majority, the proposer enters ACCEPT, and the phase update resets
the TX flags to the template: the flag of node 1 is no longer set. -/
theorem flags_reset_by_phase_update :
    gathering_proposer.state = CHAOS_RX
    ∧ gathering_proposer.tx_paxos.flags = [3]
    ∧ merges CHAOS_RX 1 prepare_reply_of_2 gathering_proposer.tx_paxos gathering_proposer.g
    ∧ ¬ is_new_phase (entry_payload CHAOS_RX prepare_reply_of_2 gathering_proposer.tx_paxos)
        gathering_proposer.tx_paxos
    ∧ (process (env5 0) 4 CHAOS_RX 1 prepare_reply_of_2 0 gathering_proposer.tx_paxos
        gathering_proposer.g).tx_paxos = ⟨ballot_of 1 0, PAXOS_ACCEPT, 7, 0, [1]⟩
    ∧ ¬ flags_within gathering_proposer.tx_paxos.flags
        (process (env5 0) 4 CHAOS_RX 1 prepare_reply_of_2 0 gathering_proposer.tx_paxos
          gathering_proposer.g).tx_paxos.flags :=
  ⟨by decide, by decide, by decide, by decide, by decide,
    fun h => absurd (h 0 1 (by decide)) (by decide)⟩

namespace Multi

/-- The ordering check of the source is the lexicographic order on (ballot,
round, phase), and `new_phase` is its strict part. -/
theorem ordering_ok_iff_lex (pl tx : multipaxos_t) :
    (ordering_ok pl tx
      ↔ toLex (tx.ballot, toLex (tx.round, tx.phase)) ≤ toLex (pl.ballot, toLex (pl.round, pl.phase)))
    ∧ (ordering_ok pl tx ∧ new_phase_of pl tx ≠ 0
      ↔ toLex (tx.ballot, toLex (tx.round, tx.phase))
          < toLex (pl.ballot, toLex (pl.round, pl.phase))) := by
  unfold ordering_ok new_phase_of
  rw [Prod.Lex.le_iff, Prod.Lex.lt_iff]
  simp only [ofLex_toLex, Prod.Lex.le_iff, Prod.Lex.lt_iff]
  constructor
  · constructor
    · intro h
      rcases h with h | h | h
      · exact Or.inl h
      · exact Or.inr ⟨h.1.symm, Or.inl h.2⟩
      · exact Or.inr ⟨h.1.symm, Or.inr ⟨h.2.1.symm, h.2.2⟩⟩
    · intro h
      rcases h with h | ⟨h1, h2 | h2⟩
      · exact Or.inl h
      · exact Or.inr (Or.inl ⟨h1.symm, h2⟩)
      · exact Or.inr (Or.inr ⟨h1.symm, h2.1.symm, h2.2⟩)
  · constructor
    · intro ⟨h, hn⟩
      by_cases hs : pl.ballot = tx.ballot ∧ pl.phase = tx.phase ∧ pl.round = tx.round
      · rw [if_neg (fun hc => hc hs)] at hn
        exact absurd rfl hn
      · rcases h with h | h | h
        · exact Or.inl h
        · exact Or.inr ⟨h.1.symm, Or.inl h.2⟩
        · refine Or.inr ⟨h.1.symm, Or.inr ⟨h.2.1.symm, ?_⟩⟩
          have hne : pl.phase ≠ tx.phase := fun hc => hs ⟨h.1, hc, h.2.1⟩
          omega
    · intro h
      rcases h with h | ⟨h1, h2 | h2⟩
      · refine ⟨Or.inl h, ?_⟩
        rw [if_pos (fun hc => by omega)]
        exact Nat.one_ne_zero
      · refine ⟨Or.inr (Or.inl ⟨h1.symm, h2⟩), ?_⟩
        rw [if_pos (fun hc => by omega)]
        exact Nat.one_ne_zero
      · refine ⟨Or.inr (Or.inr ⟨h1.symm, h2.1.symm, Nat.le_of_lt h2.2⟩), ?_⟩
        rw [if_pos (fun hc => by omega)]
        exact Nat.one_ne_zero

/-- The branches of the acceptor logic by the lexicographic order on (ballot,
round, phase): the merge as a new phase when the payload's triple is strictly
above the TX packet's, the merge on the same phase when the triples are equal,
and `tx = 1` alone when the payload is below. -/
theorem acceptor_logic_by_order (env : Env) (slot_count : Nat) (cs : chaos_state_t)
    (rx : multipaxos_t) (f : Frame) :
    (toLex (f.tx_multipaxos.ballot, toLex (f.tx_multipaxos.round, f.tx_multipaxos.phase))
        < toLex ((payload cs rx f).ballot, toLex ((payload cs rx f).round, (payload cs rx f).phase)) →
      acceptor_logic env slot_count cs rx f = acceptor_merge env slot_count cs rx 1 f)
    ∧ (toLex (f.tx_multipaxos.ballot, toLex (f.tx_multipaxos.round, f.tx_multipaxos.phase))
        = toLex ((payload cs rx f).ballot, toLex ((payload cs rx f).round, (payload cs rx f).phase)) →
      acceptor_logic env slot_count cs rx f = acceptor_merge env slot_count cs rx 0 f)
    ∧ (¬ toLex (f.tx_multipaxos.ballot, toLex (f.tx_multipaxos.round, f.tx_multipaxos.phase))
        ≤ toLex ((payload cs rx f).ballot, toLex ((payload cs rx f).round, (payload cs rx f).phase)) →
      acceptor_logic env slot_count cs rx f = set_tx f)
    ∧ after_new_phase env cs rx 1 f
        = new_phase_copy env (payload cs rx (heard_leader f)) (heard_leader f)
    ∧ after_new_phase env cs rx 0 f = heard_leader f := by
  have hl := ordering_ok_iff_lex (payload cs rx f) f.tx_multipaxos
  refine ⟨fun h => ?_, fun h => ?_, fun h => ?_, rfl, rfl⟩
  · have h1 := hl.2.mpr h
    unfold acceptor_logic
    rw [if_pos h1.1]
    have hn : new_phase_of (payload cs rx f) f.tx_multipaxos = 1 := by
      have h2 := h1.2
      unfold new_phase_of at h2 ⊢
      split
      · rfl
      · rename_i hc
        rw [if_neg hc] at h2
        exact absurd rfl h2
    rw [hn]
  · have h1 := hl.1.mpr (le_of_eq h)
    have h2 : ¬ (ordering_ok (payload cs rx f) f.tx_multipaxos
        ∧ new_phase_of (payload cs rx f) f.tx_multipaxos ≠ 0) :=
      fun hc => absurd (hl.2.mp hc) (by rw [h]; exact lt_irrefl _)
    unfold acceptor_logic
    rw [if_pos h1]
    have hn : new_phase_of (payload cs rx f) f.tx_multipaxos = 0 := by
      by_contra hc
      exact h2 ⟨h1, hc⟩
    rw [hn]
  · unfold acceptor_logic
    rw [if_neg (fun hc => h (hl.1.mp hc))]

/-- The branches of the acceptor logic on node 1: an ACCEPT packet of ballot (1,0)
is above the empty TX packet and is merged as a new phase. -/
theorem acceptor_logic_by_order_witness :
    toLex (listening_frame.tx_multipaxos.ballot,
        toLex (listening_frame.tx_multipaxos.round, listening_frame.tx_multipaxos.phase))
      < toLex ((payload CHAOS_RX accept_with_higher_promise listening_frame).ballot,
        toLex ((payload CHAOS_RX accept_with_higher_promise listening_frame).round,
          (payload CHAOS_RX accept_with_higher_promise listening_frame).phase))
    ∧ acceptor_logic (env3 1) 1 CHAOS_RX accept_with_higher_promise listening_frame
      = acceptor_merge (env3 1) 1 CHAOS_RX accept_with_higher_promise 1 listening_frame :=
  ⟨(ordering_ok_iff_lex _ _).2.mp (by decide),
    (acceptor_logic_by_order (env3 1) 1 CHAOS_RX accept_with_higher_promise
      listening_frame).1 ((ordering_ok_iff_lex _ _).2.mp (by decide))⟩

/-- C15. The quorum read of the Multi-Paxos `process` is not guarded by `ballot ==
proposal`: node 1 receives an ACCEPT packet of ballot (1,0) whose first proposal
reports the higher promise (1,2), under the flags of nodes 0 and 2; the call
counts 2 flags, more than 3/2, sets `values_chosen_this_round` and learns the
values 7 and 8 for the decrees 1 and 2. -/
theorem quorum_read_without_guard :
    (after_round_start 1).next_state = CHAOS_RX
    ∧ (after_round_start 1).g.values_chosen_this_round = 0
    ∧ accept_with_higher_promise.phase = MULTIPAXOS_ACCEPT
    ∧ accept_with_higher_promise.ballot < rd accept_with_higher_promise.proposals 0
    ∧ (process (env3 1) 1 CHAOS_RX 1 accept_with_higher_promise 0
        (after_round_start 1).tx_multipaxos (after_round_start 1).g).g.n_replies = 2
    ∧ (process (env3 1) 1 CHAOS_RX 1 accept_with_higher_promise 0
        (after_round_start 1).tx_multipaxos (after_round_start 1).g).g.values_chosen_this_round
      = 1
    ∧ (process (env3 1) 1 CHAOS_RX 1 accept_with_higher_promise 0
        (after_round_start 1).tx_multipaxos
        (after_round_start 1).g).g.multipaxos_state.learner
      = ⟨[0, 7, 8, 0, 0, 0, 0, 0], 2⟩ := by
  decide

/-- C19. The catch-up loop counts in a `uint8_t`: an acceptor that took part in the
decrees up to 255 accepts the ACCEPT packet for the decrees 257 and 258; the
loop starts from 257 mod 256 = 1, which is not above 255, and zeroes nothing; the
log entry of the missed decree 256 (index 0) still holds the proposal and the
value of decree 248. -/
theorem catch_up_skipped :
    acceptor_at_255.multipaxos_state.acceptor.last_round_participation < 256
    ∧ 256 ≤ accept_of_257.round
    ∧ accept_of_257.ballot ≥ acceptor_at_255.multipaxos_state.acceptor.min_proposal
    ∧ 256 % (env3 1).MULTIPAXOS_LOG_SIZE ≠ (accept_of_257.round + 0) % (env3 1).MULTIPAXOS_LOG_SIZE
    ∧ 256 % (env3 1).MULTIPAXOS_LOG_SIZE ≠ (accept_of_257.round + 1) % (env3 1).MULTIPAXOS_LOG_SIZE
    ∧ (process (env3 1) 1 CHAOS_RX 1 accept_of_257 0 (after_round_start 1).tx_multipaxos
        acceptor_at_255).g.multipaxos_state.acceptor
      = ⟨ballot_of 1 0,
          [ballot_of 1 0, ballot_of 1 0, ballot_of 1 0, ballot_of 1 0, ballot_of 1 0,
            ballot_of 1 0, ballot_of 1 0, ballot_of 1 0],
          [48, 57, 58, 51, 52, 53, 54, 55], 258⟩
    ∧ rd (process (env3 1) 1 CHAOS_RX 1 accept_of_257 0 (after_round_start 1).tx_multipaxos
        acceptor_at_255).g.multipaxos_state.acceptor.accepted_proposals
        (256 % (env3 1).MULTIPAXOS_LOG_SIZE) ≠ 0
    ∧ rd (process (env3 1) 1 CHAOS_RX 1 accept_of_257 0 (after_round_start 1).tx_multipaxos
        acceptor_at_255).g.multipaxos_state.acceptor.accepted_values
        (256 % (env3 1).MULTIPAXOS_LOG_SIZE) ≠ 0 := by
  decide

/-- A projection that every step of a loop leaves alone is left alone by the
loop. -/
theorem foldl_keeps {α β γ : Type} (π : α → γ) (step : α → β → α)
    (h : ∀ a b, π (step a b) = π a) (l : List β) : ∀ a, π (l.foldl step a) = π a := by
  induction l with
  | nil => intro a; rfl
  | cons b l ih =>
    intro a
    rw [List.foldl_cons, ih, h]

/-- The opening statements of a valid slot only set `got_valid_rx`: the reset of
the TX buffer tests the variable that was just set. -/
theorem open_valid_eq (env : Env) (f : Frame) :
    open_valid env f = { f with g.got_valid_rx := 1 } := by
  unfold open_valid reset_tx
  rw [if_neg (fun h => absurd h.1 Nat.one_ne_zero)]

/-- The acceptor phases leave the leader state, the learner state,
`values_chosen_this_round`, `n_replies`, the completion variables and ballot,
phase, round and flags of the TX packet alone. -/
theorem acceptor_phase_view (env : Env) (cs : chaos_state_t) (rx : multipaxos_t) (f : Frame) :
    acceptor_view (acceptor_phase env cs rx f) = acceptor_view f := by
  have hstep : ∀ (x : Frame) (i : Nat),
      acceptor_view (prepare_step env cs rx x i) = acceptor_view x := by
    intro x i
    unfold prepare_step prepare_merge prepare_local
    repeat' split
    all_goals rfl
  unfold acceptor_phase
  split
  · unfold acceptor_prepare
    rw [foldl_keeps acceptor_view (prepare_step env cs rx) hstep]
    unfold prepare_round prepare_promise
    split <;> rfl
  · split
    · unfold acceptor_accept accept_min_report accept_write
      repeat' split
      all_goals rfl
    · rfl

/-- The transmission logic leaves the leader and acceptor state, the aggregation
variables and the header of the TX packet alone. -/
theorem transmission_logic_view (env : Env) (slot_count : Nat) (cs : chaos_state_t)
    (rx : multipaxos_t) (np : Nat) (f : Frame) :
    merge_view (transmission_logic env slot_count cs rx np f) = merge_view f := by
  have hq : ∀ (pl : multipaxos_t) (x : Frame), merge_view (quorum_read env pl x) = merge_view x := by
    intro pl x
    unfold quorum_read
    split <;> rfl
  have hc : ∀ (pl : multipaxos_t) (fs : Nat) (x : Frame),
      merge_view (completion env slot_count pl fs x) = merge_view x := by
    intro pl fs x
    unfold completion record_completion
    repeat' split
    all_goals rfl
  unfold transmission_logic
  rw [hc, hq]
  rfl

/-- The acceptor logic leaves the leader state alone. -/
theorem acceptor_logic_leader (env : Env) (slot_count : Nat) (cs : chaos_state_t)
    (rx : multipaxos_t) (f : Frame) :
    (acceptor_logic env slot_count cs rx f).g.multipaxos_state.leader
      = f.g.multipaxos_state.leader := by
  unfold acceptor_logic
  split
  · unfold acceptor_merge
    have h1 := congrArg (fun v => v.1) (transmission_logic_view env slot_count cs rx
      (new_phase_of (payload cs rx f) f.tx_multipaxos)
      (acceptor_phase env cs rx (after_new_phase env cs rx
        (new_phase_of (payload cs rx f) f.tx_multipaxos) f)))
    have h2 := congrArg (fun v => v.1) (acceptor_phase_view env cs rx
      (after_new_phase env cs rx (new_phase_of (payload cs rx f) f.tx_multipaxos) f))
    have h3 : (after_new_phase env cs rx (new_phase_of (payload cs rx f) f.tx_multipaxos)
        f).g.multipaxos_state.leader = f.g.multipaxos_state.leader := by
      unfold after_new_phase
      split <;> rfl
    exact h1.trans (h2.trans h3)
  · rfl

/-- The acceptor logic leaves ballot, phase and round of the payload alone. -/
theorem multi_payload_after_acceptor_logic (env : Env) (slot_count : Nat) (cs : chaos_state_t)
    (rx : multipaxos_t) (f : Frame) :
    (payload cs rx (acceptor_logic env slot_count cs rx f)).ballot = (payload cs rx f).ballot
    ∧ (payload cs rx (acceptor_logic env slot_count cs rx f)).phase = (payload cs rx f).phase
    ∧ (payload cs rx (acceptor_logic env slot_count cs rx f)).round = (payload cs rx f).round := by
  by_cases hcs : cs = CHAOS_TX
  · have hp : ∀ x : Frame, payload cs rx x = x.tx_multipaxos := by
      intro x
      unfold payload
      rw [if_pos hcs]
    rw [hp, hp]
    have ho : ordering_ok f.tx_multipaxos f.tx_multipaxos :=
      Or.inr (Or.inr ⟨rfl, rfl, Nat.le_refl _⟩)
    have hn : new_phase_of f.tx_multipaxos f.tx_multipaxos = 0 := by
      unfold new_phase_of
      rw [if_neg (fun h => h ⟨rfl, rfl, rfl⟩)]
    unfold acceptor_logic
    rw [hp, if_pos ho, hn]
    unfold acceptor_merge
    have h1 := transmission_logic_view env slot_count cs rx 0
      (acceptor_phase env cs rx (after_new_phase env cs rx 0 f))
    have h2 := acceptor_phase_view env cs rx (after_new_phase env cs rx 0 f)
    have h3 : after_new_phase env cs rx 0 f = heard_leader f := rfl
    rw [h3] at h1 h2
    unfold merge_view at h1
    unfold acceptor_view at h2
    simp only [Prod.mk.injEq] at h1 h2
    rw [h3]
    exact ⟨h1.2.2.2.2.2.2.1.trans h2.2.2.2.2.2.2.1,
      h1.2.2.2.2.2.2.2.1.trans h2.2.2.2.2.2.2.2.1,
      h1.2.2.2.2.2.2.2.2.1.trans h2.2.2.2.2.2.2.2.2.1⟩
  · unfold payload
    rw [if_neg hcs, if_neg hcs]
    exact ⟨rfl, rfl, rfl⟩

/-- The statement on `rx_delta` after the leader's evaluation leaves the statics
and the two local variables alone. -/
theorem phase_delta_frame (a : LeadFrame) :
    (phase_delta a).f.g = a.f.g ∧ (phase_delta a).f.tx_multipaxos = a.f.tx_multipaxos
    ∧ (phase_delta a).lost_proposal = a.lost_proposal
    ∧ (phase_delta a).update_phase = a.update_phase := by
  unfold phase_delta
  split <;> exact ⟨rfl, rfl, rfl, rfl⟩

/-- The closing blocks of the leader logic leave `current_round`, `n_replies`,
the learner state and `values_chosen_this_round` alone. -/
theorem leader_finish_frame (env : Env) (a : LeadFrame) :
    (leader_finish env a).g.multipaxos_state.leader.current_round
      = a.f.g.multipaxos_state.leader.current_round
    ∧ (leader_finish env a).g.n_replies = a.f.g.n_replies
    ∧ (leader_finish env a).g.multipaxos_state.learner = a.f.g.multipaxos_state.learner
    ∧ (leader_finish env a).g.values_chosen_this_round = a.f.g.values_chosen_this_round := by
  unfold leader_finish leader_update after_loss
  repeat' split
  all_goals exact ⟨rfl, rfl, rfl, rfl⟩

/-- Without a phase update the closing blocks leave `got_majority`, the leader's
phase and the TX packet alone. -/
theorem leader_finish_no_update (env : Env) (a : LeadFrame) (h : a.update_phase = 0) :
    (leader_finish env a).g.multipaxos_state.leader.got_majority
      = a.f.g.multipaxos_state.leader.got_majority
    ∧ (leader_finish env a).g.multipaxos_state.leader.phase
      = a.f.g.multipaxos_state.leader.phase
    ∧ (leader_finish env a).tx_multipaxos = a.f.tx_multipaxos := by
  unfold leader_finish
  rw [if_neg (fun hn => hn h)]
  unfold after_loss
  split <;> exact ⟨rfl, rfl, rfl⟩

/-- The leader's PREPARE evaluation leaves `current_round` alone. -/
theorem leader_prepare_round (env : Env) (pl : multipaxos_t) (f : Frame) :
    (leader_prepare env pl f).f.g.multipaxos_state.leader.current_round
      = f.g.multipaxos_state.leader.current_round := by
  unfold leader_prepare
  split <;> rfl

/-- The leader logic either leaves `current_round` as it is, or it completed a
batch: the node is a leader without majority in ACCEPT, the payload carries its
ballot, phase and round, no higher `min_proposal` was reported, a majority of
flags was counted, the round advances by `K` in 16 bits, and `got_majority` is
1 afterwards unless `do_another_phase_1` sends the leader back to PREPARE. -/
theorem leader_logic_round_cases (env : Env) (pl : multipaxos_t) (f : Frame) :
    (leader_logic env pl f).g.multipaxos_state.leader.current_round
      = f.g.multipaxos_state.leader.current_round
    ∨ (f.g.multipaxos_state.leader.is_leader ≠ 0
      ∧ f.g.multipaxos_state.leader.got_majority = 0
      ∧ f.g.multipaxos_state.leader.phase = MULTIPAXOS_ACCEPT
      ∧ pl.ballot = f.g.multipaxos_state.leader.proposed_ballot
      ∧ pl.phase = MULTIPAXOS_ACCEPT
      ∧ pl.round = f.g.multipaxos_state.leader.current_round
      ∧ f.g.multipaxos_state.rx_min_proposal ≤ f.g.multipaxos_state.leader.proposed_ballot
      ∧ f.g.n_replies > env.chaos_node_count / 2
      ∧ (leader_logic env pl f).g.multipaxos_state.leader.current_round
        = (f.g.multipaxos_state.leader.current_round + env.MULTIPAXOS_PKT_SIZE) % 65536
      ∧ (leader_logic env pl f).g.multipaxos_state.leader.got_majority
        = (if f.g.multipaxos_state.leader.do_another_phase_1 ≠ 0 then 0 else 1)
      ∧ (leader_logic env pl f).g.multipaxos_state.leader.phase
        = (if f.g.multipaxos_state.leader.do_another_phase_1 ≠ 0 then MULTIPAXOS_PREPARE
           else MULTIPAXOS_ACCEPT)) := by
  unfold leader_logic
  by_cases hp : f.g.multipaxos_state.leader.is_leader ≠ 0
      ∧ f.g.multipaxos_state.leader.got_majority = 0
  · rw [if_pos hp]
    unfold leader_compete
    by_cases hb : pl.ballot = f.g.multipaxos_state.leader.proposed_ballot
    · rw [if_pos hb]
      by_cases hph : pl.phase = f.g.multipaxos_state.leader.phase
          ∧ pl.round = f.g.multipaxos_state.leader.current_round
      · rw [if_pos hph]
        unfold leader_own
        by_cases h1 : f.g.multipaxos_state.leader.phase = MULTIPAXOS_PREPARE
        · rw [if_pos h1]
          left
          rw [(leader_finish_frame _ _).1, (phase_delta_frame _).1, leader_prepare_round]
        · rw [if_neg h1]
          by_cases h2 : f.g.multipaxos_state.leader.phase = MULTIPAXOS_ACCEPT
          · rw [if_pos h2]
            unfold leader_accept
            by_cases h3 : f.g.multipaxos_state.rx_min_proposal
                > f.g.multipaxos_state.leader.proposed_ballot
            · rw [if_pos h3]
              left
              rw [(leader_finish_frame _ _).1, (phase_delta_frame _).1]
            · rw [if_neg h3]
              by_cases h4 : f.g.n_replies > env.chaos_node_count / 2
              · rw [if_pos h4, if_pos hp.2]
                right
                refine ⟨hp.1, hp.2, h2, hb, hph.1.trans h2, hph.2, Nat.le_of_not_lt h3, h4, ?_⟩
                unfold leader_advance
                by_cases h5 : f.g.multipaxos_state.leader.do_another_phase_1 ≠ 0
                · rw [if_pos h5, if_pos h5, if_pos h5]
                  unfold phase_delta
                  split <;> exact ⟨rfl, rfl, rfl⟩
                · rw [if_neg h5, if_neg h5, if_neg h5]
                  unfold phase_delta
                  split
                  · exact ⟨rfl, rfl, h2⟩
                  · exact ⟨rfl, rfl, h2⟩
              · rw [if_neg h4]
                left
                rw [(leader_finish_frame _ _).1, (phase_delta_frame _).1]
          · rw [if_neg h2]
            left
            rw [(leader_finish_frame _ _).1, (phase_delta_frame _).1]
      · rw [if_neg hph]
        left
        rw [(leader_finish_frame _ _).1]
        rfl
    · rw [if_neg hb]
      left
      rw [(leader_finish_frame _ _).1]
      split <;> rfl
  · rw [if_neg hp]
    exact Or.inl rfl

/-- The heartbeat branch leaves `current_round`, the learner state and
`values_chosen_this_round` alone. -/
theorem heartbeat_frame (env : Env) (cs : chaos_state_t) (rx : multipaxos_t) (f : Frame) :
    (heartbeat env cs rx f).g.multipaxos_state.leader.current_round
      = f.g.multipaxos_state.leader.current_round
    ∧ (heartbeat env cs rx f).g.multipaxos_state.learner = f.g.multipaxos_state.learner
    ∧ (heartbeat env cs rx f).g.values_chosen_this_round = f.g.values_chosen_this_round := by
  unfold heartbeat heartbeat_leader leader_resume heartbeat_forward
  repeat' split
  all_goals exact ⟨rfl, rfl, rfl⟩

/-- The Synchrotron state logic leaves `current_round`, the learner state,
`values_chosen_this_round` and `n_replies` alone, and outside the round start
the whole Multi-Paxos state and the TX buffer. -/
theorem multi_synchrotron_logic_frame (env : Env) (cs : chaos_state_t) (succ rnd : Nat) (f : Frame) :
    (synchrotron_logic env cs succ rnd f).2.g.multipaxos_state.leader.current_round
      = f.g.multipaxos_state.leader.current_round
    ∧ (synchrotron_logic env cs succ rnd f).2.g.multipaxos_state.learner
      = f.g.multipaxos_state.learner
    ∧ (synchrotron_logic env cs succ rnd f).2.g.values_chosen_this_round
      = f.g.values_chosen_this_round
    ∧ (synchrotron_logic env cs succ rnd f).2.g.n_replies = f.g.n_replies
    ∧ (cs ≠ CHAOS_INIT →
      (synchrotron_logic env cs succ rnd f).2.g.multipaxos_state = f.g.multipaxos_state
      ∧ (synchrotron_logic env cs succ rnd f).2.tx_multipaxos = f.tx_multipaxos) := by
  unfold synchrotron_logic
  split
  · rename_i hc
    refine ⟨?_, ?_, ?_, ?_, fun hn => absurd hc.2 hn⟩
    all_goals
      unfold sync_initiate sync_resume
      repeat' split
      all_goals rfl
  · unfold sync_rx_ok sync_rx_fail
    repeat' split
    all_goals exact ⟨rfl, rfl, rfl, rfl, fun _ => ⟨rfl, rfl⟩⟩

/-- The end of a call leaves the Multi-Paxos state, the TX buffer,
`values_chosen_this_round` and `n_replies` alone. -/
theorem multi_exit_frame_frame (env : Env) (slot_count : Nat) (r : chaos_state_t × Frame) :
    (exit_frame env slot_count r).g.multipaxos_state = r.2.g.multipaxos_state
    ∧ (exit_frame env slot_count r).tx_multipaxos = r.2.tx_multipaxos
    ∧ (exit_frame env slot_count r).g.values_chosen_this_round = r.2.g.values_chosen_this_round
    ∧ (exit_frame env slot_count r).g.n_replies = r.2.g.n_replies := by
  unfold exit_frame mark_off
  split <;> exact ⟨rfl, rfl, rfl, rfl⟩

/-- A valid slot is not the round start. -/
theorem multi_not_init_of_slot_valid {cs : chaos_state_t} {succ : Nat} {g : Globals}
    (h : slot_valid cs succ g) : cs ≠ CHAOS_INIT := by
  intro hc
  rcases h.2 with h1 | h1
  · rw [hc] at h1; exact absurd h1 (by decide)
  · rw [hc] at h1; exact absurd h1.1 (by decide)

/-- The valid-slot block of a call, for a valid slot whose payload is not in
`MULTIPAXOS_INIT`: the leader logic on the frame the acceptor logic leaves. -/
theorem valid_slot_of_paxos (env : Env) (slot_count : Nat) (cs : chaos_state_t) (succ : Nat)
    (rx tx : multipaxos_t) (g : Globals) (hv : slot_valid cs succ g)
    (hp : (entry_payload cs rx tx).phase ≠ MULTIPAXOS_INIT) :
    valid_slot env slot_count cs succ rx (entry_frame tx g)
      = leader_logic env (payload cs rx (leader_frame env slot_count cs rx tx g))
          (leader_frame env slot_count cs rx tx g) := by
  have hv' : slot_valid cs succ (entry_frame tx g).g := hv
  have hp' : ¬ (payload cs rx (open_valid env (entry_frame tx g))).phase = MULTIPAXOS_INIT := by
    rw [open_valid_eq]
    exact hp
  unfold valid_slot
  rw [if_pos hv', if_neg hp']
  rfl

/-- A call of `process` either leaves `current_round` as it is, or its leader
logic completed a batch in a valid slot. -/
theorem process_round_cases (env : Env) (slot_count : Nat) (cs : chaos_state_t) (succ : Nat)
    (rx : multipaxos_t) (rnd : Nat) (tx : multipaxos_t) (g : Globals) :
    (process env slot_count cs succ rx rnd tx g).g.multipaxos_state.leader.current_round
      = g.multipaxos_state.leader.current_round
    ∨ (slot_valid cs succ g
      ∧ g.multipaxos_state.leader.is_leader ≠ 0
      ∧ g.multipaxos_state.leader.got_majority = 0
      ∧ g.multipaxos_state.leader.phase = MULTIPAXOS_ACCEPT
      ∧ (entry_payload cs rx tx).ballot = g.multipaxos_state.leader.proposed_ballot
      ∧ (entry_payload cs rx tx).phase = MULTIPAXOS_ACCEPT
      ∧ (entry_payload cs rx tx).round = g.multipaxos_state.leader.current_round
      ∧ (leader_frame env slot_count cs rx tx g).g.multipaxos_state.rx_min_proposal
        ≤ g.multipaxos_state.leader.proposed_ballot
      ∧ (leader_frame env slot_count cs rx tx g).g.n_replies > env.chaos_node_count / 2
      ∧ (process env slot_count cs succ rx rnd tx g).g.multipaxos_state.leader.current_round
        = (g.multipaxos_state.leader.current_round + env.MULTIPAXOS_PKT_SIZE) % 65536
      ∧ (process env slot_count cs succ rx rnd tx g).g.multipaxos_state.leader.got_majority
        = (if g.multipaxos_state.leader.do_another_phase_1 ≠ 0 then 0 else 1)
      ∧ (process env slot_count cs succ rx rnd tx g).g.multipaxos_state.leader.phase
        = (if g.multipaxos_state.leader.do_another_phase_1 ≠ 0 then MULTIPAXOS_PREPARE
           else MULTIPAXOS_ACCEPT)) := by
  have hround : (process env slot_count cs succ rx rnd tx g).g.multipaxos_state.leader.current_round
      = (valid_slot env slot_count cs succ rx
          (entry_frame tx g)).g.multipaxos_state.leader.current_round := by
    show (process_frame env slot_count cs succ rx rnd tx g).g.multipaxos_state.leader.current_round
      = _
    unfold process_frame
    rw [(multi_exit_frame_frame _ _ _).1, (multi_synchrotron_logic_frame _ _ _ _ _).1]
  by_cases hv : slot_valid cs succ g
  · have hcs := multi_not_init_of_slot_valid hv
    have hstate : (process env slot_count cs succ rx rnd tx g).g.multipaxos_state
        = (valid_slot env slot_count cs succ rx (entry_frame tx g)).g.multipaxos_state := by
      show (process_frame env slot_count cs succ rx rnd tx g).g.multipaxos_state = _
      unfold process_frame
      rw [(multi_exit_frame_frame _ _ _).1, ((multi_synchrotron_logic_frame _ _ _ _ _).2.2.2.2 hcs).1]
    have hv' : slot_valid cs succ (entry_frame tx g).g := hv
    by_cases hp : (entry_payload cs rx tx).phase = MULTIPAXOS_INIT
    · left
      have hp' : (payload cs rx (open_valid env (entry_frame tx g))).phase = MULTIPAXOS_INIT := by
        rw [open_valid_eq]
        exact hp
      rw [hround]
      unfold valid_slot
      rw [if_pos hv', if_pos hp', (heartbeat_frame _ _ _ _).1, open_valid_eq]
      rfl
    · have hvs := valid_slot_of_paxos env slot_count cs succ rx tx g hv hp
      have hlead : (leader_frame env slot_count cs rx tx g).g.multipaxos_state.leader
          = g.multipaxos_state.leader := by
        unfold leader_frame
        rw [acceptor_logic_leader, open_valid_eq]
        rfl
      have hpl := multi_payload_after_acceptor_logic env slot_count cs rx
        (open_valid env (entry_frame tx g))
      have hentry : payload cs rx (open_valid env (entry_frame tx g)) = entry_payload cs rx tx := by
        rw [open_valid_eq]
        rfl
      rw [hentry] at hpl
      rcases leader_logic_round_cases env (payload cs rx (leader_frame env slot_count cs rx tx g))
        (leader_frame env slot_count cs rx tx g) with hk | hk
      · left
        rw [hround, hvs, hk, hlead]
      · right
        rw [hlead] at hk
        have hb : (payload cs rx (leader_frame env slot_count cs rx tx g)).ballot
            = (entry_payload cs rx tx).ballot := hpl.1
        have hph : (payload cs rx (leader_frame env slot_count cs rx tx g)).phase
            = (entry_payload cs rx tx).phase := hpl.2.1
        have hr : (payload cs rx (leader_frame env slot_count cs rx tx g)).round
            = (entry_payload cs rx tx).round := hpl.2.2
        rw [hb, hph, hr] at hk
        rw [hstate, hvs]
        exact ⟨hv, hk.1, hk.2.1, hk.2.2.1, hk.2.2.2.1, hk.2.2.2.2.1, hk.2.2.2.2.2.1,
          hk.2.2.2.2.2.2.1, hk.2.2.2.2.2.2.2.1, hk.2.2.2.2.2.2.2.2⟩
  · left
    have hv' : ¬ slot_valid cs succ (entry_frame tx g).g := hv
    rw [hround]
    unfold valid_slot
    rw [if_neg hv']
    rfl

/-- C17. A leader never advances `current_round` without an ACCEPT majority
(Multi-Paxos): when a call of `process` changes `leader.current_round`, the slot
was valid, the node was a leader in ACCEPT without majority, the payload carried
its ballot, phase ACCEPT and its current round, the `rx_min_proposal` aggregated
by the acceptor logic of the call was not above its ballot, more than N/2 flags
were counted, and the new round is the old one plus `K` modulo 2^16. -/
theorem round_advance_needs_majority (env : Env) (slot_count : Nat) (cs : chaos_state_t)
    (succ : Nat) (rx : multipaxos_t) (rnd : Nat) (tx : multipaxos_t) (g : Globals)
    (h : (process env slot_count cs succ rx rnd tx g).g.multipaxos_state.leader.current_round
      ≠ g.multipaxos_state.leader.current_round) :
    slot_valid cs succ g
    ∧ g.multipaxos_state.leader.is_leader ≠ 0
    ∧ g.multipaxos_state.leader.phase = MULTIPAXOS_ACCEPT
    ∧ g.multipaxos_state.leader.got_majority = 0
    ∧ (entry_payload cs rx tx).ballot = g.multipaxos_state.leader.proposed_ballot
    ∧ (entry_payload cs rx tx).phase = MULTIPAXOS_ACCEPT
    ∧ (entry_payload cs rx tx).round = g.multipaxos_state.leader.current_round
    ∧ (leader_frame env slot_count cs rx tx g).g.multipaxos_state.rx_min_proposal
      ≤ g.multipaxos_state.leader.proposed_ballot
    ∧ (leader_frame env slot_count cs rx tx g).g.n_replies > env.chaos_node_count / 2
    ∧ (process env slot_count cs succ rx rnd tx g).g.multipaxos_state.leader.current_round
      = (g.multipaxos_state.leader.current_round + env.MULTIPAXOS_PKT_SIZE) % 65536 := by
  rcases process_round_cases env slot_count cs succ rx rnd tx g with hk | hk
  · exact absurd hk h
  · exact ⟨hk.1, hk.2.1, hk.2.2.2.1, hk.2.2.1, hk.2.2.2.2.1, hk.2.2.2.2.2.1, hk.2.2.2.2.2.2.1,
      hk.2.2.2.2.2.2.2.1, hk.2.2.2.2.2.2.2.2.1, hk.2.2.2.2.2.2.2.2.2.1⟩

/-- C18, amended. Batch advance (Multi-Paxos): when `leader.current_round` after a
call of `process` differs from its value before, it is the old value plus `K`
modulo 2^16, `got_majority` was 0 before the call, and after the call
`got_majority` is 1 and the leader is in ACCEPT, unless `do_another_phase_1` was
set: then the phase transition of the same call takes the leader back to PREPARE
and `got_majority` is 0 again. -/
theorem batch_advance (env : Env) (slot_count : Nat) (cs : chaos_state_t)
    (succ : Nat) (rx : multipaxos_t) (rnd : Nat) (tx : multipaxos_t) (g : Globals)
    (h : (process env slot_count cs succ rx rnd tx g).g.multipaxos_state.leader.current_round
      ≠ g.multipaxos_state.leader.current_round) :
    (process env slot_count cs succ rx rnd tx g).g.multipaxos_state.leader.current_round
      = (g.multipaxos_state.leader.current_round + env.MULTIPAXOS_PKT_SIZE) % 65536
    ∧ g.multipaxos_state.leader.got_majority = 0
    ∧ (process env slot_count cs succ rx rnd tx g).g.multipaxos_state.leader.got_majority
      = (if g.multipaxos_state.leader.do_another_phase_1 ≠ 0 then 0 else 1)
    ∧ (process env slot_count cs succ rx rnd tx g).g.multipaxos_state.leader.phase
      = (if g.multipaxos_state.leader.do_another_phase_1 ≠ 0 then MULTIPAXOS_PREPARE
         else MULTIPAXOS_ACCEPT) := by
  rcases process_round_cases env slot_count cs succ rx rnd tx g with hk | hk
  · exact absurd hk h
  · exact ⟨hk.2.2.2.2.2.2.2.2.2.1, hk.2.2.1, hk.2.2.2.2.2.2.2.2.2.2.1,
      hk.2.2.2.2.2.2.2.2.2.2.2⟩

/-- C17 on leader 0 of the three-node network: it reads back its ACCEPT packet
with the flags of nodes 0 and 1 and advances from round 1 to round 3. -/
theorem round_advance_needs_majority_witness :
    (process (env3 0) 5 CHAOS_TX 1 empty_packet 0 accept_in_flight
        (accepting_leader 0)).g.multipaxos_state.leader.current_round
      ≠ (accepting_leader 0).multipaxos_state.leader.current_round
    ∧ (leader_frame (env3 0) 5 CHAOS_TX empty_packet accept_in_flight
        (accepting_leader 0)).g.n_replies > (env3 0).chaos_node_count / 2
    ∧ (process (env3 0) 5 CHAOS_TX 1 empty_packet 0 accept_in_flight
        (accepting_leader 0)).g.multipaxos_state.leader.current_round
      = ((accepting_leader 0).multipaxos_state.leader.current_round
          + (env3 0).MULTIPAXOS_PKT_SIZE) % 65536 :=
  ⟨by decide,
    (round_advance_needs_majority (env3 0) 5 CHAOS_TX 1 empty_packet 0 accept_in_flight
      (accepting_leader 0) (by decide)).2.2.2.2.2.2.2.2.1,
    (round_advance_needs_majority (env3 0) 5 CHAOS_TX 1 empty_packet 0 accept_in_flight
      (accepting_leader 0) (by decide)).2.2.2.2.2.2.2.2.2⟩

/-- C18 on leader 0 of the three-node network without `do_another_phase_1`: the
round advances by 2 and `got_majority` goes from 0 to 1. -/
theorem batch_advance_witness :
    (process (env3 0) 5 CHAOS_TX 1 empty_packet 0 accept_in_flight
        (accepting_leader 0)).g.multipaxos_state.leader.current_round
      ≠ (accepting_leader 0).multipaxos_state.leader.current_round
    ∧ (accepting_leader 0).multipaxos_state.leader.got_majority = 0
    ∧ (process (env3 0) 5 CHAOS_TX 1 empty_packet 0 accept_in_flight
        (accepting_leader 0)).g.multipaxos_state.leader.got_majority
      = (if (accepting_leader 0).multipaxos_state.leader.do_another_phase_1 ≠ 0 then 0 else 1) :=
  ⟨by decide,
    (batch_advance (env3 0) 5 CHAOS_TX 1 empty_packet 0 accept_in_flight
      (accepting_leader 0) (by decide)).2.1,
    (batch_advance (env3 0) 5 CHAOS_TX 1 empty_packet 0 accept_in_flight
      (accepting_leader 0) (by decide)).2.2.1⟩

/-- C18, as stated, fails on the code. Leader 0 is in ACCEPT for the decrees 1 and
2 with `do_another_phase_1` set; it reads back its ACCEPT packet with the flags
of nodes 0 and 1; `current_round` advances from 1 to 3, the phase transition of
the same call takes the leader back to PREPARE, and `got_majority` is 0 after
the call. -/
theorem batch_advance_back_to_prepare :
    (accepting_leader 1).multipaxos_state.leader.current_round = 1
    ∧ (accepting_leader 1).multipaxos_state.leader.got_majority = 0
    ∧ (process (env3 0) 5 CHAOS_TX 1 empty_packet 0 accept_in_flight
        (accepting_leader 1)).g.multipaxos_state.leader.current_round = 3
    ∧ (process (env3 0) 5 CHAOS_TX 1 empty_packet 0 accept_in_flight
        (accepting_leader 1)).g.multipaxos_state.leader.got_majority = 0
    ∧ (process (env3 0) 5 CHAOS_TX 1 empty_packet 0 accept_in_flight
        (accepting_leader 1)).g.multipaxos_state.leader.phase = MULTIPAXOS_PREPARE := by
  decide

/-- A loop of writes keeps the length of the array. -/
theorem foldl_set_length {β : Type} (ix : β → Nat) (v : List Nat → β → Nat) (l : List β) :
    ∀ a : List Nat, (l.foldl (fun d b => d.set (ix b) (v d b)) a).length = a.length := by
  induction l with
  | nil => intro a; rfl
  | cons b l ih =>
    intro a
    rw [List.foldl_cons, ih, List.length_set]

/-- The copy of the first `len` entries keeps the length of the destination. -/
theorem copy_first_length (len : Nat) (dst src : List Nat) :
    (copy_first len dst src).length = dst.length :=
  foldl_set_length (fun i => i) (fun _ i => rd src i) (List.range len) dst

/-- Reading the copy of the first `len` entries: an entry inside the destination
and below `len` is the source's, any other is the destination's. -/
theorem copy_first_rd (len : Nat) (dst src : List Nat) (i : Nat) :
    rd (copy_first len dst src) i
      = if i < len ∧ i < dst.length then rd src i else rd dst i := by
  induction len with
  | zero =>
    rw [if_neg (fun h => absurd h.1 (Nat.not_lt_zero i))]
    rfl
  | succ n ih =>
    have hs : copy_first (n + 1) dst src = (copy_first n dst src).set n (rd src n) := by
      unfold copy_first
      rw [List.range_succ, List.foldl_append]
      rfl
    rw [hs, rd_set, copy_first_length, ih]
    by_cases h1 : i = n
    · subst h1
      by_cases h2 : i < dst.length
      · rw [if_pos ⟨rfl, h2⟩, if_pos ⟨Nat.lt_succ_self i, h2⟩]
      · rw [if_neg (fun h => h2 h.2), if_neg (fun h => h2 h.2), if_neg (fun h => h2 h.2)]
    · rw [if_neg (fun h => h1 h.1)]
      by_cases h3 : i < n ∧ i < dst.length
      · rw [if_pos h3, if_pos ⟨Nat.lt_succ_of_lt h3.1, h3.2⟩]
      · rw [if_neg h3, if_neg (fun h => h3 ⟨by omega, h.2⟩)]

/-- The loop `for (i = n - 1; i >= 0; --i)` of the leader's PREPARE evaluation,
from any state of its variables: an entry below `n` with a reported proposal
gets the reported value; one without, below a reported entry or with
`any_value_accepted` set on entry, gets `MULTIPAXOS_NO_OP`; every other entry is
as before. -/
theorem fill_fold_spec (env : Env) (f : Frame) (n : Nat) :
    ∀ a : FillAcc, n ≤ a.proposed_values.length →
      ((List.range n).reverse.foldl (fill_step env f) a).proposed_values.length
        = a.proposed_values.length
      ∧ ∀ i : Nat,
        (i < n → rd f.g.multipaxos_state.rx_accepted_proposals i ≠ 0 →
          rd ((List.range n).reverse.foldl (fill_step env f) a).proposed_values i
            = rd f.g.multipaxos_state.rx_accepted_values i)
        ∧ (i < n → rd f.g.multipaxos_state.rx_accepted_proposals i = 0 →
            (a.any_value_accepted ≠ 0
              ∨ ∃ j, i < j ∧ j < n ∧ rd f.g.multipaxos_state.rx_accepted_proposals j ≠ 0) →
          rd ((List.range n).reverse.foldl (fill_step env f) a).proposed_values i
            = env.MULTIPAXOS_NO_OP)
        ∧ (i < n → rd f.g.multipaxos_state.rx_accepted_proposals i = 0 →
            a.any_value_accepted = 0 →
            (∀ j, i < j → j < n → rd f.g.multipaxos_state.rx_accepted_proposals j = 0) →
          rd ((List.range n).reverse.foldl (fill_step env f) a).proposed_values i
            = rd a.proposed_values i)
        ∧ (n ≤ i →
          rd ((List.range n).reverse.foldl (fill_step env f) a).proposed_values i
            = rd a.proposed_values i) := by
  induction n with
  | zero =>
    intro a _
    refine ⟨rfl, fun i => ⟨fun h => absurd h (Nat.not_lt_zero i), fun h => absurd h (Nat.not_lt_zero i),
      fun h => absurd h (Nat.not_lt_zero i), fun _ => rfl⟩⟩
  | succ n ih =>
    intro a hlen
    have hfold : (List.range (n + 1)).reverse.foldl (fill_step env f) a
        = (List.range n).reverse.foldl (fill_step env f) (fill_step env f a n) := by
      rw [List.range_succ, List.reverse_append]
      rfl
    rw [hfold]
    have hslen : (fill_step env f a n).proposed_values.length = a.proposed_values.length := by
      unfold fill_step
      show (if _ then _ else if _ then _ else _ : List Nat).length = _
      split
      · exact List.length_set _ _ _
      · split
        · exact List.length_set _ _ _
        · rfl
    have hn : n < a.proposed_values.length := hlen
    have hrd : ∀ i, i ≠ n → rd (fill_step env f a n).proposed_values i = rd a.proposed_values i := by
      intro i hi
      unfold fill_step
      show rd (if _ then _ else if _ then _ else _ : List Nat) i = _
      split
      · rw [rd_set, if_neg (fun h => hi h.1)]
      · split
        · rw [rd_set, if_neg (fun h => hi h.1)]
        · rfl
    have hany : (fill_step env f a n).any_value_accepted
        = if rd f.g.multipaxos_state.rx_accepted_proposals n ≠ 0 then 1
          else a.any_value_accepted := rfl
    have hpv : (fill_step env f a n).proposed_values
        = if rd f.g.multipaxos_state.rx_accepted_proposals n ≠ 0 then
            a.proposed_values.set n (rd f.g.multipaxos_state.rx_accepted_values n)
          else if a.any_value_accepted ≠ 0 then a.proposed_values.set n env.MULTIPAXOS_NO_OP
          else a.proposed_values := rfl
    have h := ih (fill_step env f a n) (by rw [hslen]; exact Nat.le_of_lt hn)
    refine ⟨h.1.trans hslen, fun i => ⟨?_, ?_, ?_, ?_⟩⟩
    · intro hi hap
      by_cases hin : i < n
      · exact ((h.2 i).1) hin hap
      · have hieq : i = n := by omega
        rw [(h.2 i).2.2.2 (by omega), hpv, if_pos (hieq ▸ hap), rd_set,
          if_pos ⟨hieq, hn⟩, hieq]
    · intro hi hap hex
      by_cases hin : i < n
      · refine (h.2 i).2.1 hin hap ?_
        rw [hany]
        by_cases hapn : rd f.g.multipaxos_state.rx_accepted_proposals n ≠ 0
        · rw [if_pos hapn]
          exact Or.inl Nat.one_ne_zero
        · rw [if_neg hapn]
          rcases hex with hex | ⟨j, hj1, hj2, hj3⟩
          · exact Or.inl hex
          · by_cases hjn : j = n
            · exact absurd (hjn ▸ hj3) hapn
            · exact Or.inr ⟨j, hj1, by omega, hj3⟩
      · have hieq : i = n := by omega
        have hany0 : a.any_value_accepted ≠ 0 := by
          rcases hex with hex | ⟨j, hj1, hj2, _⟩
          · exact hex
          · omega
        have hapn : ¬ rd f.g.multipaxos_state.rx_accepted_proposals n ≠ 0 :=
          fun hc => hc (hieq ▸ hap)
        rw [(h.2 i).2.2.2 (by omega), hpv, if_neg hapn, if_pos hany0, rd_set, if_pos ⟨hieq, hn⟩]
    · intro hi hap hany0 hall
      by_cases hin : i < n
      · have hapn : ¬ rd f.g.multipaxos_state.rx_accepted_proposals n ≠ 0 :=
          fun hc => hc (hall n hin (Nat.lt_succ_self n))
        rw [(h.2 i).2.2.1 hin hap (by rw [hany, if_neg hapn]; exact hany0)
          (fun j hj1 hj2 => hall j hj1 (Nat.lt_succ_of_lt hj2))]
        exact hrd i (by omega)
      · have hieq : i = n := by omega
        have hapn : ¬ rd f.g.multipaxos_state.rx_accepted_proposals n ≠ 0 :=
          fun hc => hc (hieq ▸ hap)
        rw [(h.2 i).2.2.2 (by omega), hpv, if_neg hapn, if_neg (fun hc => hc hany0)]
    · intro hi
      rw [(h.2 i).2.2.2 (by omega)]
      exact hrd i (by omega)

/-- The closing blocks of the leader logic on the transition from PREPARE to
ACCEPT (`update_phase = 2`, no loss): the values of the TX packet are the
leader's proposed values, and the leader's phase and proposed values stay. -/
theorem leader_finish_to_accept (env : Env) (a : LeadFrame) (hu : a.update_phase = 2)
    (hl : a.lost_proposal = 0) :
    (leader_finish env a).tx_multipaxos.values
      = copy_first env.MULTIPAXOS_PKT_SIZE a.f.tx_multipaxos.values
          a.f.g.multipaxos_state.leader.proposed_values
    ∧ (leader_finish env a).g.multipaxos_state.leader.phase
      = a.f.g.multipaxos_state.leader.phase := by
  unfold leader_finish
  rw [if_pos (by rw [hu]; exact Nat.succ_ne_zero 1)]
  unfold leader_update
  rw [hu, if_neg (by decide), if_pos rfl]
  unfold after_loss
  rw [if_neg (fun h => h hl)]
  exact ⟨rfl, rfl⟩

/-- The leader logic takes a leader from PREPARE to ACCEPT only through its
PREPARE evaluation: the node is a leader without majority, the payload carries
its ballot, phase and round, the evaluation found no higher proposal, a majority
of flags was counted, and the values of the TX packet are the proposed values
the evaluation leaves. -/
theorem leader_logic_enters_accept (env : Env) (pl : multipaxos_t) (f : Frame)
    (h1 : f.g.multipaxos_state.leader.phase = MULTIPAXOS_PREPARE)
    (h2 : (leader_logic env pl f).g.multipaxos_state.leader.phase = MULTIPAXOS_ACCEPT) :
    f.g.multipaxos_state.leader.is_leader ≠ 0
    ∧ f.g.multipaxos_state.leader.got_majority = 0
    ∧ pl.ballot = f.g.multipaxos_state.leader.proposed_ballot
    ∧ pl.phase = MULTIPAXOS_PREPARE
    ∧ pl.round = f.g.multipaxos_state.leader.current_round
    ∧ (fill_loop env pl f).lost_proposal = 0
    ∧ f.g.n_replies > env.chaos_node_count / 2
    ∧ (leader_logic env pl f).tx_multipaxos.values
      = copy_first env.MULTIPAXOS_PKT_SIZE f.tx_multipaxos.values
          (fill_loop env pl f).proposed_values := by
  have hne : MULTIPAXOS_PREPARE ≠ MULTIPAXOS_ACCEPT := by decide
  unfold leader_logic at h2 ⊢
  by_cases hp : f.g.multipaxos_state.leader.is_leader ≠ 0
      ∧ f.g.multipaxos_state.leader.got_majority = 0
  · rw [if_pos hp] at h2 ⊢
    unfold leader_compete at h2 ⊢
    by_cases hb : pl.ballot = f.g.multipaxos_state.leader.proposed_ballot
    · rw [if_pos hb] at h2 ⊢
      by_cases hph : pl.phase = f.g.multipaxos_state.leader.phase
          ∧ pl.round = f.g.multipaxos_state.leader.current_round
      · rw [if_pos hph] at h2 ⊢
        unfold leader_own at h2 ⊢
        rw [if_pos h1] at h2 ⊢
        unfold leader_prepare at h2 ⊢
        by_cases hm : (fill_loop env pl f).lost_proposal = 0
            ∧ f.g.n_replies > env.chaos_node_count / 2
        · rw [if_pos hm] at h2 ⊢
          refine ⟨hp.1, hp.2, hb, hph.1.trans h1, hph.2, hm.1, hm.2, ?_⟩
          rw [(leader_finish_to_accept env _ ((phase_delta_frame _).2.2.2.trans rfl)
            ((phase_delta_frame _).2.2.1.trans hm.1)).1, (phase_delta_frame _).1,
            (phase_delta_frame _).2.1]
        · rw [if_neg hm] at h2
          rw [(leader_finish_no_update env _ ((phase_delta_frame _).2.2.2.trans rfl)).2.1,
            (phase_delta_frame _).1] at h2
          exact absurd (h1.symm.trans h2) hne
      · rw [if_neg hph] at h2
        rw [(leader_finish_no_update env _ rfl).2.1] at h2
        exact absurd (h1.symm.trans h2) hne
    · rw [if_neg hb] at h2
      by_cases hh : pl.ballot > f.g.multipaxos_state.leader.proposed_ballot
          ∧ f.g.multipaxos_state.leader.got_majority = 0
      · rw [if_pos hh] at h2
        rw [(leader_finish_no_update env _ rfl).2.1] at h2
        exact absurd (h1.symm.trans h2) hne
      · rw [if_neg hh] at h2
        rw [(leader_finish_no_update env _ rfl).2.1] at h2
        exact absurd (h1.symm.trans h2) hne
  · rw [if_neg hp] at h2
    exact absurd (h1.symm.trans h2) hne

/-- The heartbeat branch leaves the phase of a leader that is not in
`MULTIPAXOS_INIT` alone. -/
theorem heartbeat_phase (env : Env) (cs : chaos_state_t) (rx : multipaxos_t) (f : Frame)
    (h : f.g.multipaxos_state.leader.phase ≠ MULTIPAXOS_INIT) :
    (heartbeat env cs rx f).g.multipaxos_state.leader.phase
      = f.g.multipaxos_state.leader.phase := by
  unfold heartbeat heartbeat_leader
  rw [if_neg h]
  unfold leader_resume heartbeat_forward
  repeat' split
  all_goals rfl

/-- The Synchrotron state logic leaves the phase of a leader that is not in
`MULTIPAXOS_INIT` alone. -/
theorem multi_synchrotron_logic_phase (env : Env) (cs : chaos_state_t) (succ rnd : Nat) (f : Frame)
    (h : f.g.multipaxos_state.leader.phase ≠ MULTIPAXOS_INIT) :
    (synchrotron_logic env cs succ rnd f).2.g.multipaxos_state.leader.phase
      = f.g.multipaxos_state.leader.phase := by
  unfold synchrotron_logic
  split
  · unfold sync_initiate
    rw [if_neg h]
    unfold sync_resume
    repeat' split
    all_goals rfl
  · unfold sync_rx_ok sync_rx_fail
    repeat' split
    all_goals rfl

/-- The acceptor logic keeps the length of the array `values` of the TX packet. -/
theorem acceptor_logic_values_length (env : Env) (slot_count : Nat) (cs : chaos_state_t)
    (rx : multipaxos_t) (f : Frame) :
    (acceptor_logic env slot_count cs rx f).tx_multipaxos.values.length
      = f.tx_multipaxos.values.length := by
  have hphase : ∀ x : Frame, (acceptor_phase env cs rx x).tx_multipaxos.values.length
      = x.tx_multipaxos.values.length := by
    intro x
    have hstep : ∀ (y : Frame) (i : Nat),
        (prepare_step env cs rx y i).tx_multipaxos.values.length
          = y.tx_multipaxos.values.length := by
      intro y i
      unfold prepare_step prepare_merge prepare_local
      repeat' split
      all_goals first | rfl | exact List.length_set _ _ _
    unfold acceptor_phase
    split
    · unfold acceptor_prepare
      refine (foldl_keeps (fun y : Frame => y.tx_multipaxos.values.length)
        (prepare_step env cs rx) hstep _ _).trans ?_
      unfold prepare_round prepare_promise
      split <;> rfl
    · split
      · unfold acceptor_accept accept_min_report accept_write
        repeat' split
        all_goals rfl
      · rfl
  unfold acceptor_logic
  split
  · unfold acceptor_merge
    have h1 := transmission_logic_view env slot_count cs rx
      (new_phase_of (payload cs rx f) f.tx_multipaxos)
      (acceptor_phase env cs rx (after_new_phase env cs rx
        (new_phase_of (payload cs rx f) f.tx_multipaxos) f))
    unfold merge_view at h1
    simp only [Prod.mk.injEq] at h1
    rw [h1.2.2.2.2.2.2.2.2.2.2.1, hphase]
    unfold after_new_phase
    split
    · exact copy_first_length _ _ _
    · rfl
  · rfl

/-- A call of `process` takes a leader from PREPARE to ACCEPT only in a valid slot
through the PREPARE evaluation of its leader logic, on the frame the acceptor
logic leaves; the values of the TX packet are then the proposed values that
evaluation leaves. -/
theorem process_enters_accept (env : Env) (slot_count : Nat) (cs : chaos_state_t) (succ : Nat)
    (rx : multipaxos_t) (rnd : Nat) (tx : multipaxos_t) (g : Globals)
    (h1 : g.multipaxos_state.leader.phase = MULTIPAXOS_PREPARE)
    (h2 : (process env slot_count cs succ rx rnd tx g).g.multipaxos_state.leader.phase
      = MULTIPAXOS_ACCEPT) :
    slot_valid cs succ g
    ∧ (leader_frame env slot_count cs rx tx g).g.multipaxos_state.leader
      = g.multipaxos_state.leader
    ∧ (leader_frame env slot_count cs rx tx g).tx_multipaxos.values.length = tx.values.length
    ∧ (fill_loop env (payload cs rx (leader_frame env slot_count cs rx tx g))
        (leader_frame env slot_count cs rx tx g)).lost_proposal = 0
    ∧ (leader_frame env slot_count cs rx tx g).g.n_replies > env.chaos_node_count / 2
    ∧ (process env slot_count cs succ rx rnd tx g).tx_multipaxos.values
      = copy_first env.MULTIPAXOS_PKT_SIZE
          (leader_frame env slot_count cs rx tx g).tx_multipaxos.values
          (fill_loop env (payload cs rx (leader_frame env slot_count cs rx tx g))
            (leader_frame env slot_count cs rx tx g)).proposed_values := by
  have hne : MULTIPAXOS_PREPARE ≠ MULTIPAXOS_ACCEPT := by decide
  have hni : MULTIPAXOS_PREPARE ≠ MULTIPAXOS_INIT := by decide
  by_cases hv : slot_valid cs succ g
  · have hcs := multi_not_init_of_slot_valid hv
    have hstate : (process env slot_count cs succ rx rnd tx g).g.multipaxos_state
        = (valid_slot env slot_count cs succ rx (entry_frame tx g)).g.multipaxos_state := by
      show (process_frame env slot_count cs succ rx rnd tx g).g.multipaxos_state = _
      unfold process_frame
      rw [(multi_exit_frame_frame _ _ _).1, ((multi_synchrotron_logic_frame _ _ _ _ _).2.2.2.2 hcs).1]
    have htx : (process env slot_count cs succ rx rnd tx g).tx_multipaxos
        = (valid_slot env slot_count cs succ rx (entry_frame tx g)).tx_multipaxos := by
      show (process_frame env slot_count cs succ rx rnd tx g).tx_multipaxos = _
      unfold process_frame
      rw [(multi_exit_frame_frame _ _ _).2.1, ((multi_synchrotron_logic_frame _ _ _ _ _).2.2.2.2 hcs).2]
    have hv' : slot_valid cs succ (entry_frame tx g).g := hv
    rw [hstate] at h2
    by_cases hp : (entry_payload cs rx tx).phase = MULTIPAXOS_INIT
    · have hp' : (payload cs rx (open_valid env (entry_frame tx g))).phase = MULTIPAXOS_INIT := by
        rw [open_valid_eq]
        exact hp
      unfold valid_slot at h2
      rw [if_pos hv', if_pos hp', heartbeat_phase, open_valid_eq] at h2
      · exact absurd (h1.symm.trans h2) hne
      · rw [open_valid_eq]
        exact fun hc => hni (h1.symm.trans hc)
    · have hvs := valid_slot_of_paxos env slot_count cs succ rx tx g hv hp
      have hlead : (leader_frame env slot_count cs rx tx g).g.multipaxos_state.leader
          = g.multipaxos_state.leader := by
        unfold leader_frame
        rw [acceptor_logic_leader, open_valid_eq]
        rfl
      have hlen : (leader_frame env slot_count cs rx tx g).tx_multipaxos.values.length
          = tx.values.length := by
        unfold leader_frame
        rw [acceptor_logic_values_length, open_valid_eq]
        rfl
      rw [hvs] at h2
      have hk := leader_logic_enters_accept env
        (payload cs rx (leader_frame env slot_count cs rx tx g))
        (leader_frame env slot_count cs rx tx g) (by rw [hlead]; exact h1) h2
      refine ⟨hv, hlead, hlen, hk.2.2.2.2.2.1, hk.2.2.2.2.2.2.1, ?_⟩
      rw [htx, hvs]
      exact hk.2.2.2.2.2.2.2
  · have hv' : ¬ slot_valid cs succ (entry_frame tx g).g := hv
    have hph : (process env slot_count cs succ rx rnd tx g).g.multipaxos_state.leader.phase
        = g.multipaxos_state.leader.phase := by
      show (process_frame env slot_count cs succ rx rnd tx g).g.multipaxos_state.leader.phase = _
      unfold process_frame
      rw [(multi_exit_frame_frame _ _ _).1]
      unfold valid_slot
      rw [if_neg hv', multi_synchrotron_logic_phase]
      · rfl
      · exact fun hc => hni (h1.symm.trans hc)
    exact absurd ((h1.symm.trans hph.symm).trans h2) hne

/-- NO_OP fill when the leader enters ACCEPT, as the code does it. In every call of
the Multi-Paxos `process` that takes the leader's phase from PREPARE to ACCEPT
(arrays of at least `K` entries), the ACCEPT packet's `values[i]`, for `i < K`,
follows the fill rule on the entries up to the loop's first index `MIN(K - 1,
payload->max_heard_round - payload->round)`: the reported value where a proposal
was reported, `MULTIPAXOS_NO_OP` below a reported entry, the leader's earlier
proposed value otherwise; an entry above that index keeps the leader's earlier
proposed value whatever was reported for it. The aggregation variables are read
as they stand after the acceptor logic of the call. -/
theorem no_op_fill (env : Env) (slot_count : Nat) (cs : chaos_state_t) (succ : Nat)
    (rx : multipaxos_t) (rnd : Nat) (tx : multipaxos_t) (g : Globals)
    (h1 : g.multipaxos_state.leader.phase = MULTIPAXOS_PREPARE)
    (h2 : (process env slot_count cs succ rx rnd tx g).g.multipaxos_state.leader.phase
      = MULTIPAXOS_ACCEPT)
    (hv : env.MULTIPAXOS_PKT_SIZE ≤ tx.values.length)
    (hpv : env.MULTIPAXOS_PKT_SIZE ≤ g.multipaxos_state.leader.proposed_values.length)
    (i : Nat) (hi : i < env.MULTIPAXOS_PKT_SIZE) :
    ((i : Int) ≤ fill_bound env (payload cs rx (leader_frame env slot_count cs rx tx g)) →
      rd (leader_frame env slot_count cs rx tx g).g.multipaxos_state.rx_accepted_proposals i ≠ 0 →
      rd (process env slot_count cs succ rx rnd tx g).tx_multipaxos.values i
        = rd (leader_frame env slot_count cs rx tx g).g.multipaxos_state.rx_accepted_values i)
    ∧ (rd (leader_frame env slot_count cs rx tx g).g.multipaxos_state.rx_accepted_proposals i = 0 →
      (∃ j, i < j
        ∧ (j : Int) ≤ fill_bound env (payload cs rx (leader_frame env slot_count cs rx tx g))
        ∧ rd (leader_frame env slot_count cs rx tx g).g.multipaxos_state.rx_accepted_proposals j
          ≠ 0) →
      rd (process env slot_count cs succ rx rnd tx g).tx_multipaxos.values i
        = env.MULTIPAXOS_NO_OP)
    ∧ (rd (leader_frame env slot_count cs rx tx g).g.multipaxos_state.rx_accepted_proposals i = 0 →
      (∀ j, i < j →
        (j : Int) ≤ fill_bound env (payload cs rx (leader_frame env slot_count cs rx tx g)) →
        rd (leader_frame env slot_count cs rx tx g).g.multipaxos_state.rx_accepted_proposals j
          = 0) →
      rd (process env slot_count cs succ rx rnd tx g).tx_multipaxos.values i
        = rd g.multipaxos_state.leader.proposed_values i)
    ∧ (fill_bound env (payload cs rx (leader_frame env slot_count cs rx tx g)) < (i : Int) →
      rd (process env slot_count cs succ rx rnd tx g).tx_multipaxos.values i
        = rd g.multipaxos_state.leader.proposed_values i) := by
  obtain ⟨_, hlead, hlen, _, _, htxv⟩ := process_enters_accept env slot_count cs succ rx rnd tx g h1 h2
  have hb : fill_bound env (payload cs rx (leader_frame env slot_count cs rx tx g))
      ≤ (env.MULTIPAXOS_PKT_SIZE : Int) - 1 := by
    unfold fill_bound
    split
    · exact le_refl _
    · omega
  have hlen0 : ((fill_bound env (payload cs rx (leader_frame env slot_count cs rx tx g)) + 1).toNat)
      ≤ (leader_frame env slot_count cs rx tx g).g.multipaxos_state.leader.proposed_values.length := by
    rw [hlead]
    omega
  have hspec := fill_fold_spec env (leader_frame env slot_count cs rx tx g)
    (fill_bound env (payload cs rx (leader_frame env slot_count cs rx tx g)) + 1).toNat
    ⟨(leader_frame env slot_count cs rx tx g).g.multipaxos_state.leader.proposed_values, 0, 0⟩ hlen0
  have hloop : fill_loop env (payload cs rx (leader_frame env slot_count cs rx tx g))
      (leader_frame env slot_count cs rx tx g)
      = (List.range (fill_bound env (payload cs rx (leader_frame env slot_count cs rx tx g))
          + 1).toNat).reverse.foldl (fill_step env (leader_frame env slot_count cs rx tx g))
        ⟨(leader_frame env slot_count cs rx tx g).g.multipaxos_state.leader.proposed_values, 0, 0⟩ :=
    rfl
  have hrd : rd (process env slot_count cs succ rx rnd tx g).tx_multipaxos.values i
      = rd (fill_loop env (payload cs rx (leader_frame env slot_count cs rx tx g))
          (leader_frame env slot_count cs rx tx g)).proposed_values i := by
    rw [htxv, copy_first_rd, if_pos ⟨hi, by rw [hlen]; omega⟩]
  rw [hrd, hloop]
  have hold : rd (leader_frame env slot_count cs rx tx g).g.multipaxos_state.leader.proposed_values i
      = rd g.multipaxos_state.leader.proposed_values i := by rw [hlead]
  refine ⟨fun hle hap => (hspec.2 i).1 (by omega) hap, fun hap hex => ?_, fun hap hall => ?_,
    fun hgt => ((hspec.2 i).2.2.2 (by omega)).trans hold⟩
  · obtain ⟨j, hj1, hj2, hj3⟩ := hex
    exact (hspec.2 i).2.1 (by omega) hap (Or.inr ⟨j, hj1, by omega, hj3⟩)
  · by_cases hle : (i : Int) ≤ fill_bound env (payload cs rx (leader_frame env slot_count cs rx tx g))
    · exact ((hspec.2 i).2.2.1 (by omega) hap rfl
        (fun j hj1 hj2 => hall j hj1 (by omega))).trans hold
    · exact ((hspec.2 i).2.2.2 (by omega)).trans hold

/-- The worked case of the NO_OP fill: leader 0 of the three-node network, in
PREPARE for the window [4,5], receives under a majority of flags the reply that
reports the value 9 for decree 5 and nothing for decree 4; its ACCEPT packet
carries `[MULTIPAXOS_NO_OP, 9]`. -/
theorem no_op_fill_witness :
    preparing_leader.multipaxos_state.leader.phase = MULTIPAXOS_PREPARE
    ∧ (process (env3 0) 5 CHAOS_RX 1 reply_for_5 0 prepare_in_flight
        preparing_leader).g.multipaxos_state.leader.phase = MULTIPAXOS_ACCEPT
    ∧ rd (process (env3 0) 5 CHAOS_RX 1 reply_for_5 0 prepare_in_flight
        preparing_leader).tx_multipaxos.values 0 = (env3 0).MULTIPAXOS_NO_OP
    ∧ rd (process (env3 0) 5 CHAOS_RX 1 reply_for_5 0 prepare_in_flight
        preparing_leader).tx_multipaxos.values 1
      = rd (leader_frame (env3 0) 5 CHAOS_RX reply_for_5 prepare_in_flight
        preparing_leader).g.multipaxos_state.rx_accepted_values 1
    ∧ rd (leader_frame (env3 0) 5 CHAOS_RX reply_for_5 prepare_in_flight
        preparing_leader).g.multipaxos_state.rx_accepted_values 1 = 9 :=
  ⟨by decide, by decide,
    (no_op_fill (env3 0) 5 CHAOS_RX 1 reply_for_5 0 prepare_in_flight preparing_leader
      (by decide) (by decide) (by decide) (by decide) 0 (by decide)).2.1 (by decide)
      ⟨1, by decide, by decide, by decide⟩,
    (no_op_fill (env3 0) 5 CHAOS_RX 1 reply_for_5 0 prepare_in_flight preparing_leader
      (by decide) (by decide) (by decide) (by decide) 1 (by decide)).1 (by decide) (by decide),
    by decide⟩

/-- The fill rule needs the proposed values to be consistent with the aggregation
variables. In the state `preparing_leader_with_5` they are not: the aggregation
variables hold the proposal (1,1) with the value 9 for entry 1, the proposed
values are 7 and 8. The leader receives the reply of a node that took part in
the decrees up to 3 only (`max_heard_round = 4`) and counts a majority of flags.
The loop starts from `MIN(1, 4 - 4) = 0` and visits entry 0 only: the leader
enters ACCEPT with the values 7 and 8, although `rx_accepted_proposals[1]` is not
0 and `rx_accepted_values[1]` is 9. From the same state the leader that reads
back its own TX buffer (`max_heard_round = 5`) sends `[MULTIPAXOS_NO_OP, 9]`. -/
theorem fill_needs_consistency :
    preparing_leader_with_5.multipaxos_state.leader.phase = MULTIPAXOS_PREPARE
    ∧ preparing_leader_with_5.multipaxos_state.leader.proposed_values = [7, 8]
    ∧ ¬ fill_consistent (env3 0) preparing_leader_with_5
    ∧ (process (env3 0) 5 CHAOS_RX 1 reply_without_report 0 prepare_with_own_report
        preparing_leader_with_5).g.multipaxos_state.leader.phase = MULTIPAXOS_ACCEPT
    ∧ (leader_frame (env3 0) 5 CHAOS_RX reply_without_report prepare_with_own_report
        preparing_leader_with_5).g.multipaxos_state.rx_accepted_proposals = [0, ballot_of 1 1]
    ∧ (leader_frame (env3 0) 5 CHAOS_RX reply_without_report prepare_with_own_report
        preparing_leader_with_5).g.multipaxos_state.rx_accepted_values = [0, 9]
    ∧ fill_bound (env3 0) (payload CHAOS_RX reply_without_report
        (leader_frame (env3 0) 5 CHAOS_RX reply_without_report prepare_with_own_report
          preparing_leader_with_5)) = 0
    ∧ (process (env3 0) 5 CHAOS_RX 1 reply_without_report 0 prepare_with_own_report
        preparing_leader_with_5).tx_multipaxos
      = ⟨ballot_of 2 0, MULTIPAXOS_ACCEPT, 4, 5, [7, 8], [0, ballot_of 1 1], [1]⟩
    ∧ (process (env3 0) 5 CHAOS_TX 1 empty_packet 0 prepare_with_own_report
        preparing_leader_with_5).tx_multipaxos.values = [(env3 0).MULTIPAXOS_NO_OP, 9] := by
  decide

/-- Reading an array after the loop `for (i = 0; i < len; ++i) d[i] = v(i)`. -/
theorem range_set_rd (v : Nat → Nat) (len : Nat) (dst : List Nat) (i : Nat) :
    rd ((List.range len).foldl (fun d k => d.set k (v k)) dst) i
      = if i < len ∧ i < dst.length then v i else rd dst i := by
  induction len with
  | zero =>
    rw [if_neg (fun h => absurd h.1 (Nat.not_lt_zero i))]
    rfl
  | succ n ih =>
    rw [List.range_succ, List.foldl_append]
    show rd (((List.range n).foldl (fun d k => d.set k (v k)) dst).set n (v n)) i = _
    rw [rd_set, foldl_set_length (fun k => k) (fun _ k => v k), ih]
    by_cases h1 : i = n
    · subst h1
      by_cases h2 : i < dst.length
      · rw [if_pos ⟨rfl, h2⟩, if_pos ⟨Nat.lt_succ_self i, h2⟩]
      · rw [if_neg (fun h => h2 h.2), if_neg (fun h => h2 h.2), if_neg (fun h => h2 h.2)]
    · rw [if_neg (fun h => h1 h.1)]
      by_cases h3 : i < n ∧ i < dst.length
      · rw [if_pos h3, if_pos ⟨Nat.lt_succ_of_lt h3.1, h3.2⟩]
      · rw [if_neg h3, if_neg (fun h => h3 ⟨by omega, h.2⟩)]

/-- The loop of the quorum read keeps the length of the log. -/
theorem learn_values_length (env : Env) (pl : multipaxos_t) (log : List Nat) :
    (learn_values env pl log).length = log.length :=
  foldl_set_length (fun i => (pl.round + i) % env.MULTIPAXOS_LOG_SIZE) (fun _ i => rd pl.values i)
    (List.range env.MULTIPAXOS_PKT_SIZE) log

/-- Two decrees less than `L` apart have different log indices. -/
theorem log_index_ne (r i n L : Nat) (hin : i < n) (hn : n < L) : (r + i) % L ≠ (r + n) % L := by
  intro h
  have h1 : Nat.ModEq L (r + i) (r + n) := h
  have h2 : Nat.ModEq L i n := Nat.ModEq.add_left_cancel' r h1
  have h3 : L ∣ n - i := (Nat.modEq_iff_dvd' (Nat.le_of_lt hin)).mp h2
  have h4 : L ≤ n - i := Nat.le_of_dvd (by omega) h3
  omega

/-- With `K <= L` the loop of the quorum read leaves the `K` values of the payload
in the log, value `i` at index `(round + i) % L`. -/
theorem learn_values_rd (env : Env) (pl : multipaxos_t) (log : List Nat)
    (hKL : env.MULTIPAXOS_PKT_SIZE ≤ env.MULTIPAXOS_LOG_SIZE)
    (hlen : log.length = env.MULTIPAXOS_LOG_SIZE) (i : Nat) (hi : i < env.MULTIPAXOS_PKT_SIZE) :
    rd (learn_values env pl log) ((pl.round + i) % env.MULTIPAXOS_LOG_SIZE) = rd pl.values i := by
  have hgen : ∀ n, n ≤ env.MULTIPAXOS_PKT_SIZE → i < n →
      rd ((List.range n).foldl
          (fun a k => a.set ((pl.round + k) % env.MULTIPAXOS_LOG_SIZE) (rd pl.values k)) log)
        ((pl.round + i) % env.MULTIPAXOS_LOG_SIZE) = rd pl.values i := by
    intro n
    induction n with
    | zero => intro _ h; exact absurd h (Nat.not_lt_zero i)
    | succ n ih =>
      intro hn hin
      rw [List.range_succ, List.foldl_append]
      show rd (((List.range n).foldl
          (fun a k => a.set ((pl.round + k) % env.MULTIPAXOS_LOG_SIZE) (rd pl.values k)) log).set
            ((pl.round + n) % env.MULTIPAXOS_LOG_SIZE) (rd pl.values n))
          ((pl.round + i) % env.MULTIPAXOS_LOG_SIZE) = _
      rw [rd_set, foldl_set_length (fun k => (pl.round + k) % env.MULTIPAXOS_LOG_SIZE)
        (fun _ k => rd pl.values k), hlen]
      by_cases h1 : i = n
      · subst h1
        rw [if_pos ⟨rfl, Nat.mod_lt _ (by omega)⟩]
      · rw [if_neg (fun h => log_index_ne pl.round i n env.MULTIPAXOS_LOG_SIZE (by omega) (by omega) h.1)]
        exact ih (by omega) (by omega)
  exact hgen env.MULTIPAXOS_PKT_SIZE (Nat.le_refl _) hi

/-- The index `multipaxos_report_values_chosen_this_round` reads for entry `i` when
`last_round` is the last decree `r + K - 1` of a batch: `(r + i) % L`. -/
theorem report_index_eq (env : Env) (g : Globals) (r i : Nat)
    (hK : 1 ≤ env.MULTIPAXOS_PKT_SIZE)
    (hl : g.multipaxos_state.learner.last_round = r + env.MULTIPAXOS_PKT_SIZE - 1) :
    report_index env g i = (r + i) % env.MULTIPAXOS_LOG_SIZE := by
  unfold report_index
  have h : (g.multipaxos_state.learner.last_round : Int) - (env.MULTIPAXOS_PKT_SIZE : Int) + 1 + (i : Int)
      = ((r + i : Nat) : Int) := by
    rw [hl]
    push_cast
    omega
  rw [h, ← Int.natCast_mod, Int.toNat_natCast]

/-- The value `last_round` takes at the quorum read, when the last decree of the
batch fits 16 bits. -/
theorem last_round_eq (K r : Nat) (hK : 1 ≤ K) (h16 : r + K - 1 ≤ 65535) :
    (((r : Int) + (K : Int) - 1) % 65536).toNat = r + K - 1 := by
  omega

/-- The leader logic leaves the learner state and `values_chosen_this_round`
alone. -/
theorem leader_logic_learner (env : Env) (pl : multipaxos_t) (f : Frame) :
    (leader_logic env pl f).g.multipaxos_state.learner = f.g.multipaxos_state.learner
    ∧ (leader_logic env pl f).g.values_chosen_this_round = f.g.values_chosen_this_round := by
  have hprep : ∀ x : Frame, (leader_prepare env pl x).f.g.multipaxos_state.learner
        = x.g.multipaxos_state.learner
      ∧ (leader_prepare env pl x).f.g.values_chosen_this_round = x.g.values_chosen_this_round := by
    intro x
    unfold leader_prepare
    split <;> exact ⟨rfl, rfl⟩
  have hacc : ∀ x : Frame, (leader_accept env x).f.g.multipaxos_state.learner
        = x.g.multipaxos_state.learner
      ∧ (leader_accept env x).f.g.values_chosen_this_round = x.g.values_chosen_this_round := by
    intro x
    unfold leader_accept leader_advance
    repeat' split
    all_goals exact ⟨rfl, rfl⟩
  have hown : (leader_own env pl f).f.g.multipaxos_state.learner = f.g.multipaxos_state.learner
      ∧ (leader_own env pl f).f.g.values_chosen_this_round = f.g.values_chosen_this_round := by
    unfold leader_own
    rw [(phase_delta_frame _).1]
    split
    · exact hprep f
    · split
      · exact hacc f
      · exact ⟨rfl, rfl⟩
  have hcomp : (leader_compete env pl f).f.g.multipaxos_state.learner = f.g.multipaxos_state.learner
      ∧ (leader_compete env pl f).f.g.values_chosen_this_round = f.g.values_chosen_this_round := by
    unfold leader_compete
    split
    · split
      · exact hown
      · exact ⟨rfl, rfl⟩
    · split <;> exact ⟨rfl, rfl⟩
  unfold leader_logic
  split
  · exact ⟨(leader_finish_frame env _).2.2.1.trans hcomp.1,
      (leader_finish_frame env _).2.2.2.trans hcomp.2⟩
  · exact ⟨rfl, rfl⟩

/-- The frame at the quorum read of a call has the learner state and
`values_chosen_this_round` of the start of the call. -/
theorem read_frame_learner (env : Env) (cs : chaos_state_t) (rx tx : multipaxos_t) (g : Globals) :
    (read_frame env cs rx tx g).g.multipaxos_state.learner = g.multipaxos_state.learner
    ∧ (read_frame env cs rx tx g).g.values_chosen_this_round = g.values_chosen_this_round := by
  have h1 : (read_frame env cs rx tx g).g.multipaxos_state.learner
        = (merged_frame env cs rx tx g).g.multipaxos_state.learner
      ∧ (read_frame env cs rx tx g).g.values_chosen_this_round
        = (merged_frame env cs rx tx g).g.values_chosen_this_round := ⟨rfl, rfl⟩
  have h2 := acceptor_phase_view env cs rx
    (after_new_phase env cs rx
      (new_phase_of (payload cs rx (open_valid env (entry_frame tx g)))
        (open_valid env (entry_frame tx g)).tx_multipaxos)
      (open_valid env (entry_frame tx g)))
  unfold acceptor_view at h2
  simp only [Prod.mk.injEq] at h2
  have h3 : ∀ np : Nat,
      (after_new_phase env cs rx np (open_valid env (entry_frame tx g))).g.multipaxos_state.learner
        = g.multipaxos_state.learner
      ∧ (after_new_phase env cs rx np (open_valid env (entry_frame tx g))).g.values_chosen_this_round
        = g.values_chosen_this_round := by
    intro np
    rw [open_valid_eq]
    unfold after_new_phase
    split <;> exact ⟨rfl, rfl⟩
  exact ⟨h1.1.trans (h2.2.1.trans (h3 _).1), h1.2.trans (h2.2.2.1.trans (h3 _).2)⟩

/-- The acceptor logic of a call whose ordering check passed ends with the quorum
read and the completion test on the frame after the flag loop. -/
theorem acceptor_logic_read (env : Env) (slot_count : Nat) (cs : chaos_state_t)
    (rx tx : multipaxos_t) (g : Globals)
    (h : ordering_ok (payload cs rx (open_valid env (entry_frame tx g)))
      (open_valid env (entry_frame tx g)).tx_multipaxos) :
    ∃ fs : Nat, acceptor_logic env slot_count cs rx (open_valid env (entry_frame tx g))
      = completion env slot_count (read_payload env cs rx tx g) fs
          (quorum_read env (read_payload env cs rx tx g) (read_frame env cs rx tx g)) := by
  unfold acceptor_logic
  rw [if_pos h]
  exact ⟨_, rfl⟩

/-- The completion test leaves the learner state and `values_chosen_this_round`
alone. -/
theorem completion_learner (env : Env) (slot_count : Nat) (pl : multipaxos_t) (fs : Nat)
    (f : Frame) :
    (completion env slot_count pl fs f).g.multipaxos_state.learner = f.g.multipaxos_state.learner
    ∧ (completion env slot_count pl fs f).g.values_chosen_this_round
      = f.g.values_chosen_this_round := by
  unfold completion record_completion
  repeat' split
  all_goals exact ⟨rfl, rfl⟩

/-- What a call of `process` does to the learner state: when its quorum read
fires, the `K` values of the payload are written to the log, `last_round` is the
last decree of the batch in 16 bits and `values_chosen_this_round` is 1;
otherwise the learner state and `values_chosen_this_round` are as before. -/
theorem process_learner_cases (env : Env) (slot_count : Nat) (cs : chaos_state_t) (succ : Nat)
    (rx : multipaxos_t) (rnd : Nat) (tx : multipaxos_t) (g : Globals) :
    (quorum_read_fires env cs succ rx tx g →
      (process env slot_count cs succ rx rnd tx g).g.multipaxos_state.learner
        = ⟨learn_values env (read_payload env cs rx tx g) g.multipaxos_state.learner.learned_values,
            ((((read_payload env cs rx tx g).round : Int) + (env.MULTIPAXOS_PKT_SIZE : Int) - 1)
              % 65536).toNat⟩
      ∧ (process env slot_count cs succ rx rnd tx g).g.values_chosen_this_round = 1)
    ∧ (¬ quorum_read_fires env cs succ rx tx g →
      (process env slot_count cs succ rx rnd tx g).g.multipaxos_state.learner
        = g.multipaxos_state.learner
      ∧ (process env slot_count cs succ rx rnd tx g).g.values_chosen_this_round
        = g.values_chosen_this_round) := by
  have hP : (process env slot_count cs succ rx rnd tx g).g.multipaxos_state.learner
        = (valid_slot env slot_count cs succ rx (entry_frame tx g)).g.multipaxos_state.learner
      ∧ (process env slot_count cs succ rx rnd tx g).g.values_chosen_this_round
        = (valid_slot env slot_count cs succ rx (entry_frame tx g)).g.values_chosen_this_round := by
    constructor
    · show (process_frame env slot_count cs succ rx rnd tx g).g.multipaxos_state.learner = _
      unfold process_frame
      rw [(multi_exit_frame_frame _ _ _).1, (multi_synchrotron_logic_frame _ _ _ _ _).2.1]
    · show (process_frame env slot_count cs succ rx rnd tx g).g.values_chosen_this_round = _
      unfold process_frame
      rw [(multi_exit_frame_frame _ _ _).2.2.1, (multi_synchrotron_logic_frame _ _ _ _ _).2.2.1]
  rw [hP.1, hP.2]
  by_cases hv : slot_valid cs succ g
  · have hv' : slot_valid cs succ (entry_frame tx g).g := hv
    by_cases hp : (entry_payload cs rx tx).phase = MULTIPAXOS_INIT
    · have hp' : (payload cs rx (open_valid env (entry_frame tx g))).phase = MULTIPAXOS_INIT := by
        rw [open_valid_eq]
        exact hp
      refine ⟨fun hf => absurd hp hf.2.1, fun _ => ?_⟩
      unfold valid_slot
      rw [if_pos hv', if_pos hp', (heartbeat_frame _ _ _ _).2.1, (heartbeat_frame _ _ _ _).2.2,
        open_valid_eq]
      exact ⟨rfl, rfl⟩
    · rw [valid_slot_of_paxos env slot_count cs succ rx tx g hv hp, (leader_logic_learner _ _ _).1,
        (leader_logic_learner _ _ _).2]
      have hentry : payload cs rx (open_valid env (entry_frame tx g)) = entry_payload cs rx tx := by
        rw [open_valid_eq]
        rfl
      have htx : (open_valid env (entry_frame tx g)).tx_multipaxos = tx := by
        rw [open_valid_eq]
        rfl
      by_cases ho : ordering_ok (entry_payload cs rx tx) tx
      · obtain ⟨fs, hfs⟩ := acceptor_logic_read env slot_count cs rx tx g
          (by rw [hentry, htx]; exact ho)
        unfold leader_frame
        rw [hfs, (completion_learner _ _ _ _ _).1, (completion_learner _ _ _ _ _).2]
        unfold quorum_read
        by_cases hq : (read_payload env cs rx tx g).phase = MULTIPAXOS_ACCEPT
            ∧ (read_frame env cs rx tx g).g.n_replies > env.chaos_node_count / 2
        · rw [if_pos hq]
          refine ⟨fun _ => ⟨?_, rfl⟩, fun hf => absurd ⟨hv, hp, ho, hq.1, hq.2⟩ hf⟩
          show (⟨learn_values env (read_payload env cs rx tx g)
              (read_frame env cs rx tx g).g.multipaxos_state.learner.learned_values, _⟩ :
                learner_state_t) = _
          rw [(read_frame_learner env cs rx tx g).1]
        · rw [if_neg hq]
          exact ⟨fun hf => absurd ⟨hf.2.2.2.1, hf.2.2.2.2⟩ hq, fun _ => read_frame_learner env cs rx tx g⟩
      · refine ⟨fun hf => absurd hf.2.2.1 ho, fun _ => ?_⟩
        unfold leader_frame acceptor_logic
        rw [if_neg (by rw [hentry, htx]; exact ho), open_valid_eq]
        exact ⟨rfl, rfl⟩
  · have hv' : ¬ slot_valid cs succ (entry_frame tx g).g := hv
    refine ⟨fun hf => absurd hf.1 hv, fun _ => ?_⟩
    unfold valid_slot
    rw [if_neg hv']
    exact ⟨rfl, rfl⟩

/-- The entry part of `multipaxos_round_begin` leaves the learner state alone and
sets `values_chosen_this_round` to 0. -/
theorem round_entry_learner (env : Env) (is_leader : Nat) (multipaxos_values : List Nat)
    (rnd0 : Nat) (g : Globals) :
    (multipaxos_round_entry env is_leader multipaxos_values rnd0 g).multipaxos_state.learner
      = g.multipaxos_state.learner
    ∧ (multipaxos_round_entry env is_leader multipaxos_values rnd0 g).values_chosen_this_round
      = 0 := by
  unfold multipaxos_round_entry multipaxos_set_leader_values multipaxos_set_initial_leader_state
  repeat' split
  all_goals exact ⟨rfl, rfl⟩

/-- The learner state after the calls `chaos_round` makes: with `K <= L` and a log
of `L` entries, the log holds the values of the most recent quorum read that
fired, `last_round` is the last decree of its batch in 16 bits and
`values_chosen_this_round` is 1; when none fired, the learner state and
`values_chosen_this_round` are as before. -/
theorem chaos_round_learner (env : Env) (max_slots : Nat)
    (hKL : env.MULTIPAXOS_PKT_SIZE ≤ env.MULTIPAXOS_LOG_SIZE) (slots : List SlotInput) :
    ∀ (slot_count : Nat) (cs : chaos_state_t) (tx : multipaxos_t) (g : Globals),
      g.multipaxos_state.learner.learned_values.length = env.MULTIPAXOS_LOG_SIZE →
      (∀ pl, last_quorum_read env max_slots slots slot_count cs tx g = some pl →
        (∀ i, i < env.MULTIPAXOS_PKT_SIZE →
          rd (chaos_round env max_slots slots slot_count cs tx
              g).2.multipaxos_state.learner.learned_values
            ((pl.round + i) % env.MULTIPAXOS_LOG_SIZE) = rd pl.values i)
        ∧ (chaos_round env max_slots slots slot_count cs tx g).2.multipaxos_state.learner.last_round
          = (((pl.round : Int) + (env.MULTIPAXOS_PKT_SIZE : Int) - 1) % 65536).toNat
        ∧ (chaos_round env max_slots slots slot_count cs tx g).2.values_chosen_this_round = 1)
      ∧ (last_quorum_read env max_slots slots slot_count cs tx g = none →
        (chaos_round env max_slots slots slot_count cs tx g).2.multipaxos_state.learner
          = g.multipaxos_state.learner
        ∧ (chaos_round env max_slots slots slot_count cs tx g).2.values_chosen_this_round
          = g.values_chosen_this_round) := by
  induction slots with
  | nil =>
    intro slot_count cs tx g _
    exact ⟨fun pl h => absurd h (by intro hc; cases hc), fun _ => ⟨rfl, rfl⟩⟩
  | cons s rest ih =>
    intro slot_count cs tx g hlen
    have e1 : chaos_round env max_slots (s :: rest) slot_count cs tx g
        = if slot_count ≥ max_slots ∨ cs = CHAOS_OFF then (tx, g)
          else chaos_round env max_slots rest (slot_count + 1)
            (process env slot_count cs s.chaos_txrx_success s.rx_multipaxos s.rnd tx g).next_state
            (process env slot_count cs s.chaos_txrx_success s.rx_multipaxos s.rnd tx g).tx_multipaxos
            (process env slot_count cs s.chaos_txrx_success s.rx_multipaxos s.rnd tx g).g := rfl
    have e2 : last_quorum_read env max_slots (s :: rest) slot_count cs tx g
        = if slot_count ≥ max_slots ∨ cs = CHAOS_OFF then none
          else
            match last_quorum_read env max_slots rest (slot_count + 1)
              (process env slot_count cs s.chaos_txrx_success s.rx_multipaxos s.rnd tx g).next_state
              (process env slot_count cs s.chaos_txrx_success s.rx_multipaxos s.rnd tx
                g).tx_multipaxos
              (process env slot_count cs s.chaos_txrx_success s.rx_multipaxos s.rnd tx g).g with
            | some pl => some pl
            | none =>
              if quorum_read_fires env cs s.chaos_txrx_success s.rx_multipaxos tx g then
                some (read_payload env cs s.rx_multipaxos tx g)
              else none := rfl
    by_cases hstop : slot_count ≥ max_slots ∨ cs = CHAOS_OFF
    · rw [e1, e2, if_pos hstop, if_pos hstop]
      exact ⟨fun pl h => absurd h (by intro hc; cases hc), fun _ => ⟨rfl, rfl⟩⟩
    · rw [e1, e2, if_neg hstop, if_neg hstop]
      have hcall := process_learner_cases env slot_count cs s.chaos_txrx_success s.rx_multipaxos
        s.rnd tx g
      have hlen' : (process env slot_count cs s.chaos_txrx_success s.rx_multipaxos s.rnd tx
          g).g.multipaxos_state.learner.learned_values.length = env.MULTIPAXOS_LOG_SIZE := by
        by_cases hf : quorum_read_fires env cs s.chaos_txrx_success s.rx_multipaxos tx g
        · rw [(hcall.1 hf).1]
          exact (learn_values_length _ _ _).trans hlen
        · rw [(hcall.2 hf).1]
          exact hlen
      have hrest := ih (slot_count + 1)
        (process env slot_count cs s.chaos_txrx_success s.rx_multipaxos s.rnd tx g).next_state
        (process env slot_count cs s.chaos_txrx_success s.rx_multipaxos s.rnd tx g).tx_multipaxos
        (process env slot_count cs s.chaos_txrx_success s.rx_multipaxos s.rnd tx g).g hlen'
      rcases hlast : last_quorum_read env max_slots rest (slot_count + 1)
        (process env slot_count cs s.chaos_txrx_success s.rx_multipaxos s.rnd tx g).next_state
        (process env slot_count cs s.chaos_txrx_success s.rx_multipaxos s.rnd tx g).tx_multipaxos
        (process env slot_count cs s.chaos_txrx_success s.rx_multipaxos s.rnd tx g).g with _ | pl0
      · have hr := hrest.2 hlast
        by_cases hf : quorum_read_fires env cs s.chaos_txrx_success s.rx_multipaxos tx g
        · dsimp only
          rw [if_pos hf]
          refine ⟨fun pl hpl => ?_, fun hc => by cases hc⟩
          have hpl' : read_payload env cs s.rx_multipaxos tx g = pl := Option.some.inj hpl
          rw [hr.1, hr.2, (hcall.1 hf).1, (hcall.1 hf).2, hpl']
          exact ⟨fun i hi => learn_values_rd env pl _ hKL hlen i hi, rfl, rfl⟩
        · dsimp only
          rw [if_neg hf]
          refine ⟨fun pl hpl => (by cases hpl), fun _ => ?_⟩
          rw [hr.1, hr.2]
          exact hcall.2 hf
      · dsimp only
        refine ⟨fun pl hpl => ?_, fun hc => by cases hc⟩
        have hpl' : pl0 = pl := Option.some.inj hpl
        rw [← hpl']
        exact hrest.1 pl0 hlast

/-- C20. Learned values round trip (Multi-Paxos), for `1 <= K <= L`, a log of `L`
entries and a caller's array of at least `K` entries. If the most recent quorum
read that fired in the round `multipaxos_round_begin` runs read a payload with
round `r` and values `v`, and `r + K - 1 <= 65535`, then after the round
`learner.last_round = r + K - 1`, the function returns 1, and for every `i < K`
`learner.learned_values[(r + i) mod L] = v[i]` and
`multipaxos_report_values_chosen_this_round` has filled `learned[i] = v[i]`. If
no quorum read fired in the round, the function returns 0 and `learned[i] = 0`
for every `i < K`. -/
theorem learned_values_round_trip (env : Env) (is_leader : Nat)
    (multipaxos_values learned_values : List Nat) (rnd0 : Nat) (slots : List SlotInput)
    (g : Globals)
    (hK : 1 ≤ env.MULTIPAXOS_PKT_SIZE)
    (hKL : env.MULTIPAXOS_PKT_SIZE ≤ env.MULTIPAXOS_LOG_SIZE)
    (hlog : g.multipaxos_state.learner.learned_values.length = env.MULTIPAXOS_LOG_SIZE)
    (hout : env.MULTIPAXOS_PKT_SIZE ≤ learned_values.length) :
    (∀ pl, round_quorum_read env is_leader multipaxos_values rnd0 slots g = some pl →
      pl.round + env.MULTIPAXOS_PKT_SIZE - 1 ≤ 65535 →
      (multipaxos_round_begin env is_leader multipaxos_values learned_values rnd0 slots
          g).g.multipaxos_state.learner.last_round = pl.round + env.MULTIPAXOS_PKT_SIZE - 1
      ∧ (multipaxos_round_begin env is_leader multipaxos_values learned_values rnd0 slots
          g).ret = 1
      ∧ ∀ i, i < env.MULTIPAXOS_PKT_SIZE →
        rd (multipaxos_round_begin env is_leader multipaxos_values learned_values rnd0 slots
            g).g.multipaxos_state.learner.learned_values
          ((pl.round + i) % env.MULTIPAXOS_LOG_SIZE) = rd pl.values i
        ∧ rd (multipaxos_round_begin env is_leader multipaxos_values learned_values rnd0 slots
            g).learned_values i = rd pl.values i)
    ∧ (round_quorum_read env is_leader multipaxos_values rnd0 slots g = none →
      (multipaxos_round_begin env is_leader multipaxos_values learned_values rnd0 slots g).ret = 0
      ∧ ∀ i, i < env.MULTIPAXOS_PKT_SIZE →
        rd (multipaxos_round_begin env is_leader multipaxos_values learned_values rnd0 slots
          g).learned_values i = 0) := by
  have hentry := round_entry_learner env is_leader multipaxos_values rnd0 g
  have hround := chaos_round_learner env env.MULTIPAXOS_ROUND_MAX_SLOTS hKL slots 0 CHAOS_INIT
    (initial_tx env (multipaxos_round_entry env is_leader multipaxos_values rnd0 g))
    (multipaxos_round_entry env is_leader multipaxos_values rnd0 g)
    (by rw [hentry.1]; exact hlog)
  have hg : (multipaxos_round_begin env is_leader multipaxos_values learned_values rnd0 slots g).g
      = (chaos_round env env.MULTIPAXOS_ROUND_MAX_SLOTS slots 0 CHAOS_INIT
          (initial_tx env (multipaxos_round_entry env is_leader multipaxos_values rnd0 g))
          (multipaxos_round_entry env is_leader multipaxos_values rnd0 g)).2 := rfl
  have hret : (multipaxos_round_begin env is_leader multipaxos_values learned_values rnd0 slots
        g).ret
      = (multipaxos_round_begin env is_leader multipaxos_values learned_values rnd0 slots
        g).g.values_chosen_this_round := rfl
  have hrep : (multipaxos_round_begin env is_leader multipaxos_values learned_values rnd0 slots
        g).learned_values
      = multipaxos_report_values_chosen_this_round env
          (multipaxos_round_begin env is_leader multipaxos_values learned_values rnd0 slots g).g
          learned_values := rfl
  constructor
  · intro pl hpl h16
    have h := hround.1 pl hpl
    rw [← hg] at h
    have hlast : (multipaxos_round_begin env is_leader multipaxos_values learned_values rnd0 slots
        g).g.multipaxos_state.learner.last_round = pl.round + env.MULTIPAXOS_PKT_SIZE - 1 :=
      h.2.1.trans (last_round_eq _ _ hK h16)
    refine ⟨hlast, hret.trans h.2.2, fun i hi => ⟨h.1 i hi, ?_⟩⟩
    rw [hrep]
    unfold multipaxos_report_values_chosen_this_round
    rw [if_pos (by rw [h.2.2]; exact Nat.one_ne_zero),
      range_set_rd (fun k => rd (multipaxos_round_begin env is_leader multipaxos_values
        learned_values rnd0 slots g).g.multipaxos_state.learner.learned_values
        (report_index env (multipaxos_round_begin env is_leader multipaxos_values
          learned_values rnd0 slots g).g k)),
      if_pos ⟨hi, Nat.lt_of_lt_of_le hi hout⟩, report_index_eq env _ pl.round i hK hlast]
    exact h.1 i hi
  · intro hnone
    have h := hround.2 hnone
    rw [← hg] at h
    have hz : (multipaxos_round_begin env is_leader multipaxos_values learned_values rnd0 slots
        g).g.values_chosen_this_round = 0 := h.2.trans hentry.2
    refine ⟨hret.trans hz, fun i hi => ?_⟩
    rw [hrep]
    unfold multipaxos_report_values_chosen_this_round
    rw [if_neg (fun hc => hc hz)]
    unfold zero_first
    rw [range_set_rd (fun _ => 0), if_pos ⟨hi, Nat.lt_of_lt_of_le hi hout⟩]

/-- C20 on node 1 of the three-node network: in a round of two slots it receives
the ACCEPT packet for the decrees 1 and 2 with the values 7 and 8 under a
majority of flags; after the round `last_round` is 2, the function returns 1,
the log holds 7 and 8 at the indices 1 and 2, and the caller's array is
`[7, 8]`. -/
theorem learned_values_round_trip_witness :
    round_quorum_read (env3 1) 0 [0, 0] 0 slots_with_accept fresh_globals = some accept_from_0_2
    ∧ (multipaxos_round_begin (env3 1) 0 [0, 0] [0, 0] 0 slots_with_accept
        fresh_globals).g.multipaxos_state.learner.last_round = 2
    ∧ (multipaxos_round_begin (env3 1) 0 [0, 0] [0, 0] 0 slots_with_accept fresh_globals).ret = 1
    ∧ rd (multipaxos_round_begin (env3 1) 0 [0, 0] [0, 0] 0 slots_with_accept
        fresh_globals).g.multipaxos_state.learner.learned_values 2 = 8
    ∧ rd (multipaxos_round_begin (env3 1) 0 [0, 0] [0, 0] 0 slots_with_accept
        fresh_globals).learned_values 1 = 8 :=
  ⟨by decide,
    ((learned_values_round_trip (env3 1) 0 [0, 0] [0, 0] 0 slots_with_accept fresh_globals
      (by decide) (by decide) (by decide) (by decide)).1 accept_from_0_2 (by decide)
      (by decide)).1,
    ((learned_values_round_trip (env3 1) 0 [0, 0] [0, 0] 0 slots_with_accept fresh_globals
      (by decide) (by decide) (by decide) (by decide)).1 accept_from_0_2 (by decide)
      (by decide)).2.1,
    (((learned_values_round_trip (env3 1) 0 [0, 0] [0, 0] 0 slots_with_accept fresh_globals
      (by decide) (by decide) (by decide) (by decide)).1 accept_from_0_2 (by decide)
      (by decide)).2.2 1 (by decide)).1,
    (((learned_values_round_trip (env3 1) 0 [0, 0] [0, 0] 0 slots_with_accept fresh_globals
      (by decide) (by decide) (by decide) (by decide)).1 accept_from_0_2 (by decide)
      (by decide)).2.2 1 (by decide)).2⟩

/-- The round bit-field of a ballot after `b.round = r`. -/
theorem ballot_round_set_round (b r : Nat) : ballot_round (ballot_set_round b r) = r % 256 := by
  unfold ballot_round ballot_set_round ballot_id
  omega

/-- The id bit-field of a ballot after `b.round = r` is the one before. -/
theorem ballot_id_set_round (b r : Nat) : ballot_id (ballot_set_round b r) = ballot_id b := by
  unfold ballot_set_round ballot_id
  omega

/-- The id bit-field of a ballot after `b.id = i`. -/
theorem ballot_id_set_id (b i : Nat) : ballot_id (ballot_set_id b i) = i % 256 := by
  unfold ballot_set_id ballot_id ballot_round
  omega

/-- The round bit-field of a ballot after `b.id = i` is the one before. -/
theorem ballot_round_set_id (b i : Nat) : ballot_round (ballot_set_id b i) = ballot_round b := by
  unfold ballot_set_id ballot_round
  omega

/-- C22. Initial leader state (Multi-Paxos). For every node state with
`learner.last_round < 65535` (16-bit `last_round_participation`, `K >= 1`, 8-bit
node index), after `multipaxos_set_initial_leader_state`: `leader.is_leader = 1`,
`proposed_ballot.id` is the node index, `proposed_ballot.round` is the maximum
of its old value and 1, `leader.current_round` is the maximum over the integers
of `learner.last_round + 1` and `acceptor.last_round_participation - K + 1`,
`not_heard_from_leader_since = 0`, and the acceptor and learner state are
unchanged. -/
theorem initial_leader_state (env : Env) (g : Globals)
    (h1 : g.multipaxos_state.learner.last_round < 65535)
    (h2 : g.multipaxos_state.acceptor.last_round_participation < 65536)
    (hK : 1 ≤ env.MULTIPAXOS_PKT_SIZE)
    (hi : env.chaos_node_index < 256) :
    (multipaxos_set_initial_leader_state env g).multipaxos_state.leader.is_leader = 1
    ∧ ballot_id (multipaxos_set_initial_leader_state env g).multipaxos_state.leader.proposed_ballot
      = env.chaos_node_index
    ∧ ballot_round
        (multipaxos_set_initial_leader_state env g).multipaxos_state.leader.proposed_ballot
      = max (ballot_round g.multipaxos_state.leader.proposed_ballot) 1
    ∧ ((multipaxos_set_initial_leader_state env g).multipaxos_state.leader.current_round : Int)
      = max ((g.multipaxos_state.learner.last_round : Int) + 1)
          ((g.multipaxos_state.acceptor.last_round_participation : Int)
            - (env.MULTIPAXOS_PKT_SIZE : Int) + 1)
    ∧ (multipaxos_set_initial_leader_state env g).not_heard_from_leader_since = 0
    ∧ (multipaxos_set_initial_leader_state env g).multipaxos_state.acceptor
      = g.multipaxos_state.acceptor
    ∧ (multipaxos_set_initial_leader_state env g).multipaxos_state.learner
      = g.multipaxos_state.learner := by
  refine ⟨rfl, ?_, ?_, ?_, rfl, rfl, rfl⟩
  · show ballot_id (ballot_set_round _ _) = _
    rw [ballot_id_set_round, ballot_id_set_id]
    exact Nat.mod_eq_of_lt hi
  · show ballot_round (ballot_set_round _ _) = _
    rw [ballot_round_set_round, ballot_round_set_id]
    have hb : ballot_round g.multipaxos_state.leader.proposed_ballot < 256 := by
      unfold ballot_round
      omega
    unfold MAX
    split <;> omega
  · show ((initial_round env g : Nat) : Int) = _
    unfold initial_round
    split
    · split
      · omega
      · omega
    · omega

/-- C22 on node 1 of the three-node network: a node that learned the decrees up to
3 and took part in the decrees up to 5 starts as leader (1,1) from decree 4. -/
theorem initial_leader_state_witness :
    ((multipaxos_set_initial_leader_state (env3 1) learned_3_heard_5
      ).multipaxos_state.leader.current_round : Int) = max ((3 : Int) + 1) ((5 : Int) - 2 + 1)
    ∧ ballot_round (multipaxos_set_initial_leader_state (env3 1) learned_3_heard_5
      ).multipaxos_state.leader.proposed_ballot = max (ballot_round 0) 1 :=
  ⟨(initial_leader_state (env3 1) learned_3_heard_5
      (by decide) (by decide) (by decide) (by decide)).2.2.2.1,
    (initial_leader_state (env3 1) learned_3_heard_5
      (by decide) (by decide) (by decide) (by decide)).2.2.1⟩

/-- Without a phase update and without a loss the closing blocks of the leader
logic leave the frame alone. -/
theorem leader_finish_quiet (env : Env) (a : LeadFrame) (hu : a.update_phase = 0)
    (hl : a.lost_proposal = 0) : leader_finish env a = a.f := by
  unfold leader_finish
  rw [if_neg (fun h => h hu)]
  unfold after_loss
  rw [if_neg (fun h => h hl)]

/-- The leader logic on a leader that completes its ACCEPT phase without another
PREPARE: the leader state is as before, but for `got_majority = 1` and the
current round advanced by `K` in 16 bits. -/
theorem leader_logic_advance (env : Env) (pl : multipaxos_t) (f : Frame)
    (h1 : f.g.multipaxos_state.leader.is_leader ≠ 0)
    (h2 : f.g.multipaxos_state.leader.got_majority = 0)
    (h3 : f.g.multipaxos_state.leader.phase = MULTIPAXOS_ACCEPT)
    (h4 : pl.ballot = f.g.multipaxos_state.leader.proposed_ballot)
    (h5 : pl.phase = MULTIPAXOS_ACCEPT)
    (h6 : pl.round = f.g.multipaxos_state.leader.current_round)
    (h7 : f.g.multipaxos_state.rx_min_proposal ≤ f.g.multipaxos_state.leader.proposed_ballot)
    (h8 : f.g.n_replies > env.chaos_node_count / 2)
    (h9 : f.g.multipaxos_state.leader.do_another_phase_1 = 0) :
    (leader_logic env pl f).g.multipaxos_state.leader
      = { f.g.multipaxos_state.leader with
          got_majority := 1,
          current_round :=
            (f.g.multipaxos_state.leader.current_round + env.MULTIPAXOS_PKT_SIZE) % 65536 } := by
  have hne : ¬ (MULTIPAXOS_ACCEPT = MULTIPAXOS_PREPARE) := by decide
  unfold leader_logic
  rw [if_pos ⟨h1, h2⟩]
  unfold leader_compete
  rw [if_pos h4, if_pos ⟨h5.trans h3.symm, h6⟩]
  unfold leader_own
  rw [if_neg (fun h => hne (h3.symm.trans h)), if_pos h3]
  unfold leader_accept
  rw [if_neg (Nat.not_lt.mpr h7), if_pos h8, if_pos h2]
  unfold leader_advance
  rw [if_neg (fun h => h h9)]
  rw [leader_finish_quiet env _ ((phase_delta_frame _).2.2.2.trans rfl)
    ((phase_delta_frame _).2.2.1.trans rfl), (phase_delta_frame _).1]

/-- C23. Replay of the last consensus (Multi-Paxos).
`multipaxos_leader_got_majority()` holds exactly for a leader with `got_majority`
in phase ACCEPT; then `multipaxos_replay_last_consensus` sets `leader.phase =
PREPARE`, `leader.current_round = current_round - K` modulo 2^16 and
`got_majority = 0` and leaves the rest of the leader state (ballot, proposed
values), the acceptor state, the learner state and every other variable
unchanged; otherwise it changes nothing. Consequently, after a call of `process`
that advanced `current_round` (below 2^16) on a leader without
`do_another_phase_1`, replay restores `current_round` to its value before the
call, with the proposed values and the ballot of before the call. -/
theorem replay_last_consensus (env : Env) (g : Globals) (slot_count : Nat) (cs : chaos_state_t)
    (succ : Nat) (rx : multipaxos_t) (rnd : Nat) (tx : multipaxos_t) :
    (multipaxos_leader_got_majority g ≠ 0
      ↔ g.multipaxos_state.leader.is_leader ≠ 0 ∧ g.multipaxos_state.leader.got_majority ≠ 0
        ∧ g.multipaxos_state.leader.phase = MULTIPAXOS_ACCEPT)
    ∧ (multipaxos_leader_got_majority g ≠ 0 →
      multipaxos_replay_last_consensus env g
        = { g with
            multipaxos_state.leader.phase := MULTIPAXOS_PREPARE,
            multipaxos_state.leader.current_round :=
              (((g.multipaxos_state.leader.current_round : Int) - (env.MULTIPAXOS_PKT_SIZE : Int))
                % 65536).toNat,
            multipaxos_state.leader.got_majority := 0 })
    ∧ (multipaxos_leader_got_majority g = 0 → multipaxos_replay_last_consensus env g = g)
    ∧ ((process env slot_count cs succ rx rnd tx g).g.multipaxos_state.leader.current_round
          ≠ g.multipaxos_state.leader.current_round →
      g.multipaxos_state.leader.do_another_phase_1 = 0 →
      g.multipaxos_state.leader.current_round < 65536 →
      (multipaxos_replay_last_consensus env
          (process env slot_count cs succ rx rnd tx g).g).multipaxos_state.leader
        = { g.multipaxos_state.leader with phase := MULTIPAXOS_PREPARE, got_majority := 0 }) := by
  refine ⟨?_, ?_, ?_, ?_⟩
  · unfold multipaxos_leader_got_majority
    constructor
    · intro h
      by_cases h1 : g.multipaxos_state.leader.is_leader ≠ 0
      · rw [if_pos h1] at h
        by_cases h2 : g.multipaxos_state.leader.got_majority ≠ 0
            ∧ g.multipaxos_state.leader.phase = MULTIPAXOS_ACCEPT
        · exact ⟨h1, h2.1, h2.2⟩
        · rw [if_neg h2] at h
          exact absurd rfl h
      · rw [if_neg h1] at h
        exact absurd rfl h
    · intro h
      rw [if_pos h.1, if_pos ⟨h.2.1, h.2.2⟩]
      exact Nat.one_ne_zero
  · intro h
    unfold multipaxos_replay_last_consensus
    rw [if_pos h]
  · intro h
    unfold multipaxos_replay_last_consensus
    rw [if_neg (fun hc => hc h)]
  · intro hch hno h16
    rcases process_round_cases env slot_count cs succ rx rnd tx g with hk | hk
    · exact absurd hk hch
    · obtain ⟨hv, hl, hgm, hph, hb, hpp, hr, hmin, hn, _, _, _⟩ := hk
      have hcs := multi_not_init_of_slot_valid hv
      have hp : (entry_payload cs rx tx).phase ≠ MULTIPAXOS_INIT := by
        rw [hpp]
        decide
      have hstate : (process env slot_count cs succ rx rnd tx g).g.multipaxos_state
          = (valid_slot env slot_count cs succ rx (entry_frame tx g)).g.multipaxos_state := by
        show (process_frame env slot_count cs succ rx rnd tx g).g.multipaxos_state = _
        unfold process_frame
        rw [(multi_exit_frame_frame _ _ _).1,
          ((multi_synchrotron_logic_frame _ _ _ _ _).2.2.2.2 hcs).1]
      have hlead : (leader_frame env slot_count cs rx tx g).g.multipaxos_state.leader
          = g.multipaxos_state.leader := by
        unfold leader_frame
        rw [acceptor_logic_leader, open_valid_eq]
        rfl
      have hpl := multi_payload_after_acceptor_logic env slot_count cs rx
        (open_valid env (entry_frame tx g))
      have hentry : payload cs rx (open_valid env (entry_frame tx g)) = entry_payload cs rx tx := by
        rw [open_valid_eq]
        rfl
      rw [hentry] at hpl
      have hadv := leader_logic_advance env
        (payload cs rx (leader_frame env slot_count cs rx tx g))
        (leader_frame env slot_count cs rx tx g)
        (by rw [hlead]; exact hl) (by rw [hlead]; exact hgm) (by rw [hlead]; exact hph)
        (by rw [hlead]; exact hpl.1.trans hb) (hpl.2.1.trans hpp)
        (by rw [hlead]; exact hpl.2.2.trans hr) (by rw [hlead]; exact hmin) hn
        (by rw [hlead]; exact hno)
      rw [← valid_slot_of_paxos env slot_count cs succ rx tx g hv hp, ← hstate, hlead] at hadv
      have hgot : multipaxos_leader_got_majority (process env slot_count cs succ rx rnd tx g).g
          ≠ 0 := by
        unfold multipaxos_leader_got_majority
        rw [hadv]
        rw [if_pos hl, if_pos ⟨Nat.one_ne_zero, hph⟩]
        exact Nat.one_ne_zero
      unfold multipaxos_replay_last_consensus
      rw [if_pos hgot]
      show leader_state_t.mk
          (process env slot_count cs succ rx rnd tx g).g.multipaxos_state.leader.proposed_ballot
          (process env slot_count cs succ rx rnd tx g).g.multipaxos_state.leader.proposed_values
          (process env slot_count cs succ rx rnd tx g).g.multipaxos_state.leader.is_leader
          MULTIPAXOS_PREPARE
          ((((process env slot_count cs succ rx rnd tx g).g.multipaxos_state.leader.current_round
              : Int) - (env.MULTIPAXOS_PKT_SIZE : Int)) % 65536).toNat
          0
          (process env slot_count cs succ rx rnd tx g).g.multipaxos_state.leader.do_another_phase_1
        = leader_state_t.mk g.multipaxos_state.leader.proposed_ballot
          g.multipaxos_state.leader.proposed_values g.multipaxos_state.leader.is_leader
          MULTIPAXOS_PREPARE g.multipaxos_state.leader.current_round 0
          g.multipaxos_state.leader.do_another_phase_1
      have hback : (((((g.multipaxos_state.leader.current_round + env.MULTIPAXOS_PKT_SIZE) % 65536
          : Nat) : Int) - (env.MULTIPAXOS_PKT_SIZE : Int)) % 65536).toNat
          = g.multipaxos_state.leader.current_round := by
        omega
      rw [hadv]
      dsimp only
      rw [hback]

/-- C23 on leader 0 of the three-node network: it completes the batch of the
decrees 1 and 2 with the values 7 and 8, `current_round` goes from 1 to 3, and
replay takes it back to PREPARE at decree 1 with the same values. -/
theorem replay_last_consensus_witness :
    (process (env3 0) 5 CHAOS_TX 1 empty_packet 0 accept_in_flight
        (accepting_leader 0)).g.multipaxos_state.leader.current_round = 3
    ∧ (multipaxos_replay_last_consensus (env3 0)
        (process (env3 0) 5 CHAOS_TX 1 empty_packet 0 accept_in_flight
          (accepting_leader 0)).g).multipaxos_state.leader
      = { (accepting_leader 0).multipaxos_state.leader with
          phase := MULTIPAXOS_PREPARE, got_majority := 0 }
    ∧ (multipaxos_replay_last_consensus (env3 0)
        (process (env3 0) 5 CHAOS_TX 1 empty_packet 0 accept_in_flight
          (accepting_leader 0)).g).multipaxos_state.leader
      = ⟨ballot_of 1 0, [7, 8], 1, MULTIPAXOS_PREPARE, 1, 0, 0⟩ :=
  ⟨by decide,
    (replay_last_consensus (env3 0) (accepting_leader 0) 5 CHAOS_TX 1 empty_packet 0
      accept_in_flight).2.2.2 (by decide) (by decide) (by decide),
    by decide⟩

/-- The valid-slot block of a call leaves the leader state of a node that is not a
leader alone. -/
theorem valid_slot_not_leader (env : Env) (slot_count : Nat) (cs : chaos_state_t) (succ : Nat)
    (rx : multipaxos_t) (f : Frame) (h : f.g.multipaxos_state.leader.is_leader = 0) :
    (valid_slot env slot_count cs succ rx f).g.multipaxos_state.leader
      = f.g.multipaxos_state.leader := by
  have ho : (open_valid env f).g.multipaxos_state.leader = f.g.multipaxos_state.leader := by
    rw [open_valid_eq]
  unfold valid_slot
  split
  · split
    · unfold heartbeat
      rw [if_neg (fun hc => hc (by rw [ho]; exact h))]
      show (if _ then heartbeat_forward env cs rx (open_valid env f)
        else open_valid env f).g.multipaxos_state.leader = _
      split
      · exact ho
      · exact ho
    · unfold paxos_slot leader_logic
      rw [if_neg (fun hc => hc.1 (by rw [acceptor_logic_leader, ho]; exact h)),
        acceptor_logic_leader, ho]
  · rfl

/-- The Synchrotron state logic leaves the Multi-Paxos state of a node that is not
a leader alone. -/
theorem synchrotron_logic_not_leader (env : Env) (cs : chaos_state_t) (succ rnd : Nat)
    (f : Frame) (h : f.g.multipaxos_state.leader.is_leader = 0) :
    (synchrotron_logic env cs succ rnd f).2.g.multipaxos_state = f.g.multipaxos_state := by
  unfold synchrotron_logic
  split
  · unfold sync_initiate
    rw [if_neg (fun hc => hc h)]
  · unfold sync_rx_ok sync_rx_fail
    repeat' split
    all_goals rfl

/-- A call of `process` on a node that is not a leader leaves its leader state
alone. -/
theorem process_not_leader (env : Env) (slot_count : Nat) (cs : chaos_state_t) (succ : Nat)
    (rx : multipaxos_t) (rnd : Nat) (tx : multipaxos_t) (g : Globals)
    (h : g.multipaxos_state.leader.is_leader = 0) :
    (process env slot_count cs succ rx rnd tx g).g.multipaxos_state.leader
      = g.multipaxos_state.leader := by
  have hv := valid_slot_not_leader env slot_count cs succ rx (entry_frame tx g) h
  have hv' : (valid_slot env slot_count cs succ rx
      (entry_frame tx g)).g.multipaxos_state.leader.is_leader = 0 := by
    rw [hv]
    exact h
  show (process_frame env slot_count cs succ rx rnd tx g).g.multipaxos_state.leader = _
  unfold process_frame
  rw [(multi_exit_frame_frame _ _ _).1, synchrotron_logic_not_leader _ _ _ _ _ hv', hv]
  rfl

/-- The calls `chaos_round` makes on a node that is not a leader leave its leader
state alone. -/
theorem chaos_round_not_leader (env : Env) (max_slots : Nat) (slots : List SlotInput) :
    ∀ (slot_count : Nat) (cs : chaos_state_t) (tx : multipaxos_t) (g : Globals),
      g.multipaxos_state.leader.is_leader = 0 →
      (chaos_round env max_slots slots slot_count cs tx g).2.multipaxos_state.leader
        = g.multipaxos_state.leader := by
  induction slots with
  | nil => intro _ _ _ _ _; rfl
  | cons s rest ih =>
    intro slot_count cs tx g h
    have e1 : chaos_round env max_slots (s :: rest) slot_count cs tx g
        = if slot_count ≥ max_slots ∨ cs = CHAOS_OFF then (tx, g)
          else chaos_round env max_slots rest (slot_count + 1)
            (process env slot_count cs s.chaos_txrx_success s.rx_multipaxos s.rnd tx g).next_state
            (process env slot_count cs s.chaos_txrx_success s.rx_multipaxos s.rnd tx g).tx_multipaxos
            (process env slot_count cs s.chaos_txrx_success s.rx_multipaxos s.rnd tx g).g := rfl
    rw [e1]
    split
    · rfl
    · have hp := process_not_leader env slot_count cs s.chaos_txrx_success s.rx_multipaxos s.rnd
        tx g h
      rw [ih _ _ _ _ (by rw [hp]; exact h), hp]

/-- C21. No self-nomination (Multi-Paxos). On a node that is not a leader,
`multipaxos_round_begin` called with `is_leader = 0` leaves the leader state as it
is, whatever `not_heard_from_leader_since` holds and whatever a round delivers:
the counter is incremented and never compared with `BECOME_LEADER_AFTER`, and
`multipaxos_app_should_node_become_leader` is not called. The same holds for
`round_begin` of the application on a node that is not the initiator: its
`is_proposer` stays 0 and the leader state is not seeded. -/
theorem no_self_nomination (env : Env) (multipaxos_values learned_values : List Nat)
    (rnd0 : Nat) (slots : List SlotInput) (g : Globals)
    (h : g.multipaxos_state.leader.is_leader = 0) :
    (multipaxos_round_begin env 0 multipaxos_values learned_values rnd0 slots
        g).g.multipaxos_state.leader = g.multipaxos_state.leader
    ∧ (multipaxos_round_entry env 0 multipaxos_values rnd0 g).not_heard_from_leader_since
      = (g.not_heard_from_leader_since + 1) % 256
    ∧ ∀ (round_count : Nat) (a : AppState), env.IS_INITIATOR = false → a.is_proposer = 0 →
      (round_begin env round_count a rnd0 slots g).1.is_proposer = 0
      ∧ (round_begin env round_count a rnd0 slots g).2.multipaxos_state.leader
        = g.multipaxos_state.leader := by
  have hentry : multipaxos_round_entry env 0 multipaxos_values rnd0 g
      = multipaxos_initialize_variables_for_new_round env rnd0 g := by
    unfold multipaxos_round_entry
    rw [if_neg (fun hc => hc rfl)]
  have hlib : ∀ vals learned : List Nat,
      (multipaxos_round_begin env 0 vals learned rnd0 slots g).g.multipaxos_state.leader
        = g.multipaxos_state.leader := by
    intro vals learned
    have he : multipaxos_round_entry env 0 vals rnd0 g
        = multipaxos_initialize_variables_for_new_round env rnd0 g := by
      unfold multipaxos_round_entry
      rw [if_neg (fun hc => hc rfl)]
    show (chaos_round env env.MULTIPAXOS_ROUND_MAX_SLOTS slots 0 CHAOS_INIT
      (initial_tx env (multipaxos_round_entry env 0 vals rnd0 g))
      (multipaxos_round_entry env 0 vals rnd0 g)).2.multipaxos_state.leader = _
    have hinit : (multipaxos_initialize_variables_for_new_round env rnd0
        g).multipaxos_state.leader = g.multipaxos_state.leader := rfl
    rw [he, chaos_round_not_leader env _ slots 0 CHAOS_INIT _ _ (by rw [hinit]; exact h), hinit]
  refine ⟨hlib _ _, ?_, ?_⟩
  · rw [hentry]
    rfl
  · intro round_count a hi ha
    have hra : round_begin_entry env a g = a := by
      unfold round_begin_entry
      rw [if_neg (by rw [hi]; exact Bool.false_ne_true)]
    refine ⟨?_, ?_⟩
    · show (round_begin_entry env a g).is_proposer = 0
      rw [hra]
      exact ha
    · show (multipaxos_round_begin env (round_begin_entry env a g).is_proposer
        (round_begin_entry env a g).multipaxos_values_to_propose
        (round_begin_entry env a g).multipaxos_chosen_values rnd0 slots
          g).g.multipaxos_state.leader = _
      rw [hra, ha]
      exact hlib _ _

/-- C21 on node 1 of the eight-node network: it has gone four rounds without
hearing from a leader, more than `BECOME_LEADER_AFTER`, and the hook would return
1 for the draw 0; after `multipaxos_round_begin` with `is_leader = 0` the node is
not a leader, its leader state is untouched and the counter stands at 5. -/
theorem no_self_nomination_witness :
    orphaned_globals.multipaxos_state.leader.is_leader = 0
    ∧ orphaned_globals.not_heard_from_leader_since > BECOME_LEADER_AFTER
    ∧ multipaxos_app_should_node_become_leader (env8 1) 0 = 1
    ∧ (multipaxos_round_begin (env8 1) 0 [0, 0] [0, 0] 0 silent_slots
        orphaned_globals).g.multipaxos_state.leader = orphaned_globals.multipaxos_state.leader
    ∧ (multipaxos_round_begin (env8 1) 0 [0, 0] [0, 0] 0 silent_slots
        orphaned_globals).g.multipaxos_state.leader.is_leader = 0
    ∧ (multipaxos_round_begin (env8 1) 0 [0, 0] [0, 0] 0 silent_slots
        orphaned_globals).g.not_heard_from_leader_since = 5
    ∧ (round_begin (env8 1) 9 idle_app 0 silent_slots orphaned_globals).1.is_proposer = 0 :=
  ⟨by decide, by decide, by decide,
    (no_self_nomination (env8 1) [0, 0] [0, 0] 0 silent_slots orphaned_globals (by decide)).1,
    by decide, by decide,
    ((no_self_nomination (env8 1) [0, 0] [0, 0] 0 silent_slots orphaned_globals
      (by decide)).2.2 9 idle_app (by decide) (by decide)).1⟩

/-- C37. The default leader-nomination hook is not total. With four nodes or more
the modulus `chaos_node_count / 4` is not 0 and the hook returns 1 exactly when
the draw is 0 modulo it; with fewer than four nodes the modulus is 0 and the `%`
of the hook divides by zero. -/
theorem nomination_hook_not_total (env : Env) (rnd : Nat) :
    (4 ≤ env.chaos_node_count →
      env.chaos_node_count / 4 ≠ 0
      ∧ should_node_become_leader_checked env rnd
          = some (if rnd % (env.chaos_node_count / 4) = 0 then 1 else 0)
      ∧ (multipaxos_app_should_node_become_leader env rnd = 1
          ↔ rnd % (env.chaos_node_count / 4) = 0))
    ∧ (env.chaos_node_count < 4 →
      env.chaos_node_count / 4 = 0 ∧ should_node_become_leader_checked env rnd = none) := by
  refine ⟨fun h => ?_, fun h => ?_⟩
  · have hne : env.chaos_node_count / 4 ≠ 0 := by omega
    refine ⟨hne, ?_, ?_⟩
    · unfold should_node_become_leader_checked
      rw [if_neg hne]
      rfl
    · unfold multipaxos_app_should_node_become_leader
      constructor
      · intro h1
        by_contra hc
        rw [if_neg hc] at h1
        cases h1
      · intro h1
        rw [if_pos h1]
  · have he : env.chaos_node_count / 4 = 0 := by omega
    refine ⟨he, ?_⟩
    unfold should_node_become_leader_checked
    rw [if_pos he]

/-- C37 on a network of three nodes, where the hook divides by zero for the draw
0, and on a network of eight nodes, where it returns 1 for the draw 6. -/
theorem nomination_hook_not_total_witness :
    (env3 1).chaos_node_count = 3
    ∧ ((env3 1).chaos_node_count / 4 = 0
        ∧ should_node_become_leader_checked (env3 1) 0 = none)
    ∧ should_node_become_leader_checked (env8 1) 6 = some 1 :=
  ⟨rfl, (nomination_hook_not_total (env3 1) 0).2 (by decide), by decide⟩

/-- C35. A node taking over as leader keeps the round of its stored ballot. For
every node whose stored proposed ballot (16 bits) has a round counter of at
least 1, and whose index fits the 8-bit id, after
`multipaxos_set_initial_leader_state` the proposed ballot has the same round
counter and the node's index as id; for a former leader, whose stored id is its
index, it is the ballot the node held before the call, not a higher one. -/
theorem takeover_keeps_round (env : Env) (g : Globals)
    (hb : g.multipaxos_state.leader.proposed_ballot < 65536)
    (hr : 1 ≤ ballot_round g.multipaxos_state.leader.proposed_ballot)
    (hi : env.chaos_node_index < 256) :
    ballot_round (multipaxos_set_initial_leader_state env g).multipaxos_state.leader.proposed_ballot
        = ballot_round g.multipaxos_state.leader.proposed_ballot
    ∧ ballot_id (multipaxos_set_initial_leader_state env g).multipaxos_state.leader.proposed_ballot
        = env.chaos_node_index
    ∧ (multipaxos_set_initial_leader_state env g).multipaxos_state.leader.proposed_ballot
        = 256 * ballot_round g.multipaxos_state.leader.proposed_ballot + env.chaos_node_index
    ∧ (ballot_id g.multipaxos_state.leader.proposed_ballot = env.chaos_node_index →
        (multipaxos_set_initial_leader_state env g).multipaxos_state.leader.proposed_ballot
          = g.multipaxos_state.leader.proposed_ballot) := by
  have e : (multipaxos_set_initial_leader_state env g).multipaxos_state.leader.proposed_ballot
      = ballot_set_round
          (ballot_set_id g.multipaxos_state.leader.proposed_ballot env.chaos_node_index)
          (MAX (ballot_round
            (ballot_set_id g.multipaxos_state.leader.proposed_ballot env.chaos_node_index)) 1) :=
    rfl
  rw [e]
  generalize g.multipaxos_state.leader.proposed_ballot = b at hb hr
  have hM : MAX (ballot_round (ballot_set_id b env.chaos_node_index)) 1 = ballot_round b := by
    rw [ballot_round_set_id]
    unfold MAX
    split <;> omega
  rw [hM]
  unfold ballot_set_round ballot_set_id ballot_round ballot_id
  unfold ballot_round at hr
  refine ⟨by omega, by omega, by omega, fun h => ?_⟩
  unfold ballot_id at h
  omega

/-- C35 on node 0 of the three-node network: it lost its leadership with ballot
(2,0) to ballot (2,1), which it has promised as acceptor; taking over again it
proposes with ballot (2,0), below its own promise. -/
theorem takeover_keeps_round_witness :
    deposed_leader.multipaxos_state.leader.is_leader = 0
    ∧ deposed_leader.multipaxos_state.leader.proposed_ballot = ballot_of 2 0
    ∧ deposed_leader.multipaxos_state.acceptor.min_proposal = ballot_of 2 1
    ∧ (multipaxos_set_initial_leader_state (env3 0)
        deposed_leader).multipaxos_state.leader.is_leader = 1
    ∧ (multipaxos_set_initial_leader_state (env3 0)
        deposed_leader).multipaxos_state.leader.proposed_ballot
        = deposed_leader.multipaxos_state.leader.proposed_ballot
    ∧ (multipaxos_set_initial_leader_state (env3 0)
        deposed_leader).multipaxos_state.leader.proposed_ballot
        < deposed_leader.multipaxos_state.acceptor.min_proposal
    ∧ (multipaxos_set_initial_leader_state (env3 0)
        deposed_leader).multipaxos_state.leader.proposed_ballot ≠ ballot_of 3 0 :=
  ⟨by decide, by decide, by decide, by decide,
    (takeover_keeps_round (env3 0) deposed_leader (by decide) (by decide) (by decide)).2.2.2
      (by decide),
    by decide, by decide⟩

/-- C36. The TX buffer is not zeroed at round entry. On a node that is not a
leader, a successful reception of a `MULTIPAXOS_INIT` heartbeat while the TX
packet holds a ballot other than 0 leaves the whole TX packet as it was, whatever
`got_valid_rx` holds: `process` sets `got_valid_rx = 1` before it tests
`!got_valid_rx`, so the `memset` of the TX buffer is never reached, and the
heartbeat is copied only into a TX packet with ballot 0. -/
theorem tx_buffer_not_zeroed (env : Env) (slot_count : Nat) (succ : Nat) (rx : multipaxos_t)
    (rnd : Nat) (tx : multipaxos_t) (g : Globals)
    (hl : g.multipaxos_state.leader.is_leader = 0) (hs : succ ≠ 0)
    (hph : rx.phase = MULTIPAXOS_INIT) (hb : tx.ballot ≠ 0) :
    (∀ f : Frame, (open_valid env f).tx_multipaxos = f.tx_multipaxos)
    ∧ (process env slot_count CHAOS_RX succ rx rnd tx g).tx_multipaxos = tx
    ∧ (process env slot_count CHAOS_RX succ rx rnd tx g).g.got_valid_rx = 1 := by
  have hv : slot_valid CHAOS_RX succ (entry_frame tx g).g := ⟨hs, Or.inl rfl⟩
  have hvs : valid_slot env slot_count CHAOS_RX succ rx (entry_frame tx g)
      = delta_of_tx (open_valid env (entry_frame tx g)) := by
    unfold valid_slot
    rw [if_pos hv, if_pos (show (payload CHAOS_RX rx (open_valid env (entry_frame tx g))).phase
      = MULTIPAXOS_INIT from hph)]
    unfold heartbeat
    rw [if_neg (fun hc => hc (by rw [open_valid_eq]; exact hl)),
      if_neg (by rw [open_valid_eq]; exact hb)]
  have hsy := (multi_synchrotron_logic_frame env CHAOS_RX succ rnd
    (delta_of_tx (open_valid env (entry_frame tx g)))).2.2.2.2 (by decide)
  have hgv : (synchrotron_logic env CHAOS_RX succ rnd
      (delta_of_tx (open_valid env (entry_frame tx g)))).2.g.got_valid_rx = 1 := by
    unfold synchrotron_logic
    rw [if_neg (fun hc => by cases hc.2), if_pos ⟨rfl, hs⟩]
    unfold sync_rx_ok
    rw [open_valid_eq]
    repeat' split
    all_goals rfl
  refine ⟨fun f => by rw [open_valid_eq], ?_, ?_⟩
  · show (process_frame env slot_count CHAOS_RX succ rx rnd tx g).tx_multipaxos = tx
    unfold process_frame
    rw [hvs, (multi_exit_frame_frame _ _ _).2.1, hsy.2, open_valid_eq]
    rfl
  · show (process_frame env slot_count CHAOS_RX succ rx rnd tx g).g.got_valid_rx = 1
    unfold process_frame
    rw [hvs]
    unfold exit_frame mark_off save_local
    split
    · exact hgv
    · exact hgv

/-- C36 on node 1 of the three-node network in its second round: nothing was
received yet, the TX packet still holds the header of the ACCEPT packet of the
first round, and the heartbeat of node 0 leaves it so; the node goes on
listening. -/
theorem tx_buffer_not_zeroed_witness :
    second_round_start.next_state = CHAOS_RX
    ∧ second_round_start.g.got_valid_rx = 0
    ∧ second_round_start.tx_multipaxos
        = ⟨ballot_of 1 0, MULTIPAXOS_ACCEPT, 1, 0, [7, 8], [ballot_of 1 0, 0], [2]⟩
    ∧ (process (env3 1) 1 CHAOS_RX 1 heartbeat_of_0 0 second_round_start.tx_multipaxos
        second_round_start.g).tx_multipaxos = second_round_start.tx_multipaxos
    ∧ (process (env3 1) 1 CHAOS_RX 1 heartbeat_of_0 0 second_round_start.tx_multipaxos
        second_round_start.g).tx_multipaxos.ballot ≠ heartbeat_of_0.ballot
    ∧ (process (env3 1) 1 CHAOS_RX 1 heartbeat_of_0 0 second_round_start.tx_multipaxos
        second_round_start.g).next_state = CHAOS_RX :=
  ⟨by decide, by decide, by decide,
    (tx_buffer_not_zeroed (env3 1) 1 1 heartbeat_of_0 0 second_round_start.tx_multipaxos
      second_round_start.g (by decide) (by decide) (by decide) (by decide)).2.1,
    by decide, by decide⟩

/-- C33, amended. `learner.last_round` is the last decree of the batch most
recently read under a quorum: a call of `process` whose quorum read fires sets it
to `payload.round + K - 1` (16 bits), whatever it held before, and every other
call leaves it as it was. It does not go down in a call whose quorum read does
not fire or reads a batch that ends at or after the old value. -/
theorem last_round_of_quorum_read (env : Env) (slot_count : Nat) (cs : chaos_state_t)
    (succ : Nat) (rx : multipaxos_t) (rnd : Nat) (tx : multipaxos_t) (g : Globals) :
    (quorum_read_fires env cs succ rx tx g →
      (process env slot_count cs succ rx rnd tx g).g.multipaxos_state.learner.last_round
        = ((((read_payload env cs rx tx g).round : Int) + (env.MULTIPAXOS_PKT_SIZE : Int) - 1)
            % 65536).toNat)
    ∧ (¬ quorum_read_fires env cs succ rx tx g →
      (process env slot_count cs succ rx rnd tx g).g.multipaxos_state.learner.last_round
        = g.multipaxos_state.learner.last_round)
    ∧ ((quorum_read_fires env cs succ rx tx g →
          g.multipaxos_state.learner.last_round
            ≤ ((((read_payload env cs rx tx g).round : Int) + (env.MULTIPAXOS_PKT_SIZE : Int) - 1)
                % 65536).toNat) →
      g.multipaxos_state.learner.last_round
        ≤ (process env slot_count cs succ rx rnd tx g).g.multipaxos_state.learner.last_round)
    ∧ (cs = CHAOS_RX → (read_payload env cs rx tx g).round = rx.round) := by
  have h := process_learner_cases env slot_count cs succ rx rnd tx g
  refine ⟨fun hf => ?_, fun hf => ?_, fun hle => ?_, fun hcs => ?_⟩
  · rw [(h.1 hf).1]
  · rw [(h.2 hf).1]
  · by_cases hf : quorum_read_fires env cs succ rx tx g
    · rw [(h.1 hf).1]
      exact hle hf
    · rw [(h.2 hf).1]
  · subst hcs
    rfl

/-- C33 on node 1 of the three-node network: the quorum read of the ACCEPT packet
for the decrees 1 and 2 fires, and `last_round` is 2 after the call. -/
theorem last_round_of_quorum_read_witness :
    quorum_read_fires (env3 1) CHAOS_RX 1 accept_from_0_2 (after_round_start 1).tx_multipaxos
      (after_round_start 1).g
    ∧ (process (env3 1) 1 CHAOS_RX 1 accept_from_0_2 0 (after_round_start 1).tx_multipaxos
        (after_round_start 1).g).g.multipaxos_state.learner.last_round
        = ((((read_payload (env3 1) CHAOS_RX accept_from_0_2 (after_round_start 1).tx_multipaxos
            (after_round_start 1).g).round : Int) + ((env3 1).MULTIPAXOS_PKT_SIZE : Int) - 1)
            % 65536).toNat
    ∧ (process (env3 1) 1 CHAOS_RX 1 accept_from_0_2 0 (after_round_start 1).tx_multipaxos
        (after_round_start 1).g).g.multipaxos_state.learner.last_round = 2 :=
  ⟨by decide,
    (last_round_of_quorum_read (env3 1) 1 CHAOS_RX 1 accept_from_0_2 0
      (after_round_start 1).tx_multipaxos (after_round_start 1).g).1 (by decide),
    by decide⟩

/-- C33 as stated fails: node 1 has learned the decrees up to 10 and receives,
under the flags of nodes 0 and 2, the ACCEPT packet of ballot (1,0) for the
decrees 1 and 2; after the call `last_round` is 2. -/
theorem last_round_lowered :
    learned_up_to_10.multipaxos_state.learner.last_round = 10
    ∧ quorum_read_fires (env3 1) CHAOS_RX 1 accept_from_0_2 (after_round_start 1).tx_multipaxos
        learned_up_to_10
    ∧ (process (env3 1) 1 CHAOS_RX 1 accept_from_0_2 0 (after_round_start 1).tx_multipaxos
        learned_up_to_10).g.multipaxos_state.learner.last_round = 2
    ∧ ¬ (learned_up_to_10.multipaxos_state.learner.last_round
          ≤ (process (env3 1) 1 CHAOS_RX 1 accept_from_0_2 0 (after_round_start 1).tx_multipaxos
              learned_up_to_10).g.multipaxos_state.learner.last_round) := by
  decide

/-- An iteration of the PREPARE loop leaves the acceptor state alone. -/
theorem prepare_step_acceptor (env : Env) (cs : chaos_state_t) (rx : multipaxos_t) (f : Frame)
    (i : Nat) :
    (prepare_step env cs rx f i).g.multipaxos_state.acceptor = f.g.multipaxos_state.acceptor := by
  unfold prepare_step prepare_merge prepare_local force_tx
  repeat' split
  all_goals rfl

/-- The acceptor state after the PREPARE phase of the acceptor logic is the one
after the promise. -/
theorem acceptor_prepare_acceptor (env : Env) (cs : chaos_state_t) (rx : multipaxos_t)
    (f : Frame) :
    (acceptor_prepare env cs rx f).g.multipaxos_state.acceptor
      = (prepare_promise (payload cs rx f) f).g.multipaxos_state.acceptor := by
  unfold acceptor_prepare
  rw [foldl_keeps (fun y : Frame => y.g.multipaxos_state.acceptor) (prepare_step env cs rx)
    (prepare_step_acceptor env cs rx)]
  rfl

/-- The acceptor state after the ACCEPT phase of the acceptor logic is the one
after the accept block. -/
theorem acceptor_accept_acceptor (env : Env) (cs : chaos_state_t) (rx : multipaxos_t)
    (f : Frame) :
    (acceptor_accept env cs rx f).g.multipaxos_state.acceptor
      = (accept_write env (payload cs rx f) f).g.multipaxos_state.acceptor := by
  unfold acceptor_accept accept_min_report force_tx
  split <;> rfl

/-- The acceptor state after the phase switch of the acceptor logic. -/
theorem multi_acceptor_phase_acceptor (env : Env) (cs : chaos_state_t) (rx : multipaxos_t)
    (f : Frame) :
    (acceptor_phase env cs rx f).g.multipaxos_state.acceptor
      = if (payload cs rx f).phase = MULTIPAXOS_PREPARE then
          (prepare_promise (payload cs rx f) f).g.multipaxos_state.acceptor
        else if (payload cs rx f).phase = MULTIPAXOS_ACCEPT then
          (accept_write env (payload cs rx f) f).g.multipaxos_state.acceptor
        else f.g.multipaxos_state.acceptor := by
  unfold acceptor_phase
  by_cases h1 : (payload cs rx f).phase = MULTIPAXOS_PREPARE
  · rw [if_pos h1, if_pos h1, acceptor_prepare_acceptor]
  · rw [if_neg h1, if_neg h1]
    by_cases h2 : (payload cs rx f).phase = MULTIPAXOS_ACCEPT
    · rw [if_pos h2, if_pos h2, acceptor_accept_acceptor]
    · rw [if_neg h2, if_neg h2]

/-- The new-phase block leaves the acceptor state alone. -/
theorem after_new_phase_acceptor (env : Env) (cs : chaos_state_t) (rx : multipaxos_t) (np : Nat)
    (f : Frame) :
    (after_new_phase env cs rx np f).g.multipaxos_state.acceptor
      = f.g.multipaxos_state.acceptor := by
  unfold after_new_phase
  split <;> rfl

/-- The acceptor state after the acceptor logic: the one after the phase switch
when the payload passed the ordering check, the one before otherwise. -/
theorem acceptor_logic_acceptor (env : Env) (slot_count : Nat) (cs : chaos_state_t)
    (rx : multipaxos_t) (f : Frame) :
    (acceptor_logic env slot_count cs rx f).g.multipaxos_state.acceptor
      = if ordering_ok (payload cs rx f) f.tx_multipaxos then
          (acceptor_phase env cs rx
            (after_new_phase env cs rx (new_phase_of (payload cs rx f) f.tx_multipaxos)
              f)).g.multipaxos_state.acceptor
        else f.g.multipaxos_state.acceptor := by
  unfold acceptor_logic
  by_cases ho : ordering_ok (payload cs rx f) f.tx_multipaxos
  · rw [if_pos ho, if_pos ho]
    unfold acceptor_merge
    exact congrArg (fun v => v.2.1) (transmission_logic_view env slot_count cs rx _ _)
  · rw [if_neg ho, if_neg ho]
    rfl

/-- A loop that writes values up to `B` into an array with entries up to `B`
leaves all entries up to `B`. -/
theorem foldl_set_le {β : Type} (B : Nat) (ix : β → Nat) (v : β → Nat) (hv : ∀ b, v b ≤ B)
    (l : List β) :
    ∀ a : List Nat, (∀ j, rd a j ≤ B) → ∀ j, rd (l.foldl (fun d b => d.set (ix b) (v b)) a) j ≤ B := by
  induction l with
  | nil => intro a h; exact h
  | cons b l ih =>
    intro a h
    rw [List.foldl_cons]
    apply ih
    intro j
    rw [rd_set]
    split
    · exact hv b
    · exact h j

/-- The accept block does not lower `min_proposal`, and keeps every accepted
proposal of the log at or below it. -/
theorem accept_write_invariant (env : Env) (pl : multipaxos_t) (f : Frame) :
    f.g.multipaxos_state.acceptor.min_proposal
        ≤ (accept_write env pl f).g.multipaxos_state.acceptor.min_proposal
    ∧ ((∀ j, rd f.g.multipaxos_state.acceptor.accepted_proposals j
          ≤ f.g.multipaxos_state.acceptor.min_proposal) →
        ∀ j, rd (accept_write env pl f).g.multipaxos_state.acceptor.accepted_proposals j
          ≤ (accept_write env pl f).g.multipaxos_state.acceptor.min_proposal) := by
  unfold accept_write
  by_cases h : pl.ballot ≥ f.g.multipaxos_state.acceptor.min_proposal
  · rw [if_pos h]
    refine ⟨h, fun hinv j => ?_⟩
    show rd ((List.range env.MULTIPAXOS_PKT_SIZE).foldl
        (fun a i => a.set ((pl.round + i) % env.MULTIPAXOS_LOG_SIZE) pl.ballot)
        ((catch_up_decrees pl f).foldl (fun a d => a.set (d % env.MULTIPAXOS_LOG_SIZE) 0)
          f.g.multipaxos_state.acceptor.accepted_proposals)) j ≤ pl.ballot
    apply foldl_set_le pl.ballot (fun i => (pl.round + i) % env.MULTIPAXOS_LOG_SIZE)
      (fun _ => pl.ballot) (fun _ => Nat.le_refl _)
    apply foldl_set_le pl.ballot (fun d => d % env.MULTIPAXOS_LOG_SIZE) (fun _ => 0)
      (fun _ => Nat.zero_le _)
    intro k
    exact Nat.le_trans (hinv k) h
  · rw [if_neg h]
    exact ⟨Nat.le_refl _, fun hinv => hinv⟩

/-- The promise does not lower `min_proposal` and leaves the log alone. -/
theorem prepare_promise_invariant (pl : multipaxos_t) (f : Frame) :
    f.g.multipaxos_state.acceptor.min_proposal
        ≤ (prepare_promise pl f).g.multipaxos_state.acceptor.min_proposal
    ∧ (prepare_promise pl f).g.multipaxos_state.acceptor.accepted_proposals
        = f.g.multipaxos_state.acceptor.accepted_proposals := by
  unfold prepare_promise
  by_cases h : pl.ballot > f.g.multipaxos_state.acceptor.min_proposal
  · rw [if_pos h]
    exact ⟨Nat.le_of_lt h, rfl⟩
  · rw [if_neg h]
    exact ⟨Nat.le_refl _, rfl⟩

/-- The two acceptor invariants, as a property of an acceptor state next to the
one it came from. -/
theorem acceptor_phase_invariant (env : Env) (cs : chaos_state_t) (rx : multipaxos_t)
    (f : Frame) :
    f.g.multipaxos_state.acceptor.min_proposal
        ≤ (acceptor_phase env cs rx f).g.multipaxos_state.acceptor.min_proposal
    ∧ ((∀ j, rd f.g.multipaxos_state.acceptor.accepted_proposals j
          ≤ f.g.multipaxos_state.acceptor.min_proposal) →
        ∀ j, rd (acceptor_phase env cs rx f).g.multipaxos_state.acceptor.accepted_proposals j
          ≤ (acceptor_phase env cs rx f).g.multipaxos_state.acceptor.min_proposal) := by
  rw [multi_acceptor_phase_acceptor]
  by_cases h1 : (payload cs rx f).phase = MULTIPAXOS_PREPARE
  · rw [if_pos h1]
    have hp := prepare_promise_invariant (payload cs rx f) f
    refine ⟨hp.1, fun hinv j => ?_⟩
    rw [hp.2]
    exact Nat.le_trans (hinv j) hp.1
  · rw [if_neg h1]
    by_cases h2 : (payload cs rx f).phase = MULTIPAXOS_ACCEPT
    · rw [if_pos h2]
      exact accept_write_invariant env (payload cs rx f) f
    · rw [if_neg h2]
      exact ⟨Nat.le_refl _, fun hinv => hinv⟩

/-- On a node that is not a leader the heartbeat branch leaves the acceptor state
alone. -/
theorem heartbeat_not_leader_acceptor (env : Env) (cs : chaos_state_t) (rx : multipaxos_t)
    (f : Frame) (h : f.g.multipaxos_state.leader.is_leader = 0) :
    (heartbeat env cs rx f).g.multipaxos_state.acceptor = f.g.multipaxos_state.acceptor := by
  unfold heartbeat
  rw [if_neg (fun hc => hc h)]
  split <;> rfl

/-- On a node that is not a leader, the acceptor state after the valid-slot block
is the one before it, or the one the phase switch left from a frame with the
acceptor state before it. -/
theorem valid_slot_acceptor_cases (env : Env) (slot_count : Nat) (cs : chaos_state_t)
    (succ : Nat) (rx : multipaxos_t) (f : Frame)
    (h : f.g.multipaxos_state.leader.is_leader = 0) :
    (valid_slot env slot_count cs succ rx f).g.multipaxos_state.acceptor
        = f.g.multipaxos_state.acceptor
    ∨ ∃ F : Frame, F.g.multipaxos_state.acceptor = f.g.multipaxos_state.acceptor
        ∧ (valid_slot env slot_count cs succ rx f).g.multipaxos_state.acceptor
          = (acceptor_phase env cs rx F).g.multipaxos_state.acceptor := by
  have ho : (open_valid env f).g.multipaxos_state = f.g.multipaxos_state := by
    rw [open_valid_eq]
  unfold valid_slot
  by_cases hv : slot_valid cs succ f.g
  · rw [if_pos hv]
    by_cases hp : (payload cs rx (open_valid env f)).phase = MULTIPAXOS_INIT
    · rw [if_pos hp]
      left
      rw [heartbeat_not_leader_acceptor _ _ _ _ (by rw [ho]; exact h), ho]
    · rw [if_neg hp]
      unfold paxos_slot leader_logic
      rw [if_neg (fun hc => hc.1 (by rw [acceptor_logic_leader, ho]; exact h)),
        acceptor_logic_acceptor]
      by_cases hok : ordering_ok (payload cs rx (open_valid env f)) (open_valid env f).tx_multipaxos
      · rw [if_pos hok]
        right
        exact ⟨_, by rw [after_new_phase_acceptor, ho], rfl⟩
      · rw [if_neg hok]
        left
        rw [ho]
  · rw [if_neg hv]
    left
    rfl

/-- C38. Acceptor invariants on a node that is not a leader (Multi-Paxos). For
every node state with `leader.is_leader = 0` and every input, one call of
`process` does not lower `acceptor.min_proposal`, and if every entry of
`accepted_proposals` is at most `min_proposal` before the call, so it is after
the call. -/
theorem acceptor_invariants (env : Env) (slot_count : Nat) (cs : chaos_state_t) (succ : Nat)
    (rx : multipaxos_t) (rnd : Nat) (tx : multipaxos_t) (g : Globals)
    (h : g.multipaxos_state.leader.is_leader = 0) :
    g.multipaxos_state.acceptor.min_proposal
        ≤ (process env slot_count cs succ rx rnd tx g).g.multipaxos_state.acceptor.min_proposal
    ∧ ((∀ j, rd g.multipaxos_state.acceptor.accepted_proposals j
          ≤ g.multipaxos_state.acceptor.min_proposal) →
        ∀ j, rd (process env slot_count cs succ rx rnd tx
            g).g.multipaxos_state.acceptor.accepted_proposals j
          ≤ (process env slot_count cs succ rx rnd tx
            g).g.multipaxos_state.acceptor.min_proposal) := by
  have hvl := valid_slot_not_leader env slot_count cs succ rx (entry_frame tx g) h
  have hl' : (valid_slot env slot_count cs succ rx
      (entry_frame tx g)).g.multipaxos_state.leader.is_leader = 0 := by
    rw [hvl]; exact h
  have hP : (process env slot_count cs succ rx rnd tx g).g.multipaxos_state.acceptor
      = (valid_slot env slot_count cs succ rx (entry_frame tx g)).g.multipaxos_state.acceptor := by
    show (process_frame env slot_count cs succ rx rnd tx g).g.multipaxos_state.acceptor = _
    unfold process_frame
    rw [(multi_exit_frame_frame _ _ _).1, synchrotron_logic_not_leader _ _ _ _ _ hl']
  rw [hP]
  rcases valid_slot_acceptor_cases env slot_count cs succ rx (entry_frame tx g) h with hk | hk
  · rw [hk]
    exact ⟨Nat.le_refl _, fun hinv => hinv⟩
  · obtain ⟨F, hF, hk⟩ := hk
    rw [hk]
    have hi := acceptor_phase_invariant env cs rx F
    rw [hF] at hi
    exact hi

/-- C38 on node 1 of the three-node network: the ACCEPT packet of ballot (1,0) for
the decrees 1 and 2 raises `min_proposal` from 0 to (1,0), and the accepted
proposals of its log are (1,0) or 0 afterwards. -/
theorem acceptor_invariants_witness :
    (after_round_start 1).g.multipaxos_state.acceptor.min_proposal = 0
    ∧ (process (env3 1) 1 CHAOS_RX 1 accept_from_0_2 0 (after_round_start 1).tx_multipaxos
        (after_round_start 1).g).g.multipaxos_state.acceptor.min_proposal = ballot_of 1 0
    ∧ (process (env3 1) 1 CHAOS_RX 1 accept_from_0_2 0 (after_round_start 1).tx_multipaxos
        (after_round_start 1).g).g.multipaxos_state.acceptor.accepted_proposals
        = [0, ballot_of 1 0, ballot_of 1 0, 0, 0, 0, 0, 0]
    ∧ (after_round_start 1).g.multipaxos_state.acceptor.min_proposal
        ≤ (process (env3 1) 1 CHAOS_RX 1 accept_from_0_2 0 (after_round_start 1).tx_multipaxos
            (after_round_start 1).g).g.multipaxos_state.acceptor.min_proposal :=
  ⟨by decide, by decide, by decide,
    (acceptor_invariants (env3 1) 1 CHAOS_RX 1 accept_from_0_2 0
      (after_round_start 1).tx_multipaxos (after_round_start 1).g (by decide)).1⟩

/-- The leader logic leaves the acceptor state alone. -/
theorem leader_logic_acceptor (env : Env) (pl : multipaxos_t) (f : Frame) :
    (leader_logic env pl f).g.multipaxos_state.acceptor = f.g.multipaxos_state.acceptor := by
  have hfin : ∀ a : LeadFrame,
      (leader_finish env a).g.multipaxos_state.acceptor = a.f.g.multipaxos_state.acceptor := by
    intro a
    unfold leader_finish leader_update after_loss
    repeat' split
    all_goals rfl
  have hadv : (leader_advance env f).f.g.multipaxos_state.acceptor
      = f.g.multipaxos_state.acceptor := by
    unfold leader_advance
    split <;> rfl
  have hacc : (leader_accept env f).f.g.multipaxos_state.acceptor
      = f.g.multipaxos_state.acceptor := by
    unfold leader_accept
    repeat' split
    all_goals first | rfl | exact hadv
  have hprep : (leader_prepare env pl f).f.g.multipaxos_state.acceptor
      = f.g.multipaxos_state.acceptor := by
    unfold leader_prepare
    split <;> rfl
  have hown : (leader_own env pl f).f.g.multipaxos_state.acceptor
      = f.g.multipaxos_state.acceptor := by
    unfold leader_own
    rw [(phase_delta_frame _).1]
    repeat' split
    all_goals first | rfl | exact hprep | exact hacc
  have hcomp : (leader_compete env pl f).f.g.multipaxos_state.acceptor
      = f.g.multipaxos_state.acceptor := by
    unfold leader_compete
    repeat' split
    all_goals first | rfl | exact hown
  unfold leader_logic
  split
  · rw [hfin, hcomp]
  · rfl

/-- The payload a call reads on entry, as the payload of its first frame. -/
theorem payload_entry (env : Env) (cs : chaos_state_t) (rx tx : multipaxos_t) (g : Globals) :
    payload cs rx (open_valid env (entry_frame tx g)) = entry_payload cs rx tx := by
  rw [open_valid_eq]
  rfl

/-- The new-phase block does not change what the payload reads. -/
theorem multi_payload_after_new_phase (env : Env) (cs : chaos_state_t) (rx : multipaxos_t)
    (f : Frame) :
    payload cs rx (after_new_phase env cs rx (new_phase_of (payload cs rx f) f.tx_multipaxos) f)
      = payload cs rx f := by
  by_cases hc : cs = CHAOS_TX
  · have hp : payload cs rx f = f.tx_multipaxos := by
      unfold payload
      rw [if_pos hc]
    have hn : new_phase_of (payload cs rx f) f.tx_multipaxos = 0 := by
      rw [hp]
      unfold new_phase_of
      rw [if_neg (fun h => h ⟨rfl, rfl, rfl⟩)]
    rw [hn]
    unfold after_new_phase
    rw [if_neg (fun h => h rfl)]
    rfl
  · unfold payload
    rw [if_neg hc, if_neg hc]

/-- The acceptor state after a call of `process` that merges a payload: the one
the phase switch of the acceptor logic leaves. -/
theorem process_acceptor_of_merge (env : Env) (slot_count : Nat) (cs : chaos_state_t)
    (succ : Nat) (rx : multipaxos_t) (rnd : Nat) (tx : multipaxos_t) (g : Globals)
    (hv : slot_valid cs succ g)
    (hp : (entry_payload cs rx tx).phase ≠ MULTIPAXOS_INIT)
    (ho : ordering_ok (entry_payload cs rx tx) tx) :
    (process env slot_count cs succ rx rnd tx g).g.multipaxos_state.acceptor
      = (merged_frame env cs rx tx g).g.multipaxos_state.acceptor := by
  have ho' : ordering_ok (payload cs rx (open_valid env (entry_frame tx g)))
      (open_valid env (entry_frame tx g)).tx_multipaxos := by
    rw [payload_entry, open_valid_eq]
    exact ho
  show (process_frame env slot_count cs succ rx rnd tx g).g.multipaxos_state.acceptor = _
  unfold process_frame
  rw [(multi_exit_frame_frame _ _ _).1,
    ((multi_synchrotron_logic_frame _ _ _ _ _).2.2.2.2 (multi_not_init_of_slot_valid hv)).1,
    valid_slot_of_paxos env slot_count cs succ rx tx g hv hp, leader_logic_acceptor]
  unfold leader_frame
  rw [acceptor_logic_acceptor, if_pos ho']
  rfl

/-- The acceptor state after the acceptor phases of a call that merges an ACCEPT
payload: the one the accept block leaves from the state before the call. -/
theorem merged_frame_of_accept (env : Env) (cs : chaos_state_t) (rx tx : multipaxos_t)
    (g : Globals) (hp : (entry_payload cs rx tx).phase = MULTIPAXOS_ACCEPT) :
    ∃ F : Frame, F.g.multipaxos_state.acceptor = g.multipaxos_state.acceptor
      ∧ (merged_frame env cs rx tx g).g.multipaxos_state.acceptor
        = (accept_write env (entry_payload cs rx tx) F).g.multipaxos_state.acceptor := by
  have hne : ¬ (MULTIPAXOS_ACCEPT = MULTIPAXOS_PREPARE) := by decide
  refine ⟨after_new_phase env cs rx
      (new_phase_of (payload cs rx (open_valid env (entry_frame tx g)))
        (open_valid env (entry_frame tx g)).tx_multipaxos)
      (open_valid env (entry_frame tx g)), ?_, ?_⟩
  · rw [after_new_phase_acceptor, open_valid_eq]
    rfl
  · unfold merged_frame
    rw [multi_acceptor_phase_acceptor, multi_payload_after_new_phase, payload_entry,
      if_neg (fun h => hne (hp.symm.trans h)), if_pos hp]

/-- Reading the log after the loop that writes the batch: entry `i` of the batch
is at index `(r + i) % L`. -/
theorem batch_set_rd (r K L : Nat) (v : Nat → Nat) (log : List Nat) (hKL : K ≤ L)
    (hlen : log.length = L) (i : Nat) (hi : i < K) :
    rd ((List.range K).foldl (fun a k => a.set ((r + k) % L) (v k)) log) ((r + i) % L) = v i := by
  have hgen : ∀ n, n ≤ K → i < n →
      rd ((List.range n).foldl (fun a k => a.set ((r + k) % L) (v k)) log) ((r + i) % L)
        = v i := by
    intro n
    induction n with
    | zero => intro _ h; exact absurd h (Nat.not_lt_zero i)
    | succ n ih =>
      intro hn hin
      rw [List.range_succ, List.foldl_append]
      show rd (((List.range n).foldl (fun a k => a.set ((r + k) % L) (v k)) log).set
            ((r + n) % L) (v n)) ((r + i) % L) = _
      rw [rd_set, foldl_set_length (fun k => (r + k) % L) (fun _ k => v k), hlen]
      by_cases h1 : i = n
      · subst h1
        rw [if_pos ⟨rfl, Nat.mod_lt _ (by omega)⟩]
      · rw [if_neg (fun h => log_index_ne r i n L (by omega) (by omega) h.1)]
        exact ih (by omega) (by omega)
  exact hgen K (Nat.le_refl _) hi

/-- The accept block on a ballot that is not below `min_proposal`, from a log of
`L` entries with `K <= L` and a last decree that fits 16 bits. -/
theorem accept_write_spec (env : Env) (pl : multipaxos_t) (f : Frame)
    (hKL : env.MULTIPAXOS_PKT_SIZE ≤ env.MULTIPAXOS_LOG_SIZE)
    (h16 : (pl.round : Int) + (env.MULTIPAXOS_PKT_SIZE : Int) - 1 ≤ 65535)
    (hlp : f.g.multipaxos_state.acceptor.accepted_proposals.length = env.MULTIPAXOS_LOG_SIZE)
    (hlv : f.g.multipaxos_state.acceptor.accepted_values.length = env.MULTIPAXOS_LOG_SIZE)
    (hb : pl.ballot ≥ f.g.multipaxos_state.acceptor.min_proposal) :
    (accept_write env pl f).g.multipaxos_state.acceptor.min_proposal = pl.ballot
    ∧ (∀ i, i < env.MULTIPAXOS_PKT_SIZE →
        rd (accept_write env pl f).g.multipaxos_state.acceptor.accepted_proposals
            ((pl.round + i) % env.MULTIPAXOS_LOG_SIZE) = pl.ballot
        ∧ rd (accept_write env pl f).g.multipaxos_state.acceptor.accepted_values
            ((pl.round + i) % env.MULTIPAXOS_LOG_SIZE) = rd pl.values i)
    ∧ ((accept_write env pl f).g.multipaxos_state.acceptor.last_round_participation : Int)
        = max (f.g.multipaxos_state.acceptor.last_round_participation : Int)
            ((pl.round : Int) + (env.MULTIPAXOS_PKT_SIZE : Int) - 1) := by
  unfold accept_write
  rw [if_pos hb]
  refine ⟨rfl, fun i hi => ⟨?_, ?_⟩, ?_⟩
  · exact batch_set_rd pl.round env.MULTIPAXOS_PKT_SIZE env.MULTIPAXOS_LOG_SIZE
      (fun _ => pl.ballot) _ hKL
      ((foldl_set_length (fun d => d % env.MULTIPAXOS_LOG_SIZE) (fun _ _ => 0) _ _).trans hlp)
      i hi
  · exact batch_set_rd pl.round env.MULTIPAXOS_PKT_SIZE env.MULTIPAXOS_LOG_SIZE
      (fun k => rd pl.values k) _ hKL
      ((foldl_set_length (fun d => d % env.MULTIPAXOS_LOG_SIZE) (fun _ _ => 0) _ _).trans hlv)
      i hi
  · show ((accept_last_round env pl f : Nat) : Int) = _
    unfold accept_last_round
    by_cases hc : (f.g.multipaxos_state.acceptor.last_round_participation : Int)
        > (pl.round : Int) + (env.MULTIPAXOS_PKT_SIZE : Int) - 1
    · rw [if_pos hc]
      omega
    · rw [if_neg hc]
      omega

/-- C32. Acceptor ACCEPT writes (Multi-Paxos). Assume `K <= L`, logs of `L`
entries and `payload.round + K - 1 <= 65535`. For a call of `process` that merges
an ACCEPT payload (valid slot, ordering check passed): if `payload.ballot >=
acceptor.min_proposal` then after the call `min_proposal = payload.ballot`, for
every `i < K` the log holds `payload.ballot` and `payload.values[i]` at index
`(payload.round + i) mod L`, and `last_round_participation` is the maximum of its
old value and `payload.round + K - 1`; if `payload.ballot <
acceptor.min_proposal` the acceptor state is unchanged. -/
theorem accept_writes (env : Env) (slot_count : Nat) (cs : chaos_state_t)
    (succ : Nat) (rx : multipaxos_t) (rnd : Nat) (tx : multipaxos_t) (g : Globals)
    (hKL : env.MULTIPAXOS_PKT_SIZE ≤ env.MULTIPAXOS_LOG_SIZE)
    (h16 : ((entry_payload cs rx tx).round : Int) + (env.MULTIPAXOS_PKT_SIZE : Int) - 1 ≤ 65535)
    (hlp : g.multipaxos_state.acceptor.accepted_proposals.length = env.MULTIPAXOS_LOG_SIZE)
    (hlv : g.multipaxos_state.acceptor.accepted_values.length = env.MULTIPAXOS_LOG_SIZE)
    (hv : slot_valid cs succ g)
    (hp : (entry_payload cs rx tx).phase = MULTIPAXOS_ACCEPT)
    (ho : ordering_ok (entry_payload cs rx tx) tx) :
    ((entry_payload cs rx tx).ballot ≥ g.multipaxos_state.acceptor.min_proposal →
      (process env slot_count cs succ rx rnd tx g).g.multipaxos_state.acceptor.min_proposal
        = (entry_payload cs rx tx).ballot
      ∧ (∀ i, i < env.MULTIPAXOS_PKT_SIZE →
          rd (process env slot_count cs succ rx rnd tx
              g).g.multipaxos_state.acceptor.accepted_proposals
            (((entry_payload cs rx tx).round + i) % env.MULTIPAXOS_LOG_SIZE)
            = (entry_payload cs rx tx).ballot
          ∧ rd (process env slot_count cs succ rx rnd tx
              g).g.multipaxos_state.acceptor.accepted_values
            (((entry_payload cs rx tx).round + i) % env.MULTIPAXOS_LOG_SIZE)
            = rd (entry_payload cs rx tx).values i)
      ∧ ((process env slot_count cs succ rx rnd tx
            g).g.multipaxos_state.acceptor.last_round_participation : Int)
          = max (g.multipaxos_state.acceptor.last_round_participation : Int)
              (((entry_payload cs rx tx).round : Int) + (env.MULTIPAXOS_PKT_SIZE : Int) - 1))
    ∧ ((entry_payload cs rx tx).ballot < g.multipaxos_state.acceptor.min_proposal →
      (process env slot_count cs succ rx rnd tx g).g.multipaxos_state.acceptor
        = g.multipaxos_state.acceptor) := by
  have hne : (entry_payload cs rx tx).phase ≠ MULTIPAXOS_INIT := by
    rw [hp]; decide
  obtain ⟨F, hF, hm⟩ := merged_frame_of_accept env cs rx tx g hp
  rw [process_acceptor_of_merge env slot_count cs succ rx rnd tx g hv hne ho, hm]
  constructor
  · intro hb
    have hs := accept_write_spec env (entry_payload cs rx tx) F hKL h16 (by rw [hF]; exact hlp)
      (by rw [hF]; exact hlv) (by rw [hF]; exact hb)
    rw [hF] at hs
    exact hs
  · intro hb
    unfold accept_write
    rw [if_neg (by rw [hF]; exact Nat.not_le.mpr hb)]
    exact hF

/-- C32 on node 1 of the three-node network: the ACCEPT packet of ballot (1,0) with
the values 7 and 8 for the decrees 1 and 2 is accepted: `min_proposal` is (1,0),
the log holds the ballot and the values at the indices 1 and 2, and the node
took part up to decree 2. -/
theorem accept_writes_witness :
    (process (env3 1) 1 CHAOS_RX 1 accept_from_0_2 0 (after_round_start 1).tx_multipaxos
        (after_round_start 1).g).g.multipaxos_state.acceptor
      = ⟨ballot_of 1 0, [0, ballot_of 1 0, ballot_of 1 0, 0, 0, 0, 0, 0],
          [0, 7, 8, 0, 0, 0, 0, 0], 2⟩
    ∧ (process (env3 1) 1 CHAOS_RX 1 accept_from_0_2 0 (after_round_start 1).tx_multipaxos
        (after_round_start 1).g).g.multipaxos_state.acceptor.min_proposal
      = (entry_payload CHAOS_RX accept_from_0_2 (after_round_start 1).tx_multipaxos).ballot :=
  ⟨by decide,
    ((accept_writes (env3 1) 1 CHAOS_RX 1 accept_from_0_2 0 (after_round_start 1).tx_multipaxos
      (after_round_start 1).g (by decide) (by decide) (by decide) (by decide) (by decide)
      (by decide) (by decide)).1 (by decide)).1⟩

/-- The acceptor logic leaves the template packet alone. -/
theorem acceptor_logic_local (env : Env) (slot_count : Nat) (cs : chaos_state_t)
    (rx : multipaxos_t) (f : Frame) :
    (acceptor_logic env slot_count cs rx f).g.multipaxos_local = f.g.multipaxos_local := by
  have hstep : ∀ (x : Frame) (i : Nat),
      (prepare_step env cs rx x i).g.multipaxos_local = x.g.multipaxos_local := by
    intro x i
    unfold prepare_step prepare_merge prepare_local force_tx
    repeat' split
    all_goals rfl
  have hphase : ∀ x : Frame,
      (acceptor_phase env cs rx x).g.multipaxos_local = x.g.multipaxos_local := by
    intro x
    unfold acceptor_phase
    split
    · unfold acceptor_prepare
      rw [foldl_keeps (fun y : Frame => y.g.multipaxos_local) (prepare_step env cs rx) hstep]
      unfold prepare_round prepare_promise
      split <;> rfl
    · split
      · unfold acceptor_accept accept_min_report accept_write force_tx
        repeat' split
        all_goals rfl
      · rfl
  have hnew : ∀ (np : Nat) (x : Frame),
      (after_new_phase env cs rx np x).g.multipaxos_local = x.g.multipaxos_local := by
    intro np x
    unfold after_new_phase
    split <;> rfl
  have hq : ∀ (pl : multipaxos_t) (x : Frame),
      (quorum_read env pl x).g.multipaxos_local = x.g.multipaxos_local := by
    intro pl x
    unfold quorum_read
    split <;> rfl
  have hc : ∀ (pl : multipaxos_t) (fs : Nat) (x : Frame),
      (completion env slot_count pl fs x).g.multipaxos_local = x.g.multipaxos_local := by
    intro pl fs x
    unfold completion record_completion
    repeat' split
    all_goals rfl
  have ht : ∀ (np : Nat) (x : Frame),
      (transmission_logic env slot_count cs rx np x).g.multipaxos_local
        = x.g.multipaxos_local := by
    intro np x
    unfold transmission_logic
    rw [hc, hq]
    rfl
  unfold acceptor_logic
  split
  · unfold acceptor_merge
    rw [ht, hphase, hnew]
  · rfl

/-- The closing blocks of the leader logic leave `do_another_phase_1` alone. -/
theorem leader_finish_another (env : Env) (a : LeadFrame) :
    (leader_finish env a).g.multipaxos_state.leader.do_another_phase_1
      = a.f.g.multipaxos_state.leader.do_another_phase_1 := by
  unfold leader_finish leader_update after_loss
  repeat' split
  all_goals rfl

/-- The leader logic of a leader in PREPARE on a payload with its own ballot, phase
and round sets `do_another_phase_1` to the outcome of the test on
`max_heard_round`. -/
theorem leader_logic_another (env : Env) (pl : multipaxos_t) (f : Frame)
    (h1 : f.g.multipaxos_state.leader.is_leader ≠ 0)
    (h2 : f.g.multipaxos_state.leader.got_majority = 0)
    (h3 : f.g.multipaxos_state.leader.phase = MULTIPAXOS_PREPARE)
    (h4 : pl.ballot = f.g.multipaxos_state.leader.proposed_ballot)
    (h5 : pl.phase = MULTIPAXOS_PREPARE)
    (h6 : pl.round = f.g.multipaxos_state.leader.current_round) :
    (leader_logic env pl f).g.multipaxos_state.leader.do_another_phase_1
      = another_phase env pl := by
  unfold leader_logic
  rw [if_pos ⟨h1, h2⟩, leader_finish_another]
  unfold leader_compete
  rw [if_pos h4, if_pos ⟨h5.trans h3.symm, h6⟩]
  unfold leader_own
  rw [if_pos h3, (phase_delta_frame _).1]
  unfold leader_prepare
  split <;> rfl

/-- The phase transition back to PREPARE, on the leader state and the TX
packet. -/
theorem leader_update_to_prepare (env : Env) (x : Frame) :
    (leader_update env 1 x).g.multipaxos_state.leader
      = { x.g.multipaxos_state.leader with
          proposed_values :=
            zero_first env.MULTIPAXOS_PKT_SIZE x.g.multipaxos_state.leader.proposed_values,
          got_majority := 0 }
    ∧ (leader_update env 1 x).tx_multipaxos
      = ⟨x.g.multipaxos_state.leader.proposed_ballot, x.g.multipaxos_state.leader.phase,
          x.g.multipaxos_state.leader.current_round, x.g.multipaxos_state.leader.current_round,
          zero_first env.MULTIPAXOS_PKT_SIZE x.tx_multipaxos.values,
          zero_first env.MULTIPAXOS_PKT_SIZE x.tx_multipaxos.proposals,
          copy_first (FLAGS_LEN env) x.tx_multipaxos.flags x.g.multipaxos_local.flags⟩ := by
  unfold leader_update
  rw [if_pos rfl]
  exact ⟨rfl, rfl⟩

/-- The leader logic on a leader that completes its ACCEPT phase with
`do_another_phase_1` set: the leader is back in PREPARE for the next window, and
the TX packet is the PREPARE packet for it. -/
theorem leader_logic_iterate (env : Env) (pl : multipaxos_t) (f : Frame)
    (h1 : f.g.multipaxos_state.leader.is_leader ≠ 0)
    (h2 : f.g.multipaxos_state.leader.got_majority = 0)
    (h3 : f.g.multipaxos_state.leader.phase = MULTIPAXOS_ACCEPT)
    (h4 : pl.ballot = f.g.multipaxos_state.leader.proposed_ballot)
    (h5 : pl.phase = MULTIPAXOS_ACCEPT)
    (h6 : pl.round = f.g.multipaxos_state.leader.current_round)
    (h7 : f.g.multipaxos_state.rx_min_proposal ≤ f.g.multipaxos_state.leader.proposed_ballot)
    (h8 : f.g.n_replies > env.chaos_node_count / 2)
    (h9 : f.g.multipaxos_state.leader.do_another_phase_1 ≠ 0) :
    (leader_logic env pl f).g.multipaxos_state.leader
      = { f.g.multipaxos_state.leader with
          proposed_values :=
            zero_first env.MULTIPAXOS_PKT_SIZE f.g.multipaxos_state.leader.proposed_values,
          phase := MULTIPAXOS_PREPARE,
          got_majority := 0,
          current_round :=
            (f.g.multipaxos_state.leader.current_round + env.MULTIPAXOS_PKT_SIZE) % 65536 }
    ∧ (leader_logic env pl f).tx_multipaxos
      = ⟨f.g.multipaxos_state.leader.proposed_ballot, MULTIPAXOS_PREPARE,
          (f.g.multipaxos_state.leader.current_round + env.MULTIPAXOS_PKT_SIZE) % 65536,
          (f.g.multipaxos_state.leader.current_round + env.MULTIPAXOS_PKT_SIZE) % 65536,
          zero_first env.MULTIPAXOS_PKT_SIZE f.tx_multipaxos.values,
          zero_first env.MULTIPAXOS_PKT_SIZE f.tx_multipaxos.proposals,
          copy_first (FLAGS_LEN env) f.tx_multipaxos.flags f.g.multipaxos_local.flags⟩ := by
  have hne : ¬ (MULTIPAXOS_ACCEPT = MULTIPAXOS_PREPARE) := by decide
  have hfin : ∀ a : LeadFrame, a.lost_proposal = 0 → a.update_phase = 1 →
      leader_finish env a = leader_update env 1 a.f := by
    intro a hl hu
    unfold leader_finish after_loss
    rw [hu, hl, if_pos (by decide), if_neg (fun h => h rfl)]
  unfold leader_logic
  rw [if_pos ⟨h1, h2⟩]
  unfold leader_compete
  rw [if_pos h4, if_pos ⟨h5.trans h3.symm, h6⟩]
  unfold leader_own
  rw [if_neg (fun h => hne (h3.symm.trans h)), if_pos h3]
  unfold leader_accept
  rw [if_neg (Nat.not_lt.mpr h7), if_pos h8, if_pos h2]
  unfold leader_advance
  rw [if_pos h9]
  rw [hfin _ ((phase_delta_frame _).2.2.1.trans rfl) ((phase_delta_frame _).2.2.2.trans rfl)]
  have hu := leader_update_to_prepare env (phase_delta
    ⟨{ f with
       g.multipaxos_state.leader.got_majority := 1,
       g.multipaxos_state.leader.current_round :=
         (f.g.multipaxos_state.leader.current_round + env.MULTIPAXOS_PKT_SIZE) % 65536,
       g.multipaxos_state.leader.phase := MULTIPAXOS_PREPARE }, 0, 1⟩).f
  rw [(phase_delta_frame _).1, (phase_delta_frame _).2.1] at hu
  exact hu

/-- The Multi-Paxos state and the TX buffer after a call of `process` in a valid
slot whose payload is not in `MULTIPAXOS_INIT`: those the leader logic leaves. -/
theorem process_of_leader_logic (env : Env) (slot_count : Nat) (cs : chaos_state_t)
    (succ : Nat) (rx : multipaxos_t) (rnd : Nat) (tx : multipaxos_t) (g : Globals)
    (hv : slot_valid cs succ g)
    (hp : (entry_payload cs rx tx).phase ≠ MULTIPAXOS_INIT) :
    (process env slot_count cs succ rx rnd tx g).g.multipaxos_state
      = (leader_logic env (payload cs rx (leader_frame env slot_count cs rx tx g))
          (leader_frame env slot_count cs rx tx g)).g.multipaxos_state
    ∧ (process env slot_count cs succ rx rnd tx g).tx_multipaxos
      = (leader_logic env (payload cs rx (leader_frame env slot_count cs rx tx g))
          (leader_frame env slot_count cs rx tx g)).tx_multipaxos := by
  constructor
  · show (process_frame env slot_count cs succ rx rnd tx g).g.multipaxos_state = _
    unfold process_frame
    rw [(multi_exit_frame_frame _ _ _).1,
      ((multi_synchrotron_logic_frame _ _ _ _ _).2.2.2.2 (multi_not_init_of_slot_valid hv)).1,
      valid_slot_of_paxos env slot_count cs succ rx tx g hv hp]
  · show (process_frame env slot_count cs succ rx rnd tx g).tx_multipaxos = _
    unfold process_frame
    rw [(multi_exit_frame_frame _ _ _).2.1,
      ((multi_synchrotron_logic_frame _ _ _ _ _).2.2.2.2 (multi_not_init_of_slot_valid hv)).2,
      valid_slot_of_paxos env slot_count cs succ rx tx g hv hp]

/-- The frame the leader logic of a call starts from has the leader state and the
template packet of before the call, and its payload has ballot, phase and round
of the payload read on entry. -/
theorem leader_frame_entry (env : Env) (slot_count : Nat) (cs : chaos_state_t)
    (rx tx : multipaxos_t) (g : Globals) :
    (leader_frame env slot_count cs rx tx g).g.multipaxos_state.leader
      = g.multipaxos_state.leader
    ∧ (leader_frame env slot_count cs rx tx g).g.multipaxos_local = g.multipaxos_local
    ∧ (payload cs rx (leader_frame env slot_count cs rx tx g)).ballot
      = (entry_payload cs rx tx).ballot
    ∧ (payload cs rx (leader_frame env slot_count cs rx tx g)).phase
      = (entry_payload cs rx tx).phase
    ∧ (payload cs rx (leader_frame env slot_count cs rx tx g)).round
      = (entry_payload cs rx tx).round := by
  have hpe : payload cs rx (open_valid env (entry_frame tx g)) = entry_payload cs rx tx := by
    rw [open_valid_eq]
    rfl
  have hm := multi_payload_after_acceptor_logic env slot_count cs rx
    (open_valid env (entry_frame tx g))
  rw [hpe] at hm
  unfold leader_frame
  refine ⟨?_, ?_, hm.1, hm.2.1, hm.2.2⟩
  · rw [acceptor_logic_leader, open_valid_eq]
    rfl
  · rw [acceptor_logic_local, open_valid_eq]
    rfl

/-- C34. Iterative Prepare (Multi-Paxos). Take a call of `process` in a valid slot
on a leader without majority whose payload carries the leader's ballot, phase and
round. In PREPARE, `do_another_phase_1` is 1 after the call if and only if
`payload.max_heard_round > payload.round + K - 1` (the payload as the leader logic
reads it), and 0 otherwise. In ACCEPT with a majority of flags and no higher
`min_proposal` reported: with `do_another_phase_1` set the leader is in PREPARE
after the call, `current_round` is the old one plus `K` (in 16 bits),
`got_majority` is 0, and the TX packet has the proposed ballot, phase PREPARE,
`round = max_heard_round` = the new `current_round`, its `K` values and proposals
zero and its flags those of the local template; with `do_another_phase_1 = 0` the
leader stays in ACCEPT with `got_majority = 1` and the round advanced. -/
theorem iterative_prepare (env : Env) (slot_count : Nat) (cs : chaos_state_t)
    (succ : Nat) (rx : multipaxos_t) (rnd : Nat) (tx : multipaxos_t) (g : Globals)
    (hv : slot_valid cs succ g)
    (hl : g.multipaxos_state.leader.is_leader ≠ 0)
    (hg : g.multipaxos_state.leader.got_majority = 0)
    (hb : (entry_payload cs rx tx).ballot = g.multipaxos_state.leader.proposed_ballot)
    (hph : (entry_payload cs rx tx).phase = g.multipaxos_state.leader.phase)
    (hr : (entry_payload cs rx tx).round = g.multipaxos_state.leader.current_round) :
    (g.multipaxos_state.leader.phase = MULTIPAXOS_PREPARE →
      ((process env slot_count cs succ rx rnd tx g).g.multipaxos_state.leader.do_another_phase_1 = 1
        ↔ ((payload cs rx (leader_frame env slot_count cs rx tx g)).max_heard_round : Int)
            > ((payload cs rx (leader_frame env slot_count cs rx tx g)).round : Int)
              + (env.MULTIPAXOS_PKT_SIZE : Int) - 1)
      ∧ ((process env slot_count cs succ rx rnd tx g).g.multipaxos_state.leader.do_another_phase_1 = 0
        ↔ ¬ ((payload cs rx (leader_frame env slot_count cs rx tx g)).max_heard_round : Int)
            > ((payload cs rx (leader_frame env slot_count cs rx tx g)).round : Int)
              + (env.MULTIPAXOS_PKT_SIZE : Int) - 1))
    ∧ (g.multipaxos_state.leader.phase = MULTIPAXOS_ACCEPT →
      (leader_frame env slot_count cs rx tx g).g.multipaxos_state.rx_min_proposal
        ≤ g.multipaxos_state.leader.proposed_ballot →
      (leader_frame env slot_count cs rx tx g).g.n_replies > env.chaos_node_count / 2 →
      (g.multipaxos_state.leader.do_another_phase_1 ≠ 0 →
        (process env slot_count cs succ rx rnd tx g).g.multipaxos_state.leader.phase
          = MULTIPAXOS_PREPARE
        ∧ (process env slot_count cs succ rx rnd tx g).g.multipaxos_state.leader.current_round
          = (g.multipaxos_state.leader.current_round + env.MULTIPAXOS_PKT_SIZE) % 65536
        ∧ (g.multipaxos_state.leader.current_round + env.MULTIPAXOS_PKT_SIZE < 65536 →
          (process env slot_count cs succ rx rnd tx g).g.multipaxos_state.leader.current_round
            = g.multipaxos_state.leader.current_round + env.MULTIPAXOS_PKT_SIZE)
        ∧ (process env slot_count cs succ rx rnd tx g).g.multipaxos_state.leader.got_majority = 0
        ∧ (process env slot_count cs succ rx rnd tx g).tx_multipaxos.ballot
          = g.multipaxos_state.leader.proposed_ballot
        ∧ (process env slot_count cs succ rx rnd tx g).tx_multipaxos.phase = MULTIPAXOS_PREPARE
        ∧ (process env slot_count cs succ rx rnd tx g).tx_multipaxos.round
          = (process env slot_count cs succ rx rnd tx g).g.multipaxos_state.leader.current_round
        ∧ (process env slot_count cs succ rx rnd tx g).tx_multipaxos.max_heard_round
          = (process env slot_count cs succ rx rnd tx g).g.multipaxos_state.leader.current_round
        ∧ (∀ i, i < env.MULTIPAXOS_PKT_SIZE →
            rd (process env slot_count cs succ rx rnd tx g).tx_multipaxos.values i = 0
            ∧ rd (process env slot_count cs succ rx rnd tx g).tx_multipaxos.proposals i = 0)
        ∧ (∀ i, i < FLAGS_LEN env →
            i < (process env slot_count cs succ rx rnd tx g).tx_multipaxos.flags.length →
            rd (process env slot_count cs succ rx rnd tx g).tx_multipaxos.flags i
              = rd g.multipaxos_local.flags i))
      ∧ (g.multipaxos_state.leader.do_another_phase_1 = 0 →
        (process env slot_count cs succ rx rnd tx g).g.multipaxos_state.leader.phase
          = MULTIPAXOS_ACCEPT
        ∧ (process env slot_count cs succ rx rnd tx g).g.multipaxos_state.leader.got_majority = 1
        ∧ (process env slot_count cs succ rx rnd tx g).g.multipaxos_state.leader.current_round
          = (g.multipaxos_state.leader.current_round + env.MULTIPAXOS_PKT_SIZE) % 65536)) := by
  obtain ⟨hfl, hfloc, hfb, hfp, hfr⟩ := leader_frame_entry env slot_count cs rx tx g
  have zero_rd : ∀ (t : List Nat) (i : Nat), i < env.MULTIPAXOS_PKT_SIZE →
      rd (zero_first env.MULTIPAXOS_PKT_SIZE t) i = 0 := by
    intro t i hi
    unfold zero_first
    rw [range_set_rd (fun _ => 0)]
    by_cases hlen : i < t.length
    · rw [if_pos ⟨hi, hlen⟩]
    · rw [if_neg (fun h => hlen h.2)]
      unfold rd
      exact List.getD_eq_default _ _ (Nat.le_of_not_lt hlen)
  constructor
  · intro hprep
    have hp : (entry_payload cs rx tx).phase ≠ MULTIPAXOS_INIT := by
      rw [hph, hprep]; decide
    have hd := leader_logic_another env (payload cs rx (leader_frame env slot_count cs rx tx g))
      (leader_frame env slot_count cs rx tx g) (by rw [hfl]; exact hl) (by rw [hfl]; exact hg)
      (by rw [hfl]; exact hprep) (by rw [hfb, hfl]; exact hb) (by rw [hfp, hph]; exact hprep)
      (by rw [hfr, hfl]; exact hr)
    rw [(process_of_leader_logic env slot_count cs succ rx rnd tx g hv hp).1, hd]
    unfold another_phase
    constructor
    · constructor
      · intro h
        by_contra hc
        rw [if_neg hc] at h
        exact absurd h (by decide)
      · intro h
        rw [if_pos h]
    · constructor
      · intro h hc
        rw [if_pos hc] at h
        exact absurd h (by decide)
      · intro h
        rw [if_neg h]
  · intro hacc hmin hmaj
    have hp : (entry_payload cs rx tx).phase ≠ MULTIPAXOS_INIT := by
      rw [hph, hacc]; decide
    obtain ⟨hs, ht⟩ := process_of_leader_logic env slot_count cs succ rx rnd tx g hv hp
    constructor
    · intro hd
      have hi := leader_logic_iterate env (payload cs rx (leader_frame env slot_count cs rx tx g))
        (leader_frame env slot_count cs rx tx g) (by rw [hfl]; exact hl) (by rw [hfl]; exact hg)
        (by rw [hfl]; exact hacc) (by rw [hfb, hfl]; exact hb) (by rw [hfp, hph]; exact hacc)
        (by rw [hfr, hfl]; exact hr) (by rw [hfl]; exact hmin) hmaj (by rw [hfl]; exact hd)
      rw [hfl, hfloc] at hi
      rw [hs, ht, hi.1, hi.2]
      refine ⟨rfl, rfl, fun hlt => Nat.mod_eq_of_lt hlt, rfl, rfl, rfl, rfl, rfl,
        fun i hi => ⟨zero_rd _ i hi, zero_rd _ i hi⟩, fun i hi hlen => ?_⟩
      show rd (copy_first (FLAGS_LEN env) _ g.multipaxos_local.flags) i = _
      rw [copy_first_rd]
      have hlen' : i < (copy_first (FLAGS_LEN env)
          (leader_frame env slot_count cs rx tx g).tx_multipaxos.flags
          g.multipaxos_local.flags).length := hlen
      rw [copy_first_length] at hlen'
      rw [if_pos ⟨hi, hlen'⟩]
    · intro hd
      have ha := leader_logic_advance env (payload cs rx (leader_frame env slot_count cs rx tx g))
        (leader_frame env slot_count cs rx tx g) (by rw [hfl]; exact hl) (by rw [hfl]; exact hg)
        (by rw [hfl]; exact hacc) (by rw [hfb, hfl]; exact hb) (by rw [hfp, hph]; exact hacc)
        (by rw [hfr, hfl]; exact hr) (by rw [hfl]; exact hmin) hmaj (by rw [hfl]; exact hd)
      rw [hfl] at ha
      rw [hs, ha]
      exact ⟨hacc, rfl, rfl⟩

/-- C34 on leader 0 of the three-node network, window [4,5]: the reply of node 2
with `max_heard_round = 9` sets `do_another_phase_1` and, with the majority,
takes the leader to ACCEPT; it merges the reply of node 1 to its ACCEPT packet,
and when it reads the packet back with the flags of a majority it is back in
PREPARE for the window [6,7], with a zeroed PREPARE packet that carries its own
flag only. -/
theorem iterative_prepare_witness :
    heard_9.g.multipaxos_state.leader = ⟨ballot_of 2 0, [7, 8], 1, MULTIPAXOS_ACCEPT, 4, 0, 1⟩
    ∧ heard_9.tx_multipaxos = ⟨ballot_of 2 0, MULTIPAXOS_ACCEPT, 4, 9, [7, 8], [0, 0], [1]⟩
    ∧ accept_4_5_merged.tx_multipaxos
      = ⟨ballot_of 2 0, MULTIPAXOS_ACCEPT, 4, 9, [7, 8], [0, 0], [3]⟩
    ∧ (process (env3 0) 7 CHAOS_TX 1 empty_packet 0 accept_4_5_merged.tx_multipaxos
        accept_4_5_merged.g).tx_multipaxos
      = ⟨ballot_of 2 0, MULTIPAXOS_PREPARE, 6, 6, [0, 0], [0, 0], [1]⟩
    ∧ (process (env3 0) 7 CHAOS_TX 1 empty_packet 0 accept_4_5_merged.tx_multipaxos
        accept_4_5_merged.g).g.multipaxos_state.leader.current_round = 6
    ∧ (process (env3 0) 7 CHAOS_TX 1 empty_packet 0 accept_4_5_merged.tx_multipaxos
        accept_4_5_merged.g).g.multipaxos_state.leader.phase = MULTIPAXOS_PREPARE :=
  ⟨by decide, by decide, by decide, by decide, by decide,
    (((iterative_prepare (env3 0) 7 CHAOS_TX 1 empty_packet 0 accept_4_5_merged.tx_multipaxos
      accept_4_5_merged.g (by decide) (by decide) (by decide) (by decide) (by decide)
      (by decide)).2 (by decide) (by decide) (by decide)).1 (by decide)).1⟩

/-- An iteration of the PREPARE loop leaves the statics alone. -/
theorem prepare_step_statics (env : Env) (cs : chaos_state_t) (rx : multipaxos_t) (f : Frame)
    (j : Nat) : prepare_statics (prepare_step env cs rx f j) = prepare_statics f := by
  unfold prepare_step prepare_merge prepare_local force_tx prepare_statics
  repeat' split
  all_goals simp only [List.length_set]

/-- Iteration `j` of the PREPARE loop leaves the entries at other indices
alone. -/
theorem prepare_step_other (env : Env) (cs : chaos_state_t) (rx : multipaxos_t) (f : Frame)
    (i j : Nat) (hne : i ≠ j) :
    prepare_column i (prepare_step env cs rx f j) = prepare_column i f := by
  have hset : ∀ (l : List Nat) (v : Nat), rd (l.set j v) i = rd l i := by
    intro l v
    rw [rd_set, if_neg (fun h => hne h.1)]
  unfold prepare_step prepare_merge prepare_local force_tx prepare_column
  repeat' split
  all_goals simp only [hset]

/-- The payload reads of iteration `i` depend on entry `i` and the statics
only. -/
theorem prepare_read_congr (cs : chaos_state_t) (rx : multipaxos_t) (i : Nat) (f f' : Frame)
    (hc : prepare_column i f' = prepare_column i f)
    (hs : prepare_statics f' = prepare_statics f) :
    prepare_read cs rx i f' = prepare_read cs rx i f := by
  unfold prepare_column at hc
  unfold prepare_statics at hs
  simp only [Prod.mk.injEq] at hc hs
  unfold prepare_read payload
  split
  · rw [hs.2.2.2.1, hc.2.2.1, hc.2.2.2]
  · rfl

/-- Iteration `i` of the PREPARE loop on entry `i`. -/
theorem prepare_step_own (env : Env) (cs : chaos_state_t) (rx : multipaxos_t) (f : Frame)
    (i : Nat)
    (h1 : i < f.g.multipaxos_state.rx_accepted_proposals.length)
    (h2 : i < f.g.multipaxos_state.rx_accepted_values.length)
    (h3 : i < f.tx_multipaxos.proposals.length)
    (h4 : i < f.tx_multipaxos.values.length) :
    prepare_column i (prepare_step env cs rx f i)
      = prepare_entry env f.g.multipaxos_state.acceptor.last_round_participation
          f.g.multipaxos_state.acceptor.accepted_proposals
          f.g.multipaxos_state.acceptor.accepted_values (prepare_read cs rx i f) i
          (prepare_column i f) := by
  have hset : ∀ (l : List Nat) (v : Nat), i < l.length → rd (l.set i v) i = v := by
    intro l v hl
    rw [rd_set, if_pos ⟨rfl, hl⟩]
  unfold prepare_step prepare_entry prepare_read prepare_column
  generalize payload cs rx f = P
  dsimp only
  by_cases hc : P.round + i ≤ f.g.multipaxos_state.acceptor.last_round_participation
      ∧ rd f.g.multipaxos_state.acceptor.accepted_proposals
          ((P.round + i) % env.MULTIPAXOS_LOG_SIZE)
        > rd f.g.multipaxos_state.rx_accepted_proposals i
  · rw [if_pos hc]
    unfold prepare_local
    rw [if_pos hc]
    unfold prepare_merge force_tx
    dsimp only
    rw [hset _ _ h1, hset _ _ h2]
    split
    · dsimp only
      rw [hset _ _ h3, hset _ _ h4, hset _ _ h1, hset _ _ h2]
    · dsimp only
      rw [hset _ _ (by rw [List.length_set]; exact h1),
        hset _ _ (by rw [List.length_set]; exact h2)]
  · rw [if_neg hc]
    unfold prepare_local
    rw [if_neg hc]
    unfold prepare_merge force_tx
    split
    · dsimp only
      rw [hset _ _ h3, hset _ _ h4]
    · dsimp only
      rw [hset _ _ h1, hset _ _ h2]

/-- The PREPARE loop over `n` entries: the statics are as before; an entry at or
above `n` is as before; an entry below `n` is what its iteration made of it. -/
theorem prepare_fold_column (env : Env) (cs : chaos_state_t) (rx : multipaxos_t) (f : Frame)
    (i : Nat)
    (h1 : i < f.g.multipaxos_state.rx_accepted_proposals.length)
    (h2 : i < f.g.multipaxos_state.rx_accepted_values.length)
    (h3 : i < f.tx_multipaxos.proposals.length)
    (h4 : i < f.tx_multipaxos.values.length) :
    ∀ n,
      prepare_statics ((List.range n).foldl (prepare_step env cs rx) f) = prepare_statics f
      ∧ (n ≤ i →
          prepare_column i ((List.range n).foldl (prepare_step env cs rx) f)
            = prepare_column i f)
      ∧ (i < n →
          prepare_column i ((List.range n).foldl (prepare_step env cs rx) f)
            = prepare_entry env f.g.multipaxos_state.acceptor.last_round_participation
                f.g.multipaxos_state.acceptor.accepted_proposals
                f.g.multipaxos_state.acceptor.accepted_values (prepare_read cs rx i f) i
                (prepare_column i f)) := by
  intro n
  induction n with
  | zero =>
    exact ⟨rfl, fun _ => rfl, fun h => absurd h (Nat.not_lt_zero i)⟩
  | succ n ih =>
    rw [List.range_succ, List.foldl_append]
    show prepare_statics (prepare_step env cs rx ((List.range n).foldl (prepare_step env cs rx) f) n)
        = prepare_statics f ∧ _
    generalize (List.range n).foldl (prepare_step env cs rx) f = F at ih
    have hst : prepare_statics (prepare_step env cs rx F n) = prepare_statics f := by
      rw [prepare_step_statics, ih.1]
    refine ⟨hst, ?_, ?_⟩
    · intro hle
      show prepare_column i (prepare_step env cs rx F n) = _
      rw [prepare_step_other env cs rx F i n (by omega)]
      exact ih.2.1 (by omega)
    · intro hlt
      show prepare_column i (prepare_step env cs rx F n) = _
      by_cases hin : i = n
      · subst hin
        have hcol := ih.2.1 (Nat.le_refl _)
        have hs := ih.1
        have hread := prepare_read_congr cs rx i f F hcol hs
        unfold prepare_statics at hs
        simp only [Prod.mk.injEq] at hs
        rw [prepare_step_own env cs rx F i (by rw [hs.2.2.2.2.1]; exact h1)
          (by rw [hs.2.2.2.2.2.1]; exact h2) (by rw [hs.2.2.2.2.2.2.1]; exact h3)
          (by rw [hs.2.2.2.2.2.2.2]; exact h4), hs.1, hread, hcol]
      · rw [prepare_step_other env cs rx F i n hin]
        exact ih.2.2 (by omega)

/-- Reading a zeroed array gives 0. -/
theorem rd_zero_all (l : List Nat) (i : Nat) : rd (zero_all l) i = 0 := by
  unfold rd zero_all
  by_cases h : i < l.length
  · rw [List.getD_eq_getElem _ _ (by rw [List.length_replicate]; exact h)]
    simp
  · exact List.getD_eq_default _ _ (by rw [List.length_replicate]; omega)

/-- The frame after the new-phase block of a call: the payload reads as on entry,
the acceptor state is as before the call, and on a new phase the aggregation
variables are zero and the entries of the TX packet are the payload's. -/
theorem new_phase_frame_spec (env : Env) (cs : chaos_state_t) (rx tx : multipaxos_t)
    (g : Globals) :
    payload cs rx (new_phase_frame env cs rx tx g) = entry_payload cs rx tx
    ∧ (new_phase_frame env cs rx tx g).g.multipaxos_state.acceptor = g.multipaxos_state.acceptor
    ∧ (new_phase_frame env cs rx tx g).g.multipaxos_state.rx_accepted_proposals
      = (if entry_new_phase cs rx tx ≠ 0 then zero_all g.multipaxos_state.rx_accepted_proposals
         else g.multipaxos_state.rx_accepted_proposals)
    ∧ (new_phase_frame env cs rx tx g).g.multipaxos_state.rx_accepted_values
      = (if entry_new_phase cs rx tx ≠ 0 then zero_all g.multipaxos_state.rx_accepted_values
         else g.multipaxos_state.rx_accepted_values)
    ∧ (new_phase_frame env cs rx tx g).g.multipaxos_state.rx_max_heard_round
      = (if entry_new_phase cs rx tx ≠ 0 then 0 else g.multipaxos_state.rx_max_heard_round)
    ∧ (new_phase_frame env cs rx tx g).tx_multipaxos.proposals
      = (if entry_new_phase cs rx tx ≠ 0 then
          copy_first env.MULTIPAXOS_PKT_SIZE tx.proposals (entry_payload cs rx tx).proposals
         else tx.proposals)
    ∧ (new_phase_frame env cs rx tx g).tx_multipaxos.values
      = (if entry_new_phase cs rx tx ≠ 0 then
          copy_first env.MULTIPAXOS_PKT_SIZE tx.values (entry_payload cs rx tx).values
         else tx.values) := by
  have hpay : payload cs rx (new_phase_frame env cs rx tx g) = entry_payload cs rx tx := by
    unfold new_phase_frame
    rw [multi_payload_after_new_phase, payload_entry]
  have hnp : new_phase_of (payload cs rx (open_valid env (entry_frame tx g)))
      (open_valid env (entry_frame tx g)).tx_multipaxos = entry_new_phase cs rx tx := by
    rw [payload_entry, open_valid_eq]
    rfl
  refine ⟨hpay, ?_⟩
  unfold new_phase_frame
  rw [hnp, open_valid_eq]
  unfold after_new_phase
  by_cases h : entry_new_phase cs rx tx ≠ 0
  · simp only [if_pos h]
    exact ⟨rfl, rfl, rfl, rfl, rfl, rfl⟩
  · simp only [if_neg h]
    exact ⟨rfl, rfl, rfl, rfl, rfl, rfl⟩

/-- Entry `i` of the aggregation variables and the TX packet after the new-phase
block, in the terms of the specification. -/
theorem new_phase_frame_column (env : Env) (cs : chaos_state_t) (rx tx : multipaxos_t)
    (g : Globals) (i : Nat) (hi : i < env.MULTIPAXOS_PKT_SIZE)
    (h3 : env.MULTIPAXOS_PKT_SIZE ≤ tx.proposals.length)
    (h4 : env.MULTIPAXOS_PKT_SIZE ≤ tx.values.length) :
    prepare_column i (new_phase_frame env cs rx tx g)
      = (prior_proposal cs rx tx g i, prior_value cs rx tx g i, packet_proposal cs rx tx i,
          packet_value cs rx tx i) := by
  obtain ⟨_, _, hp, hv, _, htp, htv⟩ := new_phase_frame_spec env cs rx tx g
  unfold prepare_column prior_proposal prior_value packet_proposal packet_value
  rw [hp, hv, htp, htv]
  by_cases h : entry_new_phase cs rx tx ≠ 0
  · simp only [if_pos h]
    rw [rd_zero_all, rd_zero_all, copy_first_rd, copy_first_rd,
      if_pos ⟨hi, by omega⟩, if_pos ⟨hi, by omega⟩]
  · simp only [if_neg h]

/-- The macro `MAX` is the maximum. -/
theorem MAX_eq_max (a b : Nat) : MAX a b = max a b := by
  unfold MAX
  split <;> omega

/-- Entry `i` after the acceptor phases of a call on a PREPARE payload: what
iteration `i` of the loop makes of the entry after the new-phase block; and the
highest round heard. -/
theorem merged_frame_prepare (env : Env) (cs : chaos_state_t) (rx tx : multipaxos_t)
    (g : Globals) (i : Nat)
    (hp : (entry_payload cs rx tx).phase = MULTIPAXOS_PREPARE)
    (hi : i < env.MULTIPAXOS_PKT_SIZE)
    (h1 : env.MULTIPAXOS_PKT_SIZE ≤ g.multipaxos_state.rx_accepted_proposals.length)
    (h2 : env.MULTIPAXOS_PKT_SIZE ≤ g.multipaxos_state.rx_accepted_values.length)
    (h3 : env.MULTIPAXOS_PKT_SIZE ≤ tx.proposals.length)
    (h4 : env.MULTIPAXOS_PKT_SIZE ≤ tx.values.length) :
    prepare_column i (merged_frame env cs rx tx g)
      = prepare_entry env g.multipaxos_state.acceptor.last_round_participation
          g.multipaxos_state.acceptor.accepted_proposals
          g.multipaxos_state.acceptor.accepted_values
          ((entry_payload cs rx tx).round, rd (entry_payload cs rx tx).proposals i,
            rd (entry_payload cs rx tx).values i) i
          (prepare_column i (new_phase_frame env cs rx tx g))
    ∧ (merged_frame env cs rx tx g).g.multipaxos_state.rx_max_heard_round
      = heard_round cs rx tx g
    ∧ (merged_frame env cs rx tx g).tx_multipaxos.max_heard_round = heard_round cs rx tx g := by
  obtain ⟨hpay, hacc, hrp, hrv, hmax, htp, htv⟩ := new_phase_frame_spec env cs rx tx g
  have hM : merged_frame env cs rx tx g
      = acceptor_phase env cs rx (new_phase_frame env cs rx tx g) := rfl
  rw [hM]
  unfold acceptor_phase
  rw [hpay, if_pos hp]
  unfold acceptor_prepare
  rw [hpay]
  generalize hF : new_phase_frame env cs rx tx g = F at hpay hacc hrp hrv hmax htp htv
  have hl1 : i < F.g.multipaxos_state.rx_accepted_proposals.length := by
    rw [hrp]
    split
    · unfold zero_all; rw [List.length_replicate]; omega
    · omega
  have hl2 : i < F.g.multipaxos_state.rx_accepted_values.length := by
    rw [hrv]
    split
    · unfold zero_all; rw [List.length_replicate]; omega
    · omega
  have hl3 : i < F.tx_multipaxos.proposals.length := by
    rw [htp]
    split
    · rw [copy_first_length]; omega
    · omega
  have hl4 : i < F.tx_multipaxos.values.length := by
    rw [htv]
    split
    · rw [copy_first_length]; omega
    · omega
  have hcol0 : prepare_column i (prepare_round (entry_payload cs rx tx)
      (prepare_promise (entry_payload cs rx tx) F)) = prepare_column i F := by
    unfold prepare_round prepare_promise prepare_column
    split <;> rfl
  have hread0 : prepare_read cs rx i (prepare_round (entry_payload cs rx tx)
      (prepare_promise (entry_payload cs rx tx) F))
      = ((entry_payload cs rx tx).round, rd (entry_payload cs rx tx).proposals i,
          rd (entry_payload cs rx tx).values i) := by
    have h0 : prepare_read cs rx i (prepare_round (entry_payload cs rx tx)
        (prepare_promise (entry_payload cs rx tx) F)) = prepare_read cs rx i F := by
      unfold prepare_read payload prepare_round prepare_promise
      repeat' split
      all_goals rfl
    rw [h0]
    unfold prepare_read
    rw [hpay]
  have hfold := prepare_fold_column env cs rx (prepare_round (entry_payload cs rx tx)
      (prepare_promise (entry_payload cs rx tx) F)) i
    (by unfold prepare_round prepare_promise; split <;> exact hl1)
    (by unfold prepare_round prepare_promise; split <;> exact hl2)
    (by unfold prepare_round prepare_promise; split <;> exact hl3)
    (by unfold prepare_round prepare_promise; split <;> exact hl4)
    env.MULTIPAXOS_PKT_SIZE
  have hlrp : (prepare_round (entry_payload cs rx tx)
      (prepare_promise (entry_payload cs rx tx) F)).g.multipaxos_state.acceptor.last_round_participation
      = g.multipaxos_state.acceptor.last_round_participation := by
    rw [← hacc]
    unfold prepare_round prepare_promise
    split <;> rfl
  have hap : (prepare_round (entry_payload cs rx tx)
      (prepare_promise (entry_payload cs rx tx) F)).g.multipaxos_state.acceptor.accepted_proposals
      = g.multipaxos_state.acceptor.accepted_proposals := by
    rw [← hacc]
    unfold prepare_round prepare_promise
    split <;> rfl
  have hav : (prepare_round (entry_payload cs rx tx)
      (prepare_promise (entry_payload cs rx tx) F)).g.multipaxos_state.acceptor.accepted_values
      = g.multipaxos_state.acceptor.accepted_values := by
    rw [← hacc]
    unfold prepare_round prepare_promise
    split <;> rfl
  have hpm : prepare_max_round (entry_payload cs rx tx) (prepare_promise (entry_payload cs rx tx) F)
      = heard_round cs rx tx g := by
    have e1 : (prepare_promise (entry_payload cs rx tx)
        F).g.multipaxos_state.acceptor.last_round_participation
        = g.multipaxos_state.acceptor.last_round_participation := by
      rw [← hacc]
      unfold prepare_promise
      split <;> rfl
    have e2 : (prepare_promise (entry_payload cs rx tx) F).g.multipaxos_state.rx_max_heard_round
        = F.g.multipaxos_state.rx_max_heard_round := by
      unfold prepare_promise
      split <;> rfl
    unfold prepare_max_round heard_round
    rw [e1, e2, hmax, MAX_eq_max, MAX_eq_max]
    omega
  have hst := hfold.1
  unfold prepare_statics at hst
  simp only [Prod.mk.injEq] at hst
  refine ⟨?_, ?_, ?_⟩
  · rw [hfold.2.2 hi, hlrp, hap, hav, hread0, hcol0]
  · rw [hst.2.1]
    exact hpm
  · rw [hst.2.2.1]
    exact hpm

/-- Iteration `i` of the PREPARE loop in the terms of the specification. -/
theorem prepare_entry_spec (env : Env) (cs : chaos_state_t) (rx tx : multipaxos_t)
    (g : Globals) (i : Nat) :
    prepare_entry env g.multipaxos_state.acceptor.last_round_participation
        g.multipaxos_state.acceptor.accepted_proposals
        g.multipaxos_state.acceptor.accepted_values
        ((entry_payload cs rx tx).round, rd (entry_payload cs rx tx).proposals i,
          rd (entry_payload cs rx tx).values i) i
        (prior_proposal cs rx tx g i, prior_value cs rx tx g i, packet_proposal cs rx tx i,
          packet_value cs rx tx i)
      = (aggregate_proposal env cs rx tx g i, aggregate_value env cs rx tx g i,
          (if rd (entry_payload cs rx tx).proposals i < aggregate_proposal env cs rx tx g i then
            aggregate_proposal env cs rx tx g i
           else packet_proposal cs rx tx i),
          (if rd (entry_payload cs rx tx).proposals i < aggregate_proposal env cs rx tx g i then
            aggregate_value env cs rx tx g i
           else packet_value cs rx tx i)) := by
  unfold aggregate_value aggregate_proposal local_proposal local_value prepare_entry
  generalize prior_proposal cs rx tx g i = r
  generalize prior_value cs rx tx g i = v
  generalize packet_proposal cs rx tx i = tp
  generalize packet_value cs rx tx i = tv
  generalize rd (entry_payload cs rx tx).proposals i = p
  generalize rd (entry_payload cs rx tx).values i = pv
  generalize rd g.multipaxos_state.acceptor.accepted_proposals
    (((entry_payload cs rx tx).round + i) % env.MULTIPAXOS_LOG_SIZE) = a
  generalize rd g.multipaxos_state.acceptor.accepted_values
    (((entry_payload cs rx tx).round + i) % env.MULTIPAXOS_LOG_SIZE) = av
  generalize g.multipaxos_state.acceptor.last_round_participation = lrp
  generalize (entry_payload cs rx tx).round = rr
  dsimp only
  by_cases hd : rr + i ≤ lrp
  · simp only [hd, true_and, if_true]
    by_cases h1 : a > r
    · rw [if_pos h1]
      by_cases h2 : p < a
      · have e : max r (max p a) = a := by omega
        rw [if_pos h2, e, if_pos h2, if_pos h2, if_neg (by omega), if_pos h1]
      · have e : max r (max p a) = p := by omega
        rw [if_neg h2, e, if_neg (Nat.lt_irrefl p), if_neg (Nat.lt_irrefl p), if_pos rfl]
    · rw [if_neg h1]
      by_cases h2 : p < r
      · have e : max r (max p a) = r := by omega
        rw [if_pos h2, e, if_pos h2, if_pos h2, if_neg (by omega), if_neg (by omega)]
      · have e : max r (max p a) = p := by omega
        rw [if_neg h2, e, if_neg (Nat.lt_irrefl p), if_neg (Nat.lt_irrefl p), if_pos rfl]
  · simp only [hd, false_and, if_false]
    by_cases h2 : p < r
    · have e : max r (max p 0) = r := by omega
      rw [if_pos h2, e, if_pos h2, if_pos h2, if_neg (by omega), if_neg (Nat.not_lt_zero r)]
    · have e : max r (max p 0) = p := by omega
      rw [if_neg h2, e, if_neg (Nat.lt_irrefl p), if_neg (Nat.lt_irrefl p), if_pos rfl]

/-- Without a phase update the closing blocks of the leader logic leave the
leader's phase, the aggregation variables and the entries of the TX packet
alone. -/
theorem leader_finish_view (env : Env) (a : LeadFrame) (hu : a.update_phase = 0) :
    aggregation_view (leader_finish env a) = aggregation_view a.f := by
  unfold leader_finish
  rw [if_neg (fun h => h hu)]
  unfold after_loss leader_lost
  split <;> rfl

/-- The phase transition from PREPARE to ACCEPT keeps the leader's phase and
clears the aggregation variables. -/
theorem leader_update_to_accept (env : Env) (x : Frame) :
    (leader_update env 2 x).g.multipaxos_state.leader.phase = x.g.multipaxos_state.leader.phase
    ∧ (leader_update env 2 x).g.multipaxos_state.rx_accepted_proposals
      = zero_all x.g.multipaxos_state.rx_accepted_proposals
    ∧ (leader_update env 2 x).g.multipaxos_state.rx_accepted_values
      = zero_all x.g.multipaxos_state.rx_accepted_values
    ∧ (leader_update env 2 x).g.multipaxos_state.rx_max_heard_round = 0 := by
  unfold leader_update
  rw [if_neg (by decide), if_pos rfl]
  exact ⟨rfl, rfl, rfl, rfl⟩

/-- The leader logic on a PREPARE payload: it leaves the leader's phase, the
aggregation variables and the entries of the TX packet alone, or it takes the
leader from PREPARE to ACCEPT and clears the aggregation variables. -/
theorem leader_logic_prepare_cases (env : Env) (pl : multipaxos_t) (f : Frame)
    (hpl : pl.phase = MULTIPAXOS_PREPARE) :
    aggregation_view (leader_logic env pl f) = aggregation_view f
    ∨ (f.g.multipaxos_state.leader.phase = MULTIPAXOS_PREPARE
      ∧ (leader_logic env pl f).g.multipaxos_state.leader.phase = MULTIPAXOS_ACCEPT
      ∧ (leader_logic env pl f).g.multipaxos_state.rx_accepted_proposals
        = zero_all f.g.multipaxos_state.rx_accepted_proposals
      ∧ (leader_logic env pl f).g.multipaxos_state.rx_accepted_values
        = zero_all f.g.multipaxos_state.rx_accepted_values
      ∧ (leader_logic env pl f).g.multipaxos_state.rx_max_heard_round = 0) := by
  have hfin : ∀ a : LeadFrame, a.lost_proposal = 0 → a.update_phase = 2 →
      leader_finish env a = leader_update env 2 a.f := by
    intro a hl hu
    unfold leader_finish after_loss
    rw [hu, hl, if_pos (by decide), if_neg (fun h => h rfl)]
  have hpd : ∀ a : LeadFrame, aggregation_view (phase_delta a).f = aggregation_view a.f := by
    intro a
    unfold phase_delta
    split <;> rfl
  unfold leader_logic
  by_cases hact : f.g.multipaxos_state.leader.is_leader ≠ 0
      ∧ f.g.multipaxos_state.leader.got_majority = 0
  · rw [if_pos hact]
    unfold leader_compete
    by_cases hb : pl.ballot = f.g.multipaxos_state.leader.proposed_ballot
    · rw [if_pos hb]
      by_cases hm : pl.phase = f.g.multipaxos_state.leader.phase
          ∧ pl.round = f.g.multipaxos_state.leader.current_round
      · rw [if_pos hm]
        have hprep : f.g.multipaxos_state.leader.phase = MULTIPAXOS_PREPARE := hm.1.symm.trans hpl
        unfold leader_own
        rw [if_pos hprep]
        unfold leader_prepare
        by_cases hmaj : (fill_loop env pl f).lost_proposal = 0
            ∧ f.g.n_replies > env.chaos_node_count / 2
        · rw [if_pos hmaj]
          right
          rw [hfin _ ((phase_delta_frame _).2.2.1.trans hmaj.1) ((phase_delta_frame _).2.2.2.trans rfl)]
          have hu := leader_update_to_accept env (phase_delta
            ⟨{ f with
               g.multipaxos_state.leader.proposed_values := (fill_loop env pl f).proposed_values,
               g.multipaxos_state.leader.do_another_phase_1 := another_phase env pl,
               g.multipaxos_state.leader.phase := MULTIPAXOS_ACCEPT },
             (fill_loop env pl f).lost_proposal, 2⟩).f
          rw [(phase_delta_frame _).1] at hu
          exact ⟨hprep, hu.1, hu.2.1, hu.2.2.1, hu.2.2.2⟩
        · rw [if_neg hmaj]
          left
          rw [leader_finish_view env _ ((phase_delta_frame _).2.2.2.trans rfl), hpd]
          rfl
      · rw [if_neg hm]
        left
        rw [leader_finish_view env _ rfl]
        rfl
    · rw [if_neg hb]
      left
      split
      · rw [leader_finish_view env _ rfl]
      · rw [leader_finish_view env _ rfl]
        rfl
  · rw [if_neg hact]
    left
    rfl

/-- C31, amended. Acceptor PREPARE aggregation (Multi-Paxos). Take a call of
`process` that merges a PREPARE payload (valid slot, ordering check passed), with
arrays of at least `K` entries, and `i < K`. After the acceptor logic of the call
the aggregation holds for entry `i`: `rx_accepted_proposals[i]` is the maximum of
the aggregate before the call (0 on a new phase), the payload's proposal and the
proposal the acceptor accepted for the decree `payload.round + i` (0 if that
decree is above `last_round_participation`), `rx_accepted_values[i]` is the
value paired with it, the TX entry `i` is overwritten with both exactly when the
payload's proposal is lower, and `rx_max_heard_round = tx.max_heard_round` is the
maximum of the payload's, the one before the call (0 on a new phase) and
`last_round_participation`. The same holds after the call when the call leaves
the leader's phase as it is; otherwise the call takes a leader from PREPARE to
ACCEPT, and its phase transition clears the aggregation variables: they are
zero after the call. -/
theorem prepare_aggregation (env : Env) (slot_count : Nat) (cs : chaos_state_t)
    (succ : Nat) (rx : multipaxos_t) (rnd : Nat) (tx : multipaxos_t) (g : Globals) (i : Nat)
    (hv : slot_valid cs succ g)
    (hp : (entry_payload cs rx tx).phase = MULTIPAXOS_PREPARE)
    (ho : ordering_ok (entry_payload cs rx tx) tx)
    (hi : i < env.MULTIPAXOS_PKT_SIZE)
    (h1 : env.MULTIPAXOS_PKT_SIZE ≤ g.multipaxos_state.rx_accepted_proposals.length)
    (h2 : env.MULTIPAXOS_PKT_SIZE ≤ g.multipaxos_state.rx_accepted_values.length)
    (h3 : env.MULTIPAXOS_PKT_SIZE ≤ tx.proposals.length)
    (h4 : env.MULTIPAXOS_PKT_SIZE ≤ tx.values.length) :
    prepare_aggregated env cs rx tx g i
        (merged_frame env cs rx tx g).g.multipaxos_state.rx_accepted_proposals
        (merged_frame env cs rx tx g).g.multipaxos_state.rx_accepted_values
        (merged_frame env cs rx tx g).g.multipaxos_state.rx_max_heard_round
        (merged_frame env cs rx tx g).tx_multipaxos
    ∧ ((process env slot_count cs succ rx rnd tx g).g.multipaxos_state.leader.phase
          = g.multipaxos_state.leader.phase →
        prepare_aggregated env cs rx tx g i
          (process env slot_count cs succ rx rnd tx g).g.multipaxos_state.rx_accepted_proposals
          (process env slot_count cs succ rx rnd tx g).g.multipaxos_state.rx_accepted_values
          (process env slot_count cs succ rx rnd tx g).g.multipaxos_state.rx_max_heard_round
          (process env slot_count cs succ rx rnd tx g).tx_multipaxos)
    ∧ ((process env slot_count cs succ rx rnd tx g).g.multipaxos_state.leader.phase
          ≠ g.multipaxos_state.leader.phase →
        g.multipaxos_state.leader.phase = MULTIPAXOS_PREPARE
        ∧ (process env slot_count cs succ rx rnd tx g).g.multipaxos_state.leader.phase
          = MULTIPAXOS_ACCEPT
        ∧ (∀ j, rd (process env slot_count cs succ rx rnd tx
              g).g.multipaxos_state.rx_accepted_proposals j = 0)
        ∧ (∀ j, rd (process env slot_count cs succ rx rnd tx
              g).g.multipaxos_state.rx_accepted_values j = 0)
        ∧ (process env slot_count cs succ rx rnd tx g).g.multipaxos_state.rx_max_heard_round
          = 0) := by
  have hne : (entry_payload cs rx tx).phase ≠ MULTIPAXOS_INIT := by
    rw [hp]; decide
  have hap : ¬ (MULTIPAXOS_ACCEPT = MULTIPAXOS_PREPARE) := by decide
  -- the frame after the acceptor phases
  obtain ⟨hcol, hmax, htmax⟩ := merged_frame_prepare env cs rx tx g i hp hi h1 h2 h3 h4
  rw [new_phase_frame_column env cs rx tx g i hi h3 h4, prepare_entry_spec] at hcol
  unfold prepare_column at hcol
  simp only [Prod.mk.injEq] at hcol
  have hM : prepare_aggregated env cs rx tx g i
      (merged_frame env cs rx tx g).g.multipaxos_state.rx_accepted_proposals
      (merged_frame env cs rx tx g).g.multipaxos_state.rx_accepted_values
      (merged_frame env cs rx tx g).g.multipaxos_state.rx_max_heard_round
      (merged_frame env cs rx tx g).tx_multipaxos :=
    ⟨hcol.1, hcol.2.1, hcol.2.2.1, hcol.2.2.2, hmax, htmax⟩
  -- the frame the leader logic starts from
  have ho' : ordering_ok (payload cs rx (open_valid env (entry_frame tx g)))
      (open_valid env (entry_frame tx g)).tx_multipaxos := by
    rw [payload_entry, open_valid_eq]
    exact ho
  have hview : merge_view (leader_frame env slot_count cs rx tx g)
      = merge_view (merged_frame env cs rx tx g) := by
    unfold leader_frame acceptor_logic
    rw [if_pos ho']
    unfold acceptor_merge
    rw [transmission_logic_view]
    rfl
  unfold merge_view at hview
  simp only [Prod.mk.injEq] at hview
  obtain ⟨hfl, _, _, hfp, _⟩ := leader_frame_entry env slot_count cs rx tx g
  obtain ⟨hs, ht⟩ := process_of_leader_logic env slot_count cs succ rx rnd tx g hv hne
  rw [hs, ht]
  rcases leader_logic_prepare_cases env (payload cs rx (leader_frame env slot_count cs rx tx g))
      (leader_frame env slot_count cs rx tx g) (hfp.trans hp) with hk | hk
  · unfold aggregation_view at hk
    simp only [Prod.mk.injEq] at hk
    rw [hk.1, hk.2.1, hk.2.2.1, hk.2.2.2.1, hfl]
    refine ⟨hM, fun _ => ?_, fun h => absurd rfl h⟩
    unfold prepare_aggregated
    rw [hk.2.2.2.2.1, hk.2.2.2.2.2.1, hk.2.2.2.2.2.2, hview.2.2.2.1, hview.2.2.2.2.1,
      hview.2.2.2.2.2.1, hview.2.2.2.2.2.2.2.2.2.1, hview.2.2.2.2.2.2.2.2.2.2.1,
      hview.2.2.2.2.2.2.2.2.2.2.2]
    exact hM
  · rw [hfl] at hk
    rw [hk.2.1, hk.2.2.1, hk.2.2.2.1, hk.2.2.2.2]
    refine ⟨hM, fun h => ?_, fun _ => ⟨hk.1, rfl, fun j => rd_zero_all _ j,
      fun j => rd_zero_all _ j, rfl⟩⟩
    exact absurd (h.trans hk.1) hap

/-- C31 on node 2 of the three-node network, an acceptor that took part in the
decrees up to 5 and accepted the value 9 for decree 5 under ballot (1,1): it
receives the PREPARE packet of ballot (2,0) for the decrees 4 and 5 without
reports; after the call its aggregate and its TX packet report (1,1) and 9 for
entry 1, and the highest round heard is 5. -/
theorem prepare_aggregation_witness :
    (process (env3 2) 3 CHAOS_RX 1 prepare_in_flight 0 (after_round_start 2).tx_multipaxos
        acceptor_with_5).g.multipaxos_state.rx_accepted_proposals = [0, ballot_of 1 1]
    ∧ (process (env3 2) 3 CHAOS_RX 1 prepare_in_flight 0 (after_round_start 2).tx_multipaxos
        acceptor_with_5).g.multipaxos_state.rx_accepted_values = [0, 9]
    ∧ (process (env3 2) 3 CHAOS_RX 1 prepare_in_flight 0 (after_round_start 2).tx_multipaxos
        acceptor_with_5).tx_multipaxos
      = ⟨ballot_of 2 0, MULTIPAXOS_PREPARE, 4, 5, [0, 9], [0, ballot_of 1 1], [7]⟩
    ∧ prepare_aggregated (env3 2) CHAOS_RX prepare_in_flight (after_round_start 2).tx_multipaxos
        acceptor_with_5 1
        (process (env3 2) 3 CHAOS_RX 1 prepare_in_flight 0 (after_round_start 2).tx_multipaxos
          acceptor_with_5).g.multipaxos_state.rx_accepted_proposals
        (process (env3 2) 3 CHAOS_RX 1 prepare_in_flight 0 (after_round_start 2).tx_multipaxos
          acceptor_with_5).g.multipaxos_state.rx_accepted_values
        (process (env3 2) 3 CHAOS_RX 1 prepare_in_flight 0 (after_round_start 2).tx_multipaxos
          acceptor_with_5).g.multipaxos_state.rx_max_heard_round
        (process (env3 2) 3 CHAOS_RX 1 prepare_in_flight 0 (after_round_start 2).tx_multipaxos
          acceptor_with_5).tx_multipaxos :=
  ⟨by decide, by decide, by decide,
    (prepare_aggregation (env3 2) 3 CHAOS_RX 1 prepare_in_flight 0
      (after_round_start 2).tx_multipaxos acceptor_with_5 1 (by decide) (by decide) (by decide)
      (by decide) (by decide) (by decide) (by decide) (by decide)).2.1 (by decide)⟩

/-- C31, as stated, fails on the code. Leader 0 of the three-node network is in
PREPARE for the decrees 4 and 5 and receives the reply of node 2, which reports
the proposal (1,1) with the value 9 for decree 5 and took part up to decree 5.
The call merges the PREPARE payload, and the aggregation for entry 1 is (1,1)
with a highest round heard of 5; but the leader has its majority and enters
ACCEPT in the same call, and after the call `rx_accepted_proposals` is zero and
`rx_max_heard_round` is 0, while `max_heard_round` of the TX packet is 5. -/
theorem prepare_aggregation_cleared :
    slot_valid CHAOS_RX 1 preparing_leader
    ∧ (entry_payload CHAOS_RX reply_for_5 prepare_in_flight).phase = MULTIPAXOS_PREPARE
    ∧ ordering_ok (entry_payload CHAOS_RX reply_for_5 prepare_in_flight) prepare_in_flight
    ∧ aggregate_proposal (env3 0) CHAOS_RX reply_for_5 prepare_in_flight preparing_leader 1
      = ballot_of 1 1
    ∧ heard_round CHAOS_RX reply_for_5 prepare_in_flight preparing_leader = 5
    ∧ (process (env3 0) 5 CHAOS_RX 1 reply_for_5 0 prepare_in_flight
        preparing_leader).g.multipaxos_state.rx_accepted_proposals = [0, 0]
    ∧ (process (env3 0) 5 CHAOS_RX 1 reply_for_5 0 prepare_in_flight
        preparing_leader).g.multipaxos_state.rx_max_heard_round = 0
    ∧ (process (env3 0) 5 CHAOS_RX 1 reply_for_5 0 prepare_in_flight
        preparing_leader).tx_multipaxos.max_heard_round = 5
    ∧ ¬ prepare_aggregated (env3 0) CHAOS_RX reply_for_5 prepare_in_flight preparing_leader 1
        (process (env3 0) 5 CHAOS_RX 1 reply_for_5 0 prepare_in_flight
          preparing_leader).g.multipaxos_state.rx_accepted_proposals
        (process (env3 0) 5 CHAOS_RX 1 reply_for_5 0 prepare_in_flight
          preparing_leader).g.multipaxos_state.rx_accepted_values
        (process (env3 0) 5 CHAOS_RX 1 reply_for_5 0 prepare_in_flight
          preparing_leader).g.multipaxos_state.rx_max_heard_round
        (process (env3 0) 5 CHAOS_RX 1 reply_for_5 0 prepare_in_flight
          preparing_leader).tx_multipaxos := by
  decide

/-- The merging loop of the transmission logic over `n` bytes: byte `i < n` of the
TX flags is ORed with the payload's, the others stay. -/
theorem merge_fold_flags (p t : List Nat) (d s : Nat) :
    ∀ n, ((List.range n).foldl (merge_step p) ⟨d, t, 0, s⟩).flags.length = t.length
      ∧ ∀ i, rd ((List.range n).foldl (merge_step p) ⟨d, t, 0, s⟩).flags i
          = if i < n ∧ i < t.length then rd t i ||| rd p i else rd t i := by
  intro n
  induction n with
  | zero =>
    exact ⟨rfl, fun i => by rw [if_neg (fun h => absurd h.1 (Nat.not_lt_zero i))]; rfl⟩
  | succ n ih =>
    rw [List.range_succ, List.foldl_append]
    generalize (List.range n).foldl (merge_step p) ⟨d, t, 0, s⟩ = a at ih
    have hn : rd a.flags n = rd t n := by
      rw [ih.2 n, if_neg (fun h => absurd h.1 (Nat.lt_irrefl n))]
    refine ⟨?_, fun i => ?_⟩
    · show (a.flags.set n (rd a.flags n ||| rd p n)).length = t.length
      rw [List.length_set, ih.1]
    · show rd (a.flags.set n (rd a.flags n ||| rd p n)) i = _
      rw [rd_set, ih.1, hn, ih.2 i]
      by_cases h1 : i = n
      · subst h1
        by_cases h2 : i < t.length
        · rw [if_pos ⟨rfl, h2⟩, if_pos ⟨Nat.lt_succ_self i, h2⟩]
        · rw [if_neg (fun h => h2 h.2), if_neg (fun h => h2 h.2), if_neg (fun h => h2 h.2)]
      · rw [if_neg (fun h => h1 h.1)]
        by_cases h3 : i < n ∧ i < t.length
        · rw [if_pos h3, if_pos ⟨Nat.lt_succ_of_lt h3.1, h3.2⟩]
        · rw [if_neg h3, if_neg (fun h => h3 ⟨by omega, h.2⟩)]

/-- The TX flags the transmission logic leaves: merged with the payload's flags on
the same phase; on a new phase the flags as they stand, with the own flag. -/
theorem transmission_logic_flags (env : Env) (slot_count : Nat) (cs : chaos_state_t)
    (rx : multipaxos_t) (np : Nat) (f : Frame) :
    (transmission_logic env slot_count cs rx np f).tx_multipaxos.flags
      = if np = 0 then
          ((List.range (FLAGS_LEN env)).foldl (merge_step (payload cs rx f).flags)
            ⟨f.g.tx, f.tx_multipaxos.flags, 0, f.g.n_replies⟩).flags
        else set_own_flag env f.tx_multipaxos.flags := by
  have hq : ∀ (pl : multipaxos_t) (x : Frame),
      (quorum_read env pl x).tx_multipaxos = x.tx_multipaxos := by
    intro pl x
    unfold quorum_read
    split <;> rfl
  have hc : ∀ (pl : multipaxos_t) (fs : Nat) (x : Frame),
      (completion env slot_count pl fs x).tx_multipaxos = x.tx_multipaxos := by
    intro pl fs x
    unfold completion record_completion
    repeat' split
    all_goals rfl
  unfold transmission_logic
  rw [hc, hq]
  show (if np = 0 then (flag_loop env np (payload cs rx f).flags f).flags
    else set_own_flag env (flag_loop env np (payload cs rx f).flags f).flags) = _
  unfold flag_loop
  by_cases h : np = 0
  · rw [if_pos h, if_pos h, if_pos h]
  · rw [if_neg h, if_neg h, if_neg h,
      foldl_keeps (fun a : FlagAcc => a.flags) count_step (fun _ _ => rfl)]

/-- The acceptor phases and the transmission logic leave
`not_heard_from_leader_since` alone. -/
theorem acceptor_merge_heard (env : Env) (slot_count : Nat) (cs : chaos_state_t)
    (rx : multipaxos_t) (np : Nat) (f : Frame) :
    (transmission_logic env slot_count cs rx np
        (acceptor_phase env cs rx f)).g.not_heard_from_leader_since
      = f.g.not_heard_from_leader_since := by
  have hstep : ∀ (x : Frame) (i : Nat),
      (prepare_step env cs rx x i).g.not_heard_from_leader_since
        = x.g.not_heard_from_leader_since := by
    intro x i
    unfold prepare_step prepare_merge prepare_local force_tx
    repeat' split
    all_goals rfl
  have hphase : ∀ x : Frame,
      (acceptor_phase env cs rx x).g.not_heard_from_leader_since
        = x.g.not_heard_from_leader_since := by
    intro x
    unfold acceptor_phase
    split
    · unfold acceptor_prepare
      rw [foldl_keeps (fun y : Frame => y.g.not_heard_from_leader_since)
        (prepare_step env cs rx) hstep]
      unfold prepare_round prepare_promise
      split <;> rfl
    · split
      · unfold acceptor_accept accept_min_report accept_write force_tx
        repeat' split
        all_goals rfl
      · rfl
  have hq : ∀ (pl : multipaxos_t) (x : Frame),
      (quorum_read env pl x).g.not_heard_from_leader_since
        = x.g.not_heard_from_leader_since := by
    intro pl x
    unfold quorum_read
    split <;> rfl
  have hc : ∀ (pl : multipaxos_t) (fs : Nat) (x : Frame),
      (completion env slot_count pl fs x).g.not_heard_from_leader_since
        = x.g.not_heard_from_leader_since := by
    intro pl fs x
    unfold completion record_completion
    repeat' split
    all_goals rfl
  unfold transmission_logic
  rw [hc, hq]
  exact hphase f

/-- The leader logic leaves `not_heard_from_leader_since` alone. -/
theorem leader_logic_heard (env : Env) (pl : multipaxos_t) (f : Frame) :
    (leader_logic env pl f).g.not_heard_from_leader_since = f.g.not_heard_from_leader_since := by
  have hfin : ∀ a : LeadFrame,
      (leader_finish env a).g.not_heard_from_leader_since
        = a.f.g.not_heard_from_leader_since := by
    intro a
    unfold leader_finish leader_update after_loss
    repeat' split
    all_goals rfl
  have hadv : (leader_advance env f).f.g.not_heard_from_leader_since
      = f.g.not_heard_from_leader_since := by
    unfold leader_advance
    split <;> rfl
  have hacc : (leader_accept env f).f.g.not_heard_from_leader_since
      = f.g.not_heard_from_leader_since := by
    unfold leader_accept
    repeat' split
    all_goals first | rfl | exact hadv
  have hprep : (leader_prepare env pl f).f.g.not_heard_from_leader_since
      = f.g.not_heard_from_leader_since := by
    unfold leader_prepare
    split <;> rfl
  have hown : (leader_own env pl f).f.g.not_heard_from_leader_since
      = f.g.not_heard_from_leader_since := by
    unfold leader_own
    rw [(phase_delta_frame _).1]
    repeat' split
    all_goals first | rfl | exact hprep | exact hacc
  have hcomp : (leader_compete env pl f).f.g.not_heard_from_leader_since
      = f.g.not_heard_from_leader_since := by
    unfold leader_compete
    repeat' split
    all_goals first | rfl | exact hown
  unfold leader_logic
  split
  · rw [hfin, hcomp]
  · rfl

/-- After a call of `process` in a valid slot whose payload is not in
`MULTIPAXOS_INIT`, `not_heard_from_leader_since` is as the acceptor logic left
it. -/
theorem process_heard (env : Env) (slot_count : Nat) (cs : chaos_state_t)
    (succ : Nat) (rx : multipaxos_t) (rnd : Nat) (tx : multipaxos_t) (g : Globals)
    (hv : slot_valid cs succ g)
    (hp : (entry_payload cs rx tx).phase ≠ MULTIPAXOS_INIT) :
    (process env slot_count cs succ rx rnd tx g).g.not_heard_from_leader_since
      = (leader_frame env slot_count cs rx tx g).g.not_heard_from_leader_since := by
  have hsy : ∀ x : Frame,
      (synchrotron_logic env cs succ rnd x).2.g.not_heard_from_leader_since
        = x.g.not_heard_from_leader_since := by
    intro x
    unfold synchrotron_logic sync_initiate sync_resume sync_rx_ok sync_rx_fail
    repeat' split
    all_goals rfl
  have hex : ∀ r : chaos_state_t × Frame,
      (exit_frame env slot_count r).g.not_heard_from_leader_since
        = r.2.g.not_heard_from_leader_since := by
    intro r
    unfold exit_frame mark_off
    split <;> rfl
  show (process_frame env slot_count cs succ rx rnd tx g).g.not_heard_from_leader_since = _
  unfold process_frame
  rw [hex, hsy, valid_slot_of_paxos env slot_count cs succ rx tx g hv hp, leader_logic_heard]

/-- The frame after the acceptor logic of a call whose payload passed the ordering
check: the transmission logic on the frame after the acceptor phases. -/
theorem leader_frame_of_merge (env : Env) (slot_count : Nat) (cs : chaos_state_t)
    (rx tx : multipaxos_t) (g : Globals) (ho : ordering_ok (entry_payload cs rx tx) tx) :
    leader_frame env slot_count cs rx tx g
      = transmission_logic env slot_count cs rx (entry_new_phase cs rx tx)
          (merged_frame env cs rx tx g) := by
  have ho' : ordering_ok (payload cs rx (open_valid env (entry_frame tx g)))
      (open_valid env (entry_frame tx g)).tx_multipaxos := by
    rw [payload_entry, open_valid_eq]
    exact ho
  have hnp : new_phase_of (payload cs rx (open_valid env (entry_frame tx g)))
      (open_valid env (entry_frame tx g)).tx_multipaxos = entry_new_phase cs rx tx := by
    rw [payload_entry, open_valid_eq]
    rfl
  unfold leader_frame acceptor_logic
  rw [if_pos ho']
  unfold acceptor_merge merged_frame
  rw [hnp]

/-- The frame after the acceptor logic of a call whose payload failed the ordering
check: only `tx` is set. -/
theorem leader_frame_of_stale (env : Env) (slot_count : Nat) (cs : chaos_state_t)
    (rx tx : multipaxos_t) (g : Globals) (ho : ¬ ordering_ok (entry_payload cs rx tx) tx) :
    leader_frame env slot_count cs rx tx g = set_tx (open_valid env (entry_frame tx g)) := by
  have ho' : ¬ ordering_ok (payload cs rx (open_valid env (entry_frame tx g)))
      (open_valid env (entry_frame tx g)).tx_multipaxos := by
    rw [payload_entry, open_valid_eq]
    exact ho
  unfold leader_frame acceptor_logic
  rw [if_neg ho']

/-- The frame after the new-phase block of a call, continued:
`not_heard_from_leader_since` is 0, the TX header is the payload's, and on a new
phase `rx_min_proposal` is zero and `max_heard_round` and the flags of the TX
packet are the payload's. -/
theorem new_phase_frame_header (env : Env) (cs : chaos_state_t) (rx tx : multipaxos_t)
    (g : Globals) :
    (new_phase_frame env cs rx tx g).g.not_heard_from_leader_since = 0
    ∧ (new_phase_frame env cs rx tx g).tx_multipaxos.ballot = (entry_payload cs rx tx).ballot
    ∧ (new_phase_frame env cs rx tx g).tx_multipaxos.phase = (entry_payload cs rx tx).phase
    ∧ (new_phase_frame env cs rx tx g).tx_multipaxos.round = (entry_payload cs rx tx).round
    ∧ (new_phase_frame env cs rx tx g).g.multipaxos_state.rx_min_proposal
      = (if entry_new_phase cs rx tx ≠ 0 then 0 else g.multipaxos_state.rx_min_proposal)
    ∧ (new_phase_frame env cs rx tx g).tx_multipaxos.max_heard_round
      = (if entry_new_phase cs rx tx ≠ 0 then (entry_payload cs rx tx).max_heard_round
         else tx.max_heard_round)
    ∧ (new_phase_frame env cs rx tx g).tx_multipaxos.flags
      = (if entry_new_phase cs rx tx ≠ 0 then
          copy_first (FLAGS_LEN env) tx.flags (entry_payload cs rx tx).flags
         else tx.flags) := by
  have hnp : new_phase_of (payload cs rx (open_valid env (entry_frame tx g)))
      (open_valid env (entry_frame tx g)).tx_multipaxos = entry_new_phase cs rx tx := by
    rw [payload_entry, open_valid_eq]
    rfl
  unfold new_phase_frame
  rw [hnp, open_valid_eq]
  unfold after_new_phase
  by_cases h : entry_new_phase cs rx tx ≠ 0
  · simp only [if_pos h]
    exact ⟨rfl, rfl, rfl, rfl, rfl, rfl, rfl⟩
  · simp only [if_neg h]
    have hz : new_phase_of (entry_payload cs rx tx) tx = 0 := by
      by_contra hc
      exact h hc
    unfold new_phase_of at hz
    have heq : (entry_payload cs rx tx).ballot = tx.ballot
        ∧ (entry_payload cs rx tx).phase = tx.phase
        ∧ (entry_payload cs rx tx).round = tx.round := by
      by_contra hc
      rw [if_pos hc] at hz
      exact absurd hz (by decide)
    exact ⟨rfl, heq.1.symm, heq.2.1.symm, heq.2.2.symm, rfl, rfl, rfl⟩

/-- What the acceptor phases do not write: for a payload in PREPARE the variable
`rx_min_proposal`; for any other payload `rx_accepted_proposals`,
`rx_accepted_values`, `rx_max_heard_round` and `max_heard_round` and `values` of
the TX packet. -/
theorem acceptor_phase_unwritten (env : Env) (cs : chaos_state_t) (rx : multipaxos_t)
    (f : Frame) :
    ((payload cs rx f).phase = MULTIPAXOS_PREPARE →
      (acceptor_phase env cs rx f).g.multipaxos_state.rx_min_proposal
        = f.g.multipaxos_state.rx_min_proposal)
    ∧ ((payload cs rx f).phase ≠ MULTIPAXOS_PREPARE →
      (acceptor_phase env cs rx f).g.multipaxos_state.rx_accepted_proposals
        = f.g.multipaxos_state.rx_accepted_proposals
      ∧ (acceptor_phase env cs rx f).g.multipaxos_state.rx_accepted_values
        = f.g.multipaxos_state.rx_accepted_values
      ∧ (acceptor_phase env cs rx f).g.multipaxos_state.rx_max_heard_round
        = f.g.multipaxos_state.rx_max_heard_round
      ∧ (acceptor_phase env cs rx f).tx_multipaxos.max_heard_round
        = f.tx_multipaxos.max_heard_round
      ∧ (acceptor_phase env cs rx f).tx_multipaxos.values = f.tx_multipaxos.values) := by
  have hstep : ∀ (x : Frame) (i : Nat),
      (prepare_step env cs rx x i).g.multipaxos_state.rx_min_proposal
        = x.g.multipaxos_state.rx_min_proposal := by
    intro x i
    unfold prepare_step prepare_merge prepare_local force_tx
    repeat' split
    all_goals rfl
  constructor
  · intro hp
    unfold acceptor_phase
    rw [if_pos hp]
    unfold acceptor_prepare
    rw [foldl_keeps (fun y : Frame => y.g.multipaxos_state.rx_min_proposal)
      (prepare_step env cs rx) hstep]
    unfold prepare_round prepare_promise
    split <;> rfl
  · intro hp
    unfold acceptor_phase
    rw [if_neg hp]
    split
    · unfold acceptor_accept accept_min_report accept_write force_tx
      repeat' split
      all_goals exact ⟨rfl, rfl, rfl, rfl, rfl⟩
    · exact ⟨rfl, rfl, rfl, rfl, rfl⟩

/-- Setting the own flag keeps the flag bits that are set. -/
theorem multi_set_own_flag_keeps (env : Env) (t : List Nat) (i k : Nat)
    (h : (rd t i).testBit k = true) : (rd (set_own_flag env t) i).testBit k = true := by
  unfold set_own_flag
  rw [rd_set]
  split
  · rename_i hc
    rw [Nat.testBit_or, ← hc.1, h]
    rfl
  · exact h

/-- The flags the payload carries when the transmission logic of a call reads
them: those of the payload read on entry. -/
theorem payload_flags_merged (env : Env) (cs : chaos_state_t) (rx tx : multipaxos_t)
    (g : Globals) :
    (payload cs rx (merged_frame env cs rx tx g)).flags = (entry_payload cs rx tx).flags
    ∧ (merged_frame env cs rx tx g).tx_multipaxos.flags
      = (new_phase_frame env cs rx tx g).tx_multipaxos.flags := by
  have hM : merged_frame env cs rx tx g
      = acceptor_phase env cs rx (new_phase_frame env cs rx tx g) := rfl
  have hview := acceptor_phase_view env cs rx (new_phase_frame env cs rx tx g)
  unfold acceptor_view at hview
  simp only [Prod.mk.injEq] at hview
  have hfl : (merged_frame env cs rx tx g).tx_multipaxos.flags
      = (new_phase_frame env cs rx tx g).tx_multipaxos.flags := by
    rw [hM]
    exact hview.2.2.2.2.2.2.2.2.2
  refine ⟨?_, hfl⟩
  by_cases hc : cs = CHAOS_TX
  · have hnp : entry_new_phase cs rx tx = 0 := by
      unfold entry_new_phase entry_payload new_phase_of
      rw [if_pos hc, if_neg (fun h => h ⟨rfl, rfl, rfl⟩)]
    unfold payload entry_payload
    rw [if_pos hc, if_pos hc, hfl, (new_phase_frame_header env cs rx tx g).2.2.2.2.2.2,
      if_neg (fun h => h hnp)]
  · unfold payload entry_payload
    rw [if_neg hc, if_neg hc]

/-- Entry `i` of the aggregation variables and of the TX packet after the acceptor
logic of a call that merges a PREPARE payload, in the terms of the
specification. -/
theorem leader_frame_aggregated (env : Env) (slot_count : Nat) (cs : chaos_state_t)
    (rx tx : multipaxos_t) (g : Globals) (i : Nat)
    (hp : (entry_payload cs rx tx).phase = MULTIPAXOS_PREPARE)
    (ho : ordering_ok (entry_payload cs rx tx) tx)
    (hi : i < env.MULTIPAXOS_PKT_SIZE)
    (h1 : env.MULTIPAXOS_PKT_SIZE ≤ g.multipaxos_state.rx_accepted_proposals.length)
    (h2 : env.MULTIPAXOS_PKT_SIZE ≤ g.multipaxos_state.rx_accepted_values.length)
    (h3 : env.MULTIPAXOS_PKT_SIZE ≤ tx.proposals.length)
    (h4 : env.MULTIPAXOS_PKT_SIZE ≤ tx.values.length) :
    prepare_aggregated env cs rx tx g i
      (leader_frame env slot_count cs rx tx g).g.multipaxos_state.rx_accepted_proposals
      (leader_frame env slot_count cs rx tx g).g.multipaxos_state.rx_accepted_values
      (leader_frame env slot_count cs rx tx g).g.multipaxos_state.rx_max_heard_round
      (leader_frame env slot_count cs rx tx g).tx_multipaxos := by
  obtain ⟨hcol, hmax, htmax⟩ := merged_frame_prepare env cs rx tx g i hp hi h1 h2 h3 h4
  rw [new_phase_frame_column env cs rx tx g i hi h3 h4, prepare_entry_spec] at hcol
  unfold prepare_column at hcol
  simp only [Prod.mk.injEq] at hcol
  have hview : merge_view (leader_frame env slot_count cs rx tx g)
      = merge_view (merged_frame env cs rx tx g) := by
    rw [leader_frame_of_merge env slot_count cs rx tx g ho, transmission_logic_view]
  unfold merge_view at hview
  simp only [Prod.mk.injEq] at hview
  unfold prepare_aggregated
  rw [hview.2.2.2.1, hview.2.2.2.2.1, hview.2.2.2.2.2.1, hview.2.2.2.2.2.2.2.2.2.1,
    hview.2.2.2.2.2.2.2.2.2.2.1, hview.2.2.2.2.2.2.2.2.2.2.2]
  exact ⟨hcol.1, hcol.2.1, hcol.2.2.1, hcol.2.2.2, hmax, htmax⟩

/-- Outside the PREPARE phase the acceptor phases write no proposal of the TX
packet but the first. -/
theorem acceptor_phase_proposals (env : Env) (cs : chaos_state_t) (rx : multipaxos_t)
    (f : Frame) (hp : (payload cs rx f).phase ≠ MULTIPAXOS_PREPARE) (i : Nat) (hi : i ≠ 0) :
    rd (acceptor_phase env cs rx f).tx_multipaxos.proposals i = rd f.tx_multipaxos.proposals i := by
  unfold acceptor_phase
  rw [if_neg hp]
  split
  · unfold acceptor_accept accept_min_report accept_write force_tx
    repeat' split
    all_goals first | rfl | exact (rd_set _ _ _ _).trans (if_neg (fun h => hi h.1))
  · rfl

/-- C14. The ordering check of the Multi-Paxos `process` is the lexicographic
order on (ballot, round, phase). Take a call in a valid slot whose payload is not
in `MULTIPAXOS_INIT`; the frame after its acceptor logic is `leader_frame`, and
on a node whose leader logic does not run it is the state after the call.
A payload whose triple is below the TX packet's is not merged: the TX packet and
the Multi-Paxos state stay, `tx` is set, no flag is counted, and
`not_heard_from_leader_since` and the acceptor state are unchanged after the
call. A payload whose triple is not below is merged:
`not_heard_from_leader_since` is 0 after the call, the TX header is the
payload's, `min_proposal` after the call is the maximum of its old value and the
payload's ballot (PREPARE or ACCEPT payload), and every flag of the payload is
set in the TX flags. It is treated as a new phase exactly when the triple is
strictly above: then the TX flags are the payload's with the own flag, the
aggregation variables and TX fields that the payload's phase does not write are
zero and the payload's, and the PREPARE aggregation starts from zero (the
aggregated proposal of an entry, which is also the proposal of the TX packet, is
the maximum of the payload's and the acceptor's own, the highest round heard
that of the payload's and `last_round_participation`); when the triples are equal
the TX flags are the OR of both, those variables and fields are as before, and
the PREPARE aggregation starts from the aggregate of before the call. -/
theorem ordering_check_lexicographic (env : Env) (slot_count : Nat) (cs : chaos_state_t)
    (succ : Nat) (rx : multipaxos_t) (rnd : Nat) (tx : multipaxos_t) (g : Globals)
    (hv : slot_valid cs succ g)
    (hp : (entry_payload cs rx tx).phase ≠ MULTIPAXOS_INIT) :
    (¬ toLex (tx.ballot, toLex (tx.round, tx.phase))
          ≤ toLex ((entry_payload cs rx tx).ballot,
              toLex ((entry_payload cs rx tx).round, (entry_payload cs rx tx).phase)) →
      (leader_frame env slot_count cs rx tx g).tx_multipaxos = tx
      ∧ (leader_frame env slot_count cs rx tx g).g.multipaxos_state = g.multipaxos_state
      ∧ (leader_frame env slot_count cs rx tx g).g.tx = 1
      ∧ (leader_frame env slot_count cs rx tx g).g.n_replies = 0
      ∧ (process env slot_count cs succ rx rnd tx g).g.not_heard_from_leader_since
        = g.not_heard_from_leader_since
      ∧ (process env slot_count cs succ rx rnd tx g).g.multipaxos_state.acceptor
        = g.multipaxos_state.acceptor)
    ∧ (toLex (tx.ballot, toLex (tx.round, tx.phase))
          ≤ toLex ((entry_payload cs rx tx).ballot,
              toLex ((entry_payload cs rx tx).round, (entry_payload cs rx tx).phase)) →
      (process env slot_count cs succ rx rnd tx g).g.not_heard_from_leader_since = 0
      ∧ (leader_frame env slot_count cs rx tx g).tx_multipaxos.ballot
        = (entry_payload cs rx tx).ballot
      ∧ (leader_frame env slot_count cs rx tx g).tx_multipaxos.phase
        = (entry_payload cs rx tx).phase
      ∧ (leader_frame env slot_count cs rx tx g).tx_multipaxos.round
        = (entry_payload cs rx tx).round
      ∧ ((entry_payload cs rx tx).phase = MULTIPAXOS_PREPARE
          ∨ (entry_payload cs rx tx).phase = MULTIPAXOS_ACCEPT →
        (process env slot_count cs succ rx rnd tx g).g.multipaxos_state.acceptor.min_proposal
          = max g.multipaxos_state.acceptor.min_proposal (entry_payload cs rx tx).ballot)
      ∧ (∀ i, i < FLAGS_LEN env → i < tx.flags.length →
          ∀ k, (rd (entry_payload cs rx tx).flags i).testBit k = true →
            (rd (leader_frame env slot_count cs rx tx g).tx_multipaxos.flags i).testBit k
              = true))
    ∧ (toLex (tx.ballot, toLex (tx.round, tx.phase))
          < toLex ((entry_payload cs rx tx).ballot,
              toLex ((entry_payload cs rx tx).round, (entry_payload cs rx tx).phase)) →
      (leader_frame env slot_count cs rx tx g).tx_multipaxos.flags
        = set_own_flag env (copy_first (FLAGS_LEN env) tx.flags (entry_payload cs rx tx).flags)
      ∧ ((entry_payload cs rx tx).phase = MULTIPAXOS_PREPARE →
        (leader_frame env slot_count cs rx tx g).g.multipaxos_state.rx_min_proposal = 0
        ∧ (env.MULTIPAXOS_PKT_SIZE ≤ g.multipaxos_state.rx_accepted_proposals.length →
          env.MULTIPAXOS_PKT_SIZE ≤ g.multipaxos_state.rx_accepted_values.length →
          env.MULTIPAXOS_PKT_SIZE ≤ tx.proposals.length →
          env.MULTIPAXOS_PKT_SIZE ≤ tx.values.length →
          ∀ i, i < env.MULTIPAXOS_PKT_SIZE →
            rd (leader_frame env slot_count cs rx tx g).g.multipaxos_state.rx_accepted_proposals i
              = max (rd (entry_payload cs rx tx).proposals i) (local_proposal env cs rx tx g i)
            ∧ (leader_frame env slot_count cs rx tx g).g.multipaxos_state.rx_max_heard_round
              = max (entry_payload cs rx tx).max_heard_round
                  g.multipaxos_state.acceptor.last_round_participation
            ∧ (leader_frame env slot_count cs rx tx g).tx_multipaxos.max_heard_round
              = max (entry_payload cs rx tx).max_heard_round
                  g.multipaxos_state.acceptor.last_round_participation
            ∧ rd (leader_frame env slot_count cs rx tx g).tx_multipaxos.proposals i
              = max (rd (entry_payload cs rx tx).proposals i)
                  (local_proposal env cs rx tx g i)))
      ∧ ((entry_payload cs rx tx).phase ≠ MULTIPAXOS_PREPARE →
        (leader_frame env slot_count cs rx tx g).g.multipaxos_state.rx_accepted_proposals
          = zero_all g.multipaxos_state.rx_accepted_proposals
        ∧ (leader_frame env slot_count cs rx tx g).g.multipaxos_state.rx_accepted_values
          = zero_all g.multipaxos_state.rx_accepted_values
        ∧ (leader_frame env slot_count cs rx tx g).g.multipaxos_state.rx_max_heard_round = 0
        ∧ (leader_frame env slot_count cs rx tx g).tx_multipaxos.max_heard_round
          = (entry_payload cs rx tx).max_heard_round
        ∧ (leader_frame env slot_count cs rx tx g).tx_multipaxos.values
          = copy_first env.MULTIPAXOS_PKT_SIZE tx.values (entry_payload cs rx tx).values
        ∧ ∀ i, i ≠ 0 →
            rd (leader_frame env slot_count cs rx tx g).tx_multipaxos.proposals i
              = rd (copy_first env.MULTIPAXOS_PKT_SIZE tx.proposals
                  (entry_payload cs rx tx).proposals) i))
    ∧ (toLex (tx.ballot, toLex (tx.round, tx.phase))
          = toLex ((entry_payload cs rx tx).ballot,
              toLex ((entry_payload cs rx tx).round, (entry_payload cs rx tx).phase)) →
      (∀ i, i < FLAGS_LEN env → i < tx.flags.length →
          rd (leader_frame env slot_count cs rx tx g).tx_multipaxos.flags i
            = rd tx.flags i ||| rd (entry_payload cs rx tx).flags i)
      ∧ ((entry_payload cs rx tx).phase = MULTIPAXOS_PREPARE →
        (leader_frame env slot_count cs rx tx g).g.multipaxos_state.rx_min_proposal
          = g.multipaxos_state.rx_min_proposal
        ∧ (env.MULTIPAXOS_PKT_SIZE ≤ g.multipaxos_state.rx_accepted_proposals.length →
          env.MULTIPAXOS_PKT_SIZE ≤ g.multipaxos_state.rx_accepted_values.length →
          env.MULTIPAXOS_PKT_SIZE ≤ tx.proposals.length →
          env.MULTIPAXOS_PKT_SIZE ≤ tx.values.length →
          ∀ i, i < env.MULTIPAXOS_PKT_SIZE →
            rd (leader_frame env slot_count cs rx tx g).g.multipaxos_state.rx_accepted_proposals i
              = max (rd g.multipaxos_state.rx_accepted_proposals i)
                  (max (rd (entry_payload cs rx tx).proposals i)
                    (local_proposal env cs rx tx g i))
            ∧ (leader_frame env slot_count cs rx tx g).g.multipaxos_state.rx_max_heard_round
              = max (entry_payload cs rx tx).max_heard_round
                  (max g.multipaxos_state.rx_max_heard_round
                    g.multipaxos_state.acceptor.last_round_participation)
            ∧ (leader_frame env slot_count cs rx tx g).tx_multipaxos.max_heard_round
              = max (entry_payload cs rx tx).max_heard_round
                  (max g.multipaxos_state.rx_max_heard_round
                    g.multipaxos_state.acceptor.last_round_participation)
            ∧ rd (leader_frame env slot_count cs rx tx g).tx_multipaxos.proposals i
              = (if rd (entry_payload cs rx tx).proposals i
                    < max (rd g.multipaxos_state.rx_accepted_proposals i)
                        (max (rd (entry_payload cs rx tx).proposals i)
                          (local_proposal env cs rx tx g i)) then
                  max (rd g.multipaxos_state.rx_accepted_proposals i)
                    (max (rd (entry_payload cs rx tx).proposals i)
                      (local_proposal env cs rx tx g i))
                else rd tx.proposals i)))
      ∧ ((entry_payload cs rx tx).phase ≠ MULTIPAXOS_PREPARE →
        (leader_frame env slot_count cs rx tx g).g.multipaxos_state.rx_accepted_proposals
          = g.multipaxos_state.rx_accepted_proposals
        ∧ (leader_frame env slot_count cs rx tx g).g.multipaxos_state.rx_accepted_values
          = g.multipaxos_state.rx_accepted_values
        ∧ (leader_frame env slot_count cs rx tx g).g.multipaxos_state.rx_max_heard_round
          = g.multipaxos_state.rx_max_heard_round
        ∧ (leader_frame env slot_count cs rx tx g).tx_multipaxos.max_heard_round
          = tx.max_heard_round
        ∧ (leader_frame env slot_count cs rx tx g).tx_multipaxos.values = tx.values
        ∧ ∀ i, i ≠ 0 →
            rd (leader_frame env slot_count cs rx tx g).tx_multipaxos.proposals i
              = rd tx.proposals i))
    ∧ (¬ (g.multipaxos_state.leader.is_leader ≠ 0 ∧ g.multipaxos_state.leader.got_majority = 0) →
      (process env slot_count cs succ rx rnd tx g).g.multipaxos_state
        = (leader_frame env slot_count cs rx tx g).g.multipaxos_state
      ∧ (process env slot_count cs succ rx rnd tx g).tx_multipaxos
        = (leader_frame env slot_count cs rx tx g).tx_multipaxos) := by
  have hlex := ordering_ok_iff_lex (entry_payload cs rx tx) tx
  obtain ⟨hs, ht⟩ := process_of_leader_logic env slot_count cs succ rx rnd tx g hv hp
  obtain ⟨hfl, _, _, _, _⟩ := leader_frame_entry env slot_count cs rx tx g
  obtain ⟨hpay, hacc, hrp, hrv, hmax, htp, htv⟩ := new_phase_frame_spec env cs rx tx g
  obtain ⟨hheard, hhb, hhp, hhr, hmin, hmhr, hflags⟩ := new_phase_frame_header env cs rx tx g
  obtain ⟨hpfl, hmfl⟩ := payload_flags_merged env cs rx tx g
  have hM : merged_frame env cs rx tx g
      = acceptor_phase env cs rx (new_phase_frame env cs rx tx g) := rfl
  have hunw := acceptor_phase_unwritten env cs rx (new_phase_frame env cs rx tx g)
  rw [hpay, ← hM] at hunw
  have hav := acceptor_phase_view env cs rx (new_phase_frame env cs rx tx g)
  rw [← hM] at hav
  unfold acceptor_view at hav
  simp only [Prod.mk.injEq] at hav
  -- the frame after the acceptor logic of a merged payload
  have hmerged : ordering_ok (entry_payload cs rx tx) tx →
      merge_view (leader_frame env slot_count cs rx tx g)
          = merge_view (merged_frame env cs rx tx g)
      ∧ (leader_frame env slot_count cs rx tx g).tx_multipaxos.flags
        = (if entry_new_phase cs rx tx = 0 then
            ((List.range (FLAGS_LEN env)).foldl (merge_step (entry_payload cs rx tx).flags)
              ⟨(merged_frame env cs rx tx g).g.tx,
                (new_phase_frame env cs rx tx g).tx_multipaxos.flags, 0,
                (merged_frame env cs rx tx g).g.n_replies⟩).flags
          else set_own_flag env (new_phase_frame env cs rx tx g).tx_multipaxos.flags) := by
    intro ho
    rw [leader_frame_of_merge env slot_count cs rx tx g ho, transmission_logic_view,
      transmission_logic_flags, hpfl, hmfl]
    exact ⟨rfl, rfl⟩
  refine ⟨fun hb => ?_, fun hle => ?_, fun hlt => ?_, fun heq => ?_, fun hna => ?_⟩
  · have ho : ¬ ordering_ok (entry_payload cs rx tx) tx := fun h => hb (hlex.1.mp h)
    have hst := leader_frame_of_stale env slot_count cs rx tx g ho
    refine ⟨?_, ?_, ?_, ?_, ?_, ?_⟩
    · rw [hst, open_valid_eq]; rfl
    · rw [hst, open_valid_eq]; rfl
    · rw [hst]; rfl
    · rw [hst, open_valid_eq]; rfl
    · rw [process_heard env slot_count cs succ rx rnd tx g hv hp, hst, open_valid_eq]; rfl
    · rw [hs, leader_logic_acceptor, hst, open_valid_eq]; rfl
  · have ho : ordering_ok (entry_payload cs rx tx) tx := hlex.1.mpr hle
    obtain ⟨hview, hlf⟩ := hmerged ho
    unfold merge_view at hview
    simp only [Prod.mk.injEq] at hview
    refine ⟨?_, ?_, ?_, ?_, ?_, ?_⟩
    · rw [process_heard env slot_count cs succ rx rnd tx g hv hp,
        leader_frame_of_merge env slot_count cs rx tx g ho, hM, acceptor_merge_heard, hheard]
    · rw [hview.2.2.2.2.2.2.1, hav.2.2.2.2.2.2.1, hhb]
    · rw [hview.2.2.2.2.2.2.2.1, hav.2.2.2.2.2.2.2.1, hhp]
    · rw [hview.2.2.2.2.2.2.2.2.1, hav.2.2.2.2.2.2.2.2.1, hhr]
    · intro hph
      rw [process_acceptor_of_merge env slot_count cs succ rx rnd tx g hv hp ho, hM,
        multi_acceptor_phase_acceptor, hpay]
      by_cases h1 : (entry_payload cs rx tx).phase = MULTIPAXOS_PREPARE
      · rw [if_pos h1]
        unfold prepare_promise
        rw [hacc]
        split
        · show (entry_payload cs rx tx).ballot = _
          omega
        · rw [hacc]
          omega
      · rw [if_neg h1]
        have h2 : (entry_payload cs rx tx).phase = MULTIPAXOS_ACCEPT := by
          rcases hph with h | h
          · exact absurd h h1
          · exact h
        rw [if_pos h2]
        unfold accept_write
        rw [hacc]
        split
        · show (entry_payload cs rx tx).ballot = _
          omega
        · rw [hacc]
          omega
    · intro i hi hlen k hk
      rw [hlf, hflags]
      by_cases hnp : entry_new_phase cs rx tx = 0
      · rw [if_pos hnp, if_neg (fun h => h hnp), (merge_fold_flags _ _ _ _ _).2 i,
          if_pos ⟨hi, hlen⟩, Nat.testBit_or, hk, Bool.or_true]
      · rw [if_neg hnp, if_pos hnp]
        apply multi_set_own_flag_keeps
        rw [copy_first_rd, if_pos ⟨hi, hlen⟩]
        exact hk
  · have h1 := hlex.2.mpr hlt
    have hnp : entry_new_phase cs rx tx ≠ 0 := h1.2
    obtain ⟨hview, hlf⟩ := hmerged h1.1
    unfold merge_view at hview
    simp only [Prod.mk.injEq] at hview
    refine ⟨?_, fun hph => ?_, fun hph => ?_⟩
    · rw [hlf, if_neg hnp, hflags, if_pos hnp]
    · refine ⟨by rw [hview.2.2.1, hunw.1 hph, hmin, if_pos hnp], ?_⟩
      intro l1 l2 l3 l4 i hi
      have hagg := leader_frame_aggregated env slot_count cs rx tx g i hph h1.1 hi l1 l2 l3 l4
      unfold prepare_aggregated at hagg
      obtain ⟨a1, _, a3, _, a5, a6⟩ := hagg
      rw [a1, a3, a5, a6]
      unfold packet_proposal aggregate_proposal heard_round prior_proposal
      simp only [if_pos hnp]
      refine ⟨by omega, by omega, by omega, ?_⟩
      split <;> omega
    · obtain ⟨u1, u2, u3, u4, u5⟩ := hunw.2 hph
      refine ⟨?_, ?_, ?_, ?_, ?_, fun i hi => ?_⟩
      · rw [hview.2.2.2.1, u1, hrp, if_pos hnp]
      · rw [hview.2.2.2.2.1, u2, hrv, if_pos hnp]
      · rw [hview.2.2.2.2.2.1, u3, hmax, if_pos hnp]
      · rw [hview.2.2.2.2.2.2.2.2.2.1, u4, hmhr, if_pos hnp]
      · rw [hview.2.2.2.2.2.2.2.2.2.2.1, u5, htv, if_pos hnp]
      · rw [hview.2.2.2.2.2.2.2.2.2.2.2, hM,
          acceptor_phase_proposals env cs rx _ (by rw [hpay]; exact hph) i hi, htp, if_pos hnp]
  · have ho : ordering_ok (entry_payload cs rx tx) tx := hlex.1.mpr (le_of_eq heq)
    have hnp : ¬ entry_new_phase cs rx tx ≠ 0 := fun hc =>
      absurd (hlex.2.mp ⟨ho, hc⟩) (by rw [heq]; exact lt_irrefl _)
    have hnp0 : entry_new_phase cs rx tx = 0 := by
      by_contra hc
      exact hnp hc
    obtain ⟨hview, hlf⟩ := hmerged ho
    unfold merge_view at hview
    simp only [Prod.mk.injEq] at hview
    refine ⟨fun i hi hlen => ?_, fun hph => ?_, fun hph => ?_⟩
    · rw [hlf, if_pos hnp0, hflags, if_neg hnp, (merge_fold_flags _ _ _ _ _).2 i,
        if_pos ⟨hi, hlen⟩]
    · refine ⟨by rw [hview.2.2.1, hunw.1 hph, hmin, if_neg hnp], ?_⟩
      intro l1 l2 l3 l4 i hi
      have hagg := leader_frame_aggregated env slot_count cs rx tx g i hph ho hi l1 l2 l3 l4
      unfold prepare_aggregated at hagg
      obtain ⟨a1, _, a3, _, a5, a6⟩ := hagg
      rw [a1, a3, a5, a6]
      unfold packet_proposal aggregate_proposal heard_round prior_proposal
      rw [if_neg hnp, if_neg hnp, if_neg hnp]
      exact ⟨rfl, rfl, rfl, rfl⟩
    · obtain ⟨u1, u2, u3, u4, u5⟩ := hunw.2 hph
      refine ⟨?_, ?_, ?_, ?_, ?_, fun i hi => ?_⟩
      · rw [hview.2.2.2.1, u1, hrp, if_neg hnp]
      · rw [hview.2.2.2.2.1, u2, hrv, if_neg hnp]
      · rw [hview.2.2.2.2.2.1, u3, hmax, if_neg hnp]
      · rw [hview.2.2.2.2.2.2.2.2.2.1, u4, hmhr, if_neg hnp]
      · rw [hview.2.2.2.2.2.2.2.2.2.2.1, u5, htv, if_neg hnp]
      · rw [hview.2.2.2.2.2.2.2.2.2.2.2, hM,
          acceptor_phase_proposals env cs rx _ (by rw [hpay]; exact hph) i hi, htp, if_neg hnp]
  · have hid : leader_logic env (payload cs rx (leader_frame env slot_count cs rx tx g))
        (leader_frame env slot_count cs rx tx g) = leader_frame env slot_count cs rx tx g := by
      unfold leader_logic
      rw [if_neg (by rw [hfl]; exact hna)]
    rw [hs, ht, hid]
    exact ⟨rfl, rfl⟩

/-- C14 on node 1 of the three-node network, whose TX packet is still empty: the
ACCEPT packet of ballot (1,0) under the flags of nodes 0 and 2 is strictly above
it and is merged as a new phase: the TX flags after the call are the payload's
with the own flag, and the TX header is the payload's. The PREPARE packet of the
same ballot and round, received next, is below the TX packet and leaves it as it
is. -/
theorem ordering_check_lexicographic_witness :
    slot_valid CHAOS_RX 1 (after_round_start 1).g
    ∧ (entry_payload CHAOS_RX accept_with_higher_promise
        (after_round_start 1).tx_multipaxos).phase ≠ MULTIPAXOS_INIT
    ∧ (leader_frame (env3 1) 1 CHAOS_RX accept_with_higher_promise
        (after_round_start 1).tx_multipaxos (after_round_start 1).g).tx_multipaxos.flags
      = set_own_flag (env3 1)
          (copy_first (FLAGS_LEN (env3 1)) (after_round_start 1).tx_multipaxos.flags
            (entry_payload CHAOS_RX accept_with_higher_promise
              (after_round_start 1).tx_multipaxos).flags)
    ∧ (process (env3 1) 1 CHAOS_RX 1 accept_with_higher_promise 0
        (after_round_start 1).tx_multipaxos (after_round_start 1).g).tx_multipaxos
      = ⟨ballot_of 1 0, MULTIPAXOS_ACCEPT, 1, 0, [7, 8], [ballot_of 1 2, 0], [7]⟩
    ∧ (process (env3 1) 2 CHAOS_RX 1
        ⟨ballot_of 1 0, MULTIPAXOS_PREPARE, 1, 0, [0, 0], [0, 0], [1]⟩ 0
        (process (env3 1) 1 CHAOS_RX 1 accept_with_higher_promise 0
          (after_round_start 1).tx_multipaxos (after_round_start 1).g).tx_multipaxos
        (process (env3 1) 1 CHAOS_RX 1 accept_with_higher_promise 0
          (after_round_start 1).tx_multipaxos (after_round_start 1).g).g).tx_multipaxos
      = ⟨ballot_of 1 0, MULTIPAXOS_ACCEPT, 1, 0, [7, 8], [ballot_of 1 2, 0], [7]⟩ :=
  ⟨by decide, by decide,
    ((ordering_check_lexicographic (env3 1) 1 CHAOS_RX 1 accept_with_higher_promise 0
      (after_round_start 1).tx_multipaxos (after_round_start 1).g (by decide)
      (by decide)).2.2.1 ((ordering_ok_iff_lex _ _).2.mp (by decide))).1,
    by decide, by decide⟩

/-- The loop of the leader's PREPARE evaluation, on all `K` entries: when the
entries above the loop's first index already hold what the rule gives them, the
proposed values after the loop follow the rule on every entry: the reported
value where a proposal is reported, `MULTIPAXOS_NO_OP` below a reported entry,
the value before the loop otherwise. -/
theorem fill_loop_rule (env : Env) (pl : multipaxos_t) (f : Frame)
    (hlen : env.MULTIPAXOS_PKT_SIZE ≤ f.g.multipaxos_state.leader.proposed_values.length)
    (P1 : ∀ k, k < env.MULTIPAXOS_PKT_SIZE → fill_bound env pl < (k : Int) →
      rd f.g.multipaxos_state.rx_accepted_proposals k ≠ 0 →
      rd f.g.multipaxos_state.leader.proposed_values k
        = rd f.g.multipaxos_state.rx_accepted_values k)
    (P2 : ∀ j k, j < k → k < env.MULTIPAXOS_PKT_SIZE → fill_bound env pl < (k : Int) →
      rd f.g.multipaxos_state.rx_accepted_proposals j = 0 →
      rd f.g.multipaxos_state.rx_accepted_proposals k ≠ 0 →
      rd f.g.multipaxos_state.leader.proposed_values j = env.MULTIPAXOS_NO_OP)
    (i : Nat) (hi : i < env.MULTIPAXOS_PKT_SIZE) :
    (rd f.g.multipaxos_state.rx_accepted_proposals i ≠ 0 →
      rd (fill_loop env pl f).proposed_values i = rd f.g.multipaxos_state.rx_accepted_values i)
    ∧ (rd f.g.multipaxos_state.rx_accepted_proposals i = 0 →
      (∃ j, i < j ∧ j < env.MULTIPAXOS_PKT_SIZE
        ∧ rd f.g.multipaxos_state.rx_accepted_proposals j ≠ 0) →
      rd (fill_loop env pl f).proposed_values i = env.MULTIPAXOS_NO_OP)
    ∧ (rd f.g.multipaxos_state.rx_accepted_proposals i = 0 →
      (∀ j, i < j → j < env.MULTIPAXOS_PKT_SIZE →
        rd f.g.multipaxos_state.rx_accepted_proposals j = 0) →
      rd (fill_loop env pl f).proposed_values i
        = rd f.g.multipaxos_state.leader.proposed_values i) := by
  have hb : fill_bound env pl ≤ (env.MULTIPAXOS_PKT_SIZE : Int) - 1 := by
    unfold fill_bound
    split
    · exact le_refl _
    · omega
  have hlen0 : (fill_bound env pl + 1).toNat
      ≤ f.g.multipaxos_state.leader.proposed_values.length := by omega
  have hspec := fill_fold_spec env f (fill_bound env pl + 1).toNat
    ⟨f.g.multipaxos_state.leader.proposed_values, 0, 0⟩ hlen0
  have hloop : fill_loop env pl f
      = (List.range (fill_bound env pl + 1).toNat).reverse.foldl (fill_step env f)
        ⟨f.g.multipaxos_state.leader.proposed_values, 0, 0⟩ := rfl
  rw [hloop]
  have hbn : ∀ k : Nat, (fill_bound env pl + 1).toNat ≤ k → fill_bound env pl < (k : Int) := by
    intro k hk
    omega
  have hnK : (fill_bound env pl + 1).toNat ≤ env.MULTIPAXOS_PKT_SIZE := by omega
  generalize (fill_bound env pl + 1).toNat = n at hspec hbn hnK
  obtain ⟨_, hs⟩ := hspec
  refine ⟨fun hap => ?_, fun hap hex => ?_, fun hap hall => ?_⟩
  · by_cases hin : i < n
    · exact (hs i).1 hin hap
    · rw [(hs i).2.2.2 (by omega)]
      exact P1 i hi (hbn i (by omega)) hap
  · obtain ⟨j, hj1, hj2, hj3⟩ := hex
    by_cases hin : i < n
    · by_cases hex2 : ∃ j', i < j' ∧ j' < n
          ∧ rd f.g.multipaxos_state.rx_accepted_proposals j' ≠ 0
      · exact (hs i).2.1 hin hap (Or.inr hex2)
      · have hall : ∀ j', i < j' → j' < n →
            rd f.g.multipaxos_state.rx_accepted_proposals j' = 0 := by
          intro j' h1 h2
          by_contra hc
          exact hex2 ⟨j', h1, h2, hc⟩
        rw [(hs i).2.2.1 hin hap rfl hall]
        have hjn : n ≤ j := by
          by_contra hc
          exact hj3 (hall j hj1 (by omega))
        exact P2 i j hj1 hj2 (hbn j hjn) hap hj3
    · rw [(hs i).2.2.2 (by omega)]
      exact P2 i j hj1 hj2 (hbn j (by omega)) hap hj3
  · by_cases hin : i < n
    · exact (hs i).2.2.1 hin hap rfl (fun j h1 h2 => hall j h1 (by omega))
    · exact (hs i).2.2.2 (by omega)

/-- The aggregate of an entry for which the payload reports nothing and the own
log holds nothing above the aggregate before: if it is not zero, the call is not
a new phase and the aggregated proposal and value are those of before the
call. -/
theorem aggregate_of_prior (env : Env) (cs : chaos_state_t) (rx tx : multipaxos_t)
    (g : Globals) (k : Nat)
    (hloc : local_proposal env cs rx tx g k ≤ prior_proposal cs rx tx g k)
    (hep : rd (entry_payload cs rx tx).proposals k = 0)
    (hne : aggregate_proposal env cs rx tx g k ≠ 0) :
    entry_new_phase cs rx tx = 0
    ∧ aggregate_proposal env cs rx tx g k = rd g.multipaxos_state.rx_accepted_proposals k
    ∧ aggregate_value env cs rx tx g k = rd g.multipaxos_state.rx_accepted_values k := by
  unfold aggregate_value
  unfold aggregate_proposal at hne ⊢
  rw [hep] at hne ⊢
  by_cases hn : entry_new_phase cs rx tx ≠ 0
  · have hp0 : prior_proposal cs rx tx g k = 0 := by
      unfold prior_proposal
      rw [if_pos hn]
    rw [hp0] at hloc hne
    exfalso
    omega
  · have hn0 : entry_new_phase cs rx tx = 0 := Decidable.of_not_not hn
    have hp : prior_proposal cs rx tx g k = rd g.multipaxos_state.rx_accepted_proposals k := by
      unfold prior_proposal
      rw [if_neg hn]
    have hpv : prior_value cs rx tx g k = rd g.multipaxos_state.rx_accepted_values k := by
      unfold prior_value
      rw [if_neg hn]
    have hmax : max (prior_proposal cs rx tx g k) (max 0 (local_proposal env cs rx tx g k))
        = prior_proposal cs rx tx g k := by omega
    rw [hmax] at hne ⊢
    refine ⟨hn0, hp, ?_⟩
    rw [if_neg (fun h => hne h.symm), if_neg (by omega), hpv]

/-- The highest round heard is not below the payload's `max_heard_round` nor below
the acceptor's `last_round_participation`. -/
theorem heard_round_ge (cs : chaos_state_t) (rx tx : multipaxos_t) (g : Globals) :
    (entry_payload cs rx tx).max_heard_round ≤ heard_round cs rx tx g
    ∧ g.multipaxos_state.acceptor.last_round_participation ≤ heard_round cs rx tx g := by
  unfold heard_round
  exact ⟨le_max_left _ _, le_trans (le_max_right _ _) (le_max_right _ _)⟩

/-- An entry above the first index of the leader's loop, after the acceptor logic
of a call that merges a PREPARE payload whose reports lie within its
`max_heard_round`, on a node whose aggregate holds its own log: if a proposal is
aggregated for it, the call is not a new phase and the aggregated proposal and
value are those of before the call. -/
theorem leader_frame_above_bound (env : Env) (slot_count : Nat) (cs : chaos_state_t)
    (rx tx : multipaxos_t) (g : Globals)
    (hp : (entry_payload cs rx tx).phase = MULTIPAXOS_PREPARE)
    (ho : ordering_ok (entry_payload cs rx tx) tx)
    (h1 : env.MULTIPAXOS_PKT_SIZE ≤ g.multipaxos_state.rx_accepted_proposals.length)
    (h2 : env.MULTIPAXOS_PKT_SIZE ≤ g.multipaxos_state.rx_accepted_values.length)
    (h3 : env.MULTIPAXOS_PKT_SIZE ≤ tx.proposals.length)
    (h4 : env.MULTIPAXOS_PKT_SIZE ≤ tx.values.length)
    (hW : reports_within env (entry_payload cs rx tx))
    (hO : cs ≠ CHAOS_TX → own_log_aggregated env cs rx tx g)
    (k : Nat) (hk : k < env.MULTIPAXOS_PKT_SIZE)
    (hb : fill_bound env (payload cs rx (leader_frame env slot_count cs rx tx g)) < (k : Int))
    (hne : rd (leader_frame env slot_count cs rx tx g).g.multipaxos_state.rx_accepted_proposals k
      ≠ 0) :
    entry_new_phase cs rx tx = 0
    ∧ rd (leader_frame env slot_count cs rx tx g).g.multipaxos_state.rx_accepted_proposals k
      = rd g.multipaxos_state.rx_accepted_proposals k
    ∧ rd (leader_frame env slot_count cs rx tx g).g.multipaxos_state.rx_accepted_values k
      = rd g.multipaxos_state.rx_accepted_values k := by
  have hagg := leader_frame_aggregated env slot_count cs rx tx g k hp ho hk h1 h2 h3 h4
  unfold prepare_aggregated at hagg
  obtain ⟨ha1, ha2, _, _, _, ha6⟩ := hagg
  have hround := (leader_frame_entry env slot_count cs rx tx g).2.2.2.2
  have hlt : (payload cs rx (leader_frame env slot_count cs rx tx g)).max_heard_round
      < (entry_payload cs rx tx).round + k := by
    unfold fill_bound at hb
    rw [hround] at hb
    split at hb <;> omega
  obtain ⟨hge1, hge2⟩ := heard_round_ge cs rx tx g
  rw [ha1] at hne ⊢
  rw [ha2]
  by_cases hc : cs = CHAOS_TX
  · have hpay : payload cs rx (leader_frame env slot_count cs rx tx g)
        = (leader_frame env slot_count cs rx tx g).tx_multipaxos := by
      unfold payload
      rw [if_pos hc]
    rw [hpay, ha6] at hlt
    have hep : rd (entry_payload cs rx tx).proposals k = 0 := by
      by_contra hc2
      have := hW k hk hc2
      omega
    have hloc0 : local_proposal env cs rx tx g k = 0 := by
      unfold local_proposal
      rw [if_neg (by omega)]
    exact aggregate_of_prior env cs rx tx g k (by rw [hloc0]; exact Nat.zero_le _) hep hne
  · have hpay : payload cs rx (leader_frame env slot_count cs rx tx g)
        = entry_payload cs rx tx := by
      unfold payload entry_payload
      rw [if_neg hc, if_neg hc]
    rw [hpay] at hlt
    have hep : rd (entry_payload cs rx tx).proposals k = 0 := by
      by_contra hc2
      have := hW k hk hc2
      omega
    exact aggregate_of_prior env cs rx tx g k (hO hc k hk) hep hne

/-- An entry without an aggregated proposal after the acceptor logic of a call
that merges a PREPARE payload and is not a new phase had none before the
call. -/
theorem leader_frame_zero_prior (env : Env) (slot_count : Nat) (cs : chaos_state_t)
    (rx tx : multipaxos_t) (g : Globals)
    (hp : (entry_payload cs rx tx).phase = MULTIPAXOS_PREPARE)
    (ho : ordering_ok (entry_payload cs rx tx) tx)
    (h1 : env.MULTIPAXOS_PKT_SIZE ≤ g.multipaxos_state.rx_accepted_proposals.length)
    (h2 : env.MULTIPAXOS_PKT_SIZE ≤ g.multipaxos_state.rx_accepted_values.length)
    (h3 : env.MULTIPAXOS_PKT_SIZE ≤ tx.proposals.length)
    (h4 : env.MULTIPAXOS_PKT_SIZE ≤ tx.values.length)
    (j : Nat) (hj : j < env.MULTIPAXOS_PKT_SIZE)
    (hn : entry_new_phase cs rx tx = 0)
    (h0 : rd (leader_frame env slot_count cs rx tx g).g.multipaxos_state.rx_accepted_proposals j
      = 0) :
    rd g.multipaxos_state.rx_accepted_proposals j = 0 := by
  have hagg := leader_frame_aggregated env slot_count cs rx tx g j hp ho hj h1 h2 h3 h4
  unfold prepare_aggregated at hagg
  have ha1 := hagg.1
  rw [h0] at ha1
  unfold aggregate_proposal at ha1
  have hp0 : prior_proposal cs rx tx g j = rd g.multipaxos_state.rx_accepted_proposals j := by
    unfold prior_proposal
    rw [if_neg (fun h => h hn)]
  rw [hp0] at ha1
  omega

/-- What the leader's loop needs of the entries above its first index, after the
acceptor logic of a call that merges a PREPARE payload: under the three
conditions (reports within `max_heard_round`, own log aggregated when the node
was listening, proposed values consistent with the aggregate unless the call is
a new phase) such an entry with an aggregated proposal already holds the
aggregated value, and an entry below it without one already holds
`MULTIPAXOS_NO_OP`. -/
theorem leader_frame_fill_premises (env : Env) (slot_count : Nat) (cs : chaos_state_t)
    (rx tx : multipaxos_t) (g : Globals)
    (hp : (entry_payload cs rx tx).phase = MULTIPAXOS_PREPARE)
    (ho : ordering_ok (entry_payload cs rx tx) tx)
    (h1 : env.MULTIPAXOS_PKT_SIZE ≤ g.multipaxos_state.rx_accepted_proposals.length)
    (h2 : env.MULTIPAXOS_PKT_SIZE ≤ g.multipaxos_state.rx_accepted_values.length)
    (h3 : env.MULTIPAXOS_PKT_SIZE ≤ tx.proposals.length)
    (h4 : env.MULTIPAXOS_PKT_SIZE ≤ tx.values.length)
    (hW : reports_within env (entry_payload cs rx tx))
    (hO : cs ≠ CHAOS_TX → own_log_aggregated env cs rx tx g)
    (hC : entry_new_phase cs rx tx = 0 → fill_consistent env g) :
    (∀ k, k < env.MULTIPAXOS_PKT_SIZE →
      fill_bound env (payload cs rx (leader_frame env slot_count cs rx tx g)) < (k : Int) →
      rd (leader_frame env slot_count cs rx tx g).g.multipaxos_state.rx_accepted_proposals k ≠ 0 →
      rd (leader_frame env slot_count cs rx tx g).g.multipaxos_state.leader.proposed_values k
        = rd (leader_frame env slot_count cs rx tx g).g.multipaxos_state.rx_accepted_values k)
    ∧ (∀ j k, j < k → k < env.MULTIPAXOS_PKT_SIZE →
      fill_bound env (payload cs rx (leader_frame env slot_count cs rx tx g)) < (k : Int) →
      rd (leader_frame env slot_count cs rx tx g).g.multipaxos_state.rx_accepted_proposals j = 0 →
      rd (leader_frame env slot_count cs rx tx g).g.multipaxos_state.rx_accepted_proposals k ≠ 0 →
      rd (leader_frame env slot_count cs rx tx g).g.multipaxos_state.leader.proposed_values j
        = env.MULTIPAXOS_NO_OP) := by
  have hlead := (leader_frame_entry env slot_count cs rx tx g).1
  constructor
  · intro k hk hb hne
    obtain ⟨hn, e1, e2⟩ := leader_frame_above_bound env slot_count cs rx tx g hp ho h1 h2 h3 h4
      hW hO k hk hb hne
    rw [hlead, e2]
    exact ((hC hn) k hk).1 (by rw [← e1]; exact hne)
  · intro j k hjk hk hb h0 hne
    obtain ⟨hn, e1, _⟩ := leader_frame_above_bound env slot_count cs rx tx g hp ho h1 h2 h3 h4
      hW hO k hk hb hne
    have hj : j < env.MULTIPAXOS_PKT_SIZE := Nat.lt_trans hjk hk
    have hz := leader_frame_zero_prior env slot_count cs rx tx g hp ho h1 h2 h3 h4 j hj hn h0
    rw [hlead]
    exact ((hC hn) j hj).2 hz k hk hjk (by rw [← e1]; exact hne)

/-- The proposed values are consistent with aggregation variables that hold no
proposal, as at the start of a PREPARE phase. -/
theorem fill_consistent_of_cleared (env : Env) (g : Globals)
    (h : ∀ j, j < env.MULTIPAXOS_PKT_SIZE → rd g.multipaxos_state.rx_accepted_proposals j = 0) :
    fill_consistent env g := by
  intro j hj
  exact ⟨fun hne => absurd (h j hj) hne, fun _ k hk _ hne => absurd (h k hk) hne⟩

/-- The log of the acceptor after the acceptor phases of a call on a PREPARE
payload is the one of before the call. -/
theorem merged_frame_log (env : Env) (cs : chaos_state_t) (rx tx : multipaxos_t) (g : Globals)
    (hp : (entry_payload cs rx tx).phase = MULTIPAXOS_PREPARE) :
    (merged_frame env cs rx tx g).g.multipaxos_state.acceptor.last_round_participation
      = g.multipaxos_state.acceptor.last_round_participation
    ∧ (merged_frame env cs rx tx g).g.multipaxos_state.acceptor.accepted_proposals
      = g.multipaxos_state.acceptor.accepted_proposals
    ∧ (merged_frame env cs rx tx g).g.multipaxos_state.acceptor.accepted_values
      = g.multipaxos_state.acceptor.accepted_values := by
  obtain ⟨hpay, hacc, _⟩ := new_phase_frame_spec env cs rx tx g
  have hM : merged_frame env cs rx tx g
      = acceptor_phase env cs rx (new_phase_frame env cs rx tx g) := rfl
  rw [hM, multi_acceptor_phase_acceptor, hpay, if_pos hp, ← hacc]
  unfold prepare_promise
  split <;> exact ⟨rfl, rfl, rfl⟩

/-- The leader logic on a leader in PREPARE that reads a payload with its ballot,
phase and round and stays in PREPARE: the proposed values are those the loop
leaves, and the aggregation variables, the acceptor state and the TX packet are
left alone. -/
theorem leader_logic_keeps_prepare (env : Env) (pl : multipaxos_t) (f : Frame)
    (h1 : f.g.multipaxos_state.leader.is_leader ≠ 0)
    (h2 : f.g.multipaxos_state.leader.got_majority = 0)
    (h3 : f.g.multipaxos_state.leader.phase = MULTIPAXOS_PREPARE)
    (h4 : pl.ballot = f.g.multipaxos_state.leader.proposed_ballot)
    (h5 : pl.phase = MULTIPAXOS_PREPARE)
    (h6 : pl.round = f.g.multipaxos_state.leader.current_round)
    (h7 : (leader_logic env pl f).g.multipaxos_state.leader.phase = MULTIPAXOS_PREPARE) :
    (leader_logic env pl f).g.multipaxos_state.leader.proposed_values
      = (fill_loop env pl f).proposed_values
    ∧ (leader_logic env pl f).g.multipaxos_state.rx_accepted_proposals
      = f.g.multipaxos_state.rx_accepted_proposals
    ∧ (leader_logic env pl f).g.multipaxos_state.rx_accepted_values
      = f.g.multipaxos_state.rx_accepted_values
    ∧ (leader_logic env pl f).g.multipaxos_state.rx_max_heard_round
      = f.g.multipaxos_state.rx_max_heard_round
    ∧ (leader_logic env pl f).g.multipaxos_state.acceptor = f.g.multipaxos_state.acceptor
    ∧ (leader_logic env pl f).tx_multipaxos = f.tx_multipaxos := by
  have hne : MULTIPAXOS_ACCEPT ≠ MULTIPAXOS_PREPARE := by decide
  have hfin : ∀ a : LeadFrame, a.update_phase = 0 →
      (leader_finish env a).g.multipaxos_state.leader.proposed_values
        = a.f.g.multipaxos_state.leader.proposed_values
      ∧ (leader_finish env a).g.multipaxos_state.rx_accepted_proposals
        = a.f.g.multipaxos_state.rx_accepted_proposals
      ∧ (leader_finish env a).g.multipaxos_state.rx_accepted_values
        = a.f.g.multipaxos_state.rx_accepted_values
      ∧ (leader_finish env a).g.multipaxos_state.rx_max_heard_round
        = a.f.g.multipaxos_state.rx_max_heard_round
      ∧ (leader_finish env a).g.multipaxos_state.acceptor = a.f.g.multipaxos_state.acceptor
      ∧ (leader_finish env a).tx_multipaxos = a.f.tx_multipaxos := by
    intro a hu
    unfold leader_finish
    rw [if_neg (fun h => h hu)]
    unfold after_loss leader_lost
    split <;> exact ⟨rfl, rfl, rfl, rfl, rfl, rfl⟩
  unfold leader_logic at h7 ⊢
  rw [if_pos ⟨h1, h2⟩] at h7 ⊢
  unfold leader_compete at h7 ⊢
  rw [if_pos h4, if_pos ⟨h5.trans h3.symm, h6⟩] at h7 ⊢
  unfold leader_own at h7 ⊢
  rw [if_pos h3] at h7 ⊢
  unfold leader_prepare at h7 ⊢
  by_cases hm : (fill_loop env pl f).lost_proposal = 0
      ∧ f.g.n_replies > env.chaos_node_count / 2
  · rw [if_pos hm] at h7
    rw [(leader_finish_to_accept env _ ((phase_delta_frame _).2.2.2.trans rfl)
      ((phase_delta_frame _).2.2.1.trans hm.1)).2, (phase_delta_frame _).1] at h7
    exact absurd h7 hne
  · rw [if_neg hm]
    have hf := hfin (phase_delta
      ⟨{ f with
         g.multipaxos_state.leader.proposed_values := (fill_loop env pl f).proposed_values,
         g.multipaxos_state.leader.do_another_phase_1 := another_phase env pl },
       (fill_loop env pl f).lost_proposal, 0⟩) ((phase_delta_frame _).2.2.2.trans rfl)
    rw [(phase_delta_frame _).1, (phase_delta_frame _).2.1] at hf
    exact hf

/-- On a call that is not a new phase the payload read on entry has the round of
the TX packet. -/
theorem entry_round_of_same_phase (cs : chaos_state_t) (rx tx : multipaxos_t)
    (h : entry_new_phase cs rx tx = 0) : (entry_payload cs rx tx).round = tx.round := by
  unfold entry_new_phase new_phase_of at h
  by_cases hc : (entry_payload cs rx tx).ballot = tx.ballot
      ∧ (entry_payload cs rx tx).phase = tx.phase ∧ (entry_payload cs rx tx).round = tx.round
  · exact hc.2.2
  · rw [if_pos hc] at h
    exact absurd h Nat.one_ne_zero

/-- The three conditions of the NO_OP fill are kept by the leader's own PREPARE
phase. Take a call of `process` in a valid slot on a leader in PREPARE without
majority that merges a payload of its ballot, phase and round and stays in
PREPARE, with arrays of at least `K` entries, and assume the three conditions
before the call. After the call the proposed values are consistent with the
aggregation variables, and the aggregation variables hold the node's own log for
every later call on the same phase. When a PREPARE phase starts with zero
aggregation variables, the proposed values are consistent with them
(`fill_consistent_of_cleared`), and the first call is the one in which the
leader reads back its own packet, for which the condition on the own log is not
needed. -/
theorem fill_consistent_kept (env : Env) (slot_count : Nat) (cs : chaos_state_t) (succ : Nat)
    (rx : multipaxos_t) (rnd : Nat) (tx : multipaxos_t) (g : Globals)
    (hv : slot_valid cs succ g)
    (hl : g.multipaxos_state.leader.is_leader ≠ 0)
    (hg : g.multipaxos_state.leader.got_majority = 0)
    (h1 : g.multipaxos_state.leader.phase = MULTIPAXOS_PREPARE)
    (hb : (entry_payload cs rx tx).ballot = g.multipaxos_state.leader.proposed_ballot)
    (hp : (entry_payload cs rx tx).phase = MULTIPAXOS_PREPARE)
    (hr : (entry_payload cs rx tx).round = g.multipaxos_state.leader.current_round)
    (ho : ordering_ok (entry_payload cs rx tx) tx)
    (h2 : (process env slot_count cs succ rx rnd tx g).g.multipaxos_state.leader.phase
      = MULTIPAXOS_PREPARE)
    (hv4 : env.MULTIPAXOS_PKT_SIZE ≤ tx.values.length)
    (hp3 : env.MULTIPAXOS_PKT_SIZE ≤ tx.proposals.length)
    (hpv : env.MULTIPAXOS_PKT_SIZE ≤ g.multipaxos_state.leader.proposed_values.length)
    (hrp : env.MULTIPAXOS_PKT_SIZE ≤ g.multipaxos_state.rx_accepted_proposals.length)
    (hrv : env.MULTIPAXOS_PKT_SIZE ≤ g.multipaxos_state.rx_accepted_values.length)
    (hW : reports_within env (entry_payload cs rx tx))
    (hO : cs ≠ CHAOS_TX → own_log_aggregated env cs rx tx g)
    (hC : entry_new_phase cs rx tx = 0 → fill_consistent env g) :
    fill_consistent env (process env slot_count cs succ rx rnd tx g).g
    ∧ ∀ (cs' : chaos_state_t) (rx' : multipaxos_t),
        entry_new_phase cs' rx' (process env slot_count cs succ rx rnd tx g).tx_multipaxos = 0 →
        own_log_aggregated env cs' rx' (process env slot_count cs succ rx rnd tx g).tx_multipaxos
          (process env slot_count cs succ rx rnd tx g).g := by
  have hne : (entry_payload cs rx tx).phase ≠ MULTIPAXOS_INIT := by
    rw [hp]
    decide
  obtain ⟨hs, ht⟩ := process_of_leader_logic env slot_count cs succ rx rnd tx g hv hne
  obtain ⟨hlead, _, hfb, hfp, hfr⟩ := leader_frame_entry env slot_count cs rx tx g
  rw [hs] at h2
  obtain ⟨kpv, krp, krv, _, kacc, ktx⟩ := leader_logic_keeps_prepare env
    (payload cs rx (leader_frame env slot_count cs rx tx g))
    (leader_frame env slot_count cs rx tx g)
    (by rw [hlead]; exact hl) (by rw [hlead]; exact hg) (by rw [hlead]; exact h1)
    (by rw [hlead]; exact hfb.trans hb) (hfp.trans hp) (by rw [hlead]; exact hfr.trans hr) h2
  obtain ⟨P1, P2⟩ := leader_frame_fill_premises env slot_count cs rx tx g hp ho hrp hrv hp3 hv4
    hW hO hC
  constructor
  · unfold fill_consistent
    rw [hs, kpv, krp, krv]
    intro j hj
    have hcore := fill_loop_rule env (payload cs rx (leader_frame env slot_count cs rx tx g))
      (leader_frame env slot_count cs rx tx g) (by rw [hlead]; exact hpv) P1 P2 j hj
    exact ⟨hcore.1, fun h0 k hk hjk hnz => hcore.2.1 h0 ⟨k, hjk, hk, hnz⟩⟩
  · intro cs' rx' hn j hj
    have hround := entry_round_of_same_phase cs' rx' _ hn
    have hagg := leader_frame_aggregated env slot_count cs rx tx g j hp ho hj hrp hrv hp3 hv4
    unfold prepare_aggregated at hagg
    have hview : merge_view (leader_frame env slot_count cs rx tx g)
        = merge_view (merged_frame env cs rx tx g) := by
      rw [leader_frame_of_merge env slot_count cs rx tx g ho, transmission_logic_view]
    unfold merge_view at hview
    simp only [Prod.mk.injEq] at hview
    obtain ⟨hl1, hl2, _⟩ := merged_frame_log env cs rx tx g hp
    have htr : (process env slot_count cs succ rx rnd tx g).tx_multipaxos.round
        = (entry_payload cs rx tx).round := by
      rw [ht, ktx, hview.2.2.2.2.2.2.2.2.1]
      have hM : merged_frame env cs rx tx g
          = acceptor_phase env cs rx (new_phase_frame env cs rx tx g) := rfl
      have hav := acceptor_phase_view env cs rx (new_phase_frame env cs rx tx g)
      unfold acceptor_view at hav
      simp only [Prod.mk.injEq] at hav
      rw [hM, hav.2.2.2.2.2.2.2.2.1]
      exact (new_phase_frame_header env cs rx tx g).2.2.2.1
    have hp0 : prior_proposal cs' rx' (process env slot_count cs succ rx rnd tx g).tx_multipaxos
        (process env slot_count cs succ rx rnd tx g).g j
        = aggregate_proposal env cs rx tx g j := by
      unfold prior_proposal
      rw [if_neg (fun h => h hn), hs, krp]
      exact hagg.1
    have hloc : local_proposal env cs' rx' (process env slot_count cs succ rx rnd tx g).tx_multipaxos
        (process env slot_count cs succ rx rnd tx g).g j
        = local_proposal env cs rx tx g j := by
      unfold local_proposal
      rw [hround, htr, hs, kacc, hview.2.1, hl1, hl2]
    rw [hp0, hloc]
    unfold aggregate_proposal
    omega

/-- The highest round heard after the acceptor phases of a call on a PREPARE
payload, in `rx_max_heard_round` and in the TX packet. -/
theorem merged_frame_prepare_round (env : Env) (cs : chaos_state_t) (rx tx : multipaxos_t)
    (g : Globals) (hp : (entry_payload cs rx tx).phase = MULTIPAXOS_PREPARE) :
    (merged_frame env cs rx tx g).g.multipaxos_state.rx_max_heard_round
      = heard_round cs rx tx g
    ∧ (merged_frame env cs rx tx g).tx_multipaxos.max_heard_round = heard_round cs rx tx g := by
  obtain ⟨hpay, hacc, _, _, hmax, _, _⟩ := new_phase_frame_spec env cs rx tx g
  have hM : merged_frame env cs rx tx g
      = acceptor_phase env cs rx (new_phase_frame env cs rx tx g) := rfl
  rw [hM]
  unfold acceptor_phase
  rw [hpay, if_pos hp]
  unfold acceptor_prepare
  rw [hpay]
  generalize hF : new_phase_frame env cs rx tx g = F at hpay hacc hmax
  have hst := foldl_keeps prepare_statics (prepare_step env cs rx)
    (prepare_step_statics env cs rx) (List.range env.MULTIPAXOS_PKT_SIZE)
    (prepare_round (entry_payload cs rx tx) (prepare_promise (entry_payload cs rx tx) F))
  unfold prepare_statics at hst
  simp only [Prod.mk.injEq] at hst
  have hpm : prepare_max_round (entry_payload cs rx tx) (prepare_promise (entry_payload cs rx tx) F)
      = heard_round cs rx tx g := by
    have e1 : (prepare_promise (entry_payload cs rx tx)
        F).g.multipaxos_state.acceptor.last_round_participation
        = g.multipaxos_state.acceptor.last_round_participation := by
      rw [← hacc]
      unfold prepare_promise
      split <;> rfl
    have e2 : (prepare_promise (entry_payload cs rx tx) F).g.multipaxos_state.rx_max_heard_round
        = F.g.multipaxos_state.rx_max_heard_round := by
      unfold prepare_promise
      split <;> rfl
    unfold prepare_max_round heard_round
    rw [e1, e2, hmax, MAX_eq_max, MAX_eq_max]
    omega
  exact ⟨hst.2.1.trans hpm, hst.2.2.1.trans hpm⟩

/-- The leader logic on a PREPARE payload leaves the round of the TX packet
alone. -/
theorem leader_logic_prepare_round (env : Env) (pl : multipaxos_t) (f : Frame)
    (hpl : pl.phase = MULTIPAXOS_PREPARE) :
    (leader_logic env pl f).tx_multipaxos.round = f.tx_multipaxos.round := by
  have hfin0 : ∀ a : LeadFrame, a.update_phase = 0 →
      (leader_finish env a).tx_multipaxos.round = a.f.tx_multipaxos.round := by
    intro a hu
    rw [(leader_finish_no_update env a hu).2.2]
  have hfin2 : ∀ a : LeadFrame, a.update_phase = 2 →
      (leader_finish env a).tx_multipaxos.round = a.f.tx_multipaxos.round := by
    intro a hu
    unfold leader_finish
    rw [if_pos (by rw [hu]; exact Nat.succ_ne_zero 1)]
    unfold leader_update
    rw [hu, if_neg (by decide), if_pos rfl]
    unfold after_loss
    split <;> rfl
  unfold leader_logic
  by_cases hact : f.g.multipaxos_state.leader.is_leader ≠ 0
      ∧ f.g.multipaxos_state.leader.got_majority = 0
  · rw [if_pos hact]
    unfold leader_compete
    by_cases hb : pl.ballot = f.g.multipaxos_state.leader.proposed_ballot
    · rw [if_pos hb]
      by_cases hm : pl.phase = f.g.multipaxos_state.leader.phase
          ∧ pl.round = f.g.multipaxos_state.leader.current_round
      · rw [if_pos hm]
        have hprep : f.g.multipaxos_state.leader.phase = MULTIPAXOS_PREPARE := hm.1.symm.trans hpl
        unfold leader_own
        rw [if_pos hprep]
        unfold leader_prepare
        by_cases hmaj : (fill_loop env pl f).lost_proposal = 0
            ∧ f.g.n_replies > env.chaos_node_count / 2
        · rw [if_pos hmaj, hfin2 _ ((phase_delta_frame _).2.2.2.trans rfl),
            (phase_delta_frame _).2.1]
        · rw [if_neg hmaj, hfin0 _ ((phase_delta_frame _).2.2.2.trans rfl),
            (phase_delta_frame _).2.1]
      · rw [if_neg hm, hfin0 _ rfl]
        rfl
    · rw [if_neg hb]
      split
      · rw [hfin0 _ rfl]
      · rw [hfin0 _ rfl]
        rfl
  · rw [if_neg hact]

/-- On a call that is not a new phase the highest round heard is not below the
`rx_max_heard_round` of before the call. -/
theorem heard_round_ge_prior (cs : chaos_state_t) (rx tx : multipaxos_t) (g : Globals)
    (hn : entry_new_phase cs rx tx = 0) :
    g.multipaxos_state.rx_max_heard_round ≤ heard_round cs rx tx g := by
  unfold heard_round
  rw [if_neg (fun h => h hn)]
  exact le_trans (le_max_left _ _) (le_max_right _ _)

/-- An aggregated proposal lies within the highest round heard: for a payload
whose reports lie within its `max_heard_round` and an aggregate that lay within
`rx_max_heard_round` before the call. -/
theorem aggregate_proposal_within (env : Env) (cs : chaos_state_t) (rx tx : multipaxos_t)
    (g : Globals)
    (hW : reports_within env (entry_payload cs rx tx))
    (hA : entry_new_phase cs rx tx = 0 → aggregate_within env tx g)
    (j : Nat) (hj : j < env.MULTIPAXOS_PKT_SIZE)
    (hne : aggregate_proposal env cs rx tx g j ≠ 0) :
    (entry_payload cs rx tx).round + j ≤ heard_round cs rx tx g := by
  obtain ⟨hge1, hge2⟩ := heard_round_ge cs rx tx g
  by_cases hep : rd (entry_payload cs rx tx).proposals j ≠ 0
  · exact le_trans (hW j hj hep) hge1
  · by_cases hloc : (entry_payload cs rx tx).round + j
        ≤ g.multipaxos_state.acceptor.last_round_participation
    · exact le_trans hloc hge2
    · have hl0 : local_proposal env cs rx tx g j = 0 := by
        unfold local_proposal
        rw [if_neg hloc]
      have hep0 : rd (entry_payload cs rx tx).proposals j = 0 := Decidable.of_not_not hep
      unfold aggregate_proposal at hne
      rw [hl0, hep0] at hne
      have hpr : prior_proposal cs rx tx g j ≠ 0 := by omega
      by_cases hn : entry_new_phase cs rx tx ≠ 0
      · unfold prior_proposal at hpr
        rw [if_pos hn] at hpr
        exact absurd rfl hpr
      · have hn0 : entry_new_phase cs rx tx = 0 := Decidable.of_not_not hn
        unfold prior_proposal at hpr
        rw [if_neg hn] at hpr
        have h1 := hA hn0 j hj hpr
        rw [entry_round_of_same_phase cs rx tx hn0]
        exact le_trans h1 (heard_round_ge_prior cs rx tx g hn0)

/-- The PREPARE aggregation keeps the reports within the highest round heard, on
every node. Take a call of `process` in a valid slot that merges a PREPARE
payload and leaves the leader's phase as it is, with arrays of at least `K`
entries. If the reports of the payload lie within its `max_heard_round` and,
unless the call is a new phase, the aggregated proposals lie within
`rx_max_heard_round` and, on a listening node, the reports of the TX packet lie
within its `max_heard_round`, which is not above `rx_max_heard_round`, then after
the call the reports of the TX packet lie within its `max_heard_round`, which is
`rx_max_heard_round`, and so do the aggregated proposals. A packet and an
aggregate without proposals meet the conditions. -/
theorem reports_within_kept (env : Env) (slot_count : Nat) (cs : chaos_state_t) (succ : Nat)
    (rx : multipaxos_t) (rnd : Nat) (tx : multipaxos_t) (g : Globals)
    (hv : slot_valid cs succ g)
    (hp : (entry_payload cs rx tx).phase = MULTIPAXOS_PREPARE)
    (ho : ordering_ok (entry_payload cs rx tx) tx)
    (h2 : (process env slot_count cs succ rx rnd tx g).g.multipaxos_state.leader.phase
      = g.multipaxos_state.leader.phase)
    (hv4 : env.MULTIPAXOS_PKT_SIZE ≤ tx.values.length)
    (hp3 : env.MULTIPAXOS_PKT_SIZE ≤ tx.proposals.length)
    (hrp : env.MULTIPAXOS_PKT_SIZE ≤ g.multipaxos_state.rx_accepted_proposals.length)
    (hrv : env.MULTIPAXOS_PKT_SIZE ≤ g.multipaxos_state.rx_accepted_values.length)
    (hW : reports_within env (entry_payload cs rx tx))
    (hA : entry_new_phase cs rx tx = 0 → aggregate_within env tx g)
    (hT : cs ≠ CHAOS_TX → entry_new_phase cs rx tx = 0 →
      reports_within env tx ∧ tx.max_heard_round ≤ g.multipaxos_state.rx_max_heard_round) :
    reports_within env (process env slot_count cs succ rx rnd tx g).tx_multipaxos
    ∧ aggregate_within env (process env slot_count cs succ rx rnd tx g).tx_multipaxos
        (process env slot_count cs succ rx rnd tx g).g
    ∧ (process env slot_count cs succ rx rnd tx g).tx_multipaxos.max_heard_round
      = (process env slot_count cs succ rx rnd tx g).g.multipaxos_state.rx_max_heard_round := by
  have hne : (entry_payload cs rx tx).phase ≠ MULTIPAXOS_INIT := by
    rw [hp]
    decide
  have hap : ¬ (MULTIPAXOS_ACCEPT = MULTIPAXOS_PREPARE) := by decide
  obtain ⟨hs, ht⟩ := process_of_leader_logic env slot_count cs succ rx rnd tx g hv hne
  obtain ⟨hlead, _, _, hfp, _⟩ := leader_frame_entry env slot_count cs rx tx g
  obtain ⟨hge1, hge2⟩ := heard_round_ge cs rx tx g
  -- the round of the TX packet after the call
  have hview : merge_view (leader_frame env slot_count cs rx tx g)
      = merge_view (merged_frame env cs rx tx g) := by
    rw [leader_frame_of_merge env slot_count cs rx tx g ho, transmission_logic_view]
  unfold merge_view at hview
  simp only [Prod.mk.injEq] at hview
  have htr : (process env slot_count cs succ rx rnd tx g).tx_multipaxos.round
      = (entry_payload cs rx tx).round := by
    rw [ht, leader_logic_prepare_round env _ _ (hfp.trans hp), hview.2.2.2.2.2.2.2.2.1]
    have hM : merged_frame env cs rx tx g
        = acceptor_phase env cs rx (new_phase_frame env cs rx tx g) := rfl
    have hav := acceptor_phase_view env cs rx (new_phase_frame env cs rx tx g)
    unfold acceptor_view at hav
    simp only [Prod.mk.injEq] at hav
    rw [hM, hav.2.2.2.2.2.2.2.2.1]
    exact (new_phase_frame_header env cs rx tx g).2.2.2.1
  -- the aggregation variables and the entries of the TX packet after the call
  rw [hs] at h2
  have hk : aggregation_view (leader_logic env
      (payload cs rx (leader_frame env slot_count cs rx tx g))
      (leader_frame env slot_count cs rx tx g))
      = aggregation_view (leader_frame env slot_count cs rx tx g) := by
    rcases leader_logic_prepare_cases env (payload cs rx (leader_frame env slot_count cs rx tx g))
        (leader_frame env slot_count cs rx tx g) (hfp.trans hp) with hk | hk
    · exact hk
    · rw [hlead] at hk
      exact absurd ((hk.2.1.symm.trans h2).trans hk.1) hap
  unfold aggregation_view at hk
  simp only [Prod.mk.injEq] at hk
  have hall : ∀ j, j < env.MULTIPAXOS_PKT_SIZE →
      (rd (process env slot_count cs succ rx rnd tx g).tx_multipaxos.proposals j ≠ 0 →
        (entry_payload cs rx tx).round + j ≤ heard_round cs rx tx g)
      ∧ (rd (process env slot_count cs succ rx rnd tx g).g.multipaxos_state.rx_accepted_proposals j
          ≠ 0 → (entry_payload cs rx tx).round + j ≤ heard_round cs rx tx g)
      ∧ (process env slot_count cs succ rx rnd tx g).tx_multipaxos.max_heard_round
        = heard_round cs rx tx g
      ∧ (process env slot_count cs succ rx rnd tx g).g.multipaxos_state.rx_max_heard_round
        = heard_round cs rx tx g := by
    intro j hj
    have hagg := leader_frame_aggregated env slot_count cs rx tx g j hp ho hj hrp hrv hp3 hv4
    unfold prepare_aggregated at hagg
    obtain ⟨a1, _, a3, _, a5, a6⟩ := hagg
    rw [hs, ht, hk.2.1, hk.2.2.2.1, hk.2.2.2.2.1, hk.2.2.2.2.2.2, a1, a3, a5, a6]
    refine ⟨fun hnz => ?_, fun hnz => aggregate_proposal_within env cs rx tx g hW hA j hj hnz,
      rfl, rfl⟩
    by_cases hlt : rd (entry_payload cs rx tx).proposals j < aggregate_proposal env cs rx tx g j
    · rw [if_pos hlt] at hnz
      exact aggregate_proposal_within env cs rx tx g hW hA j hj hnz
    · rw [if_neg hlt] at hnz
      unfold packet_proposal at hnz
      by_cases hn : entry_new_phase cs rx tx ≠ 0
      · rw [if_pos hn] at hnz
        exact le_trans (hW j hj hnz) hge1
      · have hn0 : entry_new_phase cs rx tx = 0 := Decidable.of_not_not hn
        rw [if_neg hn] at hnz
        by_cases hc : cs = CHAOS_TX
        · have hpe : entry_payload cs rx tx = tx := by
            unfold entry_payload
            rw [if_pos hc]
          rw [← hpe] at hnz
          exact le_trans (hW j hj hnz) hge1
        · obtain ⟨hT1, hT2⟩ := hT hc hn0
          rw [entry_round_of_same_phase cs rx tx hn0]
          exact le_trans (le_trans (hT1 j hj hnz) hT2) (heard_round_ge_prior cs rx tx g hn0)
  refine ⟨fun j hj hnz => ?_, fun j hj hnz => ?_, ?_⟩
  · rw [htr, (hall j hj).2.2.1]
    exact (hall j hj).1 hnz
  · rw [htr, (hall j hj).2.2.2]
    exact (hall j hj).2.1 hnz
  · have hmM := merged_frame_prepare_round env cs rx tx g hp
    rw [hs, ht, hk.2.2.2.1, hk.2.2.2.2.2.2, hview.2.2.2.2.2.1, hview.2.2.2.2.2.2.2.2.2.1,
      hmM.1, hmM.2]

end Multi

/-- The final report leaves the aggregation variables alone. -/
theorem report_final_aggregate (env : Env) (slot_count : Nat) (f : Frame) :
    (report_final env slot_count f).g.paxos_state.rx_min_proposal = f.g.paxos_state.rx_min_proposal
    ∧ (report_final env slot_count f).g.paxos_state.rx_accepted_proposal
        = f.g.paxos_state.rx_accepted_proposal
    ∧ (report_final env slot_count f).g.paxos_state.rx_accepted_value
        = f.g.paxos_state.rx_accepted_value := by
  unfold report_final
  repeat' split
  all_goals exact ⟨rfl, rfl, rfl⟩

/-- The end of a call of `process` leaves the aggregation variables alone. -/
theorem exit_frame_aggregate (env : Env) (slot_count : Nat) (r : chaos_state_t × Frame) :
    (exit_frame env slot_count r).g.paxos_state.rx_min_proposal = r.2.g.paxos_state.rx_min_proposal
    ∧ (exit_frame env slot_count r).g.paxos_state.rx_accepted_proposal
        = r.2.g.paxos_state.rx_accepted_proposal
    ∧ (exit_frame env slot_count r).g.paxos_state.rx_accepted_value
        = r.2.g.paxos_state.rx_accepted_value := by
  unfold exit_frame
  rw [(mark_off_frame _ _ _ _).1]
  exact report_final_aggregate env slot_count r.2

/-- The valid-slot block for a stale payload received by a node that is not a
proposer: only `got_valid_rx`, `n_replies` and `tx` are written. -/
theorem valid_slot_of_stale (env : Env) (slot_count : Nat) (succ : Nat) (rx : paxos_t)
    (rnd : Nat) (tx : paxos_t) (g : Globals)
    (hp : g.paxos_state.proposer.is_proposer = 0) (hs : succ ≠ 0)
    (hh : ¬ is_heartbeat rx g) (hstale : ¬ ordering_ok rx tx) :
    valid_slot env slot_count CHAOS_RX succ rx rnd (entry_frame tx g)
      = set_tx (clear_tx (open_valid (entry_frame tx g))) := by
  have hv : slot_valid CHAOS_RX succ g := ⟨hs, Or.inl rfl⟩
  rw [valid_slot_of_merges env slot_count CHAOS_RX succ rx rnd tx g hv hh]
  have ha : acceptor_logic env slot_count CHAOS_RX rx rnd (open_valid (entry_frame tx g))
      = set_tx (clear_tx (open_valid (entry_frame tx g))) := by
    unfold acceptor_logic acceptor_check
    exact if_neg hstale
  unfold paxos_slot
  rw [ha]
  unfold proposer_logic
  rw [if_neg (fun hc => hc.1 hp)]

/-- C27. Stale packets are discarded (single-decree). On a node that is not a
proposer, a call of `process` in a successful RX slot whose payload is not handled
as a heartbeat and fails the ordering check (lower ballot, or the same ballot and
an older phase) leaves the acceptor state, the learner state, `rx_min_proposal`,
`rx_accepted_proposal`, `rx_accepted_value` and the whole TX packet as they were;
`tx` is 1 after it, and it returns `CHAOS_TX` when `tx_count_complete` is not above
`N_TX_COMPLETE` and `CHAOS_OFF` otherwise. -/
theorem stale_packet_discarded (env : Env) (slot_count : Nat) (succ : Nat) (rx : paxos_t)
    (rnd : Nat) (tx : paxos_t) (g : Globals)
    (hp : g.paxos_state.proposer.is_proposer = 0) (hs : succ ≠ 0)
    (hh : ¬ is_heartbeat rx g)
    (hstale : rx.ballot < tx.ballot ∨ (rx.ballot = tx.ballot ∧ rx.phase < tx.phase)) :
    (process env slot_count CHAOS_RX succ rx rnd tx g).g.paxos_state.acceptor
        = g.paxos_state.acceptor
    ∧ (process env slot_count CHAOS_RX succ rx rnd tx g).g.paxos_state.learner
        = g.paxos_state.learner
    ∧ (process env slot_count CHAOS_RX succ rx rnd tx g).g.paxos_state.rx_min_proposal
        = g.paxos_state.rx_min_proposal
    ∧ (process env slot_count CHAOS_RX succ rx rnd tx g).g.paxos_state.rx_accepted_proposal
        = g.paxos_state.rx_accepted_proposal
    ∧ (process env slot_count CHAOS_RX succ rx rnd tx g).g.paxos_state.rx_accepted_value
        = g.paxos_state.rx_accepted_value
    ∧ (process env slot_count CHAOS_RX succ rx rnd tx g).tx_paxos = tx
    ∧ (process env slot_count CHAOS_RX succ rx rnd tx g).g.tx = 1
    ∧ (g.tx_count_complete ≤ env.N_TX_COMPLETE →
        (process env slot_count CHAOS_RX succ rx rnd tx g).next_state = CHAOS_TX)
    ∧ (g.tx_count_complete > env.N_TX_COMPLETE →
        (process env slot_count CHAOS_RX succ rx rnd tx g).next_state = CHAOS_OFF) := by
  have hno : ¬ ordering_ok rx tx := by
    unfold ordering_ok
    omega
  have hvs := valid_slot_of_stale env slot_count succ rx rnd tx g hp hs hh hno
  have hsy := synchrotron_logic_frame env CHAOS_RX succ rnd
    (set_tx (clear_tx (open_valid (entry_frame tx g)))) (by decide)
  have hns : (process env slot_count CHAOS_RX succ rx rnd tx g).next_state
      = (synchrotron_logic env CHAOS_RX succ rnd
          (set_tx (clear_tx (open_valid (entry_frame tx g))))).1 := by
    show (synchrotron_logic env CHAOS_RX succ rnd
      (valid_slot env slot_count CHAOS_RX succ rx rnd (entry_frame tx g))).1 = _
    rw [hvs]
  have hg : (process env slot_count CHAOS_RX succ rx rnd tx g).g
      = (exit_frame env slot_count (synchrotron_logic env CHAOS_RX succ rnd
          (set_tx (clear_tx (open_valid (entry_frame tx g)))))).g := by
    show (process_frame env slot_count CHAOS_RX succ rx rnd tx g).g = _
    unfold process_frame
    rw [hvs]
  have htx : (process env slot_count CHAOS_RX succ rx rnd tx g).tx_paxos
      = (exit_frame env slot_count (synchrotron_logic env CHAOS_RX succ rnd
          (set_tx (clear_tx (open_valid (entry_frame tx g)))))).tx_paxos := by
    show (process_frame env slot_count CHAOS_RX succ rx rnd tx g).tx_paxos = _
    unfold process_frame
    rw [hvs]
  have hsys : synchrotron_logic env CHAOS_RX succ rnd
        (set_tx (clear_tx (open_valid (entry_frame tx g))))
      = if g.tx_count_complete > env.N_TX_COMPLETE then
          (CHAOS_OFF, set_tx (clear_tx (open_valid (entry_frame tx g))))
        else sync_rx_ok (set_tx (clear_tx (open_valid (entry_frame tx g)))) := by
    unfold synchrotron_logic
    rw [if_neg (fun hc => by cases hc.2)]
    show (if g.tx_count_complete > env.N_TX_COMPLETE then _ else _) = _
    split
    · rfl
    · rw [if_pos ⟨rfl, hs⟩]
  have hex := exit_frame_frame env slot_count (synchrotron_logic env CHAOS_RX succ rnd
    (set_tx (clear_tx (open_valid (entry_frame tx g)))))
  have hag := exit_frame_aggregate env slot_count (synchrotron_logic env CHAOS_RX succ rnd
    (set_tx (clear_tx (open_valid (entry_frame tx g)))))
  refine ⟨?_, ?_, ?_, ?_, ?_, ?_, ?_, ?_, ?_⟩
  · rw [hg, hex.1, hsy.1]; rfl
  · rw [hg, hex.2.1, hsy.1]; rfl
  · rw [hg, hag.1, hsy.1]; rfl
  · rw [hg, hag.2.1, hsy.1]; rfl
  · rw [hg, hag.2.2, hsy.1]; rfl
  · rw [htx, hex.2.2, hsy.2]; rfl
  · rw [hg, hsys]
    split
    · unfold exit_frame mark_off report_final
      repeat' split
      all_goals rfl
    · unfold exit_frame mark_off report_final sync_rx_ok
      repeat' split
      all_goals rfl
  · intro hle
    rw [hns, hsys, if_neg (by omega)]
    unfold sync_rx_ok
    rw [if_pos (by show (1 : Nat) ≠ 0; decide)]
    repeat' split
    all_goals rfl
  · intro hgt
    rw [hns, hsys, if_pos hgt]

/-- C27 on node 1 of the three-node network: holding the ACCEPT of ballot (1,2)
in its TX buffer, it receives the older PREPARE of ballot (1,0); the TX packet and
the acceptor state stay as they were and the node transmits next. -/
theorem stale_packet_discarded_witness :
    informed_acceptor.state = CHAOS_RX
    ∧ informed_acceptor.tx_paxos = ⟨ballot_of 1 2, PAXOS_ACCEPT, 9, ballot_of 1 2, [6]⟩
    ∧ prepare_reply.ballot < informed_acceptor.tx_paxos.ballot
    ∧ (process (env3 1) 3 CHAOS_RX 1 prepare_reply 0 informed_acceptor.tx_paxos
        informed_acceptor.g).tx_paxos = informed_acceptor.tx_paxos
    ∧ (process (env3 1) 3 CHAOS_RX 1 prepare_reply 0 informed_acceptor.tx_paxos
        informed_acceptor.g).g.paxos_state.acceptor = ⟨ballot_of 1 2, ballot_of 1 2, 9⟩
    ∧ (process (env3 1) 3 CHAOS_RX 1 prepare_reply 0 informed_acceptor.tx_paxos
        informed_acceptor.g).next_state = CHAOS_TX :=
  ⟨by decide, by decide, by decide,
    (stale_packet_discarded (env3 1) 3 1 prepare_reply 0 informed_acceptor.tx_paxos
      informed_acceptor.g (by decide) (by decide) (by decide) (Or.inl (by decide))).2.2.2.2.2.1,
    by decide,
    (stale_packet_discarded (env3 1) 3 1 prepare_reply 0 informed_acceptor.tx_paxos
      informed_acceptor.g (by decide) (by decide) (by decide)
      (Or.inl (by decide))).2.2.2.2.2.2.2.1 (by decide)⟩

/-- C28. The TX packet does not always carry the rolled-up accepted proposal in
PREPARE. Node 1 holds the PREPARE of ballot (2,0) with proposal 0 and value 7 in
its TX buffer and merges the same PREPARE carrying the report of accepted
proposal (1,2) with value 9. The report is taken into `rx_accepted_proposal` and
`rx_accepted_value`, but the TX packet keeps proposal 0 and value 7 under the
merged flags of all three nodes: `process` compares the payload's proposal with
`rx_accepted_proposal`, not the TX packet's. -/
theorem prepare_report_not_forwarded :
    promising_acceptor.state = CHAOS_RX
    ∧ promising_acceptor.tx_paxos = ⟨ballot_of 2 0, PAXOS_PREPARE, 7, 0, [3]⟩
    ∧ promising_acceptor.g.paxos_state.rx_accepted_proposal = 0
    ∧ merges CHAOS_RX 1 prepare_with_report promising_acceptor.tx_paxos promising_acceptor.g
    ∧ prepare_with_report.phase = PAXOS_PREPARE
    ∧ (process (env3 1) 3 CHAOS_RX 1 prepare_with_report 0 promising_acceptor.tx_paxos
        promising_acceptor.g).g.paxos_state.rx_accepted_proposal = ballot_of 1 2
    ∧ (process (env3 1) 3 CHAOS_RX 1 prepare_with_report 0 promising_acceptor.tx_paxos
        promising_acceptor.g).g.paxos_state.rx_accepted_value = 9
    ∧ (process (env3 1) 3 CHAOS_RX 1 prepare_with_report 0 promising_acceptor.tx_paxos
        promising_acceptor.g).tx_paxos = ⟨ballot_of 2 0, PAXOS_PREPARE, 7, 0, [7]⟩
    ∧ (process (env3 1) 3 CHAOS_RX 1 prepare_with_report 0 promising_acceptor.tx_paxos
        promising_acceptor.g).tx_paxos.proposal
      < (process (env3 1) 3 CHAOS_RX 1 prepare_with_report 0 promising_acceptor.tx_paxos
        promising_acceptor.g).g.paxos_state.rx_accepted_proposal := by
  decide

/-- C29. The aggregation variables are not cleared by a phase update of the
proposer. Node 0, proposer of ballot (2,0) in PREPARE, receives its PREPARE with
the flags of nodes 0 and 2 and the report of accepted proposal (1,2) with value 9:
it enters ACCEPT and rewrites the TX packet, and `rx_accepted_proposal` and
`rx_accepted_value` still hold (1,2) and 9 after the call. The same node with its
loser timeout at 1 receives the ACCEPT of ballot (1,2): it re-enters PREPARE with
ballot (2,0), and `rx_min_proposal`, `rx_accepted_proposal` and
`rx_accepted_value` hold (1,2), (1,2) and 9 after the call. -/
theorem aggregate_kept_on_phase_update :
    retrying_proposer.paxos_state.proposer.phase = PAXOS_PREPARE
    ∧ (process (env3 0) 4 CHAOS_RX 1 prepare_with_report 0 own_prepare
        retrying_proposer).g.paxos_state.proposer.phase = PAXOS_ACCEPT
    ∧ (process (env3 0) 4 CHAOS_RX 1 prepare_with_report 0 own_prepare
        retrying_proposer).tx_paxos = ⟨ballot_of 2 0, PAXOS_ACCEPT, 9, 0, [1]⟩
    ∧ (process (env3 0) 4 CHAOS_RX 1 prepare_with_report 0 own_prepare
        retrying_proposer).g.paxos_state.rx_accepted_proposal = ballot_of 1 2
    ∧ (process (env3 0) 4 CHAOS_RX 1 prepare_with_report 0 own_prepare
        retrying_proposer).g.paxos_state.rx_accepted_value = 9
    ∧ waiting_proposer.paxos_state.proposer.loser_timeout = 1
    ∧ (process (env3 0) 5 CHAOS_RX 1 accept_reply_of_2 0 forwarded_prepare
        waiting_proposer).g.paxos_state.proposer.loser_timeout = 0
    ∧ (process (env3 0) 5 CHAOS_RX 1 accept_reply_of_2 0 forwarded_prepare
        waiting_proposer).tx_paxos = ⟨ballot_of 2 0, PAXOS_PREPARE, 7, 0, [1]⟩
    ∧ (process (env3 0) 5 CHAOS_RX 1 accept_reply_of_2 0 forwarded_prepare
        waiting_proposer).g.paxos_state.rx_min_proposal = ballot_of 1 2
    ∧ (process (env3 0) 5 CHAOS_RX 1 accept_reply_of_2 0 forwarded_prepare
        waiting_proposer).g.paxos_state.rx_accepted_proposal = ballot_of 1 2
    ∧ (process (env3 0) 5 CHAOS_RX 1 accept_reply_of_2 0 forwarded_prepare
        waiting_proposer).g.paxos_state.rx_accepted_value = 9 := by
  decide

/-- C30. The flags template does not keep to the local flag. Node 0 of five,
fresh after `paxos_reset_state` (template all zero), runs `paxos_round_begin` as
proposer; the round ends after four slots with the flags of nodes 0 and 1 in the
TX buffer, and the call returns with these two flags in the template instead of
the own flag alone, without a completion slot. In the next round, entered
without a reset, the phase update on a majority of PREPARE replies copies that
template: the ACCEPT packet of ballot (1,0) starts with the flags of nodes 0
and 1. -/
theorem template_flags_overwritten :
    (paxos_reset_state (fresh_globals 1)).paxos_local.flags = [0]
    ∧ set_own_flag (env5_short 0) [0] = [1]
    ∧ first_round.g.paxos_local.flags = [3]
    ∧ first_round.final_flags = [3]
    ∧ first_round.g.completion_slot = 0
    ∧ second_round_proposer.g.paxos_state.proposer.phase = PAXOS_ACCEPT
    ∧ second_round_proposer.g.paxos_local.flags = [3]
    ∧ second_round_proposer.tx_paxos = ⟨ballot_of 1 0, PAXOS_ACCEPT, 7, 0, [3]⟩ := by
  decide

/-- The payload read on the frame a valid slot opens with is the payload the call
reads on entry. -/
theorem payload_open_valid (cs : chaos_state_t) (rx tx : paxos_t) (g : Globals) :
    payload cs rx (open_valid (entry_frame tx g)) = entry_payload cs rx tx := by
  unfold payload entry_payload
  split <;> rfl

/-- The acceptor logic leaves the proposer state alone, and the payload keeps its
ballot and phase through it. -/
theorem proposer_frame_spec (env : Env) (slot_count : Nat) (cs : chaos_state_t) (rx : paxos_t)
    (rnd : Nat) (tx : paxos_t) (g : Globals) :
    (proposer_frame env slot_count cs rx rnd tx g).g.paxos_state.proposer = g.paxos_state.proposer
    ∧ (payload cs rx (proposer_frame env slot_count cs rx rnd tx g)).ballot
        = (entry_payload cs rx tx).ballot
    ∧ (payload cs rx (proposer_frame env slot_count cs rx rnd tx g)).phase
        = (entry_payload cs rx tx).phase := by
  unfold proposer_frame
  refine ⟨?_, ?_, ?_⟩
  · rw [(acceptor_logic_frame env slot_count cs rx rnd _).2]
    rfl
  · rw [(payload_after_acceptor_logic env slot_count cs rx rnd _).1, payload_open_valid]
  · rw [(payload_after_acceptor_logic env slot_count cs rx rnd _).2, payload_open_valid]

/-- A valid call of `process` on a proposer that is not handled as a heartbeat
leaves the node state and the TX packet as its proposer logic leaves them. -/
theorem process_of_proposer_slot (env : Env) (slot_count : Nat) (cs : chaos_state_t) (succ : Nat)
    (rx : paxos_t) (rnd : Nat) (tx : paxos_t) (g : Globals)
    (hv : slot_valid cs succ g) (hh : ¬ is_heartbeat (entry_payload cs rx tx) g)
    (hp : g.paxos_state.proposer.is_proposer ≠ 0) :
    (process env slot_count cs succ rx rnd tx g).g.paxos_state
        = (proposer_logic env slot_count
            (payload cs rx (proposer_frame env slot_count cs rx rnd tx g))
            (proposer_frame env slot_count cs rx rnd tx g)).g.paxos_state
    ∧ (process env slot_count cs succ rx rnd tx g).tx_paxos
        = (proposer_logic env slot_count
            (payload cs rx (proposer_frame env slot_count cs rx rnd tx g))
            (proposer_frame env slot_count cs rx rnd tx g)).tx_paxos := by
  have hvs : valid_slot env slot_count cs succ rx rnd (entry_frame tx g)
      = proposer_logic env slot_count
          (payload cs rx (proposer_frame env slot_count cs rx rnd tx g))
          (proposer_frame env slot_count cs rx rnd tx g) := by
    rw [valid_slot_of_merges env slot_count cs succ rx rnd tx g hv hh]
    rfl
  have hsy := synchrotron_logic_frame env cs succ rnd
    (valid_slot env slot_count cs succ rx rnd (entry_frame tx g)) (not_init_of_slot_valid hv)
  have hip : (valid_slot env slot_count cs succ rx rnd
      (entry_frame tx g)).g.paxos_state.proposer.is_proposer ≠ 0 := by
    rw [hvs, proposer_logic_is_proposer, (proposer_frame_spec env slot_count cs rx rnd tx g).1]
    exact hp
  have hex := exit_frame_proposer env slot_count
    (synchrotron_logic env cs succ rnd
      (valid_slot env slot_count cs succ rx rnd (entry_frame tx g)))
    (by rw [hsy.1]; exact hip)
  refine ⟨?_, ?_⟩
  · show (process_frame env slot_count cs succ rx rnd tx g).g.paxos_state = _
    unfold process_frame
    rw [hex.1, hsy.1, hvs]
  · show (process_frame env slot_count cs succ rx rnd tx g).tx_paxos = _
    unfold process_frame
    rw [hex.2, hsy.2, hvs]

/-- The proposer logic on a payload with a higher ballot, while no majority was
reached and no loser timeout runs, is the loss block. -/
theorem proposer_logic_of_higher (env : Env) (slot_count : Nat) (pl : paxos_t) (f : Frame)
    (hp : f.g.paxos_state.proposer.is_proposer ≠ 0)
    (hm : f.g.paxos_state.proposer.got_majority = 0)
    (ht : f.g.paxos_state.proposer.loser_timeout = 0)
    (hgt : pl.ballot > f.g.paxos_state.proposer.proposed_ballot) :
    proposer_logic env slot_count pl f = proposer_lost env f := by
  unfold proposer_logic
  rw [if_pos ⟨hp, hm⟩, if_neg (by omega)]
  unfold proposer_compete
  rw [if_neg (by omega), if_pos ⟨hgt, hm⟩]
  rfl

/-- What the loss block leaves in the node state. -/
theorem proposer_lost_state (env : Env) (f : Frame) :
    (proposer_lost env f).g.paxos_state.proposer.proposed_ballot
        = ballot_set_round f.g.paxos_state.proposer.proposed_ballot
            (ballot_round f.g.paxos_state.proposer.proposed_ballot + 1)
    ∧ (proposer_lost env f).g.paxos_state.proposer.phase = PAXOS_PREPARE
    ∧ (proposer_lost env f).g.paxos_state.proposer.got_majority = 0
    ∧ (proposer_lost env f).g.paxos_state.proposer.loser_timeout
        = (((env.PAXOS_ROUND_MAX_SLOTS : Int) - 1) % 256).toNat
    ∧ (proposer_lost env f).g.paxos_state.proposer.proposed_value
        = (if f.g.paxos_state.rx_accepted_proposal > 0 then f.g.paxos_state.rx_accepted_value
           else f.g.paxos_state.proposer.proposed_value)
    ∧ (proposer_lost env f).g.paxos_state.proposer.is_proposer
        = f.g.paxos_state.proposer.is_proposer
    ∧ (proposer_lost env f).g.paxos_state.rx_accepted_proposal
        = f.g.paxos_state.rx_accepted_proposal
    ∧ (proposer_lost env f).g.paxos_state.rx_accepted_value = f.g.paxos_state.rx_accepted_value
    ∧ (proposer_lost env f).g.paxos_state.rx_min_proposal = f.g.paxos_state.rx_min_proposal := by
  unfold proposer_lost adopt_reported
  by_cases h : f.g.paxos_state.rx_accepted_proposal > 0
  · rw [if_pos h, if_pos h]
    exact ⟨rfl, rfl, rfl, rfl, rfl, rfl, rfl, rfl, rfl⟩
  · rw [if_neg h, if_neg h]
    exact ⟨rfl, rfl, rfl, rfl, rfl, rfl, rfl, rfl, rfl⟩

/-- C26. Proposer reaction to a higher ballot (single-decree). In a valid slot
that is not handled as a heartbeat, on a proposer with `got_majority = 0`,
`loser_timeout = 0`, a 16-bit ballot and a round counter below 255, a payload with
a ballot above `proposed_ballot` leaves after the call: the round counter one
higher, the id unchanged, hence a higher ballot; phase `PAXOS_PREPARE`;
`got_majority = 0`; `loser_timeout` equal to `PAXOS_ROUND_MAX_SLOTS - 1` as an
8-bit value, which is `PAXOS_ROUND_MAX_SLOTS - 1` for 1 to 256 slots;
`proposed_value` equal to `rx_accepted_value` if `rx_accepted_proposal > 0` and
unchanged otherwise, both read after the call, where they are what the acceptor
logic of the call left. -/
theorem higher_ballot_reaction (env : Env) (slot_count : Nat) (cs : chaos_state_t) (succ : Nat)
    (rx : paxos_t) (rnd : Nat) (tx : paxos_t) (g : Globals)
    (hv : slot_valid cs succ g) (hh : ¬ is_heartbeat (entry_payload cs rx tx) g)
    (hp : g.paxos_state.proposer.is_proposer ≠ 0)
    (hm : g.paxos_state.proposer.got_majority = 0)
    (ht : g.paxos_state.proposer.loser_timeout = 0)
    (hb : g.paxos_state.proposer.proposed_ballot < 65536)
    (hr : ballot_round g.paxos_state.proposer.proposed_ballot < 255)
    (hgt : (entry_payload cs rx tx).ballot > g.paxos_state.proposer.proposed_ballot) :
    ballot_round (process env slot_count cs succ rx rnd tx g).g.paxos_state.proposer.proposed_ballot
        = ballot_round g.paxos_state.proposer.proposed_ballot + 1
    ∧ ballot_id (process env slot_count cs succ rx rnd tx g).g.paxos_state.proposer.proposed_ballot
        = ballot_id g.paxos_state.proposer.proposed_ballot
    ∧ (process env slot_count cs succ rx rnd tx g).g.paxos_state.proposer.proposed_ballot
        > g.paxos_state.proposer.proposed_ballot
    ∧ (process env slot_count cs succ rx rnd tx g).g.paxos_state.proposer.phase = PAXOS_PREPARE
    ∧ (process env slot_count cs succ rx rnd tx g).g.paxos_state.proposer.got_majority = 0
    ∧ (process env slot_count cs succ rx rnd tx g).g.paxos_state.proposer.loser_timeout
        = (((env.PAXOS_ROUND_MAX_SLOTS : Int) - 1) % 256).toNat
    ∧ (1 ≤ env.PAXOS_ROUND_MAX_SLOTS → env.PAXOS_ROUND_MAX_SLOTS ≤ 256 →
        (process env slot_count cs succ rx rnd tx g).g.paxos_state.proposer.loser_timeout
          = env.PAXOS_ROUND_MAX_SLOTS - 1)
    ∧ (process env slot_count cs succ rx rnd tx g).g.paxos_state.proposer.proposed_value
        = (if (process env slot_count cs succ rx rnd tx g).g.paxos_state.rx_accepted_proposal > 0
           then (process env slot_count cs succ rx rnd tx g).g.paxos_state.rx_accepted_value
           else g.paxos_state.proposer.proposed_value)
    ∧ (process env slot_count cs succ rx rnd tx g).g.paxos_state.rx_accepted_proposal
        = (proposer_frame env slot_count cs rx rnd tx g).g.paxos_state.rx_accepted_proposal
    ∧ (process env slot_count cs succ rx rnd tx g).g.paxos_state.rx_accepted_value
        = (proposer_frame env slot_count cs rx rnd tx g).g.paxos_state.rx_accepted_value := by
  have hpf := proposer_frame_spec env slot_count cs rx rnd tx g
  have hps := (process_of_proposer_slot env slot_count cs succ rx rnd tx g hv hh hp).1
  have hpl := proposer_logic_of_higher env slot_count
    (payload cs rx (proposer_frame env slot_count cs rx rnd tx g))
    (proposer_frame env slot_count cs rx rnd tx g)
    (by rw [hpf.1]; exact hp) (by rw [hpf.1]; exact hm) (by rw [hpf.1]; exact ht)
    (by rw [hpf.1, hpf.2.1]; exact hgt)
  have hl := proposer_lost_state env (proposer_frame env slot_count cs rx rnd tx g)
  rw [hps, hpl]
  rw [hpf.1] at hl
  obtain ⟨l1, l2, l3, l4, l5, _, l7, l8, _⟩ := hl
  have hnew : ballot_set_round g.paxos_state.proposer.proposed_ballot
      (ballot_round g.paxos_state.proposer.proposed_ballot + 1)
      = g.paxos_state.proposer.proposed_ballot + 256 := by
    unfold ballot_set_round ballot_round ballot_id
    unfold ballot_round at hr
    omega
  refine ⟨?_, ?_, ?_, l2, l3, l4, ?_, ?_, l7, l8⟩
  · rw [l1, hnew]
    unfold ballot_round
    unfold ballot_round at hr
    omega
  · rw [l1, hnew]
    unfold ballot_id
    omega
  · rw [l1, hnew]
    omega
  · intro h1 h2
    rw [l4]
    omega
  · rw [l5, l7, l8]

/-- C26 on proposer A = node 1 with ballot (1,1) hearing the PREPARE of
B = node 2 with ballot (1,2): A ends with round counter 2, ballot (2,1), phase
PREPARE and a loser timeout of 254 slots. -/
theorem higher_ballot_reaction_witness :
    proposer_A.g.paxos_state.proposer.proposed_ballot = ballot_of 1 1
    ∧ prepare_of_B.ballot = ballot_of 1 2
    ∧ ballot_round (process (env3 1) 3 CHAOS_RX 1 prepare_of_B 0 proposer_A.tx_paxos
        proposer_A.g).g.paxos_state.proposer.proposed_ballot = 1 + 1
    ∧ (process (env3 1) 3 CHAOS_RX 1 prepare_of_B 0 proposer_A.tx_paxos
        proposer_A.g).g.paxos_state.proposer.proposed_ballot = ballot_of 2 1
    ∧ (process (env3 1) 3 CHAOS_RX 1 prepare_of_B 0 proposer_A.tx_paxos
        proposer_A.g).g.paxos_state.proposer.loser_timeout = 254 :=
  ⟨by decide, by decide,
    (higher_ballot_reaction (env3 1) 3 CHAOS_RX 1 prepare_of_B 0 proposer_A.tx_paxos proposer_A.g
      (by decide) (by decide) (by decide) (by decide) (by decide) (by decide) (by decide)
      (by decide)).1,
    by decide, by decide⟩

/-- The proposer logic on a payload with the proposer's own ballot and phase,
while no majority was reached and no loser timeout runs. -/
theorem proposer_logic_of_own (env : Env) (slot_count : Nat) (pl : paxos_t) (f : Frame)
    (hp : f.g.paxos_state.proposer.is_proposer ≠ 0)
    (hm : f.g.paxos_state.proposer.got_majority = 0)
    (ht : f.g.paxos_state.proposer.loser_timeout = 0)
    (hb : pl.ballot = f.g.paxos_state.proposer.proposed_ballot)
    (hph : pl.phase = f.g.paxos_state.proposer.phase) :
    proposer_logic env slot_count pl f
      = proposer_finish env (proposer_own_phase env slot_count f) := by
  unfold proposer_logic
  rw [if_pos ⟨hp, hm⟩, if_neg (by omega)]
  unfold proposer_compete
  rw [if_pos hb, if_pos hph]

/-- The proposer logic of a proposer in ACCEPT without majority, on a payload
with its own ballot and phase: the loss block when a higher `min_proposal` was
reported, the majority recorded when more than N/2 flags are counted, and
otherwise only the count. -/
theorem proposer_finish_of_accept (env : Env) (slot_count : Nat) (f : Frame)
    (hph : f.g.paxos_state.proposer.phase = PAXOS_ACCEPT)
    (hm : f.g.paxos_state.proposer.got_majority = 0) :
    proposer_finish env (proposer_own_phase env slot_count f)
      = if f.g.paxos_state.rx_min_proposal > f.g.paxos_state.proposer.proposed_ballot then
          proposer_lost env { f with g.n_replies := count_flags (FLAGS_LEN env) f.tx_paxos.flags }
        else if count_flags (FLAGS_LEN env) f.tx_paxos.flags > env.chaos_node_count / 2 then
          { f with
            g.n_replies := count_flags (FLAGS_LEN env) f.tx_paxos.flags,
            g.paxos_state.proposer.got_majority := 1,
            g.paxos_state.proposer.got_majority_at_slot := slot_count }
        else { f with g.n_replies := count_flags (FLAGS_LEN env) f.tx_paxos.flags } := by
  have hnp : ¬ f.g.paxos_state.proposer.phase = PAXOS_PREPARE := by
    rw [hph]; decide
  unfold proposer_own_phase proposer_reports
  rw [if_neg hnp, if_pos hph]
  by_cases hL : f.g.paxos_state.rx_min_proposal > f.g.paxos_state.proposer.proposed_ballot
  · rw [if_pos hL, if_pos hL]
    unfold proposer_count proposer_majority
    dsimp only
    rw [if_neg (fun hc => by cases hc.1)]
    unfold proposer_late_loss
    dsimp only
    rw [if_pos ⟨hph, hL, hm⟩]
    unfold proposer_finish
    dsimp only
    rw [if_neg (by decide), if_pos (by decide)]
  · rw [if_neg hL, if_neg hL]
    unfold proposer_count proposer_majority
    dsimp only
    by_cases hM : count_flags (FLAGS_LEN env) f.tx_paxos.flags > env.chaos_node_count / 2
    · rw [if_pos ⟨rfl, hM⟩, if_neg hnp, if_pos hph, if_pos hm, if_pos hM]
      unfold proposer_late_loss
      dsimp only
      rw [if_neg (fun hc => by cases hc.2.2)]
      unfold proposer_finish
      dsimp only
      rw [if_neg (by decide), if_neg (by decide)]
    · rw [if_neg (fun hc => hM hc.2), if_neg hM]
      unfold proposer_late_loss
      dsimp only
      rw [if_neg (fun hc => hL hc.2.1)]
      unfold proposer_finish
      dsimp only
      rw [if_neg (by decide), if_neg (by decide)]

/-- A byte whose set bits are all set in another byte has at most its population
count. -/
theorem popcount_le_of_bits (a b : Nat) (h : ∀ k, a.testBit k = true → b.testBit k = true) :
    popcount a ≤ popcount b := by
  unfold popcount
  apply List.Sublist.length_le
  apply List.monotone_filter_right
  intro k hk
  exact h k hk

/-- A number is below 256 exactly when its set bits are among the low eight. -/
theorem lt_256_iff_bits (x : Nat) : x < 256 ↔ ∀ k, x.testBit k = true → (255 : Nat).testBit k = true := by
  have h255 : ∀ k, (255 : Nat).testBit k = decide (k < 8) := fun k =>
    Nat.testBit_two_pow_sub_one 8 k
  constructor
  · intro hx k hk
    rw [h255]
    by_cases hk8 : k < 8
    · exact decide_eq_true hk8
    · exfalso
      have hle : 2 ^ 8 ≤ 2 ^ k := Nat.pow_le_pow_right (by decide) (Nat.le_of_not_lt hk8)
      have hlt : x < 2 ^ k := Nat.lt_of_lt_of_le hx hle
      rw [Nat.testBit_lt_two_pow hlt] at hk
      cases hk
  · intro h
    apply Nat.lt_pow_two_of_testBit x (n := 8)
    intro i hi
    by_contra hne
    have ht : x.testBit i = true := by
      cases hx : x.testBit i
      · exact absurd hx hne
      · rfl
    have := h i ht
    rw [h255] at this
    exact absurd (of_decide_eq_true this) (Nat.not_lt_of_le hi)

/-- The bytes of an array are below 256 exactly when its bits are within 255. -/
theorem bytes_ok_iff_bits (t : List Nat) : bytes_ok t ↔ bits_within t (fun _ => 255) := by
  unfold bytes_ok bits_within
  constructor
  · intro h i k hk
    exact (lt_256_iff_bits _).1 (h i) k hk
  · intro h i
    exact (lt_256_iff_bits _).2 (h i)

/-- Writing a byte whose bits are within the bound keeps the array within it. -/
theorem set_bits_within (t : List Nat) (U : Nat → Nat) (n v : Nat) (ht : bits_within t U)
    (hv : ∀ k, v.testBit k = true → (U n).testBit k = true) : bits_within (t.set n v) U := by
  intro i k hk
  rw [rd_set] at hk
  by_cases hc : i = n ∧ n < t.length
  · rw [if_pos hc] at hk
    rw [hc.1]
    exact hv k hk
  · rw [if_neg hc] at hk
    exact ht i k hk

/-- The merging loop keeps the TX flags within a bound both arrays are within. -/
theorem merge_loop_bits (p t : List Nat) (d : Nat) (U : Nat → Nat) (hp : bits_within p U)
    (ht : bits_within t U) : ∀ n, bits_within (merge_loop n p t d).flags U := by
  intro n
  induction n with
  | zero => exact ht
  | succ n ih =>
    rw [merge_loop_succ]
    show bits_within ((merge_loop n p t d).flags.set n
      (rd (merge_loop n p t d).flags n ||| rd p n)) U
    apply set_bits_within _ _ _ _ ih
    intro k hk
    rw [Nat.testBit_or, Bool.or_eq_true] at hk
    rcases hk with hk | hk
    · exact ih n k hk
    · exact hp n k hk

/-- The copying loop keeps the TX flags within a bound both arrays are within. -/
theorem copy_loop_bits (p t : List Nat) (d : Nat) (U : Nat → Nat) (hp : bits_within p U)
    (ht : bits_within t U) : ∀ n, bits_within (copy_loop n p t d).flags U := by
  intro n
  induction n with
  | zero => exact ht
  | succ n ih =>
    rw [copy_loop_succ]
    show bits_within ((copy_loop n p t d).flags.set n (rd p n)) U
    exact set_bits_within _ _ _ _ ih (fun k hk => hp n k hk)

/-- The byte copy keeps the target within a bound both arrays are within. -/
theorem memcpy_flags_bits (len : Nat) (dst src : List Nat) (U : Nat → Nat)
    (hd : bits_within dst U) (hs : bits_within src U) :
    bits_within (memcpy_flags len dst src) U := by
  unfold memcpy_flags
  have key : ∀ (l : List Nat) (d : List Nat), bits_within d U →
      bits_within (l.foldl (fun d i => d.set i (rd src i)) d) U := by
    intro l
    induction l with
    | nil => intro d hd'; exact hd'
    | cons i l ih =>
      intro d hd'
      rw [List.foldl_cons]
      exact ih _ (set_bits_within _ _ _ _ hd' (fun k hk => hs i k hk))
  exact key (List.range len) dst hd

/-- Setting the own flag keeps the array within a bound that holds the own
flag. -/
theorem set_own_flag_bits (env : Env) (t : List Nat) (U : Nat → Nat) (ht : bits_within t U)
    (ho : ∀ i k, (own_flag env i).testBit k = true → (U i).testBit k = true) :
    bits_within (set_own_flag env t) U := by
  unfold set_own_flag
  apply set_bits_within _ _ _ _ ht
  intro k hk
  rw [Nat.testBit_or, Bool.or_eq_true] at hk
  rcases hk with hk | hk
  · exact ht _ k hk
  · apply ho
    unfold own_flag
    rw [if_pos rfl]
    exact hk

/-- The own flag is one of the low eight bits. -/
theorem own_flag_bits (env : Env) (i k : Nat) (h : (own_flag env i).testBit k = true) :
    (255 : Nat).testBit k = true := by
  apply (lt_256_iff_bits (own_flag env i)).1 _ k h
  unfold own_flag
  split
  · rw [Nat.one_shiftLeft]
    have h8 : env.chaos_node_index % 8 < 8 := Nat.mod_lt _ (by decide)
    calc 2 ^ (env.chaos_node_index % 8) < 2 ^ 8 := Nat.pow_lt_pow_right (by decide) h8
      _ = 256 := by decide
  · decide

/-- The TX flags after the acceptor logic stay within every bound that holds the
TX flags, the flags of the RX packet and the own flag. -/
theorem proposer_frame_bits (env : Env) (slot_count : Nat) (cs : chaos_state_t) (rx : paxos_t)
    (rnd : Nat) (tx : paxos_t) (g : Globals) (U : Nat → Nat)
    (ht : bits_within tx.flags U) (hr : bits_within rx.flags U)
    (ho : ∀ i k, (own_flag env i).testBit k = true → (U i).testBit k = true) :
    bits_within (proposer_frame env slot_count cs rx rnd tx g).tx_paxos.flags U := by
  have hpl : ∀ f : Frame, bits_within f.tx_paxos.flags U →
      bits_within (payload cs rx f).flags U := by
    intro f hf
    unfold payload
    show holds (fun x : paxos_t => bits_within x.flags U) _
    apply ite_elim
    · exact hf
    · exact hr
  unfold proposer_frame acceptor_logic acceptor_check
  show holds (fun x : Frame => bits_within x.tx_paxos.flags U) _
  apply ite_elim
  · show bits_within (acceptor_merge env slot_count cs rx rnd _ _ _).tx_paxos.flags U
    rw [acceptor_merge_eq, (completion_frame _ _ _ _ _).2.1, (quorum_read_frame _ _ _).2.2.2.2.2,
      (dampening_frame _ _ _ _).2.1]
    have h1 : bits_within (after_new_phase env cs rx
        (clear_tx (open_valid (entry_frame tx g)))).tx_paxos.flags U := by
      unfold after_new_phase
      show holds (fun x : Frame => bits_within x.tx_paxos.flags U) _
      apply ite_elim
      · exact memcpy_flags_bits _ _ _ U ht (hpl _ ht)
      · exact ht
    have h2 : (after_acceptor env cs rx (clear_tx (open_valid (entry_frame tx g)))).tx_paxos.flags
        = (after_new_phase env cs rx (clear_tx (open_valid (entry_frame tx g)))).tx_paxos.flags := by
      unfold after_acceptor
      exact (acceptor_phase_frame _ _).2.2.1
    have h3 : bits_within (after_acceptor env cs rx
        (clear_tx (open_valid (entry_frame tx g)))).tx_paxos.flags U := by
      rw [h2]; exact h1
    show bits_within (set_own_flag env (merged_flags env cs rx
      (clear_tx (open_valid (entry_frame tx g)))).flags) U
    apply set_own_flag_bits env _ U _ ho
    unfold merged_flags flag_loop
    show holds (fun x : FlagAcc => bits_within x.flags U) _
    apply ite_elim
    · exact merge_loop_bits _ _ _ U (hpl _ h3) h3 _
    · exact copy_loop_bits _ _ _ U (hpl _ h3) h3 _
  · exact ht

/-- The count of the proposer logic is the population count on bytes. -/
theorem count_flags_eq_popcount (len : Nat) (t : List Nat) (h : bytes_ok t) :
    count_flags len t = flags_popcount len t := by
  unfold count_flags flags_popcount
  apply fold_count_congr
  intro i _
  exact bit_count_eq_popcount _ (h i)

/-- The TX flags after the acceptor logic are bytes when the TX flags and the
flags of the RX packet are. -/
theorem proposer_frame_bytes (env : Env) (slot_count : Nat) (cs : chaos_state_t) (rx : paxos_t)
    (rnd : Nat) (tx : paxos_t) (g : Globals)
    (ht : bytes_ok tx.flags) (hr : bytes_ok rx.flags) :
    bytes_ok (proposer_frame env slot_count cs rx rnd tx g).tx_paxos.flags :=
  (bytes_ok_iff_bits _).2
    (proposer_frame_bits env slot_count cs rx rnd tx g (fun _ => 255)
      ((bytes_ok_iff_bits _).1 ht) ((bytes_ok_iff_bits _).1 hr) (own_flag_bits env))

/-- The count of the proposer logic is at most the number of bits in the union of
the TX flags on entry, the payload flags and the own flag. -/
theorem proposer_frame_count (env : Env) (slot_count : Nat) (cs : chaos_state_t) (rx : paxos_t)
    (rnd : Nat) (tx : paxos_t) (g : Globals)
    (ht : bytes_ok tx.flags) (hr : bytes_ok rx.flags) :
    count_flags (FLAGS_LEN env) (proposer_frame env slot_count cs rx rnd tx g).tx_paxos.flags
      ≤ union_count env tx (entry_payload cs rx tx) := by
  rw [count_flags_eq_popcount _ _ (proposer_frame_bytes env slot_count cs rx rnd tx g ht hr)]
  unfold flags_popcount union_count
  apply fold_count_le
  intro i _
  apply popcount_le_of_bits
  intro k hk
  have hU : ∀ (a b c : Nat) (j : Nat), (a.testBit j = true ∨ b.testBit j = true ∨ c.testBit j = true) →
      (a ||| b ||| c).testBit j = true := by
    intro a b c j h
    rw [Nat.testBit_or, Nat.testBit_or, Bool.or_eq_true, Bool.or_eq_true]
    rcases h with h | h | h
    · exact Or.inl (Or.inl h)
    · exact Or.inl (Or.inr h)
    · exact Or.inr h
  by_cases hcs : cs = CHAOS_TX
  · have hpl : entry_payload cs rx tx = tx := by
      unfold entry_payload; rw [if_pos hcs]
    have hfr : proposer_frame env slot_count cs rx rnd tx g
        = proposer_frame env slot_count cs tx rnd tx g := by
      subst hcs
      rfl
    rw [hfr] at hk
    rw [hpl]
    exact proposer_frame_bits env slot_count cs tx rnd tx g (union_byte env tx tx)
      (fun i k h => hU _ _ _ _ (Or.inl h)) (fun i k h => hU _ _ _ _ (Or.inl h))
      (fun i k h => hU _ _ _ _ (Or.inr (Or.inr h))) i k hk
  · have hpl : entry_payload cs rx tx = rx := by
      unfold entry_payload; rw [if_neg hcs]
    rw [hpl]
    exact proposer_frame_bits env slot_count cs rx rnd tx g (union_byte env tx rx)
      (fun i k h => hU _ _ _ _ (Or.inl h)) (fun i k h => hU _ _ _ _ (Or.inr (Or.inl h)))
      (fun i k h => hU _ _ _ _ (Or.inr (Or.inr h))) i k hk

/-- The TX flags after the acceptor logic: those at the quorum read when the
payload passed the ordering check, and those on entry when it did not. -/
theorem proposer_frame_flags (env : Env) (slot_count : Nat) (cs : chaos_state_t) (rx : paxos_t)
    (rnd : Nat) (tx : paxos_t) (g : Globals) :
    (ordering_ok (entry_payload cs rx tx) tx →
      (proposer_frame env slot_count cs rx rnd tx g).tx_paxos.flags
        = (quorum_frame env cs rx tx g).tx_paxos.flags)
    ∧ (¬ ordering_ok (entry_payload cs rx tx) tx →
      (proposer_frame env slot_count cs rx rnd tx g).tx_paxos.flags = tx.flags) := by
  have hpl : payload cs rx (clear_tx (open_valid (entry_frame tx g))) = entry_payload cs rx tx := by
    unfold payload entry_payload
    split <;> rfl
  refine ⟨?_, ?_⟩
  · intro ho
    have ho' : ordering_ok (payload cs rx (clear_tx (open_valid (entry_frame tx g))))
        (clear_tx (open_valid (entry_frame tx g))).tx_paxos := by
      rw [hpl]; exact ho
    unfold proposer_frame acceptor_logic acceptor_check
    have e : (if (payload cs rx (clear_tx (open_valid (entry_frame tx g)))).ballot
          > (clear_tx (open_valid (entry_frame tx g))).tx_paxos.ballot
        ∨ ((payload cs rx (clear_tx (open_valid (entry_frame tx g)))).ballot
            = (clear_tx (open_valid (entry_frame tx g))).tx_paxos.ballot
          ∧ (payload cs rx (clear_tx (open_valid (entry_frame tx g)))).phase
            ≥ (clear_tx (open_valid (entry_frame tx g))).tx_paxos.phase) then
        acceptor_merge env slot_count cs rx rnd
          (new_phase_of (payload cs rx (clear_tx (open_valid (entry_frame tx g))))
            (clear_tx (open_valid (entry_frame tx g))).tx_paxos)
          (payload cs rx (clear_tx (open_valid (entry_frame tx g))))
          (clear_tx (open_valid (entry_frame tx g)))
        else set_tx (clear_tx (open_valid (entry_frame tx g))))
        = acceptor_merge env slot_count cs rx rnd
          (new_phase_of (payload cs rx (clear_tx (open_valid (entry_frame tx g))))
            (clear_tx (open_valid (entry_frame tx g))).tx_paxos)
          (payload cs rx (clear_tx (open_valid (entry_frame tx g))))
          (clear_tx (open_valid (entry_frame tx g))) := if_pos ho'
    rw [e, acceptor_merge_eq, (completion_frame _ _ _ _ _).2.1,
      (quorum_read_frame _ _ _).2.2.2.2.2, (dampening_frame _ _ _ _).2.1]
    rfl
  · intro ho
    have ho' : ¬ ordering_ok (payload cs rx (clear_tx (open_valid (entry_frame tx g))))
        (clear_tx (open_valid (entry_frame tx g))).tx_paxos := by
      rw [hpl]; exact ho
    unfold proposer_frame acceptor_logic acceptor_check
    have e : (if (payload cs rx (clear_tx (open_valid (entry_frame tx g)))).ballot
          > (clear_tx (open_valid (entry_frame tx g))).tx_paxos.ballot
        ∨ ((payload cs rx (clear_tx (open_valid (entry_frame tx g)))).ballot
            = (clear_tx (open_valid (entry_frame tx g))).tx_paxos.ballot
          ∧ (payload cs rx (clear_tx (open_valid (entry_frame tx g)))).phase
            ≥ (clear_tx (open_valid (entry_frame tx g))).tx_paxos.phase) then
        acceptor_merge env slot_count cs rx rnd
          (new_phase_of (payload cs rx (clear_tx (open_valid (entry_frame tx g))))
            (clear_tx (open_valid (entry_frame tx g))).tx_paxos)
          (payload cs rx (clear_tx (open_valid (entry_frame tx g))))
          (clear_tx (open_valid (entry_frame tx g)))
        else set_tx (clear_tx (open_valid (entry_frame tx g))))
        = set_tx (clear_tx (open_valid (entry_frame tx g))) := if_neg ho'
    rw [e]
    rfl

/-- C25. Proposer outcome in ACCEPT (single-decree). In a valid slot that is not
handled as a heartbeat, on a proposer with `got_majority = 0`, `loser_timeout = 0`
and phase `PAXOS_ACCEPT` whose payload carries its ballot in phase `PAXOS_ACCEPT`,
with flag bytes below 256: `rx_min_proposal` after the call is what the acceptor
logic left; the proposer is back in `PAXOS_PREPARE` after the call exactly when
that value is above `proposed_ballot`, and then the round of its ballot is set to
the old round plus 1 (as an 8-bit field), `got_majority` is 0 and the loser
timeout is set; otherwise `got_majority` is 1 with `got_majority_at_slot =
slot_count` exactly when more than N/2 bits are set in the first `FLAGS_LEN`
bytes of the TX flags as the acceptor logic left them (merged and with the own
flag when the payload passed the ordering check, untouched when it did not), with
the rest of the proposer state unchanged, and otherwise the proposer state is
unchanged. -/
theorem accept_phase_outcome (env : Env) (slot_count : Nat) (cs : chaos_state_t) (succ : Nat)
    (rx : paxos_t) (rnd : Nat) (tx : paxos_t) (g : Globals)
    (hv : slot_valid cs succ g) (hh : ¬ is_heartbeat (entry_payload cs rx tx) g)
    (hp : g.paxos_state.proposer.is_proposer ≠ 0)
    (hm : g.paxos_state.proposer.got_majority = 0)
    (ht : g.paxos_state.proposer.loser_timeout = 0)
    (hph : g.paxos_state.proposer.phase = PAXOS_ACCEPT)
    (hb : (entry_payload cs rx tx).ballot = g.paxos_state.proposer.proposed_ballot)
    (hpp : (entry_payload cs rx tx).phase = PAXOS_ACCEPT)
    (hbt : bytes_ok tx.flags) (hbr : bytes_ok rx.flags) :
    (process env slot_count cs succ rx rnd tx g).g.paxos_state.rx_min_proposal
        = (proposer_frame env slot_count cs rx rnd tx g).g.paxos_state.rx_min_proposal
    ∧ ((process env slot_count cs succ rx rnd tx g).g.paxos_state.proposer.phase = PAXOS_PREPARE
        ↔ (proposer_frame env slot_count cs rx rnd tx g).g.paxos_state.rx_min_proposal
            > g.paxos_state.proposer.proposed_ballot)
    ∧ ((proposer_frame env slot_count cs rx rnd tx g).g.paxos_state.rx_min_proposal
          > g.paxos_state.proposer.proposed_ballot →
        (process env slot_count cs succ rx rnd tx g).g.paxos_state.proposer.proposed_ballot
            = ballot_set_round g.paxos_state.proposer.proposed_ballot
                (ballot_round g.paxos_state.proposer.proposed_ballot + 1)
        ∧ (process env slot_count cs succ rx rnd tx g).g.paxos_state.proposer.got_majority = 0
        ∧ (process env slot_count cs succ rx rnd tx g).g.paxos_state.proposer.loser_timeout
            = (((env.PAXOS_ROUND_MAX_SLOTS : Int) - 1) % 256).toNat)
    ∧ (¬ (proposer_frame env slot_count cs rx rnd tx g).g.paxos_state.rx_min_proposal
          > g.paxos_state.proposer.proposed_ballot →
        (((process env slot_count cs succ rx rnd tx g).g.paxos_state.proposer.got_majority = 1
            ∧ (process env slot_count cs succ rx rnd tx g).g.paxos_state.proposer.got_majority_at_slot
                = slot_count)
          ↔ flags_popcount (FLAGS_LEN env)
              (proposer_frame env slot_count cs rx rnd tx g).tx_paxos.flags
              > env.chaos_node_count / 2)
        ∧ (flags_popcount (FLAGS_LEN env)
              (proposer_frame env slot_count cs rx rnd tx g).tx_paxos.flags
              > env.chaos_node_count / 2 →
            (process env slot_count cs succ rx rnd tx g).g.paxos_state.proposer
              = { g.paxos_state.proposer with
                  got_majority := 1, got_majority_at_slot := slot_count })
        ∧ (¬ flags_popcount (FLAGS_LEN env)
              (proposer_frame env slot_count cs rx rnd tx g).tx_paxos.flags
              > env.chaos_node_count / 2 →
            (process env slot_count cs succ rx rnd tx g).g.paxos_state.proposer
              = g.paxos_state.proposer))
    ∧ (ordering_ok (entry_payload cs rx tx) tx →
        (proposer_frame env slot_count cs rx rnd tx g).tx_paxos.flags
          = (quorum_frame env cs rx tx g).tx_paxos.flags)
    ∧ (¬ ordering_ok (entry_payload cs rx tx) tx →
        (proposer_frame env slot_count cs rx rnd tx g).tx_paxos.flags = tx.flags) := by
  have hpf := proposer_frame_spec env slot_count cs rx rnd tx g
  have hps := (process_of_proposer_slot env slot_count cs succ rx rnd tx g hv hh hp).1
  have hown := proposer_logic_of_own env slot_count
    (payload cs rx (proposer_frame env slot_count cs rx rnd tx g))
    (proposer_frame env slot_count cs rx rnd tx g)
    (by rw [hpf.1]; exact hp) (by rw [hpf.1]; exact hm) (by rw [hpf.1]; exact ht)
    (by rw [hpf.1, hpf.2.1]; exact hb) (by rw [hpf.1, hpf.2.2, hph]; exact hpp)
  have hfin := proposer_finish_of_accept env slot_count
    (proposer_frame env slot_count cs rx rnd tx g)
    (by rw [hpf.1]; exact hph) (by rw [hpf.1]; exact hm)
  have hcount := count_flags_eq_popcount (FLAGS_LEN env) _
    (proposer_frame_bytes env slot_count cs rx rnd tx g hbt hbr)
  have hflags := proposer_frame_flags env slot_count cs rx rnd tx g
  rw [hown, hfin, hcount, hpf.1] at hps
  rw [hps]
  generalize proposer_frame env slot_count cs rx rnd tx g = F at hpf hps hflags ⊢
  have hF := hpf.1
  by_cases hL : F.g.paxos_state.rx_min_proposal > g.paxos_state.proposer.proposed_ballot
  · rw [if_pos hL]
    have hl := proposer_lost_state env
      { F with g.n_replies := flags_popcount (FLAGS_LEN env) F.tx_paxos.flags }
    obtain ⟨l1, l2, l3, l4, _, _, _, _, l9⟩ := hl
    refine ⟨l9, ⟨fun _ => hL, fun _ => l2⟩, fun _ => ⟨?_, l3, l4⟩, fun hn => absurd hL hn,
      hflags.1, hflags.2⟩
    rw [l1]
    show ballot_set_round F.g.paxos_state.proposer.proposed_ballot
      (ballot_round F.g.paxos_state.proposer.proposed_ballot + 1) = _
    rw [hF]
  · rw [if_neg hL]
    by_cases hM : flags_popcount (FLAGS_LEN env) F.tx_paxos.flags > env.chaos_node_count / 2
    · rw [if_pos hM]
      refine ⟨rfl, ⟨fun hc => ?_, fun hc => absurd hc hL⟩, fun hc => absurd hc hL,
        fun _ => ⟨⟨fun _ => hM, fun _ => ⟨rfl, rfl⟩⟩, fun _ => ?_, fun hn => absurd hM hn⟩,
        hflags.1, hflags.2⟩
      · exfalso
        have hc' : F.g.paxos_state.proposer.phase = PAXOS_PREPARE := hc
        rw [hF, hph] at hc'
        cases hc'
      · show ({ F.g.paxos_state.proposer with
            got_majority := 1, got_majority_at_slot := slot_count } : proposer_state_t) = _
        rw [hF]
    · rw [if_neg hM]
      refine ⟨rfl, ⟨fun hc => ?_, fun hc => absurd hc hL⟩, fun hc => absurd hc hL,
        fun _ => ⟨⟨fun hc => ?_, fun hc => absurd hc hM⟩, fun hc => absurd hc hM, fun _ => hF⟩,
        hflags.1, hflags.2⟩
      · exfalso
        have hc' : F.g.paxos_state.proposer.phase = PAXOS_PREPARE := hc
        rw [hF, hph] at hc'
        cases hc'
      · exfalso
        have hc' : F.g.paxos_state.proposer.got_majority = 1 := hc.1
        rw [hF, hm] at hc'
        cases hc'

/-- C25 on node 0 of the three-node network, proposer of ballot (1,0) in ACCEPT:
the reply of node 1 with the flags of nodes 0 and 1 and `min_proposal` (1,0)
gives it the majority in slot 4; the same reply reporting `min_proposal` (1,2)
sends it back to PREPARE with ballot (2,0). -/
theorem accept_phase_outcome_witness :
    accepting_proposer.g.paxos_state.proposer.phase = PAXOS_ACCEPT
    ∧ accepting_proposer.g.paxos_state.proposer.proposed_ballot = ballot_of 1 0
    ∧ ((process (env3 0) 4 CHAOS_RX 1 accept_reply_of_1 0 accepting_proposer.tx_paxos
          accepting_proposer.g).g.paxos_state.proposer.got_majority = 1
        ∧ (process (env3 0) 4 CHAOS_RX 1 accept_reply_of_1 0 accepting_proposer.tx_paxos
          accepting_proposer.g).g.paxos_state.proposer.got_majority_at_slot = 4)
    ∧ (process (env3 0) 4 CHAOS_RX 1 accept_reply_outbid 0 accepting_proposer.tx_paxos
        accepting_proposer.g).g.paxos_state.proposer.phase = PAXOS_PREPARE
    ∧ (process (env3 0) 4 CHAOS_RX 1 accept_reply_outbid 0 accepting_proposer.tx_paxos
        accepting_proposer.g).g.paxos_state.proposer.proposed_ballot = ballot_of 2 0 :=
  ⟨by decide, by decide,
    (((accept_phase_outcome (env3 0) 4 CHAOS_RX 1 accept_reply_of_1 0 accepting_proposer.tx_paxos
      accepting_proposer.g (by decide) (by decide) (by decide) (by decide) (by decide)
      (by decide) (by decide) (by decide) (bytes_ok_of_forall _ (by decide))
      (bytes_ok_of_forall _ (by decide))).2.2.2.1 (by decide)).1).2 (by decide),
    by decide, by decide⟩

/-- On a proposer in `PAXOS_PREPARE`, a call whose slot is not valid, or whose
payload is handled as a heartbeat, keeps the node state through its valid-slot
block. -/
theorem valid_slot_keeps_of_prepare (env : Env) (slot_count : Nat) (cs : chaos_state_t)
    (succ : Nat) (rx : paxos_t) (rnd : Nat) (tx : paxos_t) (g : Globals)
    (hp : g.paxos_state.proposer.is_proposer ≠ 0)
    (h1 : g.paxos_state.proposer.phase = PAXOS_PREPARE)
    (hn : ¬ (slot_valid cs succ g ∧ ¬ is_heartbeat (entry_payload cs rx tx) g)) :
    (valid_slot env slot_count cs succ rx rnd (entry_frame tx g)).g.paxos_state
      = g.paxos_state := by
  unfold valid_slot
  by_cases hv : succ ≠ 0 ∧ (cs = CHAOS_RX
      ∨ cs = CHAOS_TX ∧ (entry_frame tx g).g.paxos_state.proposer.is_proposer ≠ 0)
  · rw [if_pos hv]
    by_cases hh : (payload cs rx (open_valid (entry_frame tx g))).phase = PAXOS_INIT
        ∧ (open_valid (entry_frame tx g)).g.paxos_state.acceptor.min_proposal = 0
    · rw [if_pos hh]
      have hp' : (open_valid (entry_frame tx g)).g.paxos_state.proposer.is_proposer ≠ 0 := hp
      have hni : ¬ (open_valid (entry_frame tx g)).g.paxos_state.proposer.phase = PAXOS_INIT := by
        show ¬ g.paxos_state.proposer.phase = PAXOS_INIT
        rw [h1]; decide
      unfold heartbeat heartbeat_proposer
      rw [if_pos hp', if_neg hni]
      rfl
    · exfalso
      apply hn
      refine ⟨hv, ?_⟩
      intro hc
      apply hh
      rw [payload_open_valid]
      exact hc
  · rw [if_neg hv]
    rfl

/-- A proposer in PREPARE that evaluates a payload with its own ballot and phase
and stands in ACCEPT afterwards had no higher accepted proposal reported and
counted more than N/2 flags in the TX buffer. -/
theorem proposer_own_phase_accept_needs (env : Env) (slot_count : Nat) (f : Frame)
    (h1 : f.g.paxos_state.proposer.phase = PAXOS_PREPARE)
    (h2 : (proposer_own_phase env slot_count f).f.g.paxos_state.proposer.phase = PAXOS_ACCEPT) :
    f.g.paxos_state.rx_accepted_proposal ≤ f.g.paxos_state.proposer.proposed_ballot
    ∧ count_flags (FLAGS_LEN env) f.tx_paxos.flags > env.chaos_node_count / 2 := by
  have hne : PAXOS_PREPARE ≠ PAXOS_ACCEPT := by decide
  unfold proposer_own_phase at h2
  rw [(proposer_late_loss_frame _).1] at h2
  have hrep : proposer_reports f
      = ⟨adopt_reported f,
         if f.g.paxos_state.rx_accepted_proposal > f.g.paxos_state.proposer.proposed_ballot
         then 1 else 0, 0⟩ := by
    unfold proposer_reports
    rw [if_pos h1]
  rw [hrep] at h2
  have hA1 : (proposer_count env ⟨adopt_reported f,
      if f.g.paxos_state.rx_accepted_proposal > f.g.paxos_state.proposer.proposed_ballot
      then 1 else 0, 0⟩).f.g.paxos_state.proposer.phase = PAXOS_PREPARE := by
    show (adopt_reported f).g.paxos_state.proposer.phase = PAXOS_PREPARE
    rw [adopt_reported_proposer]
    exact h1
  have hA2 : (proposer_count env ⟨adopt_reported f,
      if f.g.paxos_state.rx_accepted_proposal > f.g.paxos_state.proposer.proposed_ballot
      then 1 else 0, 0⟩).f.g.n_replies = count_flags (FLAGS_LEN env) f.tx_paxos.flags := by
    show count_flags (FLAGS_LEN env) (adopt_reported f).tx_paxos.flags = _
    rw [(adopt_reported_frame f).1]
  have hA3 : (proposer_count env ⟨adopt_reported f,
      if f.g.paxos_state.rx_accepted_proposal > f.g.paxos_state.proposer.proposed_ballot
      then 1 else 0, 0⟩).lost_proposal
      = if f.g.paxos_state.rx_accepted_proposal > f.g.paxos_state.proposer.proposed_ballot
        then 1 else 0 := rfl
  generalize proposer_count env ⟨adopt_reported f,
      if f.g.paxos_state.rx_accepted_proposal > f.g.paxos_state.proposer.proposed_ballot
      then 1 else 0, 0⟩ = A at h2 hA1 hA2 hA3
  unfold proposer_majority at h2
  by_cases hc : A.lost_proposal = 0 ∧ A.f.g.n_replies > env.chaos_node_count / 2
  · refine ⟨?_, ?_⟩
    · by_contra hgt
      have hgt' : f.g.paxos_state.rx_accepted_proposal
          > f.g.paxos_state.proposer.proposed_ballot := by omega
      rw [hA3, if_pos hgt'] at hc
      exact absurd hc.1 (by decide)
    · rw [← hA2]
      exact hc.2
  · rw [if_neg hc] at h2
    exact absurd (hA1.symm.trans h2) hne

/-- What the proposer logic requires to take a proposer from PREPARE to ACCEPT. -/
theorem proposer_logic_accept_needs (env : Env) (slot_count : Nat) (pl : paxos_t) (f : Frame)
    (h1 : f.g.paxos_state.proposer.phase = PAXOS_PREPARE)
    (h2 : (proposer_logic env slot_count pl f).g.paxos_state.proposer.phase = PAXOS_ACCEPT) :
    f.g.paxos_state.proposer.got_majority = 0
    ∧ f.g.paxos_state.proposer.loser_timeout = 0
    ∧ pl.ballot = f.g.paxos_state.proposer.proposed_ballot
    ∧ pl.phase = PAXOS_PREPARE
    ∧ f.g.paxos_state.rx_accepted_proposal ≤ f.g.paxos_state.proposer.proposed_ballot
    ∧ count_flags (FLAGS_LEN env) f.tx_paxos.flags > env.chaos_node_count / 2 := by
  have hne : PAXOS_PREPARE ≠ PAXOS_ACCEPT := by decide
  unfold proposer_logic at h2
  by_cases h0 : f.g.paxos_state.proposer.is_proposer ≠ 0
      ∧ f.g.paxos_state.proposer.got_majority = 0
  · rw [if_pos h0] at h2
    by_cases ht : f.g.paxos_state.proposer.loser_timeout > 0
    · rw [if_pos ht] at h2
      rw [proposer_finish_no_loss_state env _ rfl] at h2
      exact absurd (h1.symm.trans h2) hne
    · rw [if_neg ht] at h2
      unfold proposer_compete at h2
      by_cases hb : pl.ballot = f.g.paxos_state.proposer.proposed_ballot
      · rw [if_pos hb] at h2
        by_cases hp : pl.phase = f.g.paxos_state.proposer.phase
        · rw [if_pos hp] at h2
          by_cases hl : (proposer_own_phase env slot_count f).lost_proposal = 0
          · rw [proposer_finish_no_loss_state env _ hl] at h2
            have hneed := proposer_own_phase_accept_needs env slot_count f h1 h2
            exact ⟨h0.2, by omega, hb, hp.trans h1, hneed.1, hneed.2⟩
          · exact absurd ((proposer_finish_lost_phase env _ hl).symm.trans h2) hne
        · rw [if_neg hp] at h2
          rw [proposer_finish_no_loss_state env _ rfl] at h2
          exact absurd (h1.symm.trans h2) hne
      · rw [if_neg hb] at h2
        by_cases hh : pl.ballot > f.g.paxos_state.proposer.proposed_ballot
            ∧ f.g.paxos_state.proposer.got_majority = 0
        · rw [if_pos hh] at h2
          exact absurd ((proposer_finish_lost_phase env ⟨f, 1, 0⟩ Nat.one_ne_zero).symm.trans h2) hne
        · rw [if_neg hh] at h2
          rw [proposer_finish_no_loss_state env _ rfl] at h2
          unfold proposer_smaller at h2
          rw [if_neg (by rw [h1]; decide)] at h2
          exact absurd (h1.symm.trans h2) hne
  · rw [if_neg h0] at h2
    exact absurd (h1.symm.trans h2) hne

/-- C24. A proposer never enters ACCEPT without a PREPARE majority
(single-decree). When a call of `process` on a proposer takes `proposer.phase`
from `PAXOS_PREPARE` to `PAXOS_ACCEPT`, with flag bytes below 256: the slot was
valid and the payload not handled as a heartbeat; `got_majority` and
`loser_timeout` were 0; the payload had the proposed ballot and phase
`PAXOS_PREPARE`; `rx_accepted_proposal`, after the call what the acceptor logic
left, is at most the proposed ballot; the proposer logic counted more than N/2
flags in the TX buffer; and more than N/2 bits are set in the union of the TX
flags before the call, the payload flags and the node's own flag. -/
theorem accept_needs_prepare_majority (env : Env) (slot_count : Nat) (cs : chaos_state_t)
    (succ : Nat) (rx : paxos_t) (rnd : Nat) (tx : paxos_t) (g : Globals)
    (hp : g.paxos_state.proposer.is_proposer ≠ 0)
    (h1 : g.paxos_state.proposer.phase = PAXOS_PREPARE)
    (h2 : (process env slot_count cs succ rx rnd tx g).g.paxos_state.proposer.phase
      = PAXOS_ACCEPT)
    (hbt : bytes_ok tx.flags) (hbr : bytes_ok rx.flags) :
    slot_valid cs succ g
    ∧ ¬ is_heartbeat (entry_payload cs rx tx) g
    ∧ g.paxos_state.proposer.got_majority = 0
    ∧ g.paxos_state.proposer.loser_timeout = 0
    ∧ (entry_payload cs rx tx).ballot = g.paxos_state.proposer.proposed_ballot
    ∧ (entry_payload cs rx tx).phase = PAXOS_PREPARE
    ∧ (process env slot_count cs succ rx rnd tx g).g.paxos_state.rx_accepted_proposal
        = (proposer_frame env slot_count cs rx rnd tx g).g.paxos_state.rx_accepted_proposal
    ∧ (process env slot_count cs succ rx rnd tx g).g.paxos_state.rx_accepted_proposal
        ≤ g.paxos_state.proposer.proposed_ballot
    ∧ count_flags (FLAGS_LEN env) (proposer_frame env slot_count cs rx rnd tx g).tx_paxos.flags
        > env.chaos_node_count / 2
    ∧ union_count env tx (entry_payload cs rx tx) > env.chaos_node_count / 2 := by
  by_cases hvh : slot_valid cs succ g ∧ ¬ is_heartbeat (entry_payload cs rx tx) g
  · obtain ⟨hv, hh⟩ := hvh
    have hpf := proposer_frame_spec env slot_count cs rx rnd tx g
    have hps := (process_of_proposer_slot env slot_count cs succ rx rnd tx g hv hh hp).1
    have h1' : (proposer_frame env slot_count cs rx rnd tx g).g.paxos_state.proposer.phase
        = PAXOS_PREPARE := by
      rw [hpf.1]; exact h1
    have h2' : (proposer_logic env slot_count
        (payload cs rx (proposer_frame env slot_count cs rx rnd tx g))
        (proposer_frame env slot_count cs rx rnd tx g)).g.paxos_state.proposer.phase
        = PAXOS_ACCEPT := by
      rw [← hps]; exact h2
    have hneed := proposer_logic_accept_needs env slot_count _ _ h1' h2'
    have hent := proposer_logic_enters_accept env slot_count _ _ h1' h2'
    have hcnt := proposer_frame_count env slot_count cs rx rnd tx g hbt hbr
    rw [hpf.1, hpf.2.1, hpf.2.2] at hneed
    have hrx : (process env slot_count cs succ rx rnd tx g).g.paxos_state.rx_accepted_proposal
        = (proposer_frame env slot_count cs rx rnd tx g).g.paxos_state.rx_accepted_proposal := by
      rw [hps]; exact hent.2.2.2.2.2.1
    refine ⟨hv, hh, hneed.1, hneed.2.1, hneed.2.2.1, hneed.2.2.2.1, hrx, ?_, hneed.2.2.2.2.2, ?_⟩
    · rw [hrx]; exact hneed.2.2.2.2.1
    · exact Nat.lt_of_lt_of_le hneed.2.2.2.2.2 hcnt
  · exfalso
    have hk := valid_slot_keeps_of_prepare env slot_count cs succ rx rnd tx g hp h1 hvh
    have hp' : (valid_slot env slot_count cs succ rx rnd
        (entry_frame tx g)).g.paxos_state.proposer.is_proposer ≠ 0 := by
      rw [hk]; exact hp
    have hst := (process_of_accept_phase env slot_count cs succ rx rnd tx g hp' h2).1
    rw [hst, hk, h1] at h2
    exact absurd h2 (by decide)

/-- C24 on node 0 of the three-node network: the PREPARE of ballot (1,0) comes
back with the flags of nodes 0 and 1, the proposer enters ACCEPT, and two of
three bits are set in the union of the flags. -/
theorem accept_needs_prepare_majority_witness :
    prepared_proposer.g.paxos_state.proposer.phase = PAXOS_PREPARE
    ∧ (process (env3 0) 2 CHAOS_RX 1 prepare_reply 0 prepared_proposer.tx_paxos
        prepared_proposer.g).g.paxos_state.proposer.phase = PAXOS_ACCEPT
    ∧ prepare_reply.ballot = prepared_proposer.g.paxos_state.proposer.proposed_ballot
    ∧ union_count (env3 0) prepared_proposer.tx_paxos
        (entry_payload CHAOS_RX prepare_reply prepared_proposer.tx_paxos) = 2
    ∧ union_count (env3 0) prepared_proposer.tx_paxos
        (entry_payload CHAOS_RX prepare_reply prepared_proposer.tx_paxos)
        > (env3 0).chaos_node_count / 2 :=
  ⟨by decide, by decide, by decide, by decide,
    (accept_needs_prepare_majority (env3 0) 2 CHAOS_RX 1 prepare_reply 0
      prepared_proposer.tx_paxos prepared_proposer.g (by decide) (by decide) (by decide)
      (bytes_ok_of_forall _ (by decide)) (bytes_ok_of_forall _ (by decide))).2.2.2.2.2.2.2.2.2⟩

/-- The flag loop of `multipaxos.c` over `n` bytes without a new phase: byte `i`
is merged at round `i`, and `n_replies` grows by the count of each byte as it
stood before its merge. -/
theorem multi_merge_fold_count (p t : List Nat) (d s : Nat) :
    ∀ n, ((List.range n).foldl (Multi.merge_step p) ⟨d, t, 0, s⟩).n_replies
        = s + count_flags n t
      ∧ ∀ i, n ≤ i → rd ((List.range n).foldl (Multi.merge_step p) ⟨d, t, 0, s⟩).flags i = rd t i := by
  intro n
  induction n with
  | zero => exact ⟨rfl, fun _ _ => rfl⟩
  | succ n ih =>
    rw [List.range_succ, List.foldl_append]
    generalize (List.range n).foldl (Multi.merge_step p) ⟨d, t, 0, s⟩ = a at ih
    refine ⟨?_, ?_⟩
    · show a.n_replies + bit_count (rd a.flags n) = s + count_flags (n + 1) t
      unfold count_flags
      rw [fold_count_succ, ih.1, ih.2 n (Nat.le_refl n)]
      unfold count_flags
      omega
    · intro i hi
      show rd (a.flags.set n (rd a.flags n ||| rd p n)) i = rd t i
      rw [rd_set, if_neg (fun hc => by omega)]
      exact ih.2 i (by omega)

/-- The flag loop of `multipaxos.c` over `n` bytes on a new phase: the flags stay,
and `n_replies` grows by the count of each byte. -/
theorem multi_count_fold_count (t : List Nat) (d s : Nat) :
    ∀ n, ((List.range n).foldl Multi.count_step ⟨d, t, 0, s⟩).n_replies = s + count_flags n t
      ∧ ((List.range n).foldl Multi.count_step ⟨d, t, 0, s⟩).flags = t := by
  intro n
  induction n with
  | zero => exact ⟨rfl, rfl⟩
  | succ n ih =>
    rw [List.range_succ, List.foldl_append]
    generalize (List.range n).foldl Multi.count_step ⟨d, t, 0, s⟩ = a at ih
    refine ⟨?_, ih.2⟩
    show a.n_replies + bit_count (rd a.flags n) = s + count_flags (n + 1) t
    unfold count_flags
    rw [fold_count_succ, ih.1, ih.2]
    unfold count_flags
    omega

/-- C40. `bit_count` is the population count. For every byte `u`, the value
`u - (u>>1) - ... - (u>>7)`, computed in `int` and truncated to 8 bits, is the
number of bits set in `u`. Hence on flag bytes the proposer's count of `paxos.c`
is the number of flag bits set in the first `len` bytes; `n_replies` of the
merging and the copying loop of `paxos.c` is the number of bits set in the flags
they leave; and `n_replies` of the flag loop of `multipaxos.c`, which counts each
byte before it merges it, grows by the number of bits set in the TX flags the loop
starts from. -/
theorem bit_count_population :
    (∀ u, u < 256 → bit_count u = popcount u)
    ∧ (∀ (len : Nat) (t : List Nat), bytes_ok t → count_flags len t = flags_popcount len t)
    ∧ (∀ (p t : List Nat) (d n : Nat), bytes_ok p → bytes_ok t → n ≤ t.length →
        (merge_loop n p t d).n_replies = flags_popcount n (merge_loop n p t d).flags
        ∧ (copy_loop n p t d).n_replies = flags_popcount n (copy_loop n p t d).flags)
    ∧ (∀ (env : Multi.Env) (new_phase : Nat) (pflags : List Nat) (f : Multi.Frame),
        bytes_ok f.tx_multipaxos.flags →
        (Multi.flag_loop env new_phase pflags f).n_replies
          = f.g.n_replies + flags_popcount (Multi.FLAGS_LEN env) f.tx_multipaxos.flags) := by
  refine ⟨bit_count_eq_popcount, count_flags_eq_popcount, ?_, ?_⟩
  · intro p t d n hp ht hn
    have hm := merge_loop_spec p t d hp ht n hn
    have hc := copy_loop_spec p t d hp ht n hn
    refine ⟨?_, ?_⟩
    · rw [hm.2.2, count_flags_eq_popcount _ _ hm.2.1]
    · rw [hc.2.2, count_flags_eq_popcount _ _ hc.2.1]
  · intro env new_phase pflags f hb
    rw [← count_flags_eq_popcount _ _ hb]
    unfold Multi.flag_loop
    split
    · exact (multi_merge_fold_count _ _ _ _ _).1
    · exact (multi_count_fold_count _ _ _ _).1

/-- C40 on the byte 173 = 10101101b, which has five bits set, and on the flag
bytes [173, 3]. -/
theorem bit_count_population_witness :
    bit_count 173 = popcount 173 ∧ popcount 173 = 5
    ∧ count_flags 2 [173, 3] = flags_popcount 2 [173, 3] ∧ flags_popcount 2 [173, 3] = 7 :=
  ⟨bit_count_population.1 173 (by decide), by decide,
    bit_count_population.2.1 2 [173, 3] (bytes_ok_of_forall _ (by decide)), by decide⟩

/-- A flag byte without stray bits is at most the mask of its position. -/
theorem byte_le_mask (env : Env) (p : List Nat) (h1 : 1 ≤ env.chaos_node_count)
    (hb : bytes_ok p) (hs : no_stray_flags env p) (i : Nat) (hi : i < FLAGS_LEN env) :
    rd p i ≤ 2 ^ flag_bits env i - 1 := by
  have := Nat.lt_pow_two_of_testBit (rd p i)
    (fun b hk => byte_bits_false env p h1 hb hs i hi b hk)
  omega

/-- The bytes of a flag array without stray bits all equal their masks exactly
when the flag of every node is set. -/
theorem bytes_eq_masks_iff (env : Env) (p : List Nat) (h1 : 1 ≤ env.chaos_node_count)
    (hb : bytes_ok p) (hs : no_stray_flags env p) :
    (∀ i < FLAGS_LEN env, rd p i = 2 ^ flag_bits env i - 1) ↔ all_flags_set env p := by
  have hlen : FLAGS_LEN env = (env.chaos_node_count + 7) / 8 := flags_len_eq _
  constructor
  · intro h j hj
    have hi : j / 8 < FLAGS_LEN env := by omega
    rw [h _ hi, Nat.testBit_two_pow_sub_one]
    apply decide_eq_true
    unfold flag_bits
    split <;> omega
  · intro h i hi
    rw [eq_mask_iff]
    intro b
    by_cases hk : b < flag_bits env i
    · rw [decide_eq_true hk]
      have hj := h (8 * i + b) (by unfold flag_bits at hk; split at hk <;> omega)
      have e1 : (8 * i + b) / 8 = i := by unfold flag_bits at hk; split at hk <;> omega
      have e2 : (8 * i + b) % 8 = b := by unfold flag_bits at hk; split at hk <;> omega
      rw [e1, e2] at hj
      exact hj
    · rw [decide_eq_false hk]
      exact byte_bits_false env p h1 hb hs i hi b (Nat.le_of_not_lt hk)

/-- The merging loop over `n ≤ length` bytes: the first `n` bytes of the array are
the bitwise OR of both arrays, the others are as before, and the flag sum is the
sum of the merged bytes. -/
theorem merge_loop_or (p t : List Nat) (d : Nat) :
    ∀ n, n ≤ t.length →
      (merge_loop n p t d).flags.length = t.length
      ∧ (∀ i, rd (merge_loop n p t d).flags i = if i < n then rd t i ||| rd p i else rd t i)
      ∧ (merge_loop n p t d).flag_sum
        = (List.range n).foldl (fun a i => a + (rd t i ||| rd p i)) 0 := by
  intro n
  induction n with
  | zero =>
    intro _
    exact ⟨rfl, fun i => by rw [if_neg (Nat.not_lt_zero i)]; rfl, rfl⟩
  | succ n ih =>
    intro hn
    have ih' := ih (Nat.le_of_succ_le hn)
    rw [merge_loop_succ]
    generalize merge_loop n p t d = a at ih'
    have hlen : n < a.flags.length := by rw [ih'.1]; exact hn
    have hrn : rd a.flags n = rd t n := by
      rw [ih'.2.1 n, if_neg (Nat.lt_irrefl n)]
    unfold merge_step
    refine ⟨by simp [ih'.1], ?_, ?_⟩
    · intro i
      show rd (a.flags.set n (rd a.flags n ||| rd p n)) i = _
      rw [rd_set, hrn]
      by_cases hc : i = n
      · subst hc
        rw [if_pos ⟨rfl, hlen⟩, if_pos (Nat.lt_succ_self i)]
      · rw [if_neg (fun h => hc h.1), ih'.2.1 i]
        by_cases hlt : i < n
        · rw [if_pos hlt, if_pos (Nat.lt_succ_of_lt hlt)]
        · rw [if_neg hlt, if_neg (by omega)]
    · show a.flag_sum + (rd a.flags n ||| rd p n) = _
      rw [fold_count_succ, ih'.2.2, hrn]

/-- C39. Completeness test on well-formed flag sets. For a node count `N` in
1..255 and flag arrays `p`, `q` of `FLAGS_LEN` = ceil(N/8) bytes in which no bit
with index `N` or above is set: `FLAG_SUM = 255 * (ceil(N/8) - 1) + LAST_FLAGS`
is below 2^16; the byte sum of `p`, as the flag loop computes it, is at most
`FLAG_SUM`, and equals it if and only if every bit `0..N-1` is set; and the
bitwise OR of `p` and `q`, as the merging loop leaves it, is again such an array,
with a flag sum of at most `FLAG_SUM`. The macros of `multipaxos.c` have the same
values. -/
theorem flag_sum_well_formed (env : Env) (p q : List Nat) (d : Nat)
    (h1 : 1 ≤ env.chaos_node_count) (h2 : env.chaos_node_count ≤ 255)
    (hlp : p.length = FLAGS_LEN env) (hbp : bytes_ok p) (hsp : no_stray_flags env p)
    (hlq : q.length = FLAGS_LEN env) (hbq : bytes_ok q) (hsq : no_stray_flags env q) :
    FLAGS_LEN env = (env.chaos_node_count + 7) / 8
    ∧ FLAG_SUM env = 255 * ((((env.chaos_node_count + 7) / 8 : Nat) : Int) - 1) + LAST_FLAGS env
    ∧ 0 ≤ FLAG_SUM env ∧ FLAG_SUM env < 65536
    ∧ ((copy_loop (FLAGS_LEN env) p q d).flag_sum : Int) ≤ FLAG_SUM env
    ∧ (((copy_loop (FLAGS_LEN env) p q d).flag_sum : Int) = FLAG_SUM env ↔ all_flags_set env p)
    ∧ (merge_loop (FLAGS_LEN env) q p d).flags.length = FLAGS_LEN env
    ∧ (∀ i, rd (merge_loop (FLAGS_LEN env) q p d).flags i = rd p i ||| rd q i)
    ∧ bytes_ok (merge_loop (FLAGS_LEN env) q p d).flags
    ∧ no_stray_flags env (merge_loop (FLAGS_LEN env) q p d).flags
    ∧ ((merge_loop (FLAGS_LEN env) q p d).flag_sum : Int) ≤ FLAG_SUM env
    ∧ (∀ menv : Multi.Env, menv.chaos_node_count = env.chaos_node_count →
        Multi.FLAGS_LEN menv = FLAGS_LEN env ∧ Multi.LAST_FLAGS menv = LAST_FLAGS env
        ∧ Multi.FLAG_SUM menv = FLAG_SUM env) := by
  have hlen : FLAGS_LEN env = (env.chaos_node_count + 7) / 8 := flags_len_eq _
  have hlast := last_flags_eq env h1
  have hpow : 2 ^ ((env.chaos_node_count - 1) % 8 + 1) ≤ 2 ^ 8 :=
    Nat.pow_le_pow_right (by decide) (by omega)
  have hpos : 1 ≤ 2 ^ ((env.chaos_node_count - 1) % 8 + 1) := Nat.one_le_two_pow
  have hsum : FLAG_SUM env
      = 255 * ((((env.chaos_node_count + 7) / 8 : Nat) : Int) - 1) + LAST_FLAGS env := by
    unfold FLAG_SUM
    rw [hlen]
    omega
  have hor := merge_loop_or q p d (FLAGS_LEN env) (Nat.le_of_eq hlp.symm)
  have hrd : ∀ i, rd (merge_loop (FLAGS_LEN env) q p d).flags i = rd p i ||| rd q i := by
    intro i
    rw [hor.2.1 i]
    by_cases hi : i < FLAGS_LEN env
    · rw [if_pos hi]
    · rw [if_neg hi]
      have hq0 : rd q i = 0 := by
        unfold rd
        exact List.getD_eq_default _ _ (by omega)
      rw [hq0, Nat.or_zero]
  have hbm : bytes_ok (merge_loop (FLAGS_LEN env) q p d).flags := by
    intro i
    rw [hrd i]
    exact Nat.or_lt_two_pow (n := 8) (hbp i) (hbq i)
  have hsm : no_stray_flags env (merge_loop (FLAGS_LEN env) q p d).flags := by
    intro j hj1 hj2
    rw [hrd, Nat.testBit_or, hsp j hj1 hj2, hsq j hj1 hj2]
    rfl
  have hle := fold_count_le (fun i => rd p i) (fun i => 2 ^ flag_bits env i - 1) (FLAGS_LEN env)
    (fun i hi => byte_le_mask env p h1 hbp hsp i hi)
  have hcl : ((copy_loop (FLAGS_LEN env) p q d).flag_sum : Int) ≤ FLAG_SUM env := by
    rw [copy_loop_flag_sum, ← mask_sum_eq env h1, Int.ofNat_le]
    exact hle
  refine ⟨hlen, hsum, ?_, ?_, hcl, ?_, hor.1.trans hlp, hrd, hbm, hsm, ?_, ?_⟩
  · rw [hsum, hlast]
    omega
  · rw [hsum, hlast]
    omega
  · rw [← bytes_eq_masks_iff env p h1 hbp hsp,
      ← fold_sum_ge_iff _ _ _ (fun i hi => byte_le_mask env p h1 hbp hsp i hi)]
    constructor
    · intro h
      have h3 : FLAG_SUM env ≤ ((copy_loop (FLAGS_LEN env) p q d).flag_sum : Int) :=
        Int.le_of_eq h.symm
      rw [copy_loop_flag_sum, ← mask_sum_eq env h1, Int.ofNat_le] at h3
      exact h3
    · intro h
      apply Int.le_antisymm hcl
      rw [copy_loop_flag_sum, ← mask_sum_eq env h1, Int.ofNat_le]
      exact h
  · rw [hor.2.2, ← mask_sum_eq env h1, Int.ofNat_le]
    apply fold_count_le
    intro i hi
    have := byte_le_mask env _ h1 hbm hsm i hi
    rw [hrd i] at this
    exact this
  · intro menv hm
    unfold Multi.FLAG_SUM FLAG_SUM Multi.LAST_FLAGS LAST_FLAGS Multi.FLAGS_LEN FLAGS_LEN
    rw [hm]
    exact ⟨rfl, rfl, rfl⟩

/-- C39 on three nodes: the flag bytes 5 and 3 sum to less than `FLAG_SUM` = 7
each and do not hold all flags; their OR is the byte 7, which does. -/
theorem flag_sum_well_formed_witness :
    (1 ≤ (env3 0).chaos_node_count ∧ (env3 0).chaos_node_count ≤ 255)
    ∧ FLAG_SUM (env3 0) = 7
    ∧ (copy_loop (FLAGS_LEN (env3 0)) [5] [3] 0).flag_sum = 5
    ∧ (merge_loop (FLAGS_LEN (env3 0)) [3] [5] 0).flags = [7]
    ∧ (merge_loop (FLAGS_LEN (env3 0)) [3] [5] 0).flag_sum = 7
    ∧ ((copy_loop (FLAGS_LEN (env3 0)) [5] [3] 0).flag_sum : Int) ≤ FLAG_SUM (env3 0) :=
  ⟨by decide, by decide, by decide, by decide, by decide,
    (flag_sum_well_formed (env3 0) [5] [3] 0 (by decide) (by decide) (by decide)
      (bytes_ok_of_forall _ (by decide))
      (fun j h1 h2 => by
        have h3 : 3 ≤ j := h1
        have h8 : j < 8 := h2
        interval_cases j <;> rfl)
      (by decide) (bytes_ok_of_forall _ (by decide))
      (fun j h1 h2 => by
        have h3 : 3 ≤ j := h1
        have h8 : j < 8 := h2
        interval_cases j <;> rfl)).2.2.2.2.1⟩

end WirelessPaxos
